import Mathlib

/-!
# secp256k1 search tool: hash pipeline and curve arithmetic

A shallow embedding of `include/crypto/sha256.h` and of the curve code of
`src/main.cpp`.  Machine words are natural numbers reduced explicitly
(`% 0x100000000`, `% 0x10000000000000000`); bytes are natural numbers read modulo 256.
-/

/-! ## Byte order helpers (`sha256.h`, anonymous namespace) -/

/-- Byte `i` of a buffer, as an `unsigned char`. -/
def byteAt (p : List Nat) (i : Nat) : Nat := p.getD i 0 % 256

/-- `ReadLE32(ptr + off)`. -/
def ReadLE32 (p : List Nat) (off : Nat) : Nat :=
  byteAt p off + byteAt p (off + 1) * 2^8 + byteAt p (off + 2) * 2^16 + byteAt p (off + 3) * 2^24

/-- `ReadBE32(ptr + off)`. -/
def ReadBE32 (p : List Nat) (off : Nat) : Nat :=
  byteAt p off * 2^24 + byteAt p (off + 1) * 2^16 + byteAt p (off + 2) * 2^8 + byteAt p (off + 3)

/-- `WriteLE32`: the four bytes stored for the 32-bit word `x`. -/
def WriteLE32 (x : Nat) : List Nat :=
  [x % 256, x / 2^8 % 256, x / 2^16 % 256, x / 2^24 % 256]

/-- `WriteBE32`: the four bytes stored for the 32-bit word `x`. -/
def WriteBE32 (x : Nat) : List Nat :=
  [x / 2^24 % 256, x / 2^16 % 256, x / 2^8 % 256, x % 256]

/-- `WriteLE64`: the eight bytes stored for the 64-bit word `x`. -/
def WriteLE64 (x : Nat) : List Nat :=
  [x % 256, x / 2^8 % 256, x / 2^16 % 256, x / 2^24 % 256,
   x / 0x100000000 % 256, x / 2^40 % 256, x / 2^48 % 256, x / 2^56 % 256]

/-- `WriteBE64`: the eight bytes stored for the 64-bit word `x`. -/
def WriteBE64 (x : Nat) : List Nat :=
  [x / 2^56 % 256, x / 2^48 % 256, x / 2^40 % 256, x / 0x100000000 % 256,
   x / 2^24 % 256, x / 2^16 % 256, x / 2^8 % 256, x % 256]

/-- The `n` low bytes of `x`, most significant byte first. -/
def bytesBE : Nat → Nat → List Nat
  | 0, _ => []
  | n + 1, x => bytesBE n (x / 256) ++ [x % 256]

/-- `memcpy(buf + off, src, src.length)` on a byte buffer. -/
def memcpy (buf : List Nat) (off : Nat) (src : List Nat) : List Nat :=
  buf.take off ++ src ++ buf.drop (off + src.length)

/-! ## SHA-256 (`namespace sha256`) -/

namespace sha256

def Ch (x y z : Nat) : Nat := z ^^^ (x &&& (y ^^^ z))

def Maj (x y z : Nat) : Nat := (x &&& y) ||| (z &&& (x ||| y))

def Sigma0 (x : Nat) : Nat :=
  ((x >>> 2) ||| ((x <<< 30) % 0x100000000)) ^^^ ((x >>> 13) ||| ((x <<< 19) % 0x100000000)) ^^^
    ((x >>> 22) ||| ((x <<< 10) % 0x100000000))

def Sigma1 (x : Nat) : Nat :=
  ((x >>> 6) ||| ((x <<< 26) % 0x100000000)) ^^^ ((x >>> 11) ||| ((x <<< 21) % 0x100000000)) ^^^
    ((x >>> 25) ||| ((x <<< 7) % 0x100000000))

def sigma0 (x : Nat) : Nat :=
  ((x >>> 7) ||| ((x <<< 25) % 0x100000000)) ^^^ ((x >>> 18) ||| ((x <<< 14) % 0x100000000)) ^^^ (x >>> 3)

def sigma1 (x : Nat) : Nat :=
  ((x >>> 17) ||| ((x <<< 15) % 0x100000000)) ^^^ ((x >>> 19) ||| ((x <<< 13) % 0x100000000)) ^^^ (x >>> 10)

/-- One round of SHA-256.  The source updates its reference parameters `d` and
`h`; the pair returned is their new values `(d, h)`. -/
def Round (a b c d e f g h k : Nat) : Nat × Nat :=
  let t1 := (h + Sigma1 e + Ch e f g + k) % 0x100000000
  let t2 := (Sigma0 a + Maj a b c) % 0x100000000
  ((d + t1) % 0x100000000, (t1 + t2) % 0x100000000)

/-- The eight state words `s[0..7]`. -/
structure State where
  s0 : Nat
  s1 : Nat
  s2 : Nat
  s3 : Nat
  s4 : Nat
  s5 : Nat
  s6 : Nat
  s7 : Nat
  deriving DecidableEq, Repr

/-- Initialize SHA-256 state. -/
def Initialize : State :=
  ⟨0x6a09e667, 0xbb67ae85, 0x3c6ef372, 0xa54ff53a,
   0x510e527f, 0x9b05688c, 0x1f83d9ab, 0x5be0cd19⟩

set_option maxRecDepth 16000 in
/-- The body of the `while (blocks--)` loop of `Transform`: one 64-byte chunk,
all 64 rounds written out as in the source. -/
def TransformBlock (s : State) (chunk : List Nat) : State :=
  let a := s.s0
  let b := s.s1
  let c := s.s2
  let d := s.s3
  let e := s.s4
  let f := s.s5
  let g := s.s6
  let h := s.s7
  let w0 := ReadBE32 chunk 0
  let p := Round a b c d e f g h ((0x428a2f98 + w0) % 0x100000000)
  let d := p.1
  let h := p.2
  let w1 := ReadBE32 chunk 4
  let p := Round h a b c d e f g ((0x71374491 + w1) % 0x100000000)
  let c := p.1
  let g := p.2
  let w2 := ReadBE32 chunk 8
  let p := Round g h a b c d e f ((0xb5c0fbcf + w2) % 0x100000000)
  let b := p.1
  let f := p.2
  let w3 := ReadBE32 chunk 12
  let p := Round f g h a b c d e ((0xe9b5dba5 + w3) % 0x100000000)
  let a := p.1
  let e := p.2
  let w4 := ReadBE32 chunk 16
  let p := Round e f g h a b c d ((0x3956c25b + w4) % 0x100000000)
  let h := p.1
  let d := p.2
  let w5 := ReadBE32 chunk 20
  let p := Round d e f g h a b c ((0x59f111f1 + w5) % 0x100000000)
  let g := p.1
  let c := p.2
  let w6 := ReadBE32 chunk 24
  let p := Round c d e f g h a b ((0x923f82a4 + w6) % 0x100000000)
  let f := p.1
  let b := p.2
  let w7 := ReadBE32 chunk 28
  let p := Round b c d e f g h a ((0xab1c5ed5 + w7) % 0x100000000)
  let e := p.1
  let a := p.2
  let w8 := ReadBE32 chunk 32
  let p := Round a b c d e f g h ((0xd807aa98 + w8) % 0x100000000)
  let d := p.1
  let h := p.2
  let w9 := ReadBE32 chunk 36
  let p := Round h a b c d e f g ((0x12835b01 + w9) % 0x100000000)
  let c := p.1
  let g := p.2
  let w10 := ReadBE32 chunk 40
  let p := Round g h a b c d e f ((0x243185be + w10) % 0x100000000)
  let b := p.1
  let f := p.2
  let w11 := ReadBE32 chunk 44
  let p := Round f g h a b c d e ((0x550c7dc3 + w11) % 0x100000000)
  let a := p.1
  let e := p.2
  let w12 := ReadBE32 chunk 48
  let p := Round e f g h a b c d ((0x72be5d74 + w12) % 0x100000000)
  let h := p.1
  let d := p.2
  let w13 := ReadBE32 chunk 52
  let p := Round d e f g h a b c ((0x80deb1fe + w13) % 0x100000000)
  let g := p.1
  let c := p.2
  let w14 := ReadBE32 chunk 56
  let p := Round c d e f g h a b ((0x9bdc06a7 + w14) % 0x100000000)
  let f := p.1
  let b := p.2
  let w15 := ReadBE32 chunk 60
  let p := Round b c d e f g h a ((0xc19bf174 + w15) % 0x100000000)
  let e := p.1
  let a := p.2
  let w0 := (w0 + (sigma1 w14 + w9 + sigma0 w1)) % 0x100000000
  let p := Round a b c d e f g h ((0xe49b69c1 + w0) % 0x100000000)
  let d := p.1
  let h := p.2
  let w1 := (w1 + (sigma1 w15 + w10 + sigma0 w2)) % 0x100000000
  let p := Round h a b c d e f g ((0xefbe4786 + w1) % 0x100000000)
  let c := p.1
  let g := p.2
  let w2 := (w2 + (sigma1 w0 + w11 + sigma0 w3)) % 0x100000000
  let p := Round g h a b c d e f ((0x0fc19dc6 + w2) % 0x100000000)
  let b := p.1
  let f := p.2
  let w3 := (w3 + (sigma1 w1 + w12 + sigma0 w4)) % 0x100000000
  let p := Round f g h a b c d e ((0x240ca1cc + w3) % 0x100000000)
  let a := p.1
  let e := p.2
  let w4 := (w4 + (sigma1 w2 + w13 + sigma0 w5)) % 0x100000000
  let p := Round e f g h a b c d ((0x2de92c6f + w4) % 0x100000000)
  let h := p.1
  let d := p.2
  let w5 := (w5 + (sigma1 w3 + w14 + sigma0 w6)) % 0x100000000
  let p := Round d e f g h a b c ((0x4a7484aa + w5) % 0x100000000)
  let g := p.1
  let c := p.2
  let w6 := (w6 + (sigma1 w4 + w15 + sigma0 w7)) % 0x100000000
  let p := Round c d e f g h a b ((0x5cb0a9dc + w6) % 0x100000000)
  let f := p.1
  let b := p.2
  let w7 := (w7 + (sigma1 w5 + w0 + sigma0 w8)) % 0x100000000
  let p := Round b c d e f g h a ((0x76f988da + w7) % 0x100000000)
  let e := p.1
  let a := p.2
  let w8 := (w8 + (sigma1 w6 + w1 + sigma0 w9)) % 0x100000000
  let p := Round a b c d e f g h ((0x983e5152 + w8) % 0x100000000)
  let d := p.1
  let h := p.2
  let w9 := (w9 + (sigma1 w7 + w2 + sigma0 w10)) % 0x100000000
  let p := Round h a b c d e f g ((0xa831c66d + w9) % 0x100000000)
  let c := p.1
  let g := p.2
  let w10 := (w10 + (sigma1 w8 + w3 + sigma0 w11)) % 0x100000000
  let p := Round g h a b c d e f ((0xb00327c8 + w10) % 0x100000000)
  let b := p.1
  let f := p.2
  let w11 := (w11 + (sigma1 w9 + w4 + sigma0 w12)) % 0x100000000
  let p := Round f g h a b c d e ((0xbf597fc7 + w11) % 0x100000000)
  let a := p.1
  let e := p.2
  let w12 := (w12 + (sigma1 w10 + w5 + sigma0 w13)) % 0x100000000
  let p := Round e f g h a b c d ((0xc6e00bf3 + w12) % 0x100000000)
  let h := p.1
  let d := p.2
  let w13 := (w13 + (sigma1 w11 + w6 + sigma0 w14)) % 0x100000000
  let p := Round d e f g h a b c ((0xd5a79147 + w13) % 0x100000000)
  let g := p.1
  let c := p.2
  let w14 := (w14 + (sigma1 w12 + w7 + sigma0 w15)) % 0x100000000
  let p := Round c d e f g h a b ((0x06ca6351 + w14) % 0x100000000)
  let f := p.1
  let b := p.2
  let w15 := (w15 + (sigma1 w13 + w8 + sigma0 w0)) % 0x100000000
  let p := Round b c d e f g h a ((0x14292967 + w15) % 0x100000000)
  let e := p.1
  let a := p.2
  let w0 := (w0 + (sigma1 w14 + w9 + sigma0 w1)) % 0x100000000
  let p := Round a b c d e f g h ((0x27b70a85 + w0) % 0x100000000)
  let d := p.1
  let h := p.2
  let w1 := (w1 + (sigma1 w15 + w10 + sigma0 w2)) % 0x100000000
  let p := Round h a b c d e f g ((0x2e1b2138 + w1) % 0x100000000)
  let c := p.1
  let g := p.2
  let w2 := (w2 + (sigma1 w0 + w11 + sigma0 w3)) % 0x100000000
  let p := Round g h a b c d e f ((0x4d2c6dfc + w2) % 0x100000000)
  let b := p.1
  let f := p.2
  let w3 := (w3 + (sigma1 w1 + w12 + sigma0 w4)) % 0x100000000
  let p := Round f g h a b c d e ((0x53380d13 + w3) % 0x100000000)
  let a := p.1
  let e := p.2
  let w4 := (w4 + (sigma1 w2 + w13 + sigma0 w5)) % 0x100000000
  let p := Round e f g h a b c d ((0x650a7354 + w4) % 0x100000000)
  let h := p.1
  let d := p.2
  let w5 := (w5 + (sigma1 w3 + w14 + sigma0 w6)) % 0x100000000
  let p := Round d e f g h a b c ((0x766a0abb + w5) % 0x100000000)
  let g := p.1
  let c := p.2
  let w6 := (w6 + (sigma1 w4 + w15 + sigma0 w7)) % 0x100000000
  let p := Round c d e f g h a b ((0x81c2c92e + w6) % 0x100000000)
  let f := p.1
  let b := p.2
  let w7 := (w7 + (sigma1 w5 + w0 + sigma0 w8)) % 0x100000000
  let p := Round b c d e f g h a ((0x92722c85 + w7) % 0x100000000)
  let e := p.1
  let a := p.2
  let w8 := (w8 + (sigma1 w6 + w1 + sigma0 w9)) % 0x100000000
  let p := Round a b c d e f g h ((0xa2bfe8a1 + w8) % 0x100000000)
  let d := p.1
  let h := p.2
  let w9 := (w9 + (sigma1 w7 + w2 + sigma0 w10)) % 0x100000000
  let p := Round h a b c d e f g ((0xa81a664b + w9) % 0x100000000)
  let c := p.1
  let g := p.2
  let w10 := (w10 + (sigma1 w8 + w3 + sigma0 w11)) % 0x100000000
  let p := Round g h a b c d e f ((0xc24b8b70 + w10) % 0x100000000)
  let b := p.1
  let f := p.2
  let w11 := (w11 + (sigma1 w9 + w4 + sigma0 w12)) % 0x100000000
  let p := Round f g h a b c d e ((0xc76c51a3 + w11) % 0x100000000)
  let a := p.1
  let e := p.2
  let w12 := (w12 + (sigma1 w10 + w5 + sigma0 w13)) % 0x100000000
  let p := Round e f g h a b c d ((0xd192e819 + w12) % 0x100000000)
  let h := p.1
  let d := p.2
  let w13 := (w13 + (sigma1 w11 + w6 + sigma0 w14)) % 0x100000000
  let p := Round d e f g h a b c ((0xd6990624 + w13) % 0x100000000)
  let g := p.1
  let c := p.2
  let w14 := (w14 + (sigma1 w12 + w7 + sigma0 w15)) % 0x100000000
  let p := Round c d e f g h a b ((0xf40e3585 + w14) % 0x100000000)
  let f := p.1
  let b := p.2
  let w15 := (w15 + (sigma1 w13 + w8 + sigma0 w0)) % 0x100000000
  let p := Round b c d e f g h a ((0x106aa070 + w15) % 0x100000000)
  let e := p.1
  let a := p.2
  let w0 := (w0 + (sigma1 w14 + w9 + sigma0 w1)) % 0x100000000
  let p := Round a b c d e f g h ((0x19a4c116 + w0) % 0x100000000)
  let d := p.1
  let h := p.2
  let w1 := (w1 + (sigma1 w15 + w10 + sigma0 w2)) % 0x100000000
  let p := Round h a b c d e f g ((0x1e376c08 + w1) % 0x100000000)
  let c := p.1
  let g := p.2
  let w2 := (w2 + (sigma1 w0 + w11 + sigma0 w3)) % 0x100000000
  let p := Round g h a b c d e f ((0x2748774c + w2) % 0x100000000)
  let b := p.1
  let f := p.2
  let w3 := (w3 + (sigma1 w1 + w12 + sigma0 w4)) % 0x100000000
  let p := Round f g h a b c d e ((0x34b0bcb5 + w3) % 0x100000000)
  let a := p.1
  let e := p.2
  let w4 := (w4 + (sigma1 w2 + w13 + sigma0 w5)) % 0x100000000
  let p := Round e f g h a b c d ((0x391c0cb3 + w4) % 0x100000000)
  let h := p.1
  let d := p.2
  let w5 := (w5 + (sigma1 w3 + w14 + sigma0 w6)) % 0x100000000
  let p := Round d e f g h a b c ((0x4ed8aa4a + w5) % 0x100000000)
  let g := p.1
  let c := p.2
  let w6 := (w6 + (sigma1 w4 + w15 + sigma0 w7)) % 0x100000000
  let p := Round c d e f g h a b ((0x5b9cca4f + w6) % 0x100000000)
  let f := p.1
  let b := p.2
  let w7 := (w7 + (sigma1 w5 + w0 + sigma0 w8)) % 0x100000000
  let p := Round b c d e f g h a ((0x682e6ff3 + w7) % 0x100000000)
  let e := p.1
  let a := p.2
  let w8 := (w8 + (sigma1 w6 + w1 + sigma0 w9)) % 0x100000000
  let p := Round a b c d e f g h ((0x748f82ee + w8) % 0x100000000)
  let d := p.1
  let h := p.2
  let w9 := (w9 + (sigma1 w7 + w2 + sigma0 w10)) % 0x100000000
  let p := Round h a b c d e f g ((0x78a5636f + w9) % 0x100000000)
  let c := p.1
  let g := p.2
  let w10 := (w10 + (sigma1 w8 + w3 + sigma0 w11)) % 0x100000000
  let p := Round g h a b c d e f ((0x84c87814 + w10) % 0x100000000)
  let b := p.1
  let f := p.2
  let w11 := (w11 + (sigma1 w9 + w4 + sigma0 w12)) % 0x100000000
  let p := Round f g h a b c d e ((0x8cc70208 + w11) % 0x100000000)
  let a := p.1
  let e := p.2
  let w12 := (w12 + (sigma1 w10 + w5 + sigma0 w13)) % 0x100000000
  let p := Round e f g h a b c d ((0x90befffa + w12) % 0x100000000)
  let h := p.1
  let d := p.2
  let w13 := (w13 + (sigma1 w11 + w6 + sigma0 w14)) % 0x100000000
  let p := Round d e f g h a b c ((0xa4506ceb + w13) % 0x100000000)
  let g := p.1
  let c := p.2
  let p := Round c d e f g h a b ((0xbef9a3f7 + (w14 + sigma1 w12 + w7 + sigma0 w15)) % 0x100000000)
  let f := p.1
  let b := p.2
  let p := Round b c d e f g h a ((0xc67178f2 + (w15 + sigma1 w13 + w8 + sigma0 w0)) % 0x100000000)
  let e := p.1
  let a := p.2
  ⟨(s.s0 + a) % 0x100000000, (s.s1 + b) % 0x100000000, (s.s2 + c) % 0x100000000, (s.s3 + d) % 0x100000000,
   (s.s4 + e) % 0x100000000, (s.s5 + f) % 0x100000000, (s.s6 + g) % 0x100000000, (s.s7 + h) % 0x100000000⟩

/-- Perform a number of SHA-256 transformations, processing 64-byte chunks:
`while (blocks--)` with `chunk += 64` after each block. -/
def Transform (s : State) (chunk : List Nat) : Nat → State
  | 0 => s
  | blocks + 1 => Transform (TransformBlock s chunk) (chunk.drop 64) blocks

end sha256

/-- The class `SHA256`: state words, 64-byte buffer and the 64-bit byte count. -/
structure SHA256 where
  s : sha256.State
  buf : List Nat
  bytes : Nat

namespace SHA256

/-- The constructor `SHA256()`; the buffer is not initialised by the source and
is taken as zero here. -/
def init : SHA256 := ⟨sha256.Initialize, List.replicate 64 0, 0⟩

/-- `SHA256::Write(data, len)` with `len = data.length`. -/
def Write (h : SHA256) (data : List Nat) : SHA256 :=
  let bufsize := h.bytes % 64
  -- if (bufsize && bufsize + len >= 64): fill the buffer, and process it
  let st1 : SHA256 × List Nat × Nat :=
    if bufsize ≠ 0 ∧ bufsize + data.length ≥ 64 then
      let buf := memcpy h.buf bufsize (data.take (64 - bufsize))
      (⟨sha256.Transform h.s buf 1, buf, (h.bytes + (64 - bufsize)) % 0x10000000000000000⟩,
        data.drop (64 - bufsize), 0)
    else (h, data, bufsize)
  let h1 := st1.1
  let data1 := st1.2.1
  let bufsize1 := st1.2.2
  -- if (end - data >= 64): process the full chunks directly from the source
  let st2 : SHA256 × List Nat :=
    if data1.length ≥ 64 then
      let blocks := data1.length / 64
      (⟨sha256.Transform h1.s data1 blocks, h1.buf, (h1.bytes + 64 * blocks) % 0x10000000000000000⟩,
        data1.drop (64 * blocks))
    else (h1, data1)
  let h2 := st2.1
  let data2 := st2.2
  -- if (end > data): fill the buffer with what remains
  if data2.length > 0 then
    ⟨h2.s, memcpy h2.buf bufsize1 data2, (h2.bytes + data2.length) % 0x10000000000000000⟩
  else h2

/-- The constant `pad[64] = {0x80}`. -/
def pad : List Nat := 0x80 :: List.replicate 63 0

/-- `SHA256::Finalize(hash)`: the object after the call and the 32 bytes
written to `hash`. -/
def Finalize (h : SHA256) : SHA256 × List Nat :=
  let sizedesc := WriteBE64 ((h.bytes <<< 3) % 0x10000000000000000)
  let h1 := h.Write (pad.take (1 + ((119 - (h.bytes % 64)) % 64)))
  let h2 := h1.Write sizedesc
  (h2, WriteBE32 h2.s.s0 ++ WriteBE32 h2.s.s1 ++ WriteBE32 h2.s.s2 ++ WriteBE32 h2.s.s3 ++
       WriteBE32 h2.s.s4 ++ WriteBE32 h2.s.s5 ++ WriteBE32 h2.s.s6 ++ WriteBE32 h2.s.s7)

/-- `SHA256::Reset()`. -/
def Reset (h : SHA256) : SHA256 := ⟨sha256.Initialize, h.buf, 0⟩

end SHA256


namespace sha256

set_option maxRecDepth 16000 in
/-- The part `// Transform 1` of `TransformD64(out, in)`: the eight words `t0 .. t7`. -/
def TransformD64_1 (inp : List Nat) : State :=
  let a := 0x6a09e667
  let b := 0xbb67ae85
  let c := 0x3c6ef372
  let d := 0xa54ff53a
  let e := 0x510e527f
  let f := 0x9b05688c
  let g := 0x1f83d9ab
  let h := 0x5be0cd19
  let w0 := ReadBE32 inp 0
  let p := Round a b c d e f g h ((0x428a2f98 + w0) % 0x100000000)
  let d := p.1
  let h := p.2
  let w1 := ReadBE32 inp 4
  let p := Round h a b c d e f g ((0x71374491 + w1) % 0x100000000)
  let c := p.1
  let g := p.2
  let w2 := ReadBE32 inp 8
  let p := Round g h a b c d e f ((0xb5c0fbcf + w2) % 0x100000000)
  let b := p.1
  let f := p.2
  let w3 := ReadBE32 inp 12
  let p := Round f g h a b c d e ((0xe9b5dba5 + w3) % 0x100000000)
  let a := p.1
  let e := p.2
  let w4 := ReadBE32 inp 16
  let p := Round e f g h a b c d ((0x3956c25b + w4) % 0x100000000)
  let h := p.1
  let d := p.2
  let w5 := ReadBE32 inp 20
  let p := Round d e f g h a b c ((0x59f111f1 + w5) % 0x100000000)
  let g := p.1
  let c := p.2
  let w6 := ReadBE32 inp 24
  let p := Round c d e f g h a b ((0x923f82a4 + w6) % 0x100000000)
  let f := p.1
  let b := p.2
  let w7 := ReadBE32 inp 28
  let p := Round b c d e f g h a ((0xab1c5ed5 + w7) % 0x100000000)
  let e := p.1
  let a := p.2
  let w8 := ReadBE32 inp 32
  let p := Round a b c d e f g h ((0xd807aa98 + w8) % 0x100000000)
  let d := p.1
  let h := p.2
  let w9 := ReadBE32 inp 36
  let p := Round h a b c d e f g ((0x12835b01 + w9) % 0x100000000)
  let c := p.1
  let g := p.2
  let w10 := ReadBE32 inp 40
  let p := Round g h a b c d e f ((0x243185be + w10) % 0x100000000)
  let b := p.1
  let f := p.2
  let w11 := ReadBE32 inp 44
  let p := Round f g h a b c d e ((0x550c7dc3 + w11) % 0x100000000)
  let a := p.1
  let e := p.2
  let w12 := ReadBE32 inp 48
  let p := Round e f g h a b c d ((0x72be5d74 + w12) % 0x100000000)
  let h := p.1
  let d := p.2
  let w13 := ReadBE32 inp 52
  let p := Round d e f g h a b c ((0x80deb1fe + w13) % 0x100000000)
  let g := p.1
  let c := p.2
  let w14 := ReadBE32 inp 56
  let p := Round c d e f g h a b ((0x9bdc06a7 + w14) % 0x100000000)
  let f := p.1
  let b := p.2
  let w15 := ReadBE32 inp 60
  let p := Round b c d e f g h a ((0xc19bf174 + w15) % 0x100000000)
  let e := p.1
  let a := p.2
  let w0 := (w0 + (sigma1 w14 + w9 + sigma0 w1)) % 0x100000000
  let p := Round a b c d e f g h ((0xe49b69c1 + w0) % 0x100000000)
  let d := p.1
  let h := p.2
  let w1 := (w1 + (sigma1 w15 + w10 + sigma0 w2)) % 0x100000000
  let p := Round h a b c d e f g ((0xefbe4786 + w1) % 0x100000000)
  let c := p.1
  let g := p.2
  let w2 := (w2 + (sigma1 w0 + w11 + sigma0 w3)) % 0x100000000
  let p := Round g h a b c d e f ((0x0fc19dc6 + w2) % 0x100000000)
  let b := p.1
  let f := p.2
  let w3 := (w3 + (sigma1 w1 + w12 + sigma0 w4)) % 0x100000000
  let p := Round f g h a b c d e ((0x240ca1cc + w3) % 0x100000000)
  let a := p.1
  let e := p.2
  let w4 := (w4 + (sigma1 w2 + w13 + sigma0 w5)) % 0x100000000
  let p := Round e f g h a b c d ((0x2de92c6f + w4) % 0x100000000)
  let h := p.1
  let d := p.2
  let w5 := (w5 + (sigma1 w3 + w14 + sigma0 w6)) % 0x100000000
  let p := Round d e f g h a b c ((0x4a7484aa + w5) % 0x100000000)
  let g := p.1
  let c := p.2
  let w6 := (w6 + (sigma1 w4 + w15 + sigma0 w7)) % 0x100000000
  let p := Round c d e f g h a b ((0x5cb0a9dc + w6) % 0x100000000)
  let f := p.1
  let b := p.2
  let w7 := (w7 + (sigma1 w5 + w0 + sigma0 w8)) % 0x100000000
  let p := Round b c d e f g h a ((0x76f988da + w7) % 0x100000000)
  let e := p.1
  let a := p.2
  let w8 := (w8 + (sigma1 w6 + w1 + sigma0 w9)) % 0x100000000
  let p := Round a b c d e f g h ((0x983e5152 + w8) % 0x100000000)
  let d := p.1
  let h := p.2
  let w9 := (w9 + (sigma1 w7 + w2 + sigma0 w10)) % 0x100000000
  let p := Round h a b c d e f g ((0xa831c66d + w9) % 0x100000000)
  let c := p.1
  let g := p.2
  let w10 := (w10 + (sigma1 w8 + w3 + sigma0 w11)) % 0x100000000
  let p := Round g h a b c d e f ((0xb00327c8 + w10) % 0x100000000)
  let b := p.1
  let f := p.2
  let w11 := (w11 + (sigma1 w9 + w4 + sigma0 w12)) % 0x100000000
  let p := Round f g h a b c d e ((0xbf597fc7 + w11) % 0x100000000)
  let a := p.1
  let e := p.2
  let w12 := (w12 + (sigma1 w10 + w5 + sigma0 w13)) % 0x100000000
  let p := Round e f g h a b c d ((0xc6e00bf3 + w12) % 0x100000000)
  let h := p.1
  let d := p.2
  let w13 := (w13 + (sigma1 w11 + w6 + sigma0 w14)) % 0x100000000
  let p := Round d e f g h a b c ((0xd5a79147 + w13) % 0x100000000)
  let g := p.1
  let c := p.2
  let w14 := (w14 + (sigma1 w12 + w7 + sigma0 w15)) % 0x100000000
  let p := Round c d e f g h a b ((0x06ca6351 + w14) % 0x100000000)
  let f := p.1
  let b := p.2
  let w15 := (w15 + (sigma1 w13 + w8 + sigma0 w0)) % 0x100000000
  let p := Round b c d e f g h a ((0x14292967 + w15) % 0x100000000)
  let e := p.1
  let a := p.2
  let w0 := (w0 + (sigma1 w14 + w9 + sigma0 w1)) % 0x100000000
  let p := Round a b c d e f g h ((0x27b70a85 + w0) % 0x100000000)
  let d := p.1
  let h := p.2
  let w1 := (w1 + (sigma1 w15 + w10 + sigma0 w2)) % 0x100000000
  let p := Round h a b c d e f g ((0x2e1b2138 + w1) % 0x100000000)
  let c := p.1
  let g := p.2
  let w2 := (w2 + (sigma1 w0 + w11 + sigma0 w3)) % 0x100000000
  let p := Round g h a b c d e f ((0x4d2c6dfc + w2) % 0x100000000)
  let b := p.1
  let f := p.2
  let w3 := (w3 + (sigma1 w1 + w12 + sigma0 w4)) % 0x100000000
  let p := Round f g h a b c d e ((0x53380d13 + w3) % 0x100000000)
  let a := p.1
  let e := p.2
  let w4 := (w4 + (sigma1 w2 + w13 + sigma0 w5)) % 0x100000000
  let p := Round e f g h a b c d ((0x650a7354 + w4) % 0x100000000)
  let h := p.1
  let d := p.2
  let w5 := (w5 + (sigma1 w3 + w14 + sigma0 w6)) % 0x100000000
  let p := Round d e f g h a b c ((0x766a0abb + w5) % 0x100000000)
  let g := p.1
  let c := p.2
  let w6 := (w6 + (sigma1 w4 + w15 + sigma0 w7)) % 0x100000000
  let p := Round c d e f g h a b ((0x81c2c92e + w6) % 0x100000000)
  let f := p.1
  let b := p.2
  let w7 := (w7 + (sigma1 w5 + w0 + sigma0 w8)) % 0x100000000
  let p := Round b c d e f g h a ((0x92722c85 + w7) % 0x100000000)
  let e := p.1
  let a := p.2
  let w8 := (w8 + (sigma1 w6 + w1 + sigma0 w9)) % 0x100000000
  let p := Round a b c d e f g h ((0xa2bfe8a1 + w8) % 0x100000000)
  let d := p.1
  let h := p.2
  let w9 := (w9 + (sigma1 w7 + w2 + sigma0 w10)) % 0x100000000
  let p := Round h a b c d e f g ((0xa81a664b + w9) % 0x100000000)
  let c := p.1
  let g := p.2
  let w10 := (w10 + (sigma1 w8 + w3 + sigma0 w11)) % 0x100000000
  let p := Round g h a b c d e f ((0xc24b8b70 + w10) % 0x100000000)
  let b := p.1
  let f := p.2
  let w11 := (w11 + (sigma1 w9 + w4 + sigma0 w12)) % 0x100000000
  let p := Round f g h a b c d e ((0xc76c51a3 + w11) % 0x100000000)
  let a := p.1
  let e := p.2
  let w12 := (w12 + (sigma1 w10 + w5 + sigma0 w13)) % 0x100000000
  let p := Round e f g h a b c d ((0xd192e819 + w12) % 0x100000000)
  let h := p.1
  let d := p.2
  let w13 := (w13 + (sigma1 w11 + w6 + sigma0 w14)) % 0x100000000
  let p := Round d e f g h a b c ((0xd6990624 + w13) % 0x100000000)
  let g := p.1
  let c := p.2
  let w14 := (w14 + (sigma1 w12 + w7 + sigma0 w15)) % 0x100000000
  let p := Round c d e f g h a b ((0xf40e3585 + w14) % 0x100000000)
  let f := p.1
  let b := p.2
  let w15 := (w15 + (sigma1 w13 + w8 + sigma0 w0)) % 0x100000000
  let p := Round b c d e f g h a ((0x106aa070 + w15) % 0x100000000)
  let e := p.1
  let a := p.2
  let w0 := (w0 + (sigma1 w14 + w9 + sigma0 w1)) % 0x100000000
  let p := Round a b c d e f g h ((0x19a4c116 + w0) % 0x100000000)
  let d := p.1
  let h := p.2
  let w1 := (w1 + (sigma1 w15 + w10 + sigma0 w2)) % 0x100000000
  let p := Round h a b c d e f g ((0x1e376c08 + w1) % 0x100000000)
  let c := p.1
  let g := p.2
  let w2 := (w2 + (sigma1 w0 + w11 + sigma0 w3)) % 0x100000000
  let p := Round g h a b c d e f ((0x2748774c + w2) % 0x100000000)
  let b := p.1
  let f := p.2
  let w3 := (w3 + (sigma1 w1 + w12 + sigma0 w4)) % 0x100000000
  let p := Round f g h a b c d e ((0x34b0bcb5 + w3) % 0x100000000)
  let a := p.1
  let e := p.2
  let w4 := (w4 + (sigma1 w2 + w13 + sigma0 w5)) % 0x100000000
  let p := Round e f g h a b c d ((0x391c0cb3 + w4) % 0x100000000)
  let h := p.1
  let d := p.2
  let w5 := (w5 + (sigma1 w3 + w14 + sigma0 w6)) % 0x100000000
  let p := Round d e f g h a b c ((0x4ed8aa4a + w5) % 0x100000000)
  let g := p.1
  let c := p.2
  let w6 := (w6 + (sigma1 w4 + w15 + sigma0 w7)) % 0x100000000
  let p := Round c d e f g h a b ((0x5b9cca4f + w6) % 0x100000000)
  let f := p.1
  let b := p.2
  let w7 := (w7 + (sigma1 w5 + w0 + sigma0 w8)) % 0x100000000
  let p := Round b c d e f g h a ((0x682e6ff3 + w7) % 0x100000000)
  let e := p.1
  let a := p.2
  let w8 := (w8 + (sigma1 w6 + w1 + sigma0 w9)) % 0x100000000
  let p := Round a b c d e f g h ((0x748f82ee + w8) % 0x100000000)
  let d := p.1
  let h := p.2
  let w9 := (w9 + (sigma1 w7 + w2 + sigma0 w10)) % 0x100000000
  let p := Round h a b c d e f g ((0x78a5636f + w9) % 0x100000000)
  let c := p.1
  let g := p.2
  let w10 := (w10 + (sigma1 w8 + w3 + sigma0 w11)) % 0x100000000
  let p := Round g h a b c d e f ((0x84c87814 + w10) % 0x100000000)
  let b := p.1
  let f := p.2
  let w11 := (w11 + (sigma1 w9 + w4 + sigma0 w12)) % 0x100000000
  let p := Round f g h a b c d e ((0x8cc70208 + w11) % 0x100000000)
  let a := p.1
  let e := p.2
  let w12 := (w12 + (sigma1 w10 + w5 + sigma0 w13)) % 0x100000000
  let p := Round e f g h a b c d ((0x90befffa + w12) % 0x100000000)
  let h := p.1
  let d := p.2
  let w13 := (w13 + (sigma1 w11 + w6 + sigma0 w14)) % 0x100000000
  let p := Round d e f g h a b c ((0xa4506ceb + w13) % 0x100000000)
  let g := p.1
  let c := p.2
  let p := Round c d e f g h a b ((0xbef9a3f7 + (w14 + sigma1 w12 + w7 + sigma0 w15)) % 0x100000000)
  let f := p.1
  let b := p.2
  let p := Round b c d e f g h a ((0xc67178f2 + (w15 + sigma1 w13 + w8 + sigma0 w0)) % 0x100000000)
  let e := p.1
  let a := p.2
  let a := (a + 0x6a09e667) % 0x100000000
  let b := (b + 0xbb67ae85) % 0x100000000
  let c := (c + 0x3c6ef372) % 0x100000000
  let d := (d + 0xa54ff53a) % 0x100000000
  let e := (e + 0x510e527f) % 0x100000000
  let f := (f + 0x9b05688c) % 0x100000000
  let g := (g + 0x1f83d9ab) % 0x100000000
  let h := (h + 0x5be0cd19) % 0x100000000
  State.mk a b c d e f g h

set_option maxRecDepth 16000 in
/-- The part `// Transform 2` of `TransformD64(out, in)`, from the words `t0 .. t7` (also
the values of `a .. h` when it starts): the eight words `w0 .. w7` assigned at its end. -/
def TransformD64_2 (t : State) : State :=
  let a := t.s0
  let b := t.s1
  let c := t.s2
  let d := t.s3
  let e := t.s4
  let f := t.s5
  let g := t.s6
  let h := t.s7
  let p := Round a b c d e f g h 0xc28a2f98
  let d := p.1
  let h := p.2
  let p := Round h a b c d e f g 0x71374491
  let c := p.1
  let g := p.2
  let p := Round g h a b c d e f 0xb5c0fbcf
  let b := p.1
  let f := p.2
  let p := Round f g h a b c d e 0xe9b5dba5
  let a := p.1
  let e := p.2
  let p := Round e f g h a b c d 0x3956c25b
  let h := p.1
  let d := p.2
  let p := Round d e f g h a b c 0x59f111f1
  let g := p.1
  let c := p.2
  let p := Round c d e f g h a b 0x923f82a4
  let f := p.1
  let b := p.2
  let p := Round b c d e f g h a 0xab1c5ed5
  let e := p.1
  let a := p.2
  let p := Round a b c d e f g h 0xd807aa98
  let d := p.1
  let h := p.2
  let p := Round h a b c d e f g 0x12835b01
  let c := p.1
  let g := p.2
  let p := Round g h a b c d e f 0x243185be
  let b := p.1
  let f := p.2
  let p := Round f g h a b c d e 0x550c7dc3
  let a := p.1
  let e := p.2
  let p := Round e f g h a b c d 0x72be5d74
  let h := p.1
  let d := p.2
  let p := Round d e f g h a b c 0x80deb1fe
  let g := p.1
  let c := p.2
  let p := Round c d e f g h a b 0x9bdc06a7
  let f := p.1
  let b := p.2
  let p := Round b c d e f g h a 0xc19bf374
  let e := p.1
  let a := p.2
  let p := Round a b c d e f g h 0x649b69c1
  let d := p.1
  let h := p.2
  let p := Round h a b c d e f g 0xf0fe4786
  let c := p.1
  let g := p.2
  let p := Round g h a b c d e f 0x0fe1edc6
  let b := p.1
  let f := p.2
  let p := Round f g h a b c d e 0x240cf254
  let a := p.1
  let e := p.2
  let p := Round e f g h a b c d 0x4fe9346f
  let h := p.1
  let d := p.2
  let p := Round d e f g h a b c 0x6cc984be
  let g := p.1
  let c := p.2
  let p := Round c d e f g h a b 0x61b9411e
  let f := p.1
  let b := p.2
  let p := Round b c d e f g h a 0x16f988fa
  let e := p.1
  let a := p.2
  let p := Round a b c d e f g h 0xf2c65152
  let d := p.1
  let h := p.2
  let p := Round h a b c d e f g 0xa88e5a6d
  let c := p.1
  let g := p.2
  let p := Round g h a b c d e f 0xb019fc65
  let b := p.1
  let f := p.2
  let p := Round f g h a b c d e 0xb9d99ec7
  let a := p.1
  let e := p.2
  let p := Round e f g h a b c d 0x9a1231c3
  let h := p.1
  let d := p.2
  let p := Round d e f g h a b c 0xe70eeaa0
  let g := p.1
  let c := p.2
  let p := Round c d e f g h a b 0xfdb1232b
  let f := p.1
  let b := p.2
  let p := Round b c d e f g h a 0xc7353eb0
  let e := p.1
  let a := p.2
  let p := Round a b c d e f g h 0x3069bad5
  let d := p.1
  let h := p.2
  let p := Round h a b c d e f g 0xcb976d5f
  let c := p.1
  let g := p.2
  let p := Round g h a b c d e f 0x5a0f118f
  let b := p.1
  let f := p.2
  let p := Round f g h a b c d e 0xdc1eeefd
  let a := p.1
  let e := p.2
  let p := Round e f g h a b c d 0x0a35b689
  let h := p.1
  let d := p.2
  let p := Round d e f g h a b c 0xde0b7a04
  let g := p.1
  let c := p.2
  let p := Round c d e f g h a b 0x58f4ca9d
  let f := p.1
  let b := p.2
  let p := Round b c d e f g h a 0xe15d5b16
  let e := p.1
  let a := p.2
  let p := Round a b c d e f g h 0x007f3e86
  let d := p.1
  let h := p.2
  let p := Round h a b c d e f g 0x37088980
  let c := p.1
  let g := p.2
  let p := Round g h a b c d e f 0xa507ea32
  let b := p.1
  let f := p.2
  let p := Round f g h a b c d e 0x6fab9537
  let a := p.1
  let e := p.2
  let p := Round e f g h a b c d 0x17406110
  let h := p.1
  let d := p.2
  let p := Round d e f g h a b c 0x0d8cd6f1
  let g := p.1
  let c := p.2
  let p := Round c d e f g h a b 0xcdaa3b6d
  let f := p.1
  let b := p.2
  let p := Round b c d e f g h a 0xc0bbbe37
  let e := p.1
  let a := p.2
  let p := Round a b c d e f g h 0x83613bda
  let d := p.1
  let h := p.2
  let p := Round h a b c d e f g 0xdb48a363
  let c := p.1
  let g := p.2
  let p := Round g h a b c d e f 0x0b02e931
  let b := p.1
  let f := p.2
  let p := Round f g h a b c d e 0x6fd15ca7
  let a := p.1
  let e := p.2
  let p := Round e f g h a b c d 0x521afaca
  let h := p.1
  let d := p.2
  let p := Round d e f g h a b c 0x31338431
  let g := p.1
  let c := p.2
  let p := Round c d e f g h a b 0x6ed41a95
  let f := p.1
  let b := p.2
  let p := Round b c d e f g h a 0x6d437890
  let e := p.1
  let a := p.2
  let p := Round a b c d e f g h 0xc39c91f2
  let d := p.1
  let h := p.2
  let p := Round h a b c d e f g 0x9eccabbd
  let c := p.1
  let g := p.2
  let p := Round g h a b c d e f 0xb5c9a0e6
  let b := p.1
  let f := p.2
  let p := Round f g h a b c d e 0x532fb63c
  let a := p.1
  let e := p.2
  let p := Round e f g h a b c d 0xd2c741c6
  let h := p.1
  let d := p.2
  let p := Round d e f g h a b c 0x07237ea3
  let g := p.1
  let c := p.2
  let p := Round c d e f g h a b 0xa4954b68
  let f := p.1
  let b := p.2
  let p := Round b c d e f g h a 0x4c191d76
  let e := p.1
  let a := p.2
  let w0 := (t.s0 + a) % 0x100000000
  let w1 := (t.s1 + b) % 0x100000000
  let w2 := (t.s2 + c) % 0x100000000
  let w3 := (t.s3 + d) % 0x100000000
  let w4 := (t.s4 + e) % 0x100000000
  let w5 := (t.s5 + f) % 0x100000000
  let w6 := (t.s6 + g) % 0x100000000
  let w7 := (t.s7 + h) % 0x100000000
  State.mk w0 w1 w2 w3 w4 w5 w6 w7

set_option maxRecDepth 16000 in
/-- The parts `// Transform 3` and `// Output` of `TransformD64(out, in)`, from the words
`w0 .. w7`: the 32 bytes written to `out`. -/
def TransformD64_3 (w : State) : List Nat :=
  let w0 := w.s0
  let w1 := w.s1
  let w2 := w.s2
  let w3 := w.s3
  let w4 := w.s4
  let w5 := w.s5
  let w6 := w.s6
  let w7 := w.s7
  let a := 0x6a09e667
  let b := 0xbb67ae85
  let c := 0x3c6ef372
  let d := 0xa54ff53a
  let e := 0x510e527f
  let f := 0x9b05688c
  let g := 0x1f83d9ab
  let h := 0x5be0cd19
  let p := Round a b c d e f g h ((0x428a2f98 + w0) % 0x100000000)
  let d := p.1
  let h := p.2
  let p := Round h a b c d e f g ((0x71374491 + w1) % 0x100000000)
  let c := p.1
  let g := p.2
  let p := Round g h a b c d e f ((0xb5c0fbcf + w2) % 0x100000000)
  let b := p.1
  let f := p.2
  let p := Round f g h a b c d e ((0xe9b5dba5 + w3) % 0x100000000)
  let a := p.1
  let e := p.2
  let p := Round e f g h a b c d ((0x3956c25b + w4) % 0x100000000)
  let h := p.1
  let d := p.2
  let p := Round d e f g h a b c ((0x59f111f1 + w5) % 0x100000000)
  let g := p.1
  let c := p.2
  let p := Round c d e f g h a b ((0x923f82a4 + w6) % 0x100000000)
  let f := p.1
  let b := p.2
  let p := Round b c d e f g h a ((0xab1c5ed5 + w7) % 0x100000000)
  let e := p.1
  let a := p.2
  let p := Round a b c d e f g h 0x5807aa98
  let d := p.1
  let h := p.2
  let p := Round h a b c d e f g 0x12835b01
  let c := p.1
  let g := p.2
  let p := Round g h a b c d e f 0x243185be
  let b := p.1
  let f := p.2
  let p := Round f g h a b c d e 0x550c7dc3
  let a := p.1
  let e := p.2
  let p := Round e f g h a b c d 0x72be5d74
  let h := p.1
  let d := p.2
  let p := Round d e f g h a b c 0x80deb1fe
  let g := p.1
  let c := p.2
  let p := Round c d e f g h a b 0x9bdc06a7
  let f := p.1
  let b := p.2
  let p := Round b c d e f g h a 0xc19bf274
  let e := p.1
  let a := p.2
  let w0 := (w0 + (sigma0 w1)) % 0x100000000
  let p := Round a b c d e f g h ((0xe49b69c1 + w0) % 0x100000000)
  let d := p.1
  let h := p.2
  let w1 := (w1 + (0xa00000 + sigma0 w2)) % 0x100000000
  let p := Round h a b c d e f g ((0xefbe4786 + w1) % 0x100000000)
  let c := p.1
  let g := p.2
  let w2 := (w2 + (sigma1 w0 + sigma0 w3)) % 0x100000000
  let p := Round g h a b c d e f ((0x0fc19dc6 + w2) % 0x100000000)
  let b := p.1
  let f := p.2
  let w3 := (w3 + (sigma1 w1 + sigma0 w4)) % 0x100000000
  let p := Round f g h a b c d e ((0x240ca1cc + w3) % 0x100000000)
  let a := p.1
  let e := p.2
  let w4 := (w4 + (sigma1 w2 + sigma0 w5)) % 0x100000000
  let p := Round e f g h a b c d ((0x2de92c6f + w4) % 0x100000000)
  let h := p.1
  let d := p.2
  let w5 := (w5 + (sigma1 w3 + sigma0 w6)) % 0x100000000
  let p := Round d e f g h a b c ((0x4a7484aa + w5) % 0x100000000)
  let g := p.1
  let c := p.2
  let w6 := (w6 + (sigma1 w4 + 0x100 + sigma0 w7)) % 0x100000000
  let p := Round c d e f g h a b ((0x5cb0a9dc + w6) % 0x100000000)
  let f := p.1
  let b := p.2
  let w7 := (w7 + (sigma1 w5 + w0 + 0x11002000)) % 0x100000000
  let p := Round b c d e f g h a ((0x76f988da + w7) % 0x100000000)
  let e := p.1
  let a := p.2
  let w8 := (0x80000000 + sigma1 w6 + w1) % 0x100000000
  let p := Round a b c d e f g h ((0x983e5152 + w8) % 0x100000000)
  let d := p.1
  let h := p.2
  let w9 := (sigma1 w7 + w2) % 0x100000000
  let p := Round h a b c d e f g ((0xa831c66d + w9) % 0x100000000)
  let c := p.1
  let g := p.2
  let w10 := (sigma1 w8 + w3) % 0x100000000
  let p := Round g h a b c d e f ((0xb00327c8 + w10) % 0x100000000)
  let b := p.1
  let f := p.2
  let w11 := (sigma1 w9 + w4) % 0x100000000
  let p := Round f g h a b c d e ((0xbf597fc7 + w11) % 0x100000000)
  let a := p.1
  let e := p.2
  let w12 := (sigma1 w10 + w5) % 0x100000000
  let p := Round e f g h a b c d ((0xc6e00bf3 + w12) % 0x100000000)
  let h := p.1
  let d := p.2
  let w13 := (sigma1 w11 + w6) % 0x100000000
  let p := Round d e f g h a b c ((0xd5a79147 + w13) % 0x100000000)
  let g := p.1
  let c := p.2
  let w14 := (sigma1 w12 + w7 + 0x400022) % 0x100000000
  let p := Round c d e f g h a b ((0x06ca6351 + w14) % 0x100000000)
  let f := p.1
  let b := p.2
  let w15 := (0x100 + sigma1 w13 + w8 + sigma0 w0) % 0x100000000
  let p := Round b c d e f g h a ((0x14292967 + w15) % 0x100000000)
  let e := p.1
  let a := p.2
  let w0 := (w0 + (sigma1 w14 + w9 + sigma0 w1)) % 0x100000000
  let p := Round a b c d e f g h ((0x27b70a85 + w0) % 0x100000000)
  let d := p.1
  let h := p.2
  let w1 := (w1 + (sigma1 w15 + w10 + sigma0 w2)) % 0x100000000
  let p := Round h a b c d e f g ((0x2e1b2138 + w1) % 0x100000000)
  let c := p.1
  let g := p.2
  let w2 := (w2 + (sigma1 w0 + w11 + sigma0 w3)) % 0x100000000
  let p := Round g h a b c d e f ((0x4d2c6dfc + w2) % 0x100000000)
  let b := p.1
  let f := p.2
  let w3 := (w3 + (sigma1 w1 + w12 + sigma0 w4)) % 0x100000000
  let p := Round f g h a b c d e ((0x53380d13 + w3) % 0x100000000)
  let a := p.1
  let e := p.2
  let w4 := (w4 + (sigma1 w2 + w13 + sigma0 w5)) % 0x100000000
  let p := Round e f g h a b c d ((0x650a7354 + w4) % 0x100000000)
  let h := p.1
  let d := p.2
  let w5 := (w5 + (sigma1 w3 + w14 + sigma0 w6)) % 0x100000000
  let p := Round d e f g h a b c ((0x766a0abb + w5) % 0x100000000)
  let g := p.1
  let c := p.2
  let w6 := (w6 + (sigma1 w4 + w15 + sigma0 w7)) % 0x100000000
  let p := Round c d e f g h a b ((0x81c2c92e + w6) % 0x100000000)
  let f := p.1
  let b := p.2
  let w7 := (w7 + (sigma1 w5 + w0 + sigma0 w8)) % 0x100000000
  let p := Round b c d e f g h a ((0x92722c85 + w7) % 0x100000000)
  let e := p.1
  let a := p.2
  let w8 := (w8 + (sigma1 w6 + w1 + sigma0 w9)) % 0x100000000
  let p := Round a b c d e f g h ((0xa2bfe8a1 + w8) % 0x100000000)
  let d := p.1
  let h := p.2
  let w9 := (w9 + (sigma1 w7 + w2 + sigma0 w10)) % 0x100000000
  let p := Round h a b c d e f g ((0xa81a664b + w9) % 0x100000000)
  let c := p.1
  let g := p.2
  let w10 := (w10 + (sigma1 w8 + w3 + sigma0 w11)) % 0x100000000
  let p := Round g h a b c d e f ((0xc24b8b70 + w10) % 0x100000000)
  let b := p.1
  let f := p.2
  let w11 := (w11 + (sigma1 w9 + w4 + sigma0 w12)) % 0x100000000
  let p := Round f g h a b c d e ((0xc76c51a3 + w11) % 0x100000000)
  let a := p.1
  let e := p.2
  let w12 := (w12 + (sigma1 w10 + w5 + sigma0 w13)) % 0x100000000
  let p := Round e f g h a b c d ((0xd192e819 + w12) % 0x100000000)
  let h := p.1
  let d := p.2
  let w13 := (w13 + (sigma1 w11 + w6 + sigma0 w14)) % 0x100000000
  let p := Round d e f g h a b c ((0xd6990624 + w13) % 0x100000000)
  let g := p.1
  let c := p.2
  let w14 := (w14 + (sigma1 w12 + w7 + sigma0 w15)) % 0x100000000
  let p := Round c d e f g h a b ((0xf40e3585 + w14) % 0x100000000)
  let f := p.1
  let b := p.2
  let w15 := (w15 + (sigma1 w13 + w8 + sigma0 w0)) % 0x100000000
  let p := Round b c d e f g h a ((0x106aa070 + w15) % 0x100000000)
  let e := p.1
  let a := p.2
  let w0 := (w0 + (sigma1 w14 + w9 + sigma0 w1)) % 0x100000000
  let p := Round a b c d e f g h ((0x19a4c116 + w0) % 0x100000000)
  let d := p.1
  let h := p.2
  let w1 := (w1 + (sigma1 w15 + w10 + sigma0 w2)) % 0x100000000
  let p := Round h a b c d e f g ((0x1e376c08 + w1) % 0x100000000)
  let c := p.1
  let g := p.2
  let w2 := (w2 + (sigma1 w0 + w11 + sigma0 w3)) % 0x100000000
  let p := Round g h a b c d e f ((0x2748774c + w2) % 0x100000000)
  let b := p.1
  let f := p.2
  let w3 := (w3 + (sigma1 w1 + w12 + sigma0 w4)) % 0x100000000
  let p := Round f g h a b c d e ((0x34b0bcb5 + w3) % 0x100000000)
  let a := p.1
  let e := p.2
  let w4 := (w4 + (sigma1 w2 + w13 + sigma0 w5)) % 0x100000000
  let p := Round e f g h a b c d ((0x391c0cb3 + w4) % 0x100000000)
  let h := p.1
  let d := p.2
  let w5 := (w5 + (sigma1 w3 + w14 + sigma0 w6)) % 0x100000000
  let p := Round d e f g h a b c ((0x4ed8aa4a + w5) % 0x100000000)
  let g := p.1
  let c := p.2
  let w6 := (w6 + (sigma1 w4 + w15 + sigma0 w7)) % 0x100000000
  let p := Round c d e f g h a b ((0x5b9cca4f + w6) % 0x100000000)
  let f := p.1
  let b := p.2
  let w7 := (w7 + (sigma1 w5 + w0 + sigma0 w8)) % 0x100000000
  let p := Round b c d e f g h a ((0x682e6ff3 + w7) % 0x100000000)
  let e := p.1
  let a := p.2
  let w8 := (w8 + (sigma1 w6 + w1 + sigma0 w9)) % 0x100000000
  let p := Round a b c d e f g h ((0x748f82ee + w8) % 0x100000000)
  let d := p.1
  let h := p.2
  let w9 := (w9 + (sigma1 w7 + w2 + sigma0 w10)) % 0x100000000
  let p := Round h a b c d e f g ((0x78a5636f + w9) % 0x100000000)
  let c := p.1
  let g := p.2
  let w10 := (w10 + (sigma1 w8 + w3 + sigma0 w11)) % 0x100000000
  let p := Round g h a b c d e f ((0x84c87814 + w10) % 0x100000000)
  let b := p.1
  let f := p.2
  let w11 := (w11 + (sigma1 w9 + w4 + sigma0 w12)) % 0x100000000
  let p := Round f g h a b c d e ((0x8cc70208 + w11) % 0x100000000)
  let a := p.1
  let e := p.2
  let w12 := (w12 + (sigma1 w10 + w5 + sigma0 w13)) % 0x100000000
  let p := Round e f g h a b c d ((0x90befffa + w12) % 0x100000000)
  let h := p.1
  let d := p.2
  let w13 := (w13 + (sigma1 w11 + w6 + sigma0 w14)) % 0x100000000
  let p := Round d e f g h a b c ((0xa4506ceb + w13) % 0x100000000)
  let g := p.1
  let c := p.2
  let p := Round c d e f g h a b ((0xbef9a3f7 + (w14 + sigma1 w12 + w7 + sigma0 w15)) % 0x100000000)
  let f := p.1
  let b := p.2
  let p := Round b c d e f g h a ((0xc67178f2 + (w15 + sigma1 w13 + w8 + sigma0 w0)) % 0x100000000)
  let e := p.1
  let a := p.2
  WriteBE32 ((a + 0x6a09e667) % 0x100000000) ++
    WriteBE32 ((b + 0xbb67ae85) % 0x100000000) ++
    WriteBE32 ((c + 0x3c6ef372) % 0x100000000) ++
    WriteBE32 ((d + 0xa54ff53a) % 0x100000000) ++
    WriteBE32 ((e + 0x510e527f) % 0x100000000) ++
    WriteBE32 ((f + 0x9b05688c) % 0x100000000) ++
    WriteBE32 ((g + 0x1f83d9ab) % 0x100000000) ++
    WriteBE32 ((h + 0x5be0cd19) % 0x100000000)

/-- `TransformD64(out, in)`: the 32 bytes written to `out`. -/
def TransformD64 (inp : List Nat) : List Nat :=
  TransformD64_3 (TransformD64_2 (TransformD64_1 inp))

end sha256

/-! ## RIPEMD-160 (`namespace ripemd160`) -/

namespace ripemd160

/-- The complement `~x` of a 32-bit word. -/
def not32 (x : Nat) : Nat := x ^^^ 0xFFFFFFFF

def f1 (x y z : Nat) : Nat := x ^^^ y ^^^ z

def f2 (x y z : Nat) : Nat := (x &&& y) ||| (not32 x &&& z)

def f3 (x y z : Nat) : Nat := (x ||| not32 y) ^^^ z

def f4 (x y z : Nat) : Nat := (x &&& z) ||| (y &&& not32 z)

def f5 (x y z : Nat) : Nat := x ^^^ (y ||| not32 z)

/-- The five state words `s[0..4]`. -/
structure State where
  s0 : Nat
  s1 : Nat
  s2 : Nat
  s3 : Nat
  s4 : Nat
  deriving DecidableEq, Repr

/-- Initialize RIPEMD-160 state. -/
def Initialize : State :=
  ⟨0x67452301, 0xEFCDAB89, 0x98BADCFE, 0x10325476, 0xC3D2E1F0⟩

def rol (x i : Nat) : Nat := ((x <<< i) % 0x100000000) ||| (x >>> (32 - i))

/-- One step of a line.  The source updates its reference parameters `a` and
`c`; the pair returned is their new values `(a, c)`. -/
def Round (a _b c _d e f x k r : Nat) : Nat × Nat :=
  ((rol ((a + f + x + k) % 0x100000000) r + e) % 0x100000000, rol c 10)

def R11 (a b c d e x r : Nat) : Nat × Nat := Round a b c d e (f1 b c d) x 0 r
def R21 (a b c d e x r : Nat) : Nat × Nat := Round a b c d e (f2 b c d) x 0x5A827999 r
def R31 (a b c d e x r : Nat) : Nat × Nat := Round a b c d e (f3 b c d) x 0x6ED9EBA1 r
def R41 (a b c d e x r : Nat) : Nat × Nat := Round a b c d e (f4 b c d) x 0x8F1BBCDC r
def R51 (a b c d e x r : Nat) : Nat × Nat := Round a b c d e (f5 b c d) x 0xA953FD4E r

def R12 (a b c d e x r : Nat) : Nat × Nat := Round a b c d e (f5 b c d) x 0x50A28BE6 r
def R22 (a b c d e x r : Nat) : Nat × Nat := Round a b c d e (f4 b c d) x 0x5C4DD124 r
def R32 (a b c d e x r : Nat) : Nat × Nat := Round a b c d e (f3 b c d) x 0x6D703EF3 r
def R42 (a b c d e x r : Nat) : Nat × Nat := Round a b c d e (f2 b c d) x 0x7A6D76E9 r
def R52 (a b c d e x r : Nat) : Nat × Nat := Round a b c d e (f1 b c d) x 0 r

set_option maxRecDepth 16000 in
/-- Perform a RIPEMD-160 transformation, processing a 64-byte chunk. -/
def Transform (s : State) (chunk : List Nat) : State :=
  let a1 := s.s0
  let b1 := s.s1
  let c1 := s.s2
  let d1 := s.s3
  let e1 := s.s4
  let a2 := a1
  let b2 := b1
  let c2 := c1
  let d2 := d1
  let e2 := e1
  let w0 := ReadLE32 chunk 0
  let w1 := ReadLE32 chunk 4
  let w2 := ReadLE32 chunk 8
  let w3 := ReadLE32 chunk 12
  let w4 := ReadLE32 chunk 16
  let w5 := ReadLE32 chunk 20
  let w6 := ReadLE32 chunk 24
  let w7 := ReadLE32 chunk 28
  let w8 := ReadLE32 chunk 32
  let w9 := ReadLE32 chunk 36
  let w10 := ReadLE32 chunk 40
  let w11 := ReadLE32 chunk 44
  let w12 := ReadLE32 chunk 48
  let w13 := ReadLE32 chunk 52
  let w14 := ReadLE32 chunk 56
  let w15 := ReadLE32 chunk 60
  let p := R11 a1 b1 c1 d1 e1 w0 11
  let a1 := p.1
  let c1 := p.2
  let p := R12 a2 b2 c2 d2 e2 w5 8
  let a2 := p.1
  let c2 := p.2
  let p := R11 e1 a1 b1 c1 d1 w1 14
  let e1 := p.1
  let b1 := p.2
  let p := R12 e2 a2 b2 c2 d2 w14 9
  let e2 := p.1
  let b2 := p.2
  let p := R11 d1 e1 a1 b1 c1 w2 15
  let d1 := p.1
  let a1 := p.2
  let p := R12 d2 e2 a2 b2 c2 w7 9
  let d2 := p.1
  let a2 := p.2
  let p := R11 c1 d1 e1 a1 b1 w3 12
  let c1 := p.1
  let e1 := p.2
  let p := R12 c2 d2 e2 a2 b2 w0 11
  let c2 := p.1
  let e2 := p.2
  let p := R11 b1 c1 d1 e1 a1 w4 5
  let b1 := p.1
  let d1 := p.2
  let p := R12 b2 c2 d2 e2 a2 w9 13
  let b2 := p.1
  let d2 := p.2
  let p := R11 a1 b1 c1 d1 e1 w5 8
  let a1 := p.1
  let c1 := p.2
  let p := R12 a2 b2 c2 d2 e2 w2 15
  let a2 := p.1
  let c2 := p.2
  let p := R11 e1 a1 b1 c1 d1 w6 7
  let e1 := p.1
  let b1 := p.2
  let p := R12 e2 a2 b2 c2 d2 w11 15
  let e2 := p.1
  let b2 := p.2
  let p := R11 d1 e1 a1 b1 c1 w7 9
  let d1 := p.1
  let a1 := p.2
  let p := R12 d2 e2 a2 b2 c2 w4 5
  let d2 := p.1
  let a2 := p.2
  let p := R11 c1 d1 e1 a1 b1 w8 11
  let c1 := p.1
  let e1 := p.2
  let p := R12 c2 d2 e2 a2 b2 w13 7
  let c2 := p.1
  let e2 := p.2
  let p := R11 b1 c1 d1 e1 a1 w9 13
  let b1 := p.1
  let d1 := p.2
  let p := R12 b2 c2 d2 e2 a2 w6 7
  let b2 := p.1
  let d2 := p.2
  let p := R11 a1 b1 c1 d1 e1 w10 14
  let a1 := p.1
  let c1 := p.2
  let p := R12 a2 b2 c2 d2 e2 w15 8
  let a2 := p.1
  let c2 := p.2
  let p := R11 e1 a1 b1 c1 d1 w11 15
  let e1 := p.1
  let b1 := p.2
  let p := R12 e2 a2 b2 c2 d2 w8 11
  let e2 := p.1
  let b2 := p.2
  let p := R11 d1 e1 a1 b1 c1 w12 6
  let d1 := p.1
  let a1 := p.2
  let p := R12 d2 e2 a2 b2 c2 w1 14
  let d2 := p.1
  let a2 := p.2
  let p := R11 c1 d1 e1 a1 b1 w13 7
  let c1 := p.1
  let e1 := p.2
  let p := R12 c2 d2 e2 a2 b2 w10 14
  let c2 := p.1
  let e2 := p.2
  let p := R11 b1 c1 d1 e1 a1 w14 9
  let b1 := p.1
  let d1 := p.2
  let p := R12 b2 c2 d2 e2 a2 w3 12
  let b2 := p.1
  let d2 := p.2
  let p := R11 a1 b1 c1 d1 e1 w15 8
  let a1 := p.1
  let c1 := p.2
  let p := R12 a2 b2 c2 d2 e2 w12 6
  let a2 := p.1
  let c2 := p.2
  let p := R21 e1 a1 b1 c1 d1 w7 7
  let e1 := p.1
  let b1 := p.2
  let p := R22 e2 a2 b2 c2 d2 w6 9
  let e2 := p.1
  let b2 := p.2
  let p := R21 d1 e1 a1 b1 c1 w4 6
  let d1 := p.1
  let a1 := p.2
  let p := R22 d2 e2 a2 b2 c2 w11 13
  let d2 := p.1
  let a2 := p.2
  let p := R21 c1 d1 e1 a1 b1 w13 8
  let c1 := p.1
  let e1 := p.2
  let p := R22 c2 d2 e2 a2 b2 w3 15
  let c2 := p.1
  let e2 := p.2
  let p := R21 b1 c1 d1 e1 a1 w1 13
  let b1 := p.1
  let d1 := p.2
  let p := R22 b2 c2 d2 e2 a2 w7 7
  let b2 := p.1
  let d2 := p.2
  let p := R21 a1 b1 c1 d1 e1 w10 11
  let a1 := p.1
  let c1 := p.2
  let p := R22 a2 b2 c2 d2 e2 w0 12
  let a2 := p.1
  let c2 := p.2
  let p := R21 e1 a1 b1 c1 d1 w6 9
  let e1 := p.1
  let b1 := p.2
  let p := R22 e2 a2 b2 c2 d2 w13 8
  let e2 := p.1
  let b2 := p.2
  let p := R21 d1 e1 a1 b1 c1 w15 7
  let d1 := p.1
  let a1 := p.2
  let p := R22 d2 e2 a2 b2 c2 w5 9
  let d2 := p.1
  let a2 := p.2
  let p := R21 c1 d1 e1 a1 b1 w3 15
  let c1 := p.1
  let e1 := p.2
  let p := R22 c2 d2 e2 a2 b2 w10 11
  let c2 := p.1
  let e2 := p.2
  let p := R21 b1 c1 d1 e1 a1 w12 7
  let b1 := p.1
  let d1 := p.2
  let p := R22 b2 c2 d2 e2 a2 w14 7
  let b2 := p.1
  let d2 := p.2
  let p := R21 a1 b1 c1 d1 e1 w0 12
  let a1 := p.1
  let c1 := p.2
  let p := R22 a2 b2 c2 d2 e2 w15 7
  let a2 := p.1
  let c2 := p.2
  let p := R21 e1 a1 b1 c1 d1 w9 15
  let e1 := p.1
  let b1 := p.2
  let p := R22 e2 a2 b2 c2 d2 w8 12
  let e2 := p.1
  let b2 := p.2
  let p := R21 d1 e1 a1 b1 c1 w5 9
  let d1 := p.1
  let a1 := p.2
  let p := R22 d2 e2 a2 b2 c2 w12 7
  let d2 := p.1
  let a2 := p.2
  let p := R21 c1 d1 e1 a1 b1 w2 11
  let c1 := p.1
  let e1 := p.2
  let p := R22 c2 d2 e2 a2 b2 w4 6
  let c2 := p.1
  let e2 := p.2
  let p := R21 b1 c1 d1 e1 a1 w14 7
  let b1 := p.1
  let d1 := p.2
  let p := R22 b2 c2 d2 e2 a2 w9 15
  let b2 := p.1
  let d2 := p.2
  let p := R21 a1 b1 c1 d1 e1 w11 13
  let a1 := p.1
  let c1 := p.2
  let p := R22 a2 b2 c2 d2 e2 w1 13
  let a2 := p.1
  let c2 := p.2
  let p := R21 e1 a1 b1 c1 d1 w8 12
  let e1 := p.1
  let b1 := p.2
  let p := R22 e2 a2 b2 c2 d2 w2 11
  let e2 := p.1
  let b2 := p.2
  let p := R31 d1 e1 a1 b1 c1 w3 11
  let d1 := p.1
  let a1 := p.2
  let p := R32 d2 e2 a2 b2 c2 w15 9
  let d2 := p.1
  let a2 := p.2
  let p := R31 c1 d1 e1 a1 b1 w10 13
  let c1 := p.1
  let e1 := p.2
  let p := R32 c2 d2 e2 a2 b2 w5 7
  let c2 := p.1
  let e2 := p.2
  let p := R31 b1 c1 d1 e1 a1 w14 6
  let b1 := p.1
  let d1 := p.2
  let p := R32 b2 c2 d2 e2 a2 w1 15
  let b2 := p.1
  let d2 := p.2
  let p := R31 a1 b1 c1 d1 e1 w4 7
  let a1 := p.1
  let c1 := p.2
  let p := R32 a2 b2 c2 d2 e2 w3 11
  let a2 := p.1
  let c2 := p.2
  let p := R31 e1 a1 b1 c1 d1 w9 14
  let e1 := p.1
  let b1 := p.2
  let p := R32 e2 a2 b2 c2 d2 w7 8
  let e2 := p.1
  let b2 := p.2
  let p := R31 d1 e1 a1 b1 c1 w15 9
  let d1 := p.1
  let a1 := p.2
  let p := R32 d2 e2 a2 b2 c2 w14 6
  let d2 := p.1
  let a2 := p.2
  let p := R31 c1 d1 e1 a1 b1 w8 13
  let c1 := p.1
  let e1 := p.2
  let p := R32 c2 d2 e2 a2 b2 w6 6
  let c2 := p.1
  let e2 := p.2
  let p := R31 b1 c1 d1 e1 a1 w1 15
  let b1 := p.1
  let d1 := p.2
  let p := R32 b2 c2 d2 e2 a2 w9 14
  let b2 := p.1
  let d2 := p.2
  let p := R31 a1 b1 c1 d1 e1 w2 14
  let a1 := p.1
  let c1 := p.2
  let p := R32 a2 b2 c2 d2 e2 w11 12
  let a2 := p.1
  let c2 := p.2
  let p := R31 e1 a1 b1 c1 d1 w7 8
  let e1 := p.1
  let b1 := p.2
  let p := R32 e2 a2 b2 c2 d2 w8 13
  let e2 := p.1
  let b2 := p.2
  let p := R31 d1 e1 a1 b1 c1 w0 13
  let d1 := p.1
  let a1 := p.2
  let p := R32 d2 e2 a2 b2 c2 w12 5
  let d2 := p.1
  let a2 := p.2
  let p := R31 c1 d1 e1 a1 b1 w6 6
  let c1 := p.1
  let e1 := p.2
  let p := R32 c2 d2 e2 a2 b2 w2 14
  let c2 := p.1
  let e2 := p.2
  let p := R31 b1 c1 d1 e1 a1 w13 5
  let b1 := p.1
  let d1 := p.2
  let p := R32 b2 c2 d2 e2 a2 w10 13
  let b2 := p.1
  let d2 := p.2
  let p := R31 a1 b1 c1 d1 e1 w11 12
  let a1 := p.1
  let c1 := p.2
  let p := R32 a2 b2 c2 d2 e2 w0 13
  let a2 := p.1
  let c2 := p.2
  let p := R31 e1 a1 b1 c1 d1 w5 7
  let e1 := p.1
  let b1 := p.2
  let p := R32 e2 a2 b2 c2 d2 w4 7
  let e2 := p.1
  let b2 := p.2
  let p := R31 d1 e1 a1 b1 c1 w12 5
  let d1 := p.1
  let a1 := p.2
  let p := R32 d2 e2 a2 b2 c2 w13 5
  let d2 := p.1
  let a2 := p.2
  let p := R41 c1 d1 e1 a1 b1 w1 11
  let c1 := p.1
  let e1 := p.2
  let p := R42 c2 d2 e2 a2 b2 w8 15
  let c2 := p.1
  let e2 := p.2
  let p := R41 b1 c1 d1 e1 a1 w9 12
  let b1 := p.1
  let d1 := p.2
  let p := R42 b2 c2 d2 e2 a2 w6 5
  let b2 := p.1
  let d2 := p.2
  let p := R41 a1 b1 c1 d1 e1 w11 14
  let a1 := p.1
  let c1 := p.2
  let p := R42 a2 b2 c2 d2 e2 w4 8
  let a2 := p.1
  let c2 := p.2
  let p := R41 e1 a1 b1 c1 d1 w10 15
  let e1 := p.1
  let b1 := p.2
  let p := R42 e2 a2 b2 c2 d2 w1 11
  let e2 := p.1
  let b2 := p.2
  let p := R41 d1 e1 a1 b1 c1 w0 14
  let d1 := p.1
  let a1 := p.2
  let p := R42 d2 e2 a2 b2 c2 w3 14
  let d2 := p.1
  let a2 := p.2
  let p := R41 c1 d1 e1 a1 b1 w8 15
  let c1 := p.1
  let e1 := p.2
  let p := R42 c2 d2 e2 a2 b2 w11 14
  let c2 := p.1
  let e2 := p.2
  let p := R41 b1 c1 d1 e1 a1 w12 9
  let b1 := p.1
  let d1 := p.2
  let p := R42 b2 c2 d2 e2 a2 w15 6
  let b2 := p.1
  let d2 := p.2
  let p := R41 a1 b1 c1 d1 e1 w4 8
  let a1 := p.1
  let c1 := p.2
  let p := R42 a2 b2 c2 d2 e2 w0 14
  let a2 := p.1
  let c2 := p.2
  let p := R41 e1 a1 b1 c1 d1 w13 9
  let e1 := p.1
  let b1 := p.2
  let p := R42 e2 a2 b2 c2 d2 w5 6
  let e2 := p.1
  let b2 := p.2
  let p := R41 d1 e1 a1 b1 c1 w3 14
  let d1 := p.1
  let a1 := p.2
  let p := R42 d2 e2 a2 b2 c2 w12 9
  let d2 := p.1
  let a2 := p.2
  let p := R41 c1 d1 e1 a1 b1 w7 5
  let c1 := p.1
  let e1 := p.2
  let p := R42 c2 d2 e2 a2 b2 w2 12
  let c2 := p.1
  let e2 := p.2
  let p := R41 b1 c1 d1 e1 a1 w15 6
  let b1 := p.1
  let d1 := p.2
  let p := R42 b2 c2 d2 e2 a2 w13 9
  let b2 := p.1
  let d2 := p.2
  let p := R41 a1 b1 c1 d1 e1 w14 8
  let a1 := p.1
  let c1 := p.2
  let p := R42 a2 b2 c2 d2 e2 w9 12
  let a2 := p.1
  let c2 := p.2
  let p := R41 e1 a1 b1 c1 d1 w5 6
  let e1 := p.1
  let b1 := p.2
  let p := R42 e2 a2 b2 c2 d2 w7 5
  let e2 := p.1
  let b2 := p.2
  let p := R41 d1 e1 a1 b1 c1 w6 5
  let d1 := p.1
  let a1 := p.2
  let p := R42 d2 e2 a2 b2 c2 w10 15
  let d2 := p.1
  let a2 := p.2
  let p := R41 c1 d1 e1 a1 b1 w2 12
  let c1 := p.1
  let e1 := p.2
  let p := R42 c2 d2 e2 a2 b2 w14 8
  let c2 := p.1
  let e2 := p.2
  let p := R51 b1 c1 d1 e1 a1 w4 9
  let b1 := p.1
  let d1 := p.2
  let p := R52 b2 c2 d2 e2 a2 w12 8
  let b2 := p.1
  let d2 := p.2
  let p := R51 a1 b1 c1 d1 e1 w0 15
  let a1 := p.1
  let c1 := p.2
  let p := R52 a2 b2 c2 d2 e2 w15 5
  let a2 := p.1
  let c2 := p.2
  let p := R51 e1 a1 b1 c1 d1 w5 5
  let e1 := p.1
  let b1 := p.2
  let p := R52 e2 a2 b2 c2 d2 w10 12
  let e2 := p.1
  let b2 := p.2
  let p := R51 d1 e1 a1 b1 c1 w9 11
  let d1 := p.1
  let a1 := p.2
  let p := R52 d2 e2 a2 b2 c2 w4 9
  let d2 := p.1
  let a2 := p.2
  let p := R51 c1 d1 e1 a1 b1 w7 6
  let c1 := p.1
  let e1 := p.2
  let p := R52 c2 d2 e2 a2 b2 w1 12
  let c2 := p.1
  let e2 := p.2
  let p := R51 b1 c1 d1 e1 a1 w12 8
  let b1 := p.1
  let d1 := p.2
  let p := R52 b2 c2 d2 e2 a2 w5 5
  let b2 := p.1
  let d2 := p.2
  let p := R51 a1 b1 c1 d1 e1 w2 13
  let a1 := p.1
  let c1 := p.2
  let p := R52 a2 b2 c2 d2 e2 w8 14
  let a2 := p.1
  let c2 := p.2
  let p := R51 e1 a1 b1 c1 d1 w10 12
  let e1 := p.1
  let b1 := p.2
  let p := R52 e2 a2 b2 c2 d2 w7 6
  let e2 := p.1
  let b2 := p.2
  let p := R51 d1 e1 a1 b1 c1 w14 5
  let d1 := p.1
  let a1 := p.2
  let p := R52 d2 e2 a2 b2 c2 w6 8
  let d2 := p.1
  let a2 := p.2
  let p := R51 c1 d1 e1 a1 b1 w1 12
  let c1 := p.1
  let e1 := p.2
  let p := R52 c2 d2 e2 a2 b2 w2 13
  let c2 := p.1
  let e2 := p.2
  let p := R51 b1 c1 d1 e1 a1 w3 13
  let b1 := p.1
  let d1 := p.2
  let p := R52 b2 c2 d2 e2 a2 w13 6
  let b2 := p.1
  let d2 := p.2
  let p := R51 a1 b1 c1 d1 e1 w8 14
  let a1 := p.1
  let c1 := p.2
  let p := R52 a2 b2 c2 d2 e2 w14 5
  let a2 := p.1
  let c2 := p.2
  let p := R51 e1 a1 b1 c1 d1 w11 11
  let e1 := p.1
  let b1 := p.2
  let p := R52 e2 a2 b2 c2 d2 w0 15
  let e2 := p.1
  let b2 := p.2
  let p := R51 d1 e1 a1 b1 c1 w6 8
  let d1 := p.1
  let a1 := p.2
  let p := R52 d2 e2 a2 b2 c2 w3 13
  let d2 := p.1
  let a2 := p.2
  let p := R51 c1 d1 e1 a1 b1 w15 5
  let c1 := p.1
  let e1 := p.2
  let p := R52 c2 d2 e2 a2 b2 w9 11
  let c2 := p.1
  let e2 := p.2
  let p := R51 b1 c1 d1 e1 a1 w13 6
  let b1 := p.1
  let d1 := p.2
  let p := R52 b2 c2 d2 e2 a2 w11 11
  let b2 := p.1
  let d2 := p.2
  let t := s.s0
  ⟨(s.s1 + c1 + d2) % 0x100000000, (s.s2 + d1 + e2) % 0x100000000, (s.s3 + e1 + a2) % 0x100000000,
   (s.s4 + a1 + b2) % 0x100000000, (t + b1 + c2) % 0x100000000⟩

end ripemd160

/-- The class `RIPEMD160`: state words, 64-byte buffer and the 64-bit byte count. -/
structure RIPEMD160 where
  s : ripemd160.State
  buf : List Nat
  bytes : Nat

namespace RIPEMD160

/-- The `while (end >= data + 64)` loop of `Write`: the state words and the byte
count after the full chunks at the start of `data`, and the bytes left over.  Every
iteration consumes 64 bytes, so `data.length` iterations are enough. -/
def WriteChunks : Nat → ripemd160.State → Nat → List Nat → ripemd160.State × Nat × List Nat
  | 0, s, bytes, data => (s, bytes, data)
  | fuel + 1, s, bytes, data =>
    if data.length ≥ 64 then
      WriteChunks fuel (ripemd160.Transform s data) ((bytes + 64) % 0x10000000000000000)
        (data.drop 64)
    else (s, bytes, data)

/-- The constructor `RIPEMD160()`; the buffer is not initialised by the source
and is taken as zero here. -/
def init : RIPEMD160 := ⟨ripemd160.Initialize, List.replicate 64 0, 0⟩

/-- `RIPEMD160::Write(data, len)` with `len = data.length`. -/
def Write (h : RIPEMD160) (data : List Nat) : RIPEMD160 :=
  let bufsize := h.bytes % 64
  -- if (bufsize && bufsize + len >= 64): fill the buffer, and process it
  let st1 : RIPEMD160 × List Nat × Nat :=
    if bufsize ≠ 0 ∧ bufsize + data.length ≥ 64 then
      let buf := memcpy h.buf bufsize (data.take (64 - bufsize))
      (⟨ripemd160.Transform h.s buf, buf, (h.bytes + (64 - bufsize)) % 0x10000000000000000⟩,
        data.drop (64 - bufsize), 0)
    else (h, data, bufsize)
  let h1 := st1.1
  let data1 := st1.2.1
  let bufsize1 := st1.2.2
  -- while (end >= data + 64): process full chunks directly from the source
  let st2 := WriteChunks data1.length h1.s h1.bytes data1
  let h2 : RIPEMD160 := ⟨st2.1, h1.buf, st2.2.1⟩
  let data2 := st2.2.2
  -- if (end > data): fill the buffer with what remains
  if data2.length > 0 then
    ⟨h2.s, memcpy h2.buf bufsize1 data2, (h2.bytes + data2.length) % 0x10000000000000000⟩
  else h2

/-- The constant `pad[64] = {0x80}`. -/
def pad : List Nat := 0x80 :: List.replicate 63 0

/-- `RIPEMD160::Finalize(hash)`: the object after the call and the 20 bytes
written to `hash`. -/
def Finalize (h : RIPEMD160) : RIPEMD160 × List Nat :=
  let sizedesc := WriteLE64 ((h.bytes <<< 3) % 0x10000000000000000)
  let h1 := h.Write (pad.take (1 + ((119 - (h.bytes % 64)) % 64)))
  let h2 := h1.Write sizedesc
  (h2, WriteLE32 h2.s.s0 ++ WriteLE32 h2.s.s1 ++ WriteLE32 h2.s.s2 ++ WriteLE32 h2.s.s3 ++
       WriteLE32 h2.s.s4)

/-- `RIPEMD160::Reset()`. -/
def Reset (h : RIPEMD160) : RIPEMD160 := ⟨ripemd160.Initialize, h.buf, 0⟩

end RIPEMD160


/-! ## Observable state of the hash objects -/

namespace SHA256

/-- The buffered bytes: the first `bytes % 64` bytes of `buf`. -/
def pending (h : SHA256) : List Nat := h.buf.take (h.bytes % 64)

/-- The representation invariant of the class: a 64-byte buffer, a 64-bit counter. -/
def WF (h : SHA256) : Prop := h.buf.length = 64 ∧ h.bytes < 0x10000000000000000

end SHA256

namespace RIPEMD160

/-- The buffered bytes: the first `bytes % 64` bytes of `buf`. -/
def pending (h : RIPEMD160) : List Nat := h.buf.take (h.bytes % 64)

/-- The representation invariant of the class: a 64-byte buffer, a 64-bit counter. -/
def WF (h : RIPEMD160) : Prop := h.buf.length = 64 ∧ h.bytes < 0x10000000000000000

end RIPEMD160

/-! ## Field and scalar arithmetic (`secp256k1/field_impl.h`, `secp256k1/scalar_impl.h`)

These headers are not part of the sources at hand.  Their operations are modelled
from the specification: field elements are residues modulo a prime `p`, scalars are
residues modulo the group order `n`, and every operation is exact. -/

/-- Modelled from the spec: the constants of the missing field and scalar
implementation.  `p` is the field modulus, `n` the group order and `inv0` the value
that `secp256k1_fe_inv` returns for zero, which the specification leaves undefined. -/
structure secp256k1_params where
  p : Nat
  n : Nat
  inv0 : Nat
  deriving DecidableEq, Repr

/-- Modelled from the spec: the constants of the curve secp256k1 (the 256-bit field
prime and group order of the missing headers), with zero as inverse of zero. -/
def secp256k1 : secp256k1_params :=
  ⟨0xFFFFFFFFFFFFFFFFFFFFFFFFFFFFFFFFFFFFFFFFFFFFFFFFFFFFFFFEFFFFFC2F,
   0xFFFFFFFFFFFFFFFFFFFFFFFFFFFFFFFEBAAEDCE6AF48A03BBFD25E8CD0364141, 0⟩

/-- Square-and-multiply: `acc * b ^ e` modulo `m`; `fuel` bounds the bit length of `e`. -/
def powmodAux : Nat → Nat → Nat → Nat → Nat → Nat
  | 0, acc, _, _, _ => acc
  | fuel + 1, acc, b, e, m =>
    if e = 0 then acc
    else powmodAux fuel (if e % 2 = 1 then acc * b % m else acc) (b * b % m) (e / 2) m

/-- The power `b ^ e` modulo `m`. -/
def powmod (b e m : Nat) : Nat := powmodAux e (1 % m) (b % m) e m

/-! A field element (`secp256k1_fe`) is held by a natural number representing it; every
operation below returns the canonical representative. -/

/-- Modelled from the spec: `secp256k1_fe_add(r, a)`, `r += a`. -/
def secp256k1_fe_add (F : secp256k1_params) (r a : Nat) : Nat := (r + a) % F.p

/-- Modelled from the spec: `secp256k1_fe_negate(r, a, m)`, `r = -a`; the magnitude bound
`m` does not change the value. -/
def secp256k1_fe_negate (F : secp256k1_params) (a : Nat) (_m : Nat) : Nat :=
  (F.p - a % F.p) % F.p

/-- Modelled from the spec: `secp256k1_fe_mul(r, a, b)`, `r = a * b`. -/
def secp256k1_fe_mul (F : secp256k1_params) (a b : Nat) : Nat := (a * b) % F.p

/-- Modelled from the spec: `secp256k1_fe_sqr(r, a)`, `r = a * a`. -/
def secp256k1_fe_sqr (F : secp256k1_params) (a : Nat) : Nat := (a * a) % F.p

/-- Modelled from the spec: `secp256k1_fe_mul_int(r, k)`, `r *= k`. -/
def secp256k1_fe_mul_int (F : secp256k1_params) (r : Nat) (k : Nat) : Nat :=
  (r * k) % F.p

/-- Modelled from the spec: `secp256k1_fe_normalize(r)`, the canonical representative. -/
def secp256k1_fe_normalize (F : secp256k1_params) (r : Nat) : Nat := r % F.p

/-- Modelled from the spec: `secp256k1_fe_normalize_weak(r)`; the value is unchanged. -/
def secp256k1_fe_normalize_weak (F : secp256k1_params) (r : Nat) : Nat :=
  r % F.p

/-- Modelled from the spec: `secp256k1_fe_inv(r, a)`, the multiplicative inverse modulo
`p` of a non-zero element (`a ^ (p - 2)`), normalized; for zero the unspecified `inv0`. -/
def secp256k1_fe_inv (F : secp256k1_params) (a : Nat) : Nat :=
  if a % F.p = 0 then F.inv0 % F.p else powmod a (F.p - 2) F.p

/-- Modelled from the spec: `secp256k1_fe_equal(a, b)`. -/
def secp256k1_fe_equal (F : secp256k1_params) (a b : Nat) : Bool :=
  a % F.p == b % F.p

/-- Modelled from the spec: `secp256k1_fe_set_b32(r, a)`, the value of 32 big-endian bytes. -/
def secp256k1_fe_set_b32 (F : secp256k1_params) (a : List Nat) : Nat :=
  ((List.range 32).foldl (fun v i => v * 256 + byteAt a i) 0) % F.p

/-- Modelled from the spec: `secp256k1_fe_get_b32(r, a)`, the 32 big-endian bytes of a
normalized field element. -/
def secp256k1_fe_get_b32 (a : Nat) : List Nat := bytesBE 32 a

/-! A scalar (`secp256k1_scalar`) is held by its canonical representative. -/

/-- Modelled from the spec: `secp256k1_scalar_set_b32(r, bin, NULL)`, the value of 32
big-endian bytes reduced modulo `n`. -/
def secp256k1_scalar_set_b32 (F : secp256k1_params) (b32 : List Nat) : Nat :=
  ((List.range 32).foldl (fun v i => v * 256 + byteAt b32 i) 0) % F.n

/-- Modelled from the spec: `secp256k1_scalar_set_int(r, v)`. -/
def secp256k1_scalar_set_int (F : secp256k1_params) (v : Nat) : Nat := v % F.n

/-- Modelled from the spec: `secp256k1_scalar_add(r, a, b)`, addition modulo `n`. -/
def secp256k1_scalar_add (F : secp256k1_params) (a b : Nat) : Nat :=
  (a + b) % F.n

/-- Modelled from the spec: `secp256k1_scalar_is_zero(a)`. -/
def secp256k1_scalar_is_zero (a : Nat) : Bool := a == 0

/-- Modelled from the spec: `secp256k1_scalar_is_odd(a)`. -/
def secp256k1_scalar_is_odd (a : Nat) : Bool := a % 2 == 1

/-- Modelled from the spec: `secp256k1_scalar_shr_int(r, n)`, the scalar shifted right
by `n` bits in place. -/
def secp256k1_scalar_shr_int (r : Nat) (n : Nat) : Nat := r >>> n

/-! ## Curve points (`src/main.cpp`) -/

/-- The struct `secp256k1_ge`: an affine point. -/
structure secp256k1_ge where
  x : Nat
  y : Nat
  deriving DecidableEq, Repr

/-- `secp256k1_ge_equal(a, b)`. -/
def secp256k1_ge_equal (F : secp256k1_params) (a b : secp256k1_ge) : Bool :=
  secp256k1_fe_equal F a.x b.x && secp256k1_fe_equal F a.y b.y

/-- `secp256k1_ge_dbl(r, a)`: the value stored in `r`. -/
def secp256k1_ge_dbl (F : secp256k1_params) (a : secp256k1_ge) : secp256k1_ge :=
  -- c = 3 * pow(x, 2)
  let c := secp256k1_fe_sqr F a.x
  let c := secp256k1_fe_mul_int F c 3
  -- e = mod_inv(2 * y), free d
  let d := a.y
  let d := secp256k1_fe_mul_int F d 2
  let e := secp256k1_fe_inv F d
  -- d = slope = c * e, free c, e
  let d := secp256k1_fe_mul F c e
  -- c = pow(slope, 2, self.M)
  let c := secp256k1_fe_sqr F d
  -- r.x = c - 2 * x, free c
  let rx := a.x
  let rx := secp256k1_fe_mul_int F rx 2
  let rx := secp256k1_fe_normalize_weak F rx
  let rx := secp256k1_fe_negate F rx 1
  let rx := secp256k1_fe_add F rx c
  let rx := secp256k1_fe_normalize F rx
  -- c = slope * (x - r.x)
  let e := secp256k1_fe_negate F rx 1
  let e := secp256k1_fe_add F e a.x
  let c := secp256k1_fe_mul F e d
  let c := secp256k1_fe_normalize_weak F c
  -- r.y = c - y
  let ry := secp256k1_fe_negate F a.y 1
  let ry := secp256k1_fe_add F ry c
  let ry := secp256k1_fe_normalize F ry
  ⟨rx, ry⟩

/-- `secp256k1_ge_add(r, a, b)`: the value stored in `r`.  The check for equal
x-coordinates is commented out in the source. -/
def secp256k1_ge_add (F : secp256k1_params) (a b : secp256k1_ge) : secp256k1_ge :=
  -- c = y1 - y2
  let c := secp256k1_fe_negate F b.y 1
  let c := secp256k1_fe_add F c a.y
  -- d = x1 - x2
  let d := secp256k1_fe_negate F b.x 1
  let d := secp256k1_fe_add F d a.x
  -- d = slope = c * mod_inv(d), free c, e
  let e := secp256k1_fe_inv F d
  let d := secp256k1_fe_mul F c e
  -- e = pow(d, 2)
  let e := secp256k1_fe_sqr F d
  -- c = x1 + x2
  let c := a.x
  let c := secp256k1_fe_add F c b.x
  let c := secp256k1_fe_normalize_weak F c
  -- r.x = e - c, free c
  let rx := secp256k1_fe_negate F c 1
  let rx := secp256k1_fe_add F rx e
  let rx := secp256k1_fe_normalize F rx
  -- c = x1 - r.x
  let c := secp256k1_fe_negate F rx 1
  let c := secp256k1_fe_add F c a.x
  -- r.y = slope * c - y1
  let ry := secp256k1_fe_mul F d c
  let c := secp256k1_fe_negate F a.y 1
  let ry := secp256k1_fe_add F ry c
  let ry := secp256k1_fe_normalize F ry
  ⟨rx, ry⟩

/-- A call made by the loop of `secp256k1_ecmult`, with its input operands. -/
inductive ecmult_call where
  | add (a b : secp256k1_ge)
  | dbl (a : secp256k1_ge)
  deriving DecidableEq, Repr

/-- The variables of the loop of `secp256k1_ecmult`, and the calls made so far. -/
structure ecmult_state where
  r : secp256k1_ge
  base : secp256k1_ge
  cond : Nat
  first : Bool
  calls : List ecmult_call
  deriving DecidableEq, Repr

/-- The loop `while (!secp256k1_scalar_is_zero(&cond))` of `secp256k1_ecmult`.  Every
iteration shifts `cond` right by one bit; `fuel` bounds the number of iterations. -/
def secp256k1_ecmult_loop (F : secp256k1_params) : Nat → ecmult_state → ecmult_state
  | 0, st => st
  | fuel + 1, st =>
    if !secp256k1_scalar_is_zero st.cond then
      let st : ecmult_state :=
        if secp256k1_scalar_is_odd st.cond then
          if st.first then
            { st with first := false, r := st.base }
          else
            let t := secp256k1_ge_add F st.r st.base
            { st with r := t, calls := st.calls ++ [ecmult_call.add st.r st.base] }
        else st
      let t := secp256k1_ge_dbl F st.base
      secp256k1_ecmult_loop F fuel
        { st with base := t, cond := secp256k1_scalar_shr_int st.cond 1,
                  calls := st.calls ++ [ecmult_call.dbl st.base] }
    else st

/-- The state in which the loop of `secp256k1_ecmult(r, a, k)` ends; `r` is the content
of the output parameter before the call.  A scalar has 256 bits, so 256 iterations are
enough. -/
def secp256k1_ecmult_run (F : secp256k1_params) (r a : secp256k1_ge) (k : Nat) :
    ecmult_state :=
  secp256k1_ecmult_loop F 256 ⟨r, a, k, true, []⟩

/-- `secp256k1_ecmult(r, a, k)`: the value of `r` after the call, or `none` when the
assertion of a build with `VERIFY` fails. -/
def secp256k1_ecmult (F : secp256k1_params) (VERIFY : Bool) (r a : secp256k1_ge)
    (k : Nat) : Option secp256k1_ge :=
  if VERIFY && secp256k1_scalar_is_zero k then none
  else some (secp256k1_ecmult_run F r a k).r

/-- The generator written out in `main.cpp` (`n_gx`, `n_gy`). -/
def secp256k1_G : secp256k1_ge :=
  ⟨0x79BE667EF9DCBBAC55A06295CE870B07029BFCDB2DCE28D959F2815B16F81798,
   0x483ADA7726A3C4655DA4FBFC0E1108A8FD17B448A68554199C47D08FFB10D4B8⟩

/-! ## The hash pipeline (`src/main.cpp`) -/

/-- `generate_ripemd160hash(n_h160, public_key)`: the 20 bytes written to `n_h160`.
The 65-byte `buffer` first holds the serialized point and then, in its first 32
bytes, the SHA-256 digest. -/
def generate_ripemd160hash (public_key : secp256k1_ge) : List Nat :=
  let buffer := 0x04 :: List.replicate 64 0
  let buffer := memcpy buffer 1 (secp256k1_fe_get_b32 public_key.x)
  let buffer := memcpy buffer (1 + 32) (secp256k1_fe_get_b32 public_key.y)
  let sha256 := SHA256.init.Write (buffer.take 65)
  let buffer := memcpy buffer 0 sha256.Finalize.2
  let ripemd160 := RIPEMD160.init.Write (buffer.take 32)
  ripemd160.Finalize.2

/-! ## Self test and search loop (`src/main.cpp`) -/

/-- The bytes `n_gx` written out in `test_self_validate` and `start_task`. -/
def n_gx : List Nat :=
  [0x79, 0xBE, 0x66, 0x7E, 0xF9, 0xDC, 0xBB, 0xAC, 0x55, 0xA0, 0x62, 0x95, 0xCE, 0x87, 0x0B, 0x07,
   0x02, 0x9B, 0xFC, 0xDB, 0x2D, 0xCE, 0x28, 0xD9, 0x59, 0xF2, 0x81, 0x5B, 0x16, 0xF8, 0x17, 0x98]

/-- The bytes `n_gy` written out in `test_self_validate` and `start_task`. -/
def n_gy : List Nat :=
  [0x48, 0x3A, 0xDA, 0x77, 0x26, 0xA3, 0xC4, 0x65, 0x5D, 0xA4, 0xFB, 0xFC, 0x0E, 0x11, 0x08, 0xA8,
   0xFD, 0x17, 0xB4, 0x48, 0xA6, 0x85, 0x54, 0x19, 0x9C, 0x47, 0xD0, 0x8F, 0xFB, 0x10, 0xD4, 0xB8]

/-- The point `g` of `test_self_validate` and `start_task`:
`secp256k1_fe_set_b32(&(g.x), n_gx); secp256k1_fe_set_b32(&(g.y), n_gy)`. -/
def load_g (F : secp256k1_params) (gx gy : List Nat) : secp256k1_ge :=
  ⟨secp256k1_fe_set_b32 F gx, secp256k1_fe_set_b32 F gy⟩

/-- The loop body `secp256k1_ge_add(&t, &g, &r); secp256k1_ge_mov(&r, &t)` of
`test_self_validate` and `start_task`, run `m` times on `r`. -/
def advance (F : secp256k1_params) (g : secp256k1_ge) : Nat → secp256k1_ge → secp256k1_ge
  | 0, r => r
  | m + 1, r => advance F g m (secp256k1_ge_add F g r)

/-- `test_self_validate()` on the random draws `n_offset` and `n_private`: the value of
the asserted expression, or `none` when the assertion inside `secp256k1_ecmult` fails.
`gx`, `gy` are the bytes of the generator (`n_gx`, `n_gy` in the source) and `r1`, `r2`
the contents of the uninitialised locals. -/
def test_self_validate (F : secp256k1_params) (VERIFY : Bool) (gx gy : List Nat)
    (r1 r2 : secp256k1_ge) (n_offset : Nat) (n_private : List Nat) : Option Bool :=
  let offset := secp256k1_scalar_set_int F n_offset
  let k1 := secp256k1_scalar_set_b32 F n_private
  let k2 := secp256k1_scalar_add F k1 offset
  let g := load_g F gx gy
  (secp256k1_ecmult F VERIFY r1 g k1).bind fun r1 =>
    let r1 := advance F g n_offset r1
    (secp256k1_ecmult F VERIFY r2 g k2).bind fun r2 =>
      some (secp256k1_ge_equal F r1 r2)

/-- The point `r` that `start_task()` hashes in iteration `i` of its search loop, for the
key bytes `n_private` drawn from the seed: `secp256k1_ecmult(&r, &g, &k)` followed by `i`
runs of the step `r <- secp256k1_ge_add(g, r)`; `none` when the assertion inside
`secp256k1_ecmult` fails.  `r` is the content of the uninitialised local. -/
def start_task_point (F : secp256k1_params) (VERIFY : Bool) (gx gy : List Nat)
    (r : secp256k1_ge) (n_private : List Nat) (i : Nat) : Option secp256k1_ge :=
  let k := secp256k1_scalar_set_b32 F n_private
  let g := load_g F gx gy
  (secp256k1_ecmult F VERIFY r g k).map (advance F g i)

/-! ## The tests with known vectors (`src/main.cpp`) -/

/-- `test_secp256k1_ge_dlb()`: the conjunction of its two assertions. -/
def test_secp256k1_ge_dlb (F : secp256k1_params) : Bool :=
  let n_ax : List Nat :=
    [0x79, 0xBE, 0x66, 0x7E, 0xF9, 0xDC, 0xBB, 0xAC, 0x55, 0xA0, 0x62, 0x95, 0xCE, 0x87, 0x0B, 0x07,
     0x02, 0x9B, 0xFC, 0xDB, 0x2D, 0xCE, 0x28, 0xD9, 0x59, 0xF2, 0x81, 0x5B, 0x16, 0xF8, 0x17, 0x98]
  let n_ay : List Nat :=
    [0x48, 0x3A, 0xDA, 0x77, 0x26, 0xA3, 0xC4, 0x65, 0x5D, 0xA4, 0xFB, 0xFC, 0x0E, 0x11, 0x08, 0xA8,
     0xFD, 0x17, 0xB4, 0x48, 0xA6, 0x85, 0x54, 0x19, 0x9C, 0x47, 0xD0, 0x8F, 0xFB, 0x10, 0xD4, 0xB8]
  let n_tx : List Nat :=
    [0xc6, 0x04, 0x7f, 0x94, 0x41, 0xed, 0x7d, 0x6d, 0x30, 0x45, 0x40, 0x6e, 0x95, 0xc0, 0x7c, 0xd8,
     0x5c, 0x77, 0x8e, 0x4b, 0x8c, 0xef, 0x3c, 0xa7, 0xab, 0xac, 0x09, 0xb9, 0x5c, 0x70, 0x9e, 0xe5]
  let n_ty : List Nat :=
    [0x1a, 0xe1, 0x68, 0xfe, 0xa6, 0x3d, 0xc3, 0x39, 0xa3, 0xc5, 0x84, 0x19, 0x46, 0x6c, 0xea, 0xee,
     0xf7, 0xf6, 0x32, 0x65, 0x32, 0x66, 0xd0, 0xe1, 0x23, 0x64, 0x31, 0xa9, 0x50, 0xcf, 0xe5, 0x2a]
  let a : secp256k1_ge := ⟨secp256k1_fe_set_b32 F n_ax, secp256k1_fe_set_b32 F n_ay⟩
  let t : secp256k1_ge := ⟨secp256k1_fe_set_b32 F n_tx, secp256k1_fe_set_b32 F n_ty⟩
  let r := secp256k1_ge_dbl F a
  secp256k1_fe_equal F r.x t.x && secp256k1_fe_equal F r.y t.y

/-- `test_secp256k1_ge_add()`: the conjunction of its two assertions. -/
def test_secp256k1_ge_add (F : secp256k1_params) : Bool :=
  let n_ax : List Nat :=
    [0x79, 0xBE, 0x66, 0x7E, 0xF9, 0xDC, 0xBB, 0xAC, 0x55, 0xA0, 0x62, 0x95, 0xCE, 0x87, 0x0B, 0x07,
     0x02, 0x9B, 0xFC, 0xDB, 0x2D, 0xCE, 0x28, 0xD9, 0x59, 0xF2, 0x81, 0x5B, 0x16, 0xF8, 0x17, 0x98]
  let n_ay : List Nat :=
    [0x48, 0x3A, 0xDA, 0x77, 0x26, 0xA3, 0xC4, 0x65, 0x5D, 0xA4, 0xFB, 0xFC, 0x0E, 0x11, 0x08, 0xA8,
     0xFD, 0x17, 0xB4, 0x48, 0xA6, 0x85, 0x54, 0x19, 0x9C, 0x47, 0xD0, 0x8F, 0xFB, 0x10, 0xD4, 0xB8]
  let n_bx : List Nat :=
    [0xc6, 0x04, 0x7f, 0x94, 0x41, 0xed, 0x7d, 0x6d, 0x30, 0x45, 0x40, 0x6e, 0x95, 0xc0, 0x7c, 0xd8,
     0x5c, 0x77, 0x8e, 0x4b, 0x8c, 0xef, 0x3c, 0xa7, 0xab, 0xac, 0x09, 0xb9, 0x5c, 0x70, 0x9e, 0xe5]
  let n_by : List Nat :=
    [0x1a, 0xe1, 0x68, 0xfe, 0xa6, 0x3d, 0xc3, 0x39, 0xa3, 0xc5, 0x84, 0x19, 0x46, 0x6c, 0xea, 0xee,
     0xf7, 0xf6, 0x32, 0x65, 0x32, 0x66, 0xd0, 0xe1, 0x23, 0x64, 0x31, 0xa9, 0x50, 0xcf, 0xe5, 0x2a]
  let n_tx : List Nat :=
    [0xf9, 0x30, 0x8a, 0x01, 0x92, 0x58, 0xc3, 0x10, 0x49, 0x34, 0x4f, 0x85, 0xf8, 0x9d, 0x52, 0x29,
     0xb5, 0x31, 0xc8, 0x45, 0x83, 0x6f, 0x99, 0xb0, 0x86, 0x01, 0xf1, 0x13, 0xbc, 0xe0, 0x36, 0xf9]
  let n_ty : List Nat :=
    [0x38, 0x8f, 0x7b, 0x0f, 0x63, 0x2d, 0xe8, 0x14, 0x0f, 0xe3, 0x37, 0xe6, 0x2a, 0x37, 0xf3, 0x56,
     0x65, 0x00, 0xa9, 0x99, 0x34, 0xc2, 0x23, 0x1b, 0x6c, 0xb9, 0xfd, 0x75, 0x84, 0xb8, 0xe6, 0x72]
  let a : secp256k1_ge := ⟨secp256k1_fe_set_b32 F n_ax, secp256k1_fe_set_b32 F n_ay⟩
  let b : secp256k1_ge := ⟨secp256k1_fe_set_b32 F n_bx, secp256k1_fe_set_b32 F n_by⟩
  let t : secp256k1_ge := ⟨secp256k1_fe_set_b32 F n_tx, secp256k1_fe_set_b32 F n_ty⟩
  let r := secp256k1_ge_add F a b
  secp256k1_fe_equal F r.x t.x && secp256k1_fe_equal F r.y t.y

/-- `test_ripemd160hash()`: the conjunction of the assertions of its loop. -/
def test_ripemd160hash (F : secp256k1_params) : Bool :=
  let n_ax : List Nat :=
    [0x71, 0xee, 0x91, 0x8b, 0xc1, 0x9b, 0xb5, 0x66, 0xe3, 0xa5, 0xf1, 0x2c, 0x0c, 0xd0, 0xde, 0x62,
     0x0b, 0xec, 0x10, 0x25, 0xda, 0x6e, 0x98, 0x95, 0x13, 0x55, 0xeb, 0xbd, 0xe8, 0x72, 0x7b, 0xe3]
  let n_ay : List Nat :=
    [0x37, 0xb3, 0x65, 0x0e, 0xfa, 0xd4, 0x19, 0x0b, 0x73, 0x28, 0xb1, 0x15, 0x63, 0x04, 0xf2, 0xe9,
     0xe2, 0x3d, 0xbb, 0x7f, 0x2d, 0xa5, 0x09, 0x99, 0xdd, 0xe5, 0x0e, 0xa7, 0x3b, 0x4c, 0x26, 0x88]
  let n_h160t : List Nat :=
    [0x01, 0x50, 0x65, 0x1a, 0xd9, 0x13, 0x30, 0xad, 0x19, 0x13, 0xcb, 0x04, 0x91, 0x28, 0x17, 0xa8,
     0xd9, 0x80, 0xc9, 0xad]
  let a : secp256k1_ge := ⟨secp256k1_fe_set_b32 F n_ax, secp256k1_fe_set_b32 F n_ay⟩
  let n_h160r := generate_ripemd160hash a
  (List.range 20).all fun i => n_h160r.getD i 0 == n_h160t.getD i 0

/-- `test_secp256k1_ecmult()`: the conjunction of its two assertions, or `none` when the
assertion inside `secp256k1_ecmult` fails; `r` is the content of the uninitialised local. -/
def test_secp256k1_ecmult (F : secp256k1_params) (VERIFY : Bool) (r : secp256k1_ge) :
    Option Bool :=
  let n_gx : List Nat :=
    [0x79, 0xBE, 0x66, 0x7E, 0xF9, 0xDC, 0xBB, 0xAC, 0x55, 0xA0, 0x62, 0x95, 0xCE, 0x87, 0x0B, 0x07,
     0x02, 0x9B, 0xFC, 0xDB, 0x2D, 0xCE, 0x28, 0xD9, 0x59, 0xF2, 0x81, 0x5B, 0x16, 0xF8, 0x17, 0x98]
  let n_gy : List Nat :=
    [0x48, 0x3A, 0xDA, 0x77, 0x26, 0xA3, 0xC4, 0x65, 0x5D, 0xA4, 0xFB, 0xFC, 0x0E, 0x11, 0x08, 0xA8,
     0xFD, 0x17, 0xB4, 0x48, 0xA6, 0x85, 0x54, 0x19, 0x9C, 0x47, 0xD0, 0x8F, 0xFB, 0x10, 0xD4, 0xB8]
  let n_tx : List Nat :=
    [0x71, 0xee, 0x91, 0x8b, 0xc1, 0x9b, 0xb5, 0x66, 0xe3, 0xa5, 0xf1, 0x2c, 0x0c, 0xd0, 0xde, 0x62,
     0x0b, 0xec, 0x10, 0x25, 0xda, 0x6e, 0x98, 0x95, 0x13, 0x55, 0xeb, 0xbd, 0xe8, 0x72, 0x7b, 0xe3]
  let n_ty : List Nat :=
    [0x37, 0xb3, 0x65, 0x0e, 0xfa, 0xd4, 0x19, 0x0b, 0x73, 0x28, 0xb1, 0x15, 0x63, 0x04, 0xf2, 0xe9,
     0xe2, 0x3d, 0xbb, 0x7f, 0x2d, 0xa5, 0x09, 0x99, 0xdd, 0xe5, 0x0e, 0xa7, 0x3b, 0x4c, 0x26, 0x88]
  let n_private : List Nat :=
    [0xf8, 0xef, 0x38, 0x0d, 0x6c, 0x05, 0x11, 0x6d, 0xbe, 0xd7, 0x8b, 0xfd, 0xd6, 0xe6, 0x62, 0x5e,
     0x57, 0x42, 0x6a, 0xf9, 0xa0, 0x82, 0xb8, 0x1c, 0x2f, 0xa2, 0x7b, 0x06, 0x98, 0x4c, 0x11, 0xf3]
  let g : secp256k1_ge := ⟨secp256k1_fe_set_b32 F n_gx, secp256k1_fe_set_b32 F n_gy⟩
  let k := secp256k1_scalar_set_b32 F n_private
  let t : secp256k1_ge := ⟨secp256k1_fe_set_b32 F n_tx, secp256k1_fe_set_b32 F n_ty⟩
  (secp256k1_ecmult F VERIFY r g k).map fun r =>
    secp256k1_fe_equal F r.x t.x && secp256k1_fe_equal F r.y t.y

/-! ## The target table (`hex_to_bytes`, `build_search_table`) and the search loop -/

/-- The value of a character as a hexadecimal digit, if it is one (`0-9`, `a-f`, `A-F`);
characters are held by their codes. -/
def hex_digit_value (c : Nat) : Option Nat :=
  if 48 ≤ c ∧ c ≤ 57 then some (c - 48)
  else if 97 ≤ c ∧ c ≤ 102 then some (c - 87)
  else if 65 ≤ c ∧ c ≤ 70 then some (c - 55)
  else none

/-- `isspace` in the C locale: space, and the control characters `\t \n \v \f \r`. -/
def isspace (c : Nat) : Bool := c == 32 || (9 ≤ c && c ≤ 13)

/-- `(uint8_t)strtol(byteString.c_str(), NULL, 16)` on a string of at most two characters,
after the C standard: white space is skipped, a sign and a prefix `0x` are accepted, the
longest run of hexadecimal digits is converted, and the value is zero when there is none.
The string ends at a NUL character. -/
def strtol16 : List Nat → Nat
  | [] => 0
  | [a] =>
    match hex_digit_value a with
    | some x => x
    | none => 0
  | a :: b :: _ =>
    match hex_digit_value a, hex_digit_value b with
    | some x, some y => 16 * x + y
    | some x, none => x
    | none, some y =>
      if isspace a || a == 43 then y
      else if a == 45 then (256 - y) % 256
      else 0
    | none, none => 0

/-- `hex_to_bytes(hex)`: one byte for every two characters (`hex.substr(i, 2)`), and one
for a last single character. -/
def hex_to_bytes : List Nat → List Nat
  | [] => []
  | [a] => [strtol16 [a]]
  | a :: b :: rest => strtol16 [a, b] :: hex_to_bytes rest

/-- `to_vector(data, n)`. -/
def to_vector (data : List Nat) (n : Nat) : List Nat := data.take n

/-- The digit that `%x` prints for a value below 16. -/
def hex_char (d : Nat) : Nat := if d < 10 then 48 + d else 87 + d

/-- `printf("%02x", x)` for a byte `x`: two lowercase hexadecimal digits. -/
def printf_02x (x : Nat) : List Nat := [hex_char (x / 16 % 16), hex_char (x % 16)]

/-- The hexadecimal text that `print_hex` writes before the line feed. -/
def hex_text : List Nat → List Nat
  | [] => []
  | x :: a => printf_02x x ++ hex_text a

/-- `print_hex(a)`: the characters written to the standard output. -/
def print_hex (a : List Nat) : List Nat := hex_text a ++ [10]

/-- The character codes of a string. -/
def chars (s : String) : List Nat := s.toList.map Char.toNat

/-- How `build_search_table` ends. -/
inductive build_result where
  | table (t : List (List Nat))
  | file_not_opened
  | assertion_failed
  deriving DecidableEq, Repr

/-- `table.insert(h160bytes)` on a `std::set`. -/
def table_insert (table : List (List Nat)) (h : List Nat) : List (List Nat) :=
  if h ∈ table then table else table ++ [h]

/-- The loop `while (std::getline(infile, line))` of `build_search_table` on the lines
still to be read.  Its body ends in an unconditional `break`, so the lines after the
first are not read. -/
def build_search_table_loop (table : List (List Nat)) : List (List Nat) → build_result
  | [] => build_result.table table
  | line :: _ =>
    -- assert(line.length() == 40)
    if line.length ≠ 40 then build_result.assertion_failed
    else
      let h160bytes := hex_to_bytes line
      -- assert(h160bytes.size() == 20)
      if h160bytes.length ≠ 20 then build_result.assertion_failed
      else
        let table := table_insert table h160bytes
        -- break
        build_result.table table

/-- `build_search_table()` on the content of the target file, given by its lines (`none`
when the file cannot be opened).  The lookup of `4616b2c0…63da` that follows the loop
only prints a message. -/
def build_search_table (infile : Option (List (List Nat))) : build_result :=
  match infile with
  | none => build_result.file_not_opened
  | some lines => build_search_table_loop [] lines

/-- How the search loop of `start_task` ends: `Found` when the digest of iteration `i` is
in the table (the digest is printed and `std::runtime_error("Exit Success!")` is thrown),
`Returned` when the loop condition `i < 0xFFFFFFFF` fails.  `adds` counts the calls of
`secp256k1_ge_add` made by the loop. -/
inductive search_outcome where
  | Found (i : Nat) (n_h160 : List Nat) (adds : Nat)
  | Returned (i : Nat) (adds : Nat) (r : secp256k1_ge)
  deriving DecidableEq, Repr

/-- The loop `for (size_t i = 0; i < 0xFFFFFFFF; i += 1)` of `start_task` with `n`
iterations to go, in iteration `i` with the running point `r`. -/
def start_task_loop (F : secp256k1_params) (g : secp256k1_ge) (table : List (List Nat)) :
    Nat → Nat → Nat → secp256k1_ge → search_outcome
  | 0, i, adds, r => search_outcome.Returned i adds r
  | n + 1, i, adds, r =>
    -- gen h160
    let n_h160 := generate_ripemd160hash r
    -- do search
    if to_vector n_h160 20 ∈ table then search_outcome.Found i (to_vector n_h160 20) adds
    else
      -- next epoch
      let t := secp256k1_ge_add F g r
      start_task_loop F g table n (i + 1) (adds + 1) t

/-- `start_task()` from the key bytes `n_private` on: `secp256k1_ecmult(&r, &g, &k)` and
the search loop over `table`, the table that `build_search_table()` returned; `none` when
the assertion inside `secp256k1_ecmult` fails. -/
def start_task (F : secp256k1_params) (VERIFY : Bool) (gx gy : List Nat)
    (table : List (List Nat)) (r : secp256k1_ge) (n_private : List Nat) :
    Option search_outcome :=
  let k := secp256k1_scalar_set_b32 F n_private
  let g := load_g F gx gy
  (secp256k1_ecmult F VERIFY r g k).map (start_task_loop F g table 0xFFFFFFFF 0 0)

/-! ## Counting the calls of `secp256k1_ecmult`, its effect on the caller's memory, and the
seed of `start_task` -/

/-- Whether a call made by the loop of `secp256k1_ecmult` is a call of `secp256k1_ge_add`. -/
def ecmult_call.is_add : ecmult_call → Bool
  | ecmult_call.add _ _ => true
  | ecmult_call.dbl _ => false

/-- Whether a call made by the loop of `secp256k1_ecmult` is a call of `secp256k1_ge_dbl`. -/
def ecmult_call.is_dbl : ecmult_call → Bool
  | ecmult_call.add _ _ => false
  | ecmult_call.dbl _ => true

/-- The number of ones among the `n` low bits of `k`. -/
def popcountAux : Nat → Nat → Nat
  | 0, _ => 0
  | n + 1, k => k % 2 + popcountAux n (k / 2)

/-- The number of ones of a scalar of 256 bits. -/
def popcount (k : Nat) : Nat := popcountAux 256 k

/-- The objects of the caller that the pointer arguments of `secp256k1_ecmult` can refer
to: points and scalars, by address. -/
structure ecmult_memory where
  ge : Nat → secp256k1_ge
  scalar : Nat → Nat

/-- The memory and the local variables `base`, `cond`, `first` of `secp256k1_ecmult`. -/
structure ecmult_frame where
  ge : Nat → secp256k1_ge
  base : secp256k1_ge
  cond : Nat
  first : Bool

/-- The loop of `secp256k1_ecmult` on the memory of the caller: `r` is the object at the
address `pr`, read by `secp256k1_ge_add(&t, r, &base)` and written by
`secp256k1_ge_mov(r, ...)`; everything else the loop writes is local. -/
def secp256k1_ecmult_loop_mem (F : secp256k1_params) (pr : Nat) :
    Nat → ecmult_frame → ecmult_frame
  | 0, st => st
  | fuel + 1, st =>
    if !secp256k1_scalar_is_zero st.cond then
      let st : ecmult_frame :=
        if secp256k1_scalar_is_odd st.cond then
          if st.first then
            { st with first := false, ge := fun x => if x = pr then st.base else st.ge x }
          else
            let t := secp256k1_ge_add F (st.ge pr) st.base
            { st with ge := fun x => if x = pr then t else st.ge x }
        else st
      let t := secp256k1_ge_dbl F st.base
      secp256k1_ecmult_loop_mem F pr fuel
        { st with base := t, cond := secp256k1_scalar_shr_int st.cond 1 }
    else st

/-- `secp256k1_ecmult(r, a, k)` with the pointers `r = pr`, `a = pa`, `k = pk` on the
memory of the caller: the memory after the call, or `none` when the assertion of a build
with `VERIFY` fails.  `secp256k1_ge_mov(&base, a)` and `secp256k1_scalar_mov(&cond, k)`
read the objects at `pa` and `pk`. -/
def secp256k1_ecmult_mem (F : secp256k1_params) (VERIFY : Bool) (m : ecmult_memory)
    (pr pa pk : Nat) : Option ecmult_memory :=
  let base := m.ge pa
  let cond := m.scalar pk
  if VERIFY && secp256k1_scalar_is_zero cond then none
  else some ⟨(secp256k1_ecmult_loop_mem F pr 256 ⟨m.ge, base, cond, true⟩).ge, m.scalar⟩

/-- The assignments `seed = (seed << 8) >> 16; seed = seed * seed;` of `start_task` on the
`uint32_t` variable `seed`. -/
def start_task_seed (seed : Nat) : Nat :=
  let seed := ((seed <<< 8) % 0x100000000) >>> 16
  (seed * seed) % 0x100000000

/-- The start scalar of `start_task` for the value `s` drawn from the clock-seeded
generator.  `generator seed` stands for the 32 bytes `n_private` that
`std::default_random_engine generator(seed)` and the byte distribution of the standard
library produce. -/
def start_task_scalar (F : secp256k1_params) (generator : Nat → List Nat) (s : Nat) : Nat :=
  secp256k1_scalar_set_b32 F (generator (start_task_seed s))

/-! ## Block iteration shared by both reference hashes -/

namespace MD

/-- Folds a compression function over `n` successive 64-byte blocks of `l`. -/
def absorb {σ : Type} (C : σ → List Nat → σ) : Nat → σ → List Nat → σ
  | 0, H, _ => H
  | n + 1, H, l => absorb C n (C H l) (l.drop 64)

/-- Zero bytes are appended until the length is 56 modulo 64. -/
def zeroPad : Nat → List Nat → List Nat
  | 0, l => l
  | fuel + 1, l => if l.length % 64 = 56 then l else zeroPad fuel (l ++ [0])

/-- A compression function reads only the first 64 bytes of its input. -/
def Local {σ : Type} (C : σ → List Nat → σ) : Prop := ∀ H l, C H l = C H (l.take 64)

end MD

/-! ## Reference SHA-256 (FIPS 180-4), written from the standard -/

namespace SHA256Spec

open sha256 (State Sigma0 Sigma1 sigma0 sigma1 Ch Maj)

/-- Integer cube root by bisection: the largest `r < 2 ^ bits` with `r ^ 3 ≤ n`, added to `acc`. -/
def icbrtAux : Nat → Nat → Nat → Nat
  | 0, acc, _ => acc
  | bits + 1, acc, n =>
    if (acc + 2 ^ bits) ^ 3 ≤ n then icbrtAux bits (acc + 2 ^ bits) n else icbrtAux bits acc n

/-- The first sixty-four prime numbers. -/
def primes64 : List Nat :=
  [2, 3, 5, 7, 11, 13, 17, 19, 23, 29, 31, 37, 41, 43, 47, 53, 59, 61, 67, 71, 73, 79, 83, 89, 97,
   101, 103, 107, 109, 113, 127, 131, 137, 139, 149, 151, 157, 163, 167, 173, 179, 181, 191, 193,
   197, 199, 211, 223, 227, 229, 233, 239, 241, 251, 257, 263, 269, 271, 277, 281, 283, 293, 307,
   311]

/-- The 64 round constants: the first thirty-two bits of the fractional parts of the cube
roots of the first sixty-four primes, `floor(2^32 * cbrt(q)) mod 2^32`. -/
def K : List Nat := primes64.map fun q => icbrtAux 40 0 (q * 2 ^ 96) % 2 ^ 32

/-- Big-endian value of the four bytes at offset `4 * t` of a block. -/
def word (block : List Nat) (t : Nat) : Nat :=
  byteAt block (4 * t) * 2^24 + byteAt block (4 * t + 1) * 2^16 + byteAt block (4 * t + 2) * 2^8 +
    byteAt block (4 * t + 3)

/-- Appends `W_t = sigma1(W_{t-2}) + W_{t-7} + sigma0(W_{t-15}) + W_{t-16}` to the
words `W_0 .. W_{t-1}`. -/
def extend (ws : List Nat) : List Nat :=
  let t := ws.length
  ws ++ [(sigma1 (ws.getD (t - 2) 0) + ws.getD (t - 7) 0 + sigma0 (ws.getD (t - 15) 0) +
    ws.getD (t - 16) 0) % 0x100000000]

/-- The message schedule `W_0 .. W_63` of a block. -/
def schedule (block : List Nat) : List Nat :=
  extend^[48] ((List.range 16).map (word block))

/-- One round on the working variables `a .. h`. -/
def round (v : State) (k w : Nat) : State :=
  let T1 := (v.s7 + Sigma1 v.s4 + Ch v.s4 v.s5 v.s6 + k + w) % 0x100000000
  let T2 := (Sigma0 v.s0 + Maj v.s0 v.s1 v.s2) % 0x100000000
  ⟨(T1 + T2) % 0x100000000, v.s0, v.s1, v.s2, (v.s3 + T1) % 0x100000000, v.s4, v.s5, v.s6⟩

/-- The working variables after `t` rounds. -/
def rounds (W : List Nat) (H : State) : Nat → State
  | 0 => H
  | t + 1 => round (rounds W H t) (K.getD t 0) (W.getD t 0)

/-- The compression function: 64 rounds, then the feed-forward addition. -/
def compress (H : State) (block : List Nat) : State :=
  let v := rounds (schedule block) H 64
  ⟨(H.s0 + v.s0) % 0x100000000, (H.s1 + v.s1) % 0x100000000, (H.s2 + v.s2) % 0x100000000, (H.s3 + v.s3) % 0x100000000,
   (H.s4 + v.s4) % 0x100000000, (H.s5 + v.s5) % 0x100000000, (H.s6 + v.s6) % 0x100000000, (H.s7 + v.s7) % 0x100000000⟩

/-- Big-endian encoding of `x` on `n` bytes. -/
def bigEndian : Nat → Nat → List Nat
  | 0, _ => []
  | n + 1, x => bigEndian n (x / 256) ++ [x % 256]

/-- The padded message: `0x80`, zeros up to 56 modulo 64, the bit length on 64 bits. -/
def padded (m : List Nat) : List Nat :=
  MD.zeroPad 64 (m ++ [0x80]) ++ bigEndian 8 (8 * m.length)

/-- The digest: the eight final state words, big-endian. -/
def hash (m : List Nat) : List Nat :=
  let H := MD.absorb compress ((padded m).length / 64) sha256.Initialize (padded m)
  bigEndian 4 H.s0 ++ bigEndian 4 H.s1 ++ bigEndian 4 H.s2 ++ bigEndian 4 H.s3 ++
  bigEndian 4 H.s4 ++ bigEndian 4 H.s5 ++ bigEndian 4 H.s6 ++ bigEndian 4 H.s7

end SHA256Spec

namespace SHA256Spec

/-- The complement `~x` of a 32-bit word. -/
def not32 (x : Nat) : Nat := 0xFFFFFFFF - x

/-- The function `Ch` as FIPS 180-4 writes it: `(x & y) ^ (~x & z)`. -/
def ChText (x y z : Nat) : Nat := (x &&& y) ^^^ (not32 x &&& z)

/-- The function `Maj` as FIPS 180-4 writes it: `(x & y) ^ (x & z) ^ (y & z)`. -/
def MajText (x y z : Nat) : Nat := (x &&& y) ^^^ (x &&& z) ^^^ (y &&& z)

end SHA256Spec

namespace SHA256Spec

open sha256 (State)

/-- The eight words of a state, big-endian. -/
def stateBytes (H : State) : List Nat :=
  bigEndian 4 H.s0 ++ bigEndian 4 H.s1 ++ bigEndian 4 H.s2 ++ bigEndian 4 H.s3 ++
  bigEndian 4 H.s4 ++ bigEndian 4 H.s5 ++ bigEndian 4 H.s6 ++ bigEndian 4 H.s7

/-- The second block of a padded 64-byte message. -/
def padBlock64 : List Nat := 0x80 :: List.replicate 55 0 ++ [0, 0, 0, 0, 0, 0, 0x02, 0x00]

/-- The padding that completes the block of a 32-byte message. -/
def padBlock32 : List Nat := 0x80 :: List.replicate 23 0 ++ [0, 0, 0, 0, 0, 0, 0x01, 0x00]

end SHA256Spec

/-! ## Reference RIPEMD-160, table driven, written from the standard -/

namespace RIPEMD160Spec

open ripemd160 (State f1 f2 f3 f4 f5 rol)

/-- Message word order of the left line. -/
def rL : List Nat :=
  [0, 1, 2, 3, 4, 5, 6, 7, 8, 9, 10, 11, 12, 13, 14, 15,
   7, 4, 13, 1, 10, 6, 15, 3, 12, 0, 9, 5, 2, 14, 11, 8,
   3, 10, 14, 4, 9, 15, 8, 1, 2, 7, 0, 6, 13, 11, 5, 12,
   1, 9, 11, 10, 0, 8, 12, 4, 13, 3, 7, 15, 14, 5, 6, 2,
   4, 0, 5, 9, 7, 12, 2, 10, 14, 1, 3, 8, 11, 6, 15, 13]

/-- Message word order of the right line. -/
def rR : List Nat :=
  [5, 14, 7, 0, 9, 2, 11, 4, 13, 6, 15, 8, 1, 10, 3, 12,
   6, 11, 3, 7, 0, 13, 5, 10, 14, 15, 8, 12, 4, 9, 1, 2,
   15, 5, 1, 3, 7, 14, 6, 9, 11, 8, 12, 2, 10, 0, 4, 13,
   8, 6, 4, 1, 3, 11, 15, 0, 5, 12, 2, 13, 9, 7, 10, 14,
   12, 15, 10, 4, 1, 5, 8, 7, 6, 2, 13, 14, 0, 3, 9, 11]

/-- Rotation amounts of the left line. -/
def sL : List Nat :=
  [11, 14, 15, 12, 5, 8, 7, 9, 11, 13, 14, 15, 6, 7, 9, 8,
   7, 6, 8, 13, 11, 9, 7, 15, 7, 12, 15, 9, 11, 7, 13, 12,
   11, 13, 6, 7, 14, 9, 13, 15, 14, 8, 13, 6, 5, 12, 7, 5,
   11, 12, 14, 15, 14, 15, 9, 8, 9, 14, 5, 6, 8, 6, 5, 12,
   9, 15, 5, 11, 6, 8, 13, 12, 5, 12, 13, 14, 11, 8, 5, 6]

/-- Rotation amounts of the right line. -/
def sR : List Nat :=
  [8, 9, 9, 11, 13, 15, 15, 5, 7, 7, 8, 11, 14, 14, 12, 6,
   9, 13, 15, 7, 12, 8, 9, 11, 7, 7, 12, 7, 6, 15, 13, 11,
   9, 7, 15, 11, 8, 6, 6, 14, 12, 13, 5, 14, 13, 13, 7, 5,
   15, 5, 8, 11, 14, 14, 6, 14, 6, 9, 12, 9, 12, 5, 15, 8,
   8, 5, 12, 9, 12, 5, 14, 6, 8, 13, 6, 5, 15, 13, 11, 11]

/-- Constants of the left line, one per group of 16 steps. -/
def KL : List Nat := [0x00000000, 0x5A827999, 0x6ED9EBA1, 0x8F1BBCDC, 0xA953FD4E]

/-- Constants of the right line, one per group of 16 steps. -/
def KR : List Nat := [0x50A28BE6, 0x5C4DD124, 0x6D703EF3, 0x7A6D76E9, 0x00000000]

/-- The boolean function of group `i` (0-based): `f1 .. f5`. -/
def fsel (i x y z : Nat) : Nat :=
  match i with
  | 0 => f1 x y z
  | 1 => f2 x y z
  | 2 => f3 x y z
  | 3 => f4 x y z
  | _ => f5 x y z

/-- Little-endian value of the four bytes at offset `4 * i` of a block. -/
def word (block : List Nat) (i : Nat) : Nat :=
  byteAt block (4 * i) + byteAt block (4 * i + 1) * 2^8 + byteAt block (4 * i + 2) * 2^16 +
    byteAt block (4 * i + 3) * 2^24

/-- One step on the working variables `A .. E` of a line. -/
def step (v : State) (fv x k s : Nat) : State :=
  ⟨v.s4, (rol ((v.s0 + fv + x + k) % 0x100000000) s + v.s4) % 0x100000000, v.s1, rol v.s2 10, v.s3⟩

/-- The left line after `j` steps. -/
def lineL (X : List Nat) (H : State) : Nat → State
  | 0 => H
  | j + 1 =>
    let v := lineL X H j
    step v (fsel (j / 16) v.s1 v.s2 v.s3) (X.getD (rL.getD j 0) 0) (KL.getD (j / 16) 0) (sL.getD j 0)

/-- The right line after `j` steps. -/
def lineR (X : List Nat) (H : State) : Nat → State
  | 0 => H
  | j + 1 =>
    let v := lineR X H j
    step v (fsel (4 - j / 16) v.s1 v.s2 v.s3) (X.getD (rR.getD j 0) 0) (KR.getD (j / 16) 0)
      (sR.getD j 0)

/-- The final combination of the chaining value with the two lines. -/
def merge (H l r : State) : State :=
  ⟨(H.s1 + l.s2 + r.s3) % 0x100000000, (H.s2 + l.s3 + r.s4) % 0x100000000,
   (H.s3 + l.s4 + r.s0) % 0x100000000, (H.s4 + l.s0 + r.s1) % 0x100000000,
   (H.s0 + l.s1 + r.s2) % 0x100000000⟩

/-- The compression function: both lines of 80 steps on the 16 message words, then the merge. -/
def compress (H : State) (block : List Nat) : State :=
  let X := (List.range 16).map (word block)
  merge H (lineL X H 80) (lineR X H 80)

/-- Little-endian encoding of `x` on `n` bytes. -/
def littleEndian : Nat → Nat → List Nat
  | 0, _ => []
  | n + 1, x => (x % 256) :: littleEndian n (x / 256)

/-- The padded message: `0x80`, zeros up to 56 modulo 64, the bit length on 64 bits,
little-endian. -/
def padded (m : List Nat) : List Nat :=
  MD.zeroPad 64 (m ++ [0x80]) ++ littleEndian 8 (8 * m.length)

/-- The digest: the five final state words, little-endian. -/
def hash (m : List Nat) : List Nat :=
  let H := MD.absorb compress ((padded m).length / 64) ripemd160.Initialize (padded m)
  littleEndian 4 H.s0 ++ littleEndian 4 H.s1 ++ littleEndian 4 H.s2 ++ littleEndian 4 H.s3 ++
  littleEndian 4 H.s4

end RIPEMD160Spec

/-! ## The curve and its group (Mathlib) -/

/-- The Weierstrass curve `y² = x³ + 7` over `ZMod p`. -/
def secp256k1_curve (p : Nat) : WeierstrassCurve (ZMod p) := ⟨0, 0, 0, 0, 7⟩

/-- The curve equation `y² = x³ + 7` modulo `p`, on the representatives of a point. -/
def secp256k1_on_curve (F : secp256k1_params) (a : secp256k1_ge) : Prop :=
  (a.y * a.y) % F.p = (a.x * a.x * a.x + 7) % F.p

instance (F : secp256k1_params) (a : secp256k1_ge) : Decidable (secp256k1_on_curve F a) :=
  inferInstanceAs (Decidable (_ = _))

instance secp256k1_decidable_nonsingular (p : Nat) (x y : ZMod p) :
    Decidable ((secp256k1_curve p).toAffine.Nonsingular x y) :=
  decidable_of_iff
    ((y ^ 2 + (secp256k1_curve p).toAffine.a₁ * x * y + (secp256k1_curve p).toAffine.a₃ * y -
          (x ^ 3 + (secp256k1_curve p).toAffine.a₂ * x ^ 2 + (secp256k1_curve p).toAffine.a₄ * x +
            (secp256k1_curve p).toAffine.a₆) = 0) ∧
      ((secp256k1_curve p).toAffine.a₁ * y -
            (3 * x ^ 2 + 2 * (secp256k1_curve p).toAffine.a₂ * x +
              (secp256k1_curve p).toAffine.a₄) ≠ 0 ∨
        2 * y + (secp256k1_curve p).toAffine.a₁ * x + (secp256k1_curve p).toAffine.a₃ ≠ 0))
    (by rw [WeierstrassCurve.Affine.nonsingular_iff', WeierstrassCurve.Affine.equation_iff'])

/-- The element of the curve group held by a `secp256k1_ge`: the affine point with its
coordinates, and the point at infinity if these are not on the curve. -/
def secp256k1_point (F : secp256k1_params) (a : secp256k1_ge) :
    (secp256k1_curve F.p).toAffine.Point :=
  if h : (secp256k1_curve F.p).toAffine.Nonsingular (a.x : ZMod F.p) (a.y : ZMod F.p) then
    WeierstrassCurve.Affine.Point.some h
  else 0

/-- A call of the loop of `secp256k1_ecmult` is non-degenerate: an addition has operands
with different x-coordinates, a doubling an operand with non-zero y-coordinate. -/
def ecmult_call.nondegenerate (F : secp256k1_params) : ecmult_call → Prop
  | ecmult_call.add a b => a.x % F.p ≠ b.x % F.p
  | ecmult_call.dbl a => a.y % F.p ≠ 0

/-- The curve `y² = x³ + 7` over the field with 13 elements, with the point `(7, 5)` of
prime order 7: the same code on a field small enough to enumerate. -/
def curve13 : secp256k1_params := ⟨13, 7, 0⟩

/-- The 32 big-endian bytes of a number below 256. -/
def b32_of_small (v : Nat) : List Nat := List.replicate 31 0 ++ [v]

instance curve13_fact : Fact (Nat.Prime curve13.p) := ⟨by show Nat.Prime 13; norm_num⟩

instance curve13_n_fact : Fact (Nat.Prime curve13.n) := ⟨by show Nat.Prime 7; norm_num⟩

/-! # Theorems -/

namespace sha256

set_option maxRecDepth 100000 in
/-- Statements about `TransformBlock s chunk` can be proved on the body of
`TransformBlock` with its local bindings exposed. -/
theorem TransformBlock_elim (s : State) (chunk : List Nat) (R : State)
    (h :
      let a := s.s0
      let b := s.s1
      let c := s.s2
      let d := s.s3
      let e := s.s4
      let f := s.s5
      let g := s.s6
      let h := s.s7
      let w0 := ReadBE32 chunk 0
      let p := Round a b c d e f g h ((0x428a2f98 + w0) % 0x100000000)
      let d := p.1
      let h := p.2
      let w1 := ReadBE32 chunk 4
      let p := Round h a b c d e f g ((0x71374491 + w1) % 0x100000000)
      let c := p.1
      let g := p.2
      let w2 := ReadBE32 chunk 8
      let p := Round g h a b c d e f ((0xb5c0fbcf + w2) % 0x100000000)
      let b := p.1
      let f := p.2
      let w3 := ReadBE32 chunk 12
      let p := Round f g h a b c d e ((0xe9b5dba5 + w3) % 0x100000000)
      let a := p.1
      let e := p.2
      let w4 := ReadBE32 chunk 16
      let p := Round e f g h a b c d ((0x3956c25b + w4) % 0x100000000)
      let h := p.1
      let d := p.2
      let w5 := ReadBE32 chunk 20
      let p := Round d e f g h a b c ((0x59f111f1 + w5) % 0x100000000)
      let g := p.1
      let c := p.2
      let w6 := ReadBE32 chunk 24
      let p := Round c d e f g h a b ((0x923f82a4 + w6) % 0x100000000)
      let f := p.1
      let b := p.2
      let w7 := ReadBE32 chunk 28
      let p := Round b c d e f g h a ((0xab1c5ed5 + w7) % 0x100000000)
      let e := p.1
      let a := p.2
      let w8 := ReadBE32 chunk 32
      let p := Round a b c d e f g h ((0xd807aa98 + w8) % 0x100000000)
      let d := p.1
      let h := p.2
      let w9 := ReadBE32 chunk 36
      let p := Round h a b c d e f g ((0x12835b01 + w9) % 0x100000000)
      let c := p.1
      let g := p.2
      let w10 := ReadBE32 chunk 40
      let p := Round g h a b c d e f ((0x243185be + w10) % 0x100000000)
      let b := p.1
      let f := p.2
      let w11 := ReadBE32 chunk 44
      let p := Round f g h a b c d e ((0x550c7dc3 + w11) % 0x100000000)
      let a := p.1
      let e := p.2
      let w12 := ReadBE32 chunk 48
      let p := Round e f g h a b c d ((0x72be5d74 + w12) % 0x100000000)
      let h := p.1
      let d := p.2
      let w13 := ReadBE32 chunk 52
      let p := Round d e f g h a b c ((0x80deb1fe + w13) % 0x100000000)
      let g := p.1
      let c := p.2
      let w14 := ReadBE32 chunk 56
      let p := Round c d e f g h a b ((0x9bdc06a7 + w14) % 0x100000000)
      let f := p.1
      let b := p.2
      let w15 := ReadBE32 chunk 60
      let p := Round b c d e f g h a ((0xc19bf174 + w15) % 0x100000000)
      let e := p.1
      let a := p.2
      let w0 := (w0 + (sigma1 w14 + w9 + sigma0 w1)) % 0x100000000
      let p := Round a b c d e f g h ((0xe49b69c1 + w0) % 0x100000000)
      let d := p.1
      let h := p.2
      let w1 := (w1 + (sigma1 w15 + w10 + sigma0 w2)) % 0x100000000
      let p := Round h a b c d e f g ((0xefbe4786 + w1) % 0x100000000)
      let c := p.1
      let g := p.2
      let w2 := (w2 + (sigma1 w0 + w11 + sigma0 w3)) % 0x100000000
      let p := Round g h a b c d e f ((0x0fc19dc6 + w2) % 0x100000000)
      let b := p.1
      let f := p.2
      let w3 := (w3 + (sigma1 w1 + w12 + sigma0 w4)) % 0x100000000
      let p := Round f g h a b c d e ((0x240ca1cc + w3) % 0x100000000)
      let a := p.1
      let e := p.2
      let w4 := (w4 + (sigma1 w2 + w13 + sigma0 w5)) % 0x100000000
      let p := Round e f g h a b c d ((0x2de92c6f + w4) % 0x100000000)
      let h := p.1
      let d := p.2
      let w5 := (w5 + (sigma1 w3 + w14 + sigma0 w6)) % 0x100000000
      let p := Round d e f g h a b c ((0x4a7484aa + w5) % 0x100000000)
      let g := p.1
      let c := p.2
      let w6 := (w6 + (sigma1 w4 + w15 + sigma0 w7)) % 0x100000000
      let p := Round c d e f g h a b ((0x5cb0a9dc + w6) % 0x100000000)
      let f := p.1
      let b := p.2
      let w7 := (w7 + (sigma1 w5 + w0 + sigma0 w8)) % 0x100000000
      let p := Round b c d e f g h a ((0x76f988da + w7) % 0x100000000)
      let e := p.1
      let a := p.2
      let w8 := (w8 + (sigma1 w6 + w1 + sigma0 w9)) % 0x100000000
      let p := Round a b c d e f g h ((0x983e5152 + w8) % 0x100000000)
      let d := p.1
      let h := p.2
      let w9 := (w9 + (sigma1 w7 + w2 + sigma0 w10)) % 0x100000000
      let p := Round h a b c d e f g ((0xa831c66d + w9) % 0x100000000)
      let c := p.1
      let g := p.2
      let w10 := (w10 + (sigma1 w8 + w3 + sigma0 w11)) % 0x100000000
      let p := Round g h a b c d e f ((0xb00327c8 + w10) % 0x100000000)
      let b := p.1
      let f := p.2
      let w11 := (w11 + (sigma1 w9 + w4 + sigma0 w12)) % 0x100000000
      let p := Round f g h a b c d e ((0xbf597fc7 + w11) % 0x100000000)
      let a := p.1
      let e := p.2
      let w12 := (w12 + (sigma1 w10 + w5 + sigma0 w13)) % 0x100000000
      let p := Round e f g h a b c d ((0xc6e00bf3 + w12) % 0x100000000)
      let h := p.1
      let d := p.2
      let w13 := (w13 + (sigma1 w11 + w6 + sigma0 w14)) % 0x100000000
      let p := Round d e f g h a b c ((0xd5a79147 + w13) % 0x100000000)
      let g := p.1
      let c := p.2
      let w14 := (w14 + (sigma1 w12 + w7 + sigma0 w15)) % 0x100000000
      let p := Round c d e f g h a b ((0x06ca6351 + w14) % 0x100000000)
      let f := p.1
      let b := p.2
      let w15 := (w15 + (sigma1 w13 + w8 + sigma0 w0)) % 0x100000000
      let p := Round b c d e f g h a ((0x14292967 + w15) % 0x100000000)
      let e := p.1
      let a := p.2
      let w0 := (w0 + (sigma1 w14 + w9 + sigma0 w1)) % 0x100000000
      let p := Round a b c d e f g h ((0x27b70a85 + w0) % 0x100000000)
      let d := p.1
      let h := p.2
      let w1 := (w1 + (sigma1 w15 + w10 + sigma0 w2)) % 0x100000000
      let p := Round h a b c d e f g ((0x2e1b2138 + w1) % 0x100000000)
      let c := p.1
      let g := p.2
      let w2 := (w2 + (sigma1 w0 + w11 + sigma0 w3)) % 0x100000000
      let p := Round g h a b c d e f ((0x4d2c6dfc + w2) % 0x100000000)
      let b := p.1
      let f := p.2
      let w3 := (w3 + (sigma1 w1 + w12 + sigma0 w4)) % 0x100000000
      let p := Round f g h a b c d e ((0x53380d13 + w3) % 0x100000000)
      let a := p.1
      let e := p.2
      let w4 := (w4 + (sigma1 w2 + w13 + sigma0 w5)) % 0x100000000
      let p := Round e f g h a b c d ((0x650a7354 + w4) % 0x100000000)
      let h := p.1
      let d := p.2
      let w5 := (w5 + (sigma1 w3 + w14 + sigma0 w6)) % 0x100000000
      let p := Round d e f g h a b c ((0x766a0abb + w5) % 0x100000000)
      let g := p.1
      let c := p.2
      let w6 := (w6 + (sigma1 w4 + w15 + sigma0 w7)) % 0x100000000
      let p := Round c d e f g h a b ((0x81c2c92e + w6) % 0x100000000)
      let f := p.1
      let b := p.2
      let w7 := (w7 + (sigma1 w5 + w0 + sigma0 w8)) % 0x100000000
      let p := Round b c d e f g h a ((0x92722c85 + w7) % 0x100000000)
      let e := p.1
      let a := p.2
      let w8 := (w8 + (sigma1 w6 + w1 + sigma0 w9)) % 0x100000000
      let p := Round a b c d e f g h ((0xa2bfe8a1 + w8) % 0x100000000)
      let d := p.1
      let h := p.2
      let w9 := (w9 + (sigma1 w7 + w2 + sigma0 w10)) % 0x100000000
      let p := Round h a b c d e f g ((0xa81a664b + w9) % 0x100000000)
      let c := p.1
      let g := p.2
      let w10 := (w10 + (sigma1 w8 + w3 + sigma0 w11)) % 0x100000000
      let p := Round g h a b c d e f ((0xc24b8b70 + w10) % 0x100000000)
      let b := p.1
      let f := p.2
      let w11 := (w11 + (sigma1 w9 + w4 + sigma0 w12)) % 0x100000000
      let p := Round f g h a b c d e ((0xc76c51a3 + w11) % 0x100000000)
      let a := p.1
      let e := p.2
      let w12 := (w12 + (sigma1 w10 + w5 + sigma0 w13)) % 0x100000000
      let p := Round e f g h a b c d ((0xd192e819 + w12) % 0x100000000)
      let h := p.1
      let d := p.2
      let w13 := (w13 + (sigma1 w11 + w6 + sigma0 w14)) % 0x100000000
      let p := Round d e f g h a b c ((0xd6990624 + w13) % 0x100000000)
      let g := p.1
      let c := p.2
      let w14 := (w14 + (sigma1 w12 + w7 + sigma0 w15)) % 0x100000000
      let p := Round c d e f g h a b ((0xf40e3585 + w14) % 0x100000000)
      let f := p.1
      let b := p.2
      let w15 := (w15 + (sigma1 w13 + w8 + sigma0 w0)) % 0x100000000
      let p := Round b c d e f g h a ((0x106aa070 + w15) % 0x100000000)
      let e := p.1
      let a := p.2
      let w0 := (w0 + (sigma1 w14 + w9 + sigma0 w1)) % 0x100000000
      let p := Round a b c d e f g h ((0x19a4c116 + w0) % 0x100000000)
      let d := p.1
      let h := p.2
      let w1 := (w1 + (sigma1 w15 + w10 + sigma0 w2)) % 0x100000000
      let p := Round h a b c d e f g ((0x1e376c08 + w1) % 0x100000000)
      let c := p.1
      let g := p.2
      let w2 := (w2 + (sigma1 w0 + w11 + sigma0 w3)) % 0x100000000
      let p := Round g h a b c d e f ((0x2748774c + w2) % 0x100000000)
      let b := p.1
      let f := p.2
      let w3 := (w3 + (sigma1 w1 + w12 + sigma0 w4)) % 0x100000000
      let p := Round f g h a b c d e ((0x34b0bcb5 + w3) % 0x100000000)
      let a := p.1
      let e := p.2
      let w4 := (w4 + (sigma1 w2 + w13 + sigma0 w5)) % 0x100000000
      let p := Round e f g h a b c d ((0x391c0cb3 + w4) % 0x100000000)
      let h := p.1
      let d := p.2
      let w5 := (w5 + (sigma1 w3 + w14 + sigma0 w6)) % 0x100000000
      let p := Round d e f g h a b c ((0x4ed8aa4a + w5) % 0x100000000)
      let g := p.1
      let c := p.2
      let w6 := (w6 + (sigma1 w4 + w15 + sigma0 w7)) % 0x100000000
      let p := Round c d e f g h a b ((0x5b9cca4f + w6) % 0x100000000)
      let f := p.1
      let b := p.2
      let w7 := (w7 + (sigma1 w5 + w0 + sigma0 w8)) % 0x100000000
      let p := Round b c d e f g h a ((0x682e6ff3 + w7) % 0x100000000)
      let e := p.1
      let a := p.2
      let w8 := (w8 + (sigma1 w6 + w1 + sigma0 w9)) % 0x100000000
      let p := Round a b c d e f g h ((0x748f82ee + w8) % 0x100000000)
      let d := p.1
      let h := p.2
      let w9 := (w9 + (sigma1 w7 + w2 + sigma0 w10)) % 0x100000000
      let p := Round h a b c d e f g ((0x78a5636f + w9) % 0x100000000)
      let c := p.1
      let g := p.2
      let w10 := (w10 + (sigma1 w8 + w3 + sigma0 w11)) % 0x100000000
      let p := Round g h a b c d e f ((0x84c87814 + w10) % 0x100000000)
      let b := p.1
      let f := p.2
      let w11 := (w11 + (sigma1 w9 + w4 + sigma0 w12)) % 0x100000000
      let p := Round f g h a b c d e ((0x8cc70208 + w11) % 0x100000000)
      let a := p.1
      let e := p.2
      let w12 := (w12 + (sigma1 w10 + w5 + sigma0 w13)) % 0x100000000
      let p := Round e f g h a b c d ((0x90befffa + w12) % 0x100000000)
      let h := p.1
      let d := p.2
      let w13 := (w13 + (sigma1 w11 + w6 + sigma0 w14)) % 0x100000000
      let p := Round d e f g h a b c ((0xa4506ceb + w13) % 0x100000000)
      let g := p.1
      let c := p.2
      let p := Round c d e f g h a b ((0xbef9a3f7 + (w14 + sigma1 w12 + w7 + sigma0 w15)) % 0x100000000)
      let f := p.1
      let b := p.2
      let p := Round b c d e f g h a ((0xc67178f2 + (w15 + sigma1 w13 + w8 + sigma0 w0)) % 0x100000000)
      let e := p.1
      let a := p.2
      State.mk ((s.s0 + a) % 0x100000000) ((s.s1 + b) % 0x100000000)
        ((s.s2 + c) % 0x100000000) ((s.s3 + d) % 0x100000000)
        ((s.s4 + e) % 0x100000000) ((s.s5 + f) % 0x100000000)
        ((s.s6 + g) % 0x100000000) ((s.s7 + h) % 0x100000000) = R) :
    TransformBlock s chunk = R := h

end sha256

namespace ripemd160

set_option maxRecDepth 100000 in
/-- Statements about `Transform s chunk` can be proved on the body of `Transform`
with its local bindings exposed. -/
theorem Transform_elim (s : State) (chunk : List Nat) (R : State)
    (h :
      let a1 := s.s0
      let b1 := s.s1
      let c1 := s.s2
      let d1 := s.s3
      let e1 := s.s4
      let a2 := a1
      let b2 := b1
      let c2 := c1
      let d2 := d1
      let e2 := e1
      let w0 := ReadLE32 chunk 0
      let w1 := ReadLE32 chunk 4
      let w2 := ReadLE32 chunk 8
      let w3 := ReadLE32 chunk 12
      let w4 := ReadLE32 chunk 16
      let w5 := ReadLE32 chunk 20
      let w6 := ReadLE32 chunk 24
      let w7 := ReadLE32 chunk 28
      let w8 := ReadLE32 chunk 32
      let w9 := ReadLE32 chunk 36
      let w10 := ReadLE32 chunk 40
      let w11 := ReadLE32 chunk 44
      let w12 := ReadLE32 chunk 48
      let w13 := ReadLE32 chunk 52
      let w14 := ReadLE32 chunk 56
      let w15 := ReadLE32 chunk 60
      let p := R11 a1 b1 c1 d1 e1 w0 11
      let a1 := p.1
      let c1 := p.2
      let p := R12 a2 b2 c2 d2 e2 w5 8
      let a2 := p.1
      let c2 := p.2
      let p := R11 e1 a1 b1 c1 d1 w1 14
      let e1 := p.1
      let b1 := p.2
      let p := R12 e2 a2 b2 c2 d2 w14 9
      let e2 := p.1
      let b2 := p.2
      let p := R11 d1 e1 a1 b1 c1 w2 15
      let d1 := p.1
      let a1 := p.2
      let p := R12 d2 e2 a2 b2 c2 w7 9
      let d2 := p.1
      let a2 := p.2
      let p := R11 c1 d1 e1 a1 b1 w3 12
      let c1 := p.1
      let e1 := p.2
      let p := R12 c2 d2 e2 a2 b2 w0 11
      let c2 := p.1
      let e2 := p.2
      let p := R11 b1 c1 d1 e1 a1 w4 5
      let b1 := p.1
      let d1 := p.2
      let p := R12 b2 c2 d2 e2 a2 w9 13
      let b2 := p.1
      let d2 := p.2
      let p := R11 a1 b1 c1 d1 e1 w5 8
      let a1 := p.1
      let c1 := p.2
      let p := R12 a2 b2 c2 d2 e2 w2 15
      let a2 := p.1
      let c2 := p.2
      let p := R11 e1 a1 b1 c1 d1 w6 7
      let e1 := p.1
      let b1 := p.2
      let p := R12 e2 a2 b2 c2 d2 w11 15
      let e2 := p.1
      let b2 := p.2
      let p := R11 d1 e1 a1 b1 c1 w7 9
      let d1 := p.1
      let a1 := p.2
      let p := R12 d2 e2 a2 b2 c2 w4 5
      let d2 := p.1
      let a2 := p.2
      let p := R11 c1 d1 e1 a1 b1 w8 11
      let c1 := p.1
      let e1 := p.2
      let p := R12 c2 d2 e2 a2 b2 w13 7
      let c2 := p.1
      let e2 := p.2
      let p := R11 b1 c1 d1 e1 a1 w9 13
      let b1 := p.1
      let d1 := p.2
      let p := R12 b2 c2 d2 e2 a2 w6 7
      let b2 := p.1
      let d2 := p.2
      let p := R11 a1 b1 c1 d1 e1 w10 14
      let a1 := p.1
      let c1 := p.2
      let p := R12 a2 b2 c2 d2 e2 w15 8
      let a2 := p.1
      let c2 := p.2
      let p := R11 e1 a1 b1 c1 d1 w11 15
      let e1 := p.1
      let b1 := p.2
      let p := R12 e2 a2 b2 c2 d2 w8 11
      let e2 := p.1
      let b2 := p.2
      let p := R11 d1 e1 a1 b1 c1 w12 6
      let d1 := p.1
      let a1 := p.2
      let p := R12 d2 e2 a2 b2 c2 w1 14
      let d2 := p.1
      let a2 := p.2
      let p := R11 c1 d1 e1 a1 b1 w13 7
      let c1 := p.1
      let e1 := p.2
      let p := R12 c2 d2 e2 a2 b2 w10 14
      let c2 := p.1
      let e2 := p.2
      let p := R11 b1 c1 d1 e1 a1 w14 9
      let b1 := p.1
      let d1 := p.2
      let p := R12 b2 c2 d2 e2 a2 w3 12
      let b2 := p.1
      let d2 := p.2
      let p := R11 a1 b1 c1 d1 e1 w15 8
      let a1 := p.1
      let c1 := p.2
      let p := R12 a2 b2 c2 d2 e2 w12 6
      let a2 := p.1
      let c2 := p.2
      let p := R21 e1 a1 b1 c1 d1 w7 7
      let e1 := p.1
      let b1 := p.2
      let p := R22 e2 a2 b2 c2 d2 w6 9
      let e2 := p.1
      let b2 := p.2
      let p := R21 d1 e1 a1 b1 c1 w4 6
      let d1 := p.1
      let a1 := p.2
      let p := R22 d2 e2 a2 b2 c2 w11 13
      let d2 := p.1
      let a2 := p.2
      let p := R21 c1 d1 e1 a1 b1 w13 8
      let c1 := p.1
      let e1 := p.2
      let p := R22 c2 d2 e2 a2 b2 w3 15
      let c2 := p.1
      let e2 := p.2
      let p := R21 b1 c1 d1 e1 a1 w1 13
      let b1 := p.1
      let d1 := p.2
      let p := R22 b2 c2 d2 e2 a2 w7 7
      let b2 := p.1
      let d2 := p.2
      let p := R21 a1 b1 c1 d1 e1 w10 11
      let a1 := p.1
      let c1 := p.2
      let p := R22 a2 b2 c2 d2 e2 w0 12
      let a2 := p.1
      let c2 := p.2
      let p := R21 e1 a1 b1 c1 d1 w6 9
      let e1 := p.1
      let b1 := p.2
      let p := R22 e2 a2 b2 c2 d2 w13 8
      let e2 := p.1
      let b2 := p.2
      let p := R21 d1 e1 a1 b1 c1 w15 7
      let d1 := p.1
      let a1 := p.2
      let p := R22 d2 e2 a2 b2 c2 w5 9
      let d2 := p.1
      let a2 := p.2
      let p := R21 c1 d1 e1 a1 b1 w3 15
      let c1 := p.1
      let e1 := p.2
      let p := R22 c2 d2 e2 a2 b2 w10 11
      let c2 := p.1
      let e2 := p.2
      let p := R21 b1 c1 d1 e1 a1 w12 7
      let b1 := p.1
      let d1 := p.2
      let p := R22 b2 c2 d2 e2 a2 w14 7
      let b2 := p.1
      let d2 := p.2
      let p := R21 a1 b1 c1 d1 e1 w0 12
      let a1 := p.1
      let c1 := p.2
      let p := R22 a2 b2 c2 d2 e2 w15 7
      let a2 := p.1
      let c2 := p.2
      let p := R21 e1 a1 b1 c1 d1 w9 15
      let e1 := p.1
      let b1 := p.2
      let p := R22 e2 a2 b2 c2 d2 w8 12
      let e2 := p.1
      let b2 := p.2
      let p := R21 d1 e1 a1 b1 c1 w5 9
      let d1 := p.1
      let a1 := p.2
      let p := R22 d2 e2 a2 b2 c2 w12 7
      let d2 := p.1
      let a2 := p.2
      let p := R21 c1 d1 e1 a1 b1 w2 11
      let c1 := p.1
      let e1 := p.2
      let p := R22 c2 d2 e2 a2 b2 w4 6
      let c2 := p.1
      let e2 := p.2
      let p := R21 b1 c1 d1 e1 a1 w14 7
      let b1 := p.1
      let d1 := p.2
      let p := R22 b2 c2 d2 e2 a2 w9 15
      let b2 := p.1
      let d2 := p.2
      let p := R21 a1 b1 c1 d1 e1 w11 13
      let a1 := p.1
      let c1 := p.2
      let p := R22 a2 b2 c2 d2 e2 w1 13
      let a2 := p.1
      let c2 := p.2
      let p := R21 e1 a1 b1 c1 d1 w8 12
      let e1 := p.1
      let b1 := p.2
      let p := R22 e2 a2 b2 c2 d2 w2 11
      let e2 := p.1
      let b2 := p.2
      let p := R31 d1 e1 a1 b1 c1 w3 11
      let d1 := p.1
      let a1 := p.2
      let p := R32 d2 e2 a2 b2 c2 w15 9
      let d2 := p.1
      let a2 := p.2
      let p := R31 c1 d1 e1 a1 b1 w10 13
      let c1 := p.1
      let e1 := p.2
      let p := R32 c2 d2 e2 a2 b2 w5 7
      let c2 := p.1
      let e2 := p.2
      let p := R31 b1 c1 d1 e1 a1 w14 6
      let b1 := p.1
      let d1 := p.2
      let p := R32 b2 c2 d2 e2 a2 w1 15
      let b2 := p.1
      let d2 := p.2
      let p := R31 a1 b1 c1 d1 e1 w4 7
      let a1 := p.1
      let c1 := p.2
      let p := R32 a2 b2 c2 d2 e2 w3 11
      let a2 := p.1
      let c2 := p.2
      let p := R31 e1 a1 b1 c1 d1 w9 14
      let e1 := p.1
      let b1 := p.2
      let p := R32 e2 a2 b2 c2 d2 w7 8
      let e2 := p.1
      let b2 := p.2
      let p := R31 d1 e1 a1 b1 c1 w15 9
      let d1 := p.1
      let a1 := p.2
      let p := R32 d2 e2 a2 b2 c2 w14 6
      let d2 := p.1
      let a2 := p.2
      let p := R31 c1 d1 e1 a1 b1 w8 13
      let c1 := p.1
      let e1 := p.2
      let p := R32 c2 d2 e2 a2 b2 w6 6
      let c2 := p.1
      let e2 := p.2
      let p := R31 b1 c1 d1 e1 a1 w1 15
      let b1 := p.1
      let d1 := p.2
      let p := R32 b2 c2 d2 e2 a2 w9 14
      let b2 := p.1
      let d2 := p.2
      let p := R31 a1 b1 c1 d1 e1 w2 14
      let a1 := p.1
      let c1 := p.2
      let p := R32 a2 b2 c2 d2 e2 w11 12
      let a2 := p.1
      let c2 := p.2
      let p := R31 e1 a1 b1 c1 d1 w7 8
      let e1 := p.1
      let b1 := p.2
      let p := R32 e2 a2 b2 c2 d2 w8 13
      let e2 := p.1
      let b2 := p.2
      let p := R31 d1 e1 a1 b1 c1 w0 13
      let d1 := p.1
      let a1 := p.2
      let p := R32 d2 e2 a2 b2 c2 w12 5
      let d2 := p.1
      let a2 := p.2
      let p := R31 c1 d1 e1 a1 b1 w6 6
      let c1 := p.1
      let e1 := p.2
      let p := R32 c2 d2 e2 a2 b2 w2 14
      let c2 := p.1
      let e2 := p.2
      let p := R31 b1 c1 d1 e1 a1 w13 5
      let b1 := p.1
      let d1 := p.2
      let p := R32 b2 c2 d2 e2 a2 w10 13
      let b2 := p.1
      let d2 := p.2
      let p := R31 a1 b1 c1 d1 e1 w11 12
      let a1 := p.1
      let c1 := p.2
      let p := R32 a2 b2 c2 d2 e2 w0 13
      let a2 := p.1
      let c2 := p.2
      let p := R31 e1 a1 b1 c1 d1 w5 7
      let e1 := p.1
      let b1 := p.2
      let p := R32 e2 a2 b2 c2 d2 w4 7
      let e2 := p.1
      let b2 := p.2
      let p := R31 d1 e1 a1 b1 c1 w12 5
      let d1 := p.1
      let a1 := p.2
      let p := R32 d2 e2 a2 b2 c2 w13 5
      let d2 := p.1
      let a2 := p.2
      let p := R41 c1 d1 e1 a1 b1 w1 11
      let c1 := p.1
      let e1 := p.2
      let p := R42 c2 d2 e2 a2 b2 w8 15
      let c2 := p.1
      let e2 := p.2
      let p := R41 b1 c1 d1 e1 a1 w9 12
      let b1 := p.1
      let d1 := p.2
      let p := R42 b2 c2 d2 e2 a2 w6 5
      let b2 := p.1
      let d2 := p.2
      let p := R41 a1 b1 c1 d1 e1 w11 14
      let a1 := p.1
      let c1 := p.2
      let p := R42 a2 b2 c2 d2 e2 w4 8
      let a2 := p.1
      let c2 := p.2
      let p := R41 e1 a1 b1 c1 d1 w10 15
      let e1 := p.1
      let b1 := p.2
      let p := R42 e2 a2 b2 c2 d2 w1 11
      let e2 := p.1
      let b2 := p.2
      let p := R41 d1 e1 a1 b1 c1 w0 14
      let d1 := p.1
      let a1 := p.2
      let p := R42 d2 e2 a2 b2 c2 w3 14
      let d2 := p.1
      let a2 := p.2
      let p := R41 c1 d1 e1 a1 b1 w8 15
      let c1 := p.1
      let e1 := p.2
      let p := R42 c2 d2 e2 a2 b2 w11 14
      let c2 := p.1
      let e2 := p.2
      let p := R41 b1 c1 d1 e1 a1 w12 9
      let b1 := p.1
      let d1 := p.2
      let p := R42 b2 c2 d2 e2 a2 w15 6
      let b2 := p.1
      let d2 := p.2
      let p := R41 a1 b1 c1 d1 e1 w4 8
      let a1 := p.1
      let c1 := p.2
      let p := R42 a2 b2 c2 d2 e2 w0 14
      let a2 := p.1
      let c2 := p.2
      let p := R41 e1 a1 b1 c1 d1 w13 9
      let e1 := p.1
      let b1 := p.2
      let p := R42 e2 a2 b2 c2 d2 w5 6
      let e2 := p.1
      let b2 := p.2
      let p := R41 d1 e1 a1 b1 c1 w3 14
      let d1 := p.1
      let a1 := p.2
      let p := R42 d2 e2 a2 b2 c2 w12 9
      let d2 := p.1
      let a2 := p.2
      let p := R41 c1 d1 e1 a1 b1 w7 5
      let c1 := p.1
      let e1 := p.2
      let p := R42 c2 d2 e2 a2 b2 w2 12
      let c2 := p.1
      let e2 := p.2
      let p := R41 b1 c1 d1 e1 a1 w15 6
      let b1 := p.1
      let d1 := p.2
      let p := R42 b2 c2 d2 e2 a2 w13 9
      let b2 := p.1
      let d2 := p.2
      let p := R41 a1 b1 c1 d1 e1 w14 8
      let a1 := p.1
      let c1 := p.2
      let p := R42 a2 b2 c2 d2 e2 w9 12
      let a2 := p.1
      let c2 := p.2
      let p := R41 e1 a1 b1 c1 d1 w5 6
      let e1 := p.1
      let b1 := p.2
      let p := R42 e2 a2 b2 c2 d2 w7 5
      let e2 := p.1
      let b2 := p.2
      let p := R41 d1 e1 a1 b1 c1 w6 5
      let d1 := p.1
      let a1 := p.2
      let p := R42 d2 e2 a2 b2 c2 w10 15
      let d2 := p.1
      let a2 := p.2
      let p := R41 c1 d1 e1 a1 b1 w2 12
      let c1 := p.1
      let e1 := p.2
      let p := R42 c2 d2 e2 a2 b2 w14 8
      let c2 := p.1
      let e2 := p.2
      let p := R51 b1 c1 d1 e1 a1 w4 9
      let b1 := p.1
      let d1 := p.2
      let p := R52 b2 c2 d2 e2 a2 w12 8
      let b2 := p.1
      let d2 := p.2
      let p := R51 a1 b1 c1 d1 e1 w0 15
      let a1 := p.1
      let c1 := p.2
      let p := R52 a2 b2 c2 d2 e2 w15 5
      let a2 := p.1
      let c2 := p.2
      let p := R51 e1 a1 b1 c1 d1 w5 5
      let e1 := p.1
      let b1 := p.2
      let p := R52 e2 a2 b2 c2 d2 w10 12
      let e2 := p.1
      let b2 := p.2
      let p := R51 d1 e1 a1 b1 c1 w9 11
      let d1 := p.1
      let a1 := p.2
      let p := R52 d2 e2 a2 b2 c2 w4 9
      let d2 := p.1
      let a2 := p.2
      let p := R51 c1 d1 e1 a1 b1 w7 6
      let c1 := p.1
      let e1 := p.2
      let p := R52 c2 d2 e2 a2 b2 w1 12
      let c2 := p.1
      let e2 := p.2
      let p := R51 b1 c1 d1 e1 a1 w12 8
      let b1 := p.1
      let d1 := p.2
      let p := R52 b2 c2 d2 e2 a2 w5 5
      let b2 := p.1
      let d2 := p.2
      let p := R51 a1 b1 c1 d1 e1 w2 13
      let a1 := p.1
      let c1 := p.2
      let p := R52 a2 b2 c2 d2 e2 w8 14
      let a2 := p.1
      let c2 := p.2
      let p := R51 e1 a1 b1 c1 d1 w10 12
      let e1 := p.1
      let b1 := p.2
      let p := R52 e2 a2 b2 c2 d2 w7 6
      let e2 := p.1
      let b2 := p.2
      let p := R51 d1 e1 a1 b1 c1 w14 5
      let d1 := p.1
      let a1 := p.2
      let p := R52 d2 e2 a2 b2 c2 w6 8
      let d2 := p.1
      let a2 := p.2
      let p := R51 c1 d1 e1 a1 b1 w1 12
      let c1 := p.1
      let e1 := p.2
      let p := R52 c2 d2 e2 a2 b2 w2 13
      let c2 := p.1
      let e2 := p.2
      let p := R51 b1 c1 d1 e1 a1 w3 13
      let b1 := p.1
      let d1 := p.2
      let p := R52 b2 c2 d2 e2 a2 w13 6
      let b2 := p.1
      let d2 := p.2
      let p := R51 a1 b1 c1 d1 e1 w8 14
      let a1 := p.1
      let c1 := p.2
      let p := R52 a2 b2 c2 d2 e2 w14 5
      let a2 := p.1
      let c2 := p.2
      let p := R51 e1 a1 b1 c1 d1 w11 11
      let e1 := p.1
      let b1 := p.2
      let p := R52 e2 a2 b2 c2 d2 w0 15
      let e2 := p.1
      let b2 := p.2
      let p := R51 d1 e1 a1 b1 c1 w6 8
      let d1 := p.1
      let a1 := p.2
      let p := R52 d2 e2 a2 b2 c2 w3 13
      let d2 := p.1
      let a2 := p.2
      let p := R51 c1 d1 e1 a1 b1 w15 5
      let c1 := p.1
      let e1 := p.2
      let p := R52 c2 d2 e2 a2 b2 w9 11
      let c2 := p.1
      let e2 := p.2
      let p := R51 b1 c1 d1 e1 a1 w13 6
      let b1 := p.1
      let d1 := p.2
      let p := R52 b2 c2 d2 e2 a2 w11 11
      let b2 := p.1
      let d2 := p.2
      let t := s.s0
      State.mk ((s.s1 + c1 + d2) % 0x100000000) ((s.s2 + d1 + e2) % 0x100000000)
        ((s.s3 + e1 + a2) % 0x100000000) ((s.s4 + a1 + b2) % 0x100000000)
        ((t + b1 + c2) % 0x100000000) = R) :
    Transform s chunk = R := h

end ripemd160

namespace SHA256Spec

open sha256 (State Sigma0 Sigma1 sigma0 sigma1 Ch Maj)

theorem extend_length (ws : List Nat) : (extend ws).length = ws.length + 1 := by
  simp [extend]

theorem iterate_extend_length (n : Nat) (ws : List Nat) :
    (extend^[n] ws).length = ws.length + n := by
  induction n generalizing ws with
  | zero => simp
  | succ n ih => rw [Function.iterate_succ_apply, ih, extend_length]; omega

theorem extend_getD_lt (ws : List Nat) (i : Nat) (h : i < ws.length) :
    (extend ws).getD i 0 = ws.getD i 0 := by
  simp [extend, List.getD_eq_getElem?_getD, List.getElem?_append_left h]

theorem iterate_extend_getD_lt (n : Nat) (ws : List Nat) (i : Nat) (h : i < ws.length) :
    (extend^[n] ws).getD i 0 = ws.getD i 0 := by
  induction n generalizing ws with
  | zero => simp
  | succ n ih =>
    rw [Function.iterate_succ_apply, ih _ (by rw [extend_length]; omega), extend_getD_lt _ _ h]

theorem extend_getD_length (ws : List Nat) :
    (extend ws).getD ws.length 0 =
      (sigma1 (ws.getD (ws.length - 2) 0) + ws.getD (ws.length - 7) 0 +
        sigma0 (ws.getD (ws.length - 15) 0) + ws.getD (ws.length - 16) 0) % 0x100000000 := by
  simp [extend, List.getD_eq_getElem?_getD]

theorem schedule_lt (block : List Nat) (t : Nat) (h : t < 16) :
    (schedule block).getD t 0 = word block t := by
  unfold schedule
  rw [iterate_extend_getD_lt _ _ _ (by simpa using h)]
  simp [List.getD_eq_getElem?_getD, List.getElem?_map, List.getElem?_range h]

theorem schedule_rec (block : List Nat) (t : Nat) (h16 : 16 ≤ t) (h64 : t < 64) :
    (schedule block).getD t 0 =
      (sigma1 ((schedule block).getD (t - 2) 0) + (schedule block).getD (t - 7) 0 +
        sigma0 ((schedule block).getD (t - 15) 0) + (schedule block).getD (t - 16) 0) % 0x100000000 := by
  have key : ∀ n, ∀ i, i < 16 + n → n ≤ 48 →
      (schedule block).getD i 0 = (extend^[n] ((List.range 16).map (word block))).getD i 0 := by
    intro n i hi hn
    unfold schedule
    obtain ⟨m, hm⟩ : ∃ m, 48 = m + n := ⟨48 - n, by omega⟩
    rw [hm, Function.iterate_add_apply, iterate_extend_getD_lt]
    rw [iterate_extend_length]; simpa using hi
  have hlen : (extend^[t - 16] ((List.range 16).map (word block))).length = t := by
    rw [iterate_extend_length]; simp; omega
  rw [key (t - 16 + 1) t (by omega) (by omega), Function.iterate_succ_apply']
  rw [key (t - 16) (t - 2) (by omega) (by omega), key (t - 16) (t - 7) (by omega) (by omega),
    key (t - 16) (t - 15) (by omega) (by omega), key (t - 16) (t - 16) (by omega) (by omega)]
  have := extend_getD_length (extend^[t - 16] ((List.range 16).map (word block)))
  rw [hlen] at this
  exact this

end SHA256Spec

namespace SHA256Spec

open sha256 (State Sigma0 Sigma1 sigma0 sigma1 Ch Maj Round TransformBlock)

theorem word_eq_ReadBE32 (block : List Nat) (t : Nat) : word block t = ReadBE32 block (4 * t) := rfl

/-- The feed-forward addition that ends the compression function. -/
def finish (H v : State) : State :=
  ⟨(H.s0 + v.s0) % 0x100000000, (H.s1 + v.s1) % 0x100000000, (H.s2 + v.s2) % 0x100000000,
   (H.s3 + v.s3) % 0x100000000, (H.s4 + v.s4) % 0x100000000, (H.s5 + v.s5) % 0x100000000,
   (H.s6 + v.s6) % 0x100000000, (H.s7 + v.s7) % 0x100000000⟩

theorem compress_eq_finish (H : State) (block : List Nat) :
    compress H block = finish H (rounds (schedule block) H 64) := rfl

/-- One source line `Round(..)` advances the reference working variables by one round. -/
theorem round_inv {W : List Nat} {H : State} {t a b c d e f g h k : Nat}
    (inv : rounds W H t = ⟨a, b, c, d, e, f, g, h⟩)
    (hk : k = (K.getD t 0 + W.getD t 0) % 0x100000000) :
    rounds W H (t + 1) =
      ⟨(Round a b c d e f g h k).2, a, b, c, (Round a b c d e f g h k).1, e, f, g⟩ := by
  subst hk
  simp only [rounds, inv, round, Round, State.mk.injEq, and_true, true_and]
  constructor <;> omega

theorem key_eq {W : List Nat} {t kc v : Nat} (hK : K.getD t 0 = kc) (hv : v = W.getD t 0) :
    (kc + v) % 0x100000000 = (K.getD t 0 + W.getD t 0) % 0x100000000 := by
  rw [hK, hv]

/-- The in-place update `w += sigma1(..) + w' + sigma0(..)` of the rolling window
produces the next schedule word. -/
theorem sched_inv {W : List Nat}
    (hrec : ∀ t, 16 ≤ t → t < 64 → W.getD t 0 =
      (sigma1 (W.getD (t - 2) 0) + W.getD (t - 7) 0 + sigma0 (W.getD (t - 15) 0) +
        W.getD (t - 16) 0) % 0x100000000)
    (t : Nat) (h16 : 16 ≤ t) (h64 : t < 64) {x16 x2 x7 x15 : Nat}
    (e16 : x16 = W.getD (t - 16) 0) (e2 : x2 = W.getD (t - 2) 0)
    (e7 : x7 = W.getD (t - 7) 0) (e15 : x15 = W.getD (t - 15) 0) :
    (x16 + (sigma1 x2 + x7 + sigma0 x15)) % 0x100000000 = W.getD t 0 := by
  rw [hrec t h16 h64, ← e16, ← e2, ← e7, ← e15]
  omega

/-- The last two lines add the schedule word without storing it. -/
theorem sched_last {W : List Nat}
    (hrec : ∀ t, 16 ≤ t → t < 64 → W.getD t 0 =
      (sigma1 (W.getD (t - 2) 0) + W.getD (t - 7) 0 + sigma0 (W.getD (t - 15) 0) +
        W.getD (t - 16) 0) % 0x100000000)
    (t : Nat) {kc : Nat} (hK : K.getD t 0 = kc) (h16 : 16 ≤ t) (h64 : t < 64)
    {x16 x2 x7 x15 : Nat}
    (e16 : x16 = W.getD (t - 16) 0) (e2 : x2 = W.getD (t - 2) 0)
    (e7 : x7 = W.getD (t - 7) 0) (e15 : x15 = W.getD (t - 15) 0) :
    (kc + (x16 + sigma1 x2 + x7 + sigma0 x15)) % 0x100000000 =
      (K.getD t 0 + W.getD t 0) % 0x100000000 := by
  rw [hK, hrec t h16 h64, ← e16, ← e2, ← e7, ← e15]
  omega

theorem finish_eq (s : State) {v : State} {a b c d e f g h : Nat}
    (inv : v = ⟨a, b, c, d, e, f, g, h⟩) :
    finish s v =
      ⟨(s.s0 + a) % 0x100000000, (s.s1 + b) % 0x100000000, (s.s2 + c) % 0x100000000,
       (s.s3 + d) % 0x100000000, (s.s4 + e) % 0x100000000, (s.s5 + f) % 0x100000000,
       (s.s6 + g) % 0x100000000, (s.s7 + h) % 0x100000000⟩ := by
  subst inv; rfl

set_option maxRecDepth 100000 in
/-- The unrolled block transformation of the source runs the 64 reference rounds on any
word list that satisfies the schedule equations of the block. -/
theorem TransformBlock_eq_rounds (s : State) (chunk : List Nat) (W : List Nat)
    (hW0 : ∀ t, t < 16 → ReadBE32 chunk (4 * t) = W.getD t 0)
    (hrec : ∀ t, 16 ≤ t → t < 64 → W.getD t 0 =
      (sigma1 (W.getD (t - 2) 0) + W.getD (t - 7) 0 + sigma0 (W.getD (t - 15) 0) +
        W.getD (t - 16) 0) % 0x100000000) :
    TransformBlock s chunk = finish s (rounds W s 64) := by
  refine sha256.TransformBlock_elim s chunk _ ?_
  intro a0 b0 c0 d0 e0 f0 g0 h0
  have inv0 : rounds W s 0 = ⟨a0, b0, c0, d0, e0, f0, g0, h0⟩ := rfl
  intro v0 p0 x0 y0
  have hv0 : v0 = W.getD 0 0 := (hW0 0 (by decide))
  have inv1 : rounds W s 1 = ⟨y0, a0, b0, c0, x0, e0, f0, g0⟩ :=
    round_inv inv0 (key_eq rfl hv0)
  intro v1 p1 x1 y1
  have hv1 : v1 = W.getD 1 0 := (hW0 1 (by decide))
  have inv2 : rounds W s 2 = ⟨y1, y0, a0, b0, x1, x0, e0, f0⟩ :=
    round_inv inv1 (key_eq rfl hv1)
  intro v2 p2 x2 y2
  have hv2 : v2 = W.getD 2 0 := (hW0 2 (by decide))
  have inv3 : rounds W s 3 = ⟨y2, y1, y0, a0, x2, x1, x0, e0⟩ :=
    round_inv inv2 (key_eq rfl hv2)
  intro v3 p3 x3 y3
  have hv3 : v3 = W.getD 3 0 := (hW0 3 (by decide))
  have inv4 : rounds W s 4 = ⟨y3, y2, y1, y0, x3, x2, x1, x0⟩ :=
    round_inv inv3 (key_eq rfl hv3)
  intro v4 p4 x4 y4
  have hv4 : v4 = W.getD 4 0 := (hW0 4 (by decide))
  have inv5 : rounds W s 5 = ⟨y4, y3, y2, y1, x4, x3, x2, x1⟩ :=
    round_inv inv4 (key_eq rfl hv4)
  intro v5 p5 x5 y5
  have hv5 : v5 = W.getD 5 0 := (hW0 5 (by decide))
  have inv6 : rounds W s 6 = ⟨y5, y4, y3, y2, x5, x4, x3, x2⟩ :=
    round_inv inv5 (key_eq rfl hv5)
  intro v6 p6 x6 y6
  have hv6 : v6 = W.getD 6 0 := (hW0 6 (by decide))
  have inv7 : rounds W s 7 = ⟨y6, y5, y4, y3, x6, x5, x4, x3⟩ :=
    round_inv inv6 (key_eq rfl hv6)
  intro v7 p7 x7 y7
  have hv7 : v7 = W.getD 7 0 := (hW0 7 (by decide))
  have inv8 : rounds W s 8 = ⟨y7, y6, y5, y4, x7, x6, x5, x4⟩ :=
    round_inv inv7 (key_eq rfl hv7)
  intro v8 p8 x8 y8
  have hv8 : v8 = W.getD 8 0 := (hW0 8 (by decide))
  have inv9 : rounds W s 9 = ⟨y8, y7, y6, y5, x8, x7, x6, x5⟩ :=
    round_inv inv8 (key_eq rfl hv8)
  intro v9 p9 x9 y9
  have hv9 : v9 = W.getD 9 0 := (hW0 9 (by decide))
  have inv10 : rounds W s 10 = ⟨y9, y8, y7, y6, x9, x8, x7, x6⟩ :=
    round_inv inv9 (key_eq rfl hv9)
  intro v10 p10 x10 y10
  have hv10 : v10 = W.getD 10 0 := (hW0 10 (by decide))
  have inv11 : rounds W s 11 = ⟨y10, y9, y8, y7, x10, x9, x8, x7⟩ :=
    round_inv inv10 (key_eq rfl hv10)
  intro v11 p11 x11 y11
  have hv11 : v11 = W.getD 11 0 := (hW0 11 (by decide))
  have inv12 : rounds W s 12 = ⟨y11, y10, y9, y8, x11, x10, x9, x8⟩ :=
    round_inv inv11 (key_eq rfl hv11)
  intro v12 p12 x12 y12
  have hv12 : v12 = W.getD 12 0 := (hW0 12 (by decide))
  have inv13 : rounds W s 13 = ⟨y12, y11, y10, y9, x12, x11, x10, x9⟩ :=
    round_inv inv12 (key_eq rfl hv12)
  intro v13 p13 x13 y13
  have hv13 : v13 = W.getD 13 0 := (hW0 13 (by decide))
  have inv14 : rounds W s 14 = ⟨y13, y12, y11, y10, x13, x12, x11, x10⟩ :=
    round_inv inv13 (key_eq rfl hv13)
  intro v14 p14 x14 y14
  have hv14 : v14 = W.getD 14 0 := (hW0 14 (by decide))
  have inv15 : rounds W s 15 = ⟨y14, y13, y12, y11, x14, x13, x12, x11⟩ :=
    round_inv inv14 (key_eq rfl hv14)
  intro v15 p15 x15 y15
  have hv15 : v15 = W.getD 15 0 := (hW0 15 (by decide))
  have inv16 : rounds W s 16 = ⟨y15, y14, y13, y12, x15, x14, x13, x12⟩ :=
    round_inv inv15 (key_eq rfl hv15)
  intro v16 p16 x16 y16
  have hv16 : v16 = W.getD 16 0 :=
    sched_inv hrec 16 (by decide) (by decide) hv0 hv14 hv9 hv1
  have inv17 : rounds W s 17 = ⟨y16, y15, y14, y13, x16, x15, x14, x13⟩ :=
    round_inv inv16 (key_eq rfl hv16)
  intro v17 p17 x17 y17
  have hv17 : v17 = W.getD 17 0 :=
    sched_inv hrec 17 (by decide) (by decide) hv1 hv15 hv10 hv2
  have inv18 : rounds W s 18 = ⟨y17, y16, y15, y14, x17, x16, x15, x14⟩ :=
    round_inv inv17 (key_eq rfl hv17)
  intro v18 p18 x18 y18
  have hv18 : v18 = W.getD 18 0 :=
    sched_inv hrec 18 (by decide) (by decide) hv2 hv16 hv11 hv3
  have inv19 : rounds W s 19 = ⟨y18, y17, y16, y15, x18, x17, x16, x15⟩ :=
    round_inv inv18 (key_eq rfl hv18)
  intro v19 p19 x19 y19
  have hv19 : v19 = W.getD 19 0 :=
    sched_inv hrec 19 (by decide) (by decide) hv3 hv17 hv12 hv4
  have inv20 : rounds W s 20 = ⟨y19, y18, y17, y16, x19, x18, x17, x16⟩ :=
    round_inv inv19 (key_eq rfl hv19)
  intro v20 p20 x20 y20
  have hv20 : v20 = W.getD 20 0 :=
    sched_inv hrec 20 (by decide) (by decide) hv4 hv18 hv13 hv5
  have inv21 : rounds W s 21 = ⟨y20, y19, y18, y17, x20, x19, x18, x17⟩ :=
    round_inv inv20 (key_eq rfl hv20)
  intro v21 p21 x21 y21
  have hv21 : v21 = W.getD 21 0 :=
    sched_inv hrec 21 (by decide) (by decide) hv5 hv19 hv14 hv6
  have inv22 : rounds W s 22 = ⟨y21, y20, y19, y18, x21, x20, x19, x18⟩ :=
    round_inv inv21 (key_eq rfl hv21)
  intro v22 p22 x22 y22
  have hv22 : v22 = W.getD 22 0 :=
    sched_inv hrec 22 (by decide) (by decide) hv6 hv20 hv15 hv7
  have inv23 : rounds W s 23 = ⟨y22, y21, y20, y19, x22, x21, x20, x19⟩ :=
    round_inv inv22 (key_eq rfl hv22)
  intro v23 p23 x23 y23
  have hv23 : v23 = W.getD 23 0 :=
    sched_inv hrec 23 (by decide) (by decide) hv7 hv21 hv16 hv8
  have inv24 : rounds W s 24 = ⟨y23, y22, y21, y20, x23, x22, x21, x20⟩ :=
    round_inv inv23 (key_eq rfl hv23)
  intro v24 p24 x24 y24
  have hv24 : v24 = W.getD 24 0 :=
    sched_inv hrec 24 (by decide) (by decide) hv8 hv22 hv17 hv9
  have inv25 : rounds W s 25 = ⟨y24, y23, y22, y21, x24, x23, x22, x21⟩ :=
    round_inv inv24 (key_eq rfl hv24)
  intro v25 p25 x25 y25
  have hv25 : v25 = W.getD 25 0 :=
    sched_inv hrec 25 (by decide) (by decide) hv9 hv23 hv18 hv10
  have inv26 : rounds W s 26 = ⟨y25, y24, y23, y22, x25, x24, x23, x22⟩ :=
    round_inv inv25 (key_eq rfl hv25)
  intro v26 p26 x26 y26
  have hv26 : v26 = W.getD 26 0 :=
    sched_inv hrec 26 (by decide) (by decide) hv10 hv24 hv19 hv11
  have inv27 : rounds W s 27 = ⟨y26, y25, y24, y23, x26, x25, x24, x23⟩ :=
    round_inv inv26 (key_eq rfl hv26)
  intro v27 p27 x27 y27
  have hv27 : v27 = W.getD 27 0 :=
    sched_inv hrec 27 (by decide) (by decide) hv11 hv25 hv20 hv12
  have inv28 : rounds W s 28 = ⟨y27, y26, y25, y24, x27, x26, x25, x24⟩ :=
    round_inv inv27 (key_eq rfl hv27)
  intro v28 p28 x28 y28
  have hv28 : v28 = W.getD 28 0 :=
    sched_inv hrec 28 (by decide) (by decide) hv12 hv26 hv21 hv13
  have inv29 : rounds W s 29 = ⟨y28, y27, y26, y25, x28, x27, x26, x25⟩ :=
    round_inv inv28 (key_eq rfl hv28)
  intro v29 p29 x29 y29
  have hv29 : v29 = W.getD 29 0 :=
    sched_inv hrec 29 (by decide) (by decide) hv13 hv27 hv22 hv14
  have inv30 : rounds W s 30 = ⟨y29, y28, y27, y26, x29, x28, x27, x26⟩ :=
    round_inv inv29 (key_eq rfl hv29)
  intro v30 p30 x30 y30
  have hv30 : v30 = W.getD 30 0 :=
    sched_inv hrec 30 (by decide) (by decide) hv14 hv28 hv23 hv15
  have inv31 : rounds W s 31 = ⟨y30, y29, y28, y27, x30, x29, x28, x27⟩ :=
    round_inv inv30 (key_eq rfl hv30)
  intro v31 p31 x31 y31
  have hv31 : v31 = W.getD 31 0 :=
    sched_inv hrec 31 (by decide) (by decide) hv15 hv29 hv24 hv16
  have inv32 : rounds W s 32 = ⟨y31, y30, y29, y28, x31, x30, x29, x28⟩ :=
    round_inv inv31 (key_eq rfl hv31)
  intro v32 p32 x32 y32
  have hv32 : v32 = W.getD 32 0 :=
    sched_inv hrec 32 (by decide) (by decide) hv16 hv30 hv25 hv17
  have inv33 : rounds W s 33 = ⟨y32, y31, y30, y29, x32, x31, x30, x29⟩ :=
    round_inv inv32 (key_eq rfl hv32)
  intro v33 p33 x33 y33
  have hv33 : v33 = W.getD 33 0 :=
    sched_inv hrec 33 (by decide) (by decide) hv17 hv31 hv26 hv18
  have inv34 : rounds W s 34 = ⟨y33, y32, y31, y30, x33, x32, x31, x30⟩ :=
    round_inv inv33 (key_eq rfl hv33)
  intro v34 p34 x34 y34
  have hv34 : v34 = W.getD 34 0 :=
    sched_inv hrec 34 (by decide) (by decide) hv18 hv32 hv27 hv19
  have inv35 : rounds W s 35 = ⟨y34, y33, y32, y31, x34, x33, x32, x31⟩ :=
    round_inv inv34 (key_eq rfl hv34)
  intro v35 p35 x35 y35
  have hv35 : v35 = W.getD 35 0 :=
    sched_inv hrec 35 (by decide) (by decide) hv19 hv33 hv28 hv20
  have inv36 : rounds W s 36 = ⟨y35, y34, y33, y32, x35, x34, x33, x32⟩ :=
    round_inv inv35 (key_eq rfl hv35)
  intro v36 p36 x36 y36
  have hv36 : v36 = W.getD 36 0 :=
    sched_inv hrec 36 (by decide) (by decide) hv20 hv34 hv29 hv21
  have inv37 : rounds W s 37 = ⟨y36, y35, y34, y33, x36, x35, x34, x33⟩ :=
    round_inv inv36 (key_eq rfl hv36)
  intro v37 p37 x37 y37
  have hv37 : v37 = W.getD 37 0 :=
    sched_inv hrec 37 (by decide) (by decide) hv21 hv35 hv30 hv22
  have inv38 : rounds W s 38 = ⟨y37, y36, y35, y34, x37, x36, x35, x34⟩ :=
    round_inv inv37 (key_eq rfl hv37)
  intro v38 p38 x38 y38
  have hv38 : v38 = W.getD 38 0 :=
    sched_inv hrec 38 (by decide) (by decide) hv22 hv36 hv31 hv23
  have inv39 : rounds W s 39 = ⟨y38, y37, y36, y35, x38, x37, x36, x35⟩ :=
    round_inv inv38 (key_eq rfl hv38)
  intro v39 p39 x39 y39
  have hv39 : v39 = W.getD 39 0 :=
    sched_inv hrec 39 (by decide) (by decide) hv23 hv37 hv32 hv24
  have inv40 : rounds W s 40 = ⟨y39, y38, y37, y36, x39, x38, x37, x36⟩ :=
    round_inv inv39 (key_eq rfl hv39)
  intro v40 p40 x40 y40
  have hv40 : v40 = W.getD 40 0 :=
    sched_inv hrec 40 (by decide) (by decide) hv24 hv38 hv33 hv25
  have inv41 : rounds W s 41 = ⟨y40, y39, y38, y37, x40, x39, x38, x37⟩ :=
    round_inv inv40 (key_eq rfl hv40)
  intro v41 p41 x41 y41
  have hv41 : v41 = W.getD 41 0 :=
    sched_inv hrec 41 (by decide) (by decide) hv25 hv39 hv34 hv26
  have inv42 : rounds W s 42 = ⟨y41, y40, y39, y38, x41, x40, x39, x38⟩ :=
    round_inv inv41 (key_eq rfl hv41)
  intro v42 p42 x42 y42
  have hv42 : v42 = W.getD 42 0 :=
    sched_inv hrec 42 (by decide) (by decide) hv26 hv40 hv35 hv27
  have inv43 : rounds W s 43 = ⟨y42, y41, y40, y39, x42, x41, x40, x39⟩ :=
    round_inv inv42 (key_eq rfl hv42)
  intro v43 p43 x43 y43
  have hv43 : v43 = W.getD 43 0 :=
    sched_inv hrec 43 (by decide) (by decide) hv27 hv41 hv36 hv28
  have inv44 : rounds W s 44 = ⟨y43, y42, y41, y40, x43, x42, x41, x40⟩ :=
    round_inv inv43 (key_eq rfl hv43)
  intro v44 p44 x44 y44
  have hv44 : v44 = W.getD 44 0 :=
    sched_inv hrec 44 (by decide) (by decide) hv28 hv42 hv37 hv29
  have inv45 : rounds W s 45 = ⟨y44, y43, y42, y41, x44, x43, x42, x41⟩ :=
    round_inv inv44 (key_eq rfl hv44)
  intro v45 p45 x45 y45
  have hv45 : v45 = W.getD 45 0 :=
    sched_inv hrec 45 (by decide) (by decide) hv29 hv43 hv38 hv30
  have inv46 : rounds W s 46 = ⟨y45, y44, y43, y42, x45, x44, x43, x42⟩ :=
    round_inv inv45 (key_eq rfl hv45)
  intro v46 p46 x46 y46
  have hv46 : v46 = W.getD 46 0 :=
    sched_inv hrec 46 (by decide) (by decide) hv30 hv44 hv39 hv31
  have inv47 : rounds W s 47 = ⟨y46, y45, y44, y43, x46, x45, x44, x43⟩ :=
    round_inv inv46 (key_eq rfl hv46)
  intro v47 p47 x47 y47
  have hv47 : v47 = W.getD 47 0 :=
    sched_inv hrec 47 (by decide) (by decide) hv31 hv45 hv40 hv32
  have inv48 : rounds W s 48 = ⟨y47, y46, y45, y44, x47, x46, x45, x44⟩ :=
    round_inv inv47 (key_eq rfl hv47)
  intro v48 p48 x48 y48
  have hv48 : v48 = W.getD 48 0 :=
    sched_inv hrec 48 (by decide) (by decide) hv32 hv46 hv41 hv33
  have inv49 : rounds W s 49 = ⟨y48, y47, y46, y45, x48, x47, x46, x45⟩ :=
    round_inv inv48 (key_eq rfl hv48)
  intro v49 p49 x49 y49
  have hv49 : v49 = W.getD 49 0 :=
    sched_inv hrec 49 (by decide) (by decide) hv33 hv47 hv42 hv34
  have inv50 : rounds W s 50 = ⟨y49, y48, y47, y46, x49, x48, x47, x46⟩ :=
    round_inv inv49 (key_eq rfl hv49)
  intro v50 p50 x50 y50
  have hv50 : v50 = W.getD 50 0 :=
    sched_inv hrec 50 (by decide) (by decide) hv34 hv48 hv43 hv35
  have inv51 : rounds W s 51 = ⟨y50, y49, y48, y47, x50, x49, x48, x47⟩ :=
    round_inv inv50 (key_eq rfl hv50)
  intro v51 p51 x51 y51
  have hv51 : v51 = W.getD 51 0 :=
    sched_inv hrec 51 (by decide) (by decide) hv35 hv49 hv44 hv36
  have inv52 : rounds W s 52 = ⟨y51, y50, y49, y48, x51, x50, x49, x48⟩ :=
    round_inv inv51 (key_eq rfl hv51)
  intro v52 p52 x52 y52
  have hv52 : v52 = W.getD 52 0 :=
    sched_inv hrec 52 (by decide) (by decide) hv36 hv50 hv45 hv37
  have inv53 : rounds W s 53 = ⟨y52, y51, y50, y49, x52, x51, x50, x49⟩ :=
    round_inv inv52 (key_eq rfl hv52)
  intro v53 p53 x53 y53
  have hv53 : v53 = W.getD 53 0 :=
    sched_inv hrec 53 (by decide) (by decide) hv37 hv51 hv46 hv38
  have inv54 : rounds W s 54 = ⟨y53, y52, y51, y50, x53, x52, x51, x50⟩ :=
    round_inv inv53 (key_eq rfl hv53)
  intro v54 p54 x54 y54
  have hv54 : v54 = W.getD 54 0 :=
    sched_inv hrec 54 (by decide) (by decide) hv38 hv52 hv47 hv39
  have inv55 : rounds W s 55 = ⟨y54, y53, y52, y51, x54, x53, x52, x51⟩ :=
    round_inv inv54 (key_eq rfl hv54)
  intro v55 p55 x55 y55
  have hv55 : v55 = W.getD 55 0 :=
    sched_inv hrec 55 (by decide) (by decide) hv39 hv53 hv48 hv40
  have inv56 : rounds W s 56 = ⟨y55, y54, y53, y52, x55, x54, x53, x52⟩ :=
    round_inv inv55 (key_eq rfl hv55)
  intro v56 p56 x56 y56
  have hv56 : v56 = W.getD 56 0 :=
    sched_inv hrec 56 (by decide) (by decide) hv40 hv54 hv49 hv41
  have inv57 : rounds W s 57 = ⟨y56, y55, y54, y53, x56, x55, x54, x53⟩ :=
    round_inv inv56 (key_eq rfl hv56)
  intro v57 p57 x57 y57
  have hv57 : v57 = W.getD 57 0 :=
    sched_inv hrec 57 (by decide) (by decide) hv41 hv55 hv50 hv42
  have inv58 : rounds W s 58 = ⟨y57, y56, y55, y54, x57, x56, x55, x54⟩ :=
    round_inv inv57 (key_eq rfl hv57)
  intro v58 p58 x58 y58
  have hv58 : v58 = W.getD 58 0 :=
    sched_inv hrec 58 (by decide) (by decide) hv42 hv56 hv51 hv43
  have inv59 : rounds W s 59 = ⟨y58, y57, y56, y55, x58, x57, x56, x55⟩ :=
    round_inv inv58 (key_eq rfl hv58)
  intro v59 p59 x59 y59
  have hv59 : v59 = W.getD 59 0 :=
    sched_inv hrec 59 (by decide) (by decide) hv43 hv57 hv52 hv44
  have inv60 : rounds W s 60 = ⟨y59, y58, y57, y56, x59, x58, x57, x56⟩ :=
    round_inv inv59 (key_eq rfl hv59)
  intro v60 p60 x60 y60
  have hv60 : v60 = W.getD 60 0 :=
    sched_inv hrec 60 (by decide) (by decide) hv44 hv58 hv53 hv45
  have inv61 : rounds W s 61 = ⟨y60, y59, y58, y57, x60, x59, x58, x57⟩ :=
    round_inv inv60 (key_eq rfl hv60)
  intro v61 p61 x61 y61
  have hv61 : v61 = W.getD 61 0 :=
    sched_inv hrec 61 (by decide) (by decide) hv45 hv59 hv54 hv46
  have inv62 : rounds W s 62 = ⟨y61, y60, y59, y58, x61, x60, x59, x58⟩ :=
    round_inv inv61 (key_eq rfl hv61)
  intro p62 x62 y62
  have inv63 : rounds W s 63 = ⟨y62, y61, y60, y59, x62, x61, x60, x59⟩ :=
    round_inv inv62 (sched_last hrec 62 rfl (by decide) (by decide) hv46 hv60 hv55 hv47)
  intro p63 x63 y63
  have inv64 : rounds W s 64 = ⟨y63, y62, y61, y60, x63, x62, x61, x60⟩ :=
    round_inv inv63 (sched_last hrec 63 rfl (by decide) (by decide) hv47 hv61 hv56 hv48)
  -- after 64 lines the registers are back in the order a .. h
  exact (finish_eq s inv64).symm

/-- The unrolled block transformation of the source is the reference compression function. -/
theorem TransformBlock_eq_compress (s : State) (chunk : List Nat) :
    TransformBlock s chunk = compress s chunk := by
  rw [compress_eq_finish]
  apply TransformBlock_eq_rounds
  · intro t ht
    rw [schedule_lt chunk t ht, word_eq_ReadBE32]
  · intro t h16 h64
    exact schedule_rec chunk t h16 h64

end SHA256Spec

namespace RIPEMD160Spec

open ripemd160 (State f1 f2 f3 f4 f5 rol Round R11 R21 R31 R41 R51 R12 R22 R32 R42 R52 Transform)

theorem word_eq_ReadLE32 (block : List Nat) (i : Nat) : word block i = ReadLE32 block (4 * i) := rfl

theorem R11_inv {X : List Nat} {H : State} {j a b c d e x r : Nat}
    (inv : lineL X H j = ⟨a, b, c, d, e⟩) (hj : j / 16 = 0) (hr : sL.getD j 0 = r)
    (hx : x = X.getD (rL.getD j 0) 0) :
    lineL X H (j + 1) = ⟨e, (R11 a b c d e x r).1, b, (R11 a b c d e x r).2, d⟩ := by
  subst hx hr
  simp only [lineL, inv, step, hj, fsel, R11, Round, KL, List.getD_cons_zero,
    List.getD_cons_succ, Nat.reduceSub]

theorem R21_inv {X : List Nat} {H : State} {j a b c d e x r : Nat}
    (inv : lineL X H j = ⟨a, b, c, d, e⟩) (hj : j / 16 = 1) (hr : sL.getD j 0 = r)
    (hx : x = X.getD (rL.getD j 0) 0) :
    lineL X H (j + 1) = ⟨e, (R21 a b c d e x r).1, b, (R21 a b c d e x r).2, d⟩ := by
  subst hx hr
  simp only [lineL, inv, step, hj, fsel, R21, Round, KL, List.getD_cons_zero,
    List.getD_cons_succ, Nat.reduceSub]

theorem R31_inv {X : List Nat} {H : State} {j a b c d e x r : Nat}
    (inv : lineL X H j = ⟨a, b, c, d, e⟩) (hj : j / 16 = 2) (hr : sL.getD j 0 = r)
    (hx : x = X.getD (rL.getD j 0) 0) :
    lineL X H (j + 1) = ⟨e, (R31 a b c d e x r).1, b, (R31 a b c d e x r).2, d⟩ := by
  subst hx hr
  simp only [lineL, inv, step, hj, fsel, R31, Round, KL, List.getD_cons_zero,
    List.getD_cons_succ, Nat.reduceSub]

theorem R41_inv {X : List Nat} {H : State} {j a b c d e x r : Nat}
    (inv : lineL X H j = ⟨a, b, c, d, e⟩) (hj : j / 16 = 3) (hr : sL.getD j 0 = r)
    (hx : x = X.getD (rL.getD j 0) 0) :
    lineL X H (j + 1) = ⟨e, (R41 a b c d e x r).1, b, (R41 a b c d e x r).2, d⟩ := by
  subst hx hr
  simp only [lineL, inv, step, hj, fsel, R41, Round, KL, List.getD_cons_zero,
    List.getD_cons_succ, Nat.reduceSub]

theorem R51_inv {X : List Nat} {H : State} {j a b c d e x r : Nat}
    (inv : lineL X H j = ⟨a, b, c, d, e⟩) (hj : j / 16 = 4) (hr : sL.getD j 0 = r)
    (hx : x = X.getD (rL.getD j 0) 0) :
    lineL X H (j + 1) = ⟨e, (R51 a b c d e x r).1, b, (R51 a b c d e x r).2, d⟩ := by
  subst hx hr
  simp only [lineL, inv, step, hj, fsel, R51, Round, KL, List.getD_cons_zero,
    List.getD_cons_succ, Nat.reduceSub]

theorem R12_inv {X : List Nat} {H : State} {j a b c d e x r : Nat}
    (inv : lineR X H j = ⟨a, b, c, d, e⟩) (hj : j / 16 = 0) (hr : sR.getD j 0 = r)
    (hx : x = X.getD (rR.getD j 0) 0) :
    lineR X H (j + 1) = ⟨e, (R12 a b c d e x r).1, b, (R12 a b c d e x r).2, d⟩ := by
  subst hx hr
  simp only [lineR, inv, step, hj, fsel, R12, Round, KR, List.getD_cons_zero,
    List.getD_cons_succ, Nat.reduceSub]

theorem R22_inv {X : List Nat} {H : State} {j a b c d e x r : Nat}
    (inv : lineR X H j = ⟨a, b, c, d, e⟩) (hj : j / 16 = 1) (hr : sR.getD j 0 = r)
    (hx : x = X.getD (rR.getD j 0) 0) :
    lineR X H (j + 1) = ⟨e, (R22 a b c d e x r).1, b, (R22 a b c d e x r).2, d⟩ := by
  subst hx hr
  simp only [lineR, inv, step, hj, fsel, R22, Round, KR, List.getD_cons_zero,
    List.getD_cons_succ, Nat.reduceSub]

theorem R32_inv {X : List Nat} {H : State} {j a b c d e x r : Nat}
    (inv : lineR X H j = ⟨a, b, c, d, e⟩) (hj : j / 16 = 2) (hr : sR.getD j 0 = r)
    (hx : x = X.getD (rR.getD j 0) 0) :
    lineR X H (j + 1) = ⟨e, (R32 a b c d e x r).1, b, (R32 a b c d e x r).2, d⟩ := by
  subst hx hr
  simp only [lineR, inv, step, hj, fsel, R32, Round, KR, List.getD_cons_zero,
    List.getD_cons_succ, Nat.reduceSub]

theorem R42_inv {X : List Nat} {H : State} {j a b c d e x r : Nat}
    (inv : lineR X H j = ⟨a, b, c, d, e⟩) (hj : j / 16 = 3) (hr : sR.getD j 0 = r)
    (hx : x = X.getD (rR.getD j 0) 0) :
    lineR X H (j + 1) = ⟨e, (R42 a b c d e x r).1, b, (R42 a b c d e x r).2, d⟩ := by
  subst hx hr
  simp only [lineR, inv, step, hj, fsel, R42, Round, KR, List.getD_cons_zero,
    List.getD_cons_succ, Nat.reduceSub]

theorem R52_inv {X : List Nat} {H : State} {j a b c d e x r : Nat}
    (inv : lineR X H j = ⟨a, b, c, d, e⟩) (hj : j / 16 = 4) (hr : sR.getD j 0 = r)
    (hx : x = X.getD (rR.getD j 0) 0) :
    lineR X H (j + 1) = ⟨e, (R52 a b c d e x r).1, b, (R52 a b c d e x r).2, d⟩ := by
  subst hx hr
  simp only [lineR, inv, step, hj, fsel, R52, Round, KR, List.getD_cons_zero,
    List.getD_cons_succ, Nat.reduceSub]

theorem merge_eq (s : State) {l r : State} {a1 b1 c1 d1 e1 a2 b2 c2 d2 e2 : Nat}
    (hl : l = ⟨a1, b1, c1, d1, e1⟩) (hr : r = ⟨a2, b2, c2, d2, e2⟩) :
    merge s l r =
      ⟨(s.s1 + c1 + d2) % 0x100000000, (s.s2 + d1 + e2) % 0x100000000,
       (s.s3 + e1 + a2) % 0x100000000, (s.s4 + a1 + b2) % 0x100000000,
       (s.s0 + b1 + c2) % 0x100000000⟩ := by
  subst hl hr; rfl

set_option maxRecDepth 100000 in
/-- The unrolled transformation of the source runs both reference lines on any word
list holding the 16 little-endian words of the chunk. -/
theorem Transform_eq_lines (s : State) (chunk : List Nat) (X : List Nat)
    (hX : ∀ i, i < 16 → ReadLE32 chunk (4 * i) = X.getD i 0) :
    Transform s chunk = merge s (lineL X s 80) (lineR X s 80) := by
  refine ripemd160.Transform_elim s chunk _ ?_
  intro a1_0 b1_0 c1_0 d1_0 e1_0 a2_0 b2_0 c2_0 d2_0 e2_0
  intro w0 w1 w2 w3 w4 w5 w6 w7 w8 w9 w10 w11 w12 w13 w14 w15
  have hw0 : w0 = X.getD 0 0 := hX 0 (by decide)
  have hw1 : w1 = X.getD 1 0 := hX 1 (by decide)
  have hw2 : w2 = X.getD 2 0 := hX 2 (by decide)
  have hw3 : w3 = X.getD 3 0 := hX 3 (by decide)
  have hw4 : w4 = X.getD 4 0 := hX 4 (by decide)
  have hw5 : w5 = X.getD 5 0 := hX 5 (by decide)
  have hw6 : w6 = X.getD 6 0 := hX 6 (by decide)
  have hw7 : w7 = X.getD 7 0 := hX 7 (by decide)
  have hw8 : w8 = X.getD 8 0 := hX 8 (by decide)
  have hw9 : w9 = X.getD 9 0 := hX 9 (by decide)
  have hw10 : w10 = X.getD 10 0 := hX 10 (by decide)
  have hw11 : w11 = X.getD 11 0 := hX 11 (by decide)
  have hw12 : w12 = X.getD 12 0 := hX 12 (by decide)
  have hw13 : w13 = X.getD 13 0 := hX 13 (by decide)
  have hw14 : w14 = X.getD 14 0 := hX 14 (by decide)
  have hw15 : w15 = X.getD 15 0 := hX 15 (by decide)
  have invL0 : lineL X s 0 = ⟨a1_0, b1_0, c1_0, d1_0, e1_0⟩ := rfl
  have invR0 : lineR X s 0 = ⟨a2_0, b2_0, c2_0, d2_0, e2_0⟩ := rfl
  intro pL0 xL0 yL0
  have invL1 : lineL X s 1 = ⟨e1_0, xL0, b1_0, yL0, d1_0⟩ :=
    R11_inv invL0 rfl rfl hw0
  intro pR0 xR0 yR0
  have invR1 : lineR X s 1 = ⟨e2_0, xR0, b2_0, yR0, d2_0⟩ :=
    R12_inv invR0 rfl rfl hw5
  intro pL1 xL1 yL1
  have invL2 : lineL X s 2 = ⟨d1_0, xL1, xL0, yL1, yL0⟩ :=
    R11_inv invL1 rfl rfl hw1
  intro pR1 xR1 yR1
  have invR2 : lineR X s 2 = ⟨d2_0, xR1, xR0, yR1, yR0⟩ :=
    R12_inv invR1 rfl rfl hw14
  intro pL2 xL2 yL2
  have invL3 : lineL X s 3 = ⟨yL0, xL2, xL1, yL2, yL1⟩ :=
    R11_inv invL2 rfl rfl hw2
  intro pR2 xR2 yR2
  have invR3 : lineR X s 3 = ⟨yR0, xR2, xR1, yR2, yR1⟩ :=
    R12_inv invR2 rfl rfl hw7
  intro pL3 xL3 yL3
  have invL4 : lineL X s 4 = ⟨yL1, xL3, xL2, yL3, yL2⟩ :=
    R11_inv invL3 rfl rfl hw3
  intro pR3 xR3 yR3
  have invR4 : lineR X s 4 = ⟨yR1, xR3, xR2, yR3, yR2⟩ :=
    R12_inv invR3 rfl rfl hw0
  intro pL4 xL4 yL4
  have invL5 : lineL X s 5 = ⟨yL2, xL4, xL3, yL4, yL3⟩ :=
    R11_inv invL4 rfl rfl hw4
  intro pR4 xR4 yR4
  have invR5 : lineR X s 5 = ⟨yR2, xR4, xR3, yR4, yR3⟩ :=
    R12_inv invR4 rfl rfl hw9
  intro pL5 xL5 yL5
  have invL6 : lineL X s 6 = ⟨yL3, xL5, xL4, yL5, yL4⟩ :=
    R11_inv invL5 rfl rfl hw5
  intro pR5 xR5 yR5
  have invR6 : lineR X s 6 = ⟨yR3, xR5, xR4, yR5, yR4⟩ :=
    R12_inv invR5 rfl rfl hw2
  intro pL6 xL6 yL6
  have invL7 : lineL X s 7 = ⟨yL4, xL6, xL5, yL6, yL5⟩ :=
    R11_inv invL6 rfl rfl hw6
  intro pR6 xR6 yR6
  have invR7 : lineR X s 7 = ⟨yR4, xR6, xR5, yR6, yR5⟩ :=
    R12_inv invR6 rfl rfl hw11
  intro pL7 xL7 yL7
  have invL8 : lineL X s 8 = ⟨yL5, xL7, xL6, yL7, yL6⟩ :=
    R11_inv invL7 rfl rfl hw7
  intro pR7 xR7 yR7
  have invR8 : lineR X s 8 = ⟨yR5, xR7, xR6, yR7, yR6⟩ :=
    R12_inv invR7 rfl rfl hw4
  intro pL8 xL8 yL8
  have invL9 : lineL X s 9 = ⟨yL6, xL8, xL7, yL8, yL7⟩ :=
    R11_inv invL8 rfl rfl hw8
  intro pR8 xR8 yR8
  have invR9 : lineR X s 9 = ⟨yR6, xR8, xR7, yR8, yR7⟩ :=
    R12_inv invR8 rfl rfl hw13
  intro pL9 xL9 yL9
  have invL10 : lineL X s 10 = ⟨yL7, xL9, xL8, yL9, yL8⟩ :=
    R11_inv invL9 rfl rfl hw9
  intro pR9 xR9 yR9
  have invR10 : lineR X s 10 = ⟨yR7, xR9, xR8, yR9, yR8⟩ :=
    R12_inv invR9 rfl rfl hw6
  intro pL10 xL10 yL10
  have invL11 : lineL X s 11 = ⟨yL8, xL10, xL9, yL10, yL9⟩ :=
    R11_inv invL10 rfl rfl hw10
  intro pR10 xR10 yR10
  have invR11 : lineR X s 11 = ⟨yR8, xR10, xR9, yR10, yR9⟩ :=
    R12_inv invR10 rfl rfl hw15
  intro pL11 xL11 yL11
  have invL12 : lineL X s 12 = ⟨yL9, xL11, xL10, yL11, yL10⟩ :=
    R11_inv invL11 rfl rfl hw11
  intro pR11 xR11 yR11
  have invR12 : lineR X s 12 = ⟨yR9, xR11, xR10, yR11, yR10⟩ :=
    R12_inv invR11 rfl rfl hw8
  intro pL12 xL12 yL12
  have invL13 : lineL X s 13 = ⟨yL10, xL12, xL11, yL12, yL11⟩ :=
    R11_inv invL12 rfl rfl hw12
  intro pR12 xR12 yR12
  have invR13 : lineR X s 13 = ⟨yR10, xR12, xR11, yR12, yR11⟩ :=
    R12_inv invR12 rfl rfl hw1
  intro pL13 xL13 yL13
  have invL14 : lineL X s 14 = ⟨yL11, xL13, xL12, yL13, yL12⟩ :=
    R11_inv invL13 rfl rfl hw13
  intro pR13 xR13 yR13
  have invR14 : lineR X s 14 = ⟨yR11, xR13, xR12, yR13, yR12⟩ :=
    R12_inv invR13 rfl rfl hw10
  intro pL14 xL14 yL14
  have invL15 : lineL X s 15 = ⟨yL12, xL14, xL13, yL14, yL13⟩ :=
    R11_inv invL14 rfl rfl hw14
  intro pR14 xR14 yR14
  have invR15 : lineR X s 15 = ⟨yR12, xR14, xR13, yR14, yR13⟩ :=
    R12_inv invR14 rfl rfl hw3
  intro pL15 xL15 yL15
  have invL16 : lineL X s 16 = ⟨yL13, xL15, xL14, yL15, yL14⟩ :=
    R11_inv invL15 rfl rfl hw15
  intro pR15 xR15 yR15
  have invR16 : lineR X s 16 = ⟨yR13, xR15, xR14, yR15, yR14⟩ :=
    R12_inv invR15 rfl rfl hw12
  intro pL16 xL16 yL16
  have invL17 : lineL X s 17 = ⟨yL14, xL16, xL15, yL16, yL15⟩ :=
    R21_inv invL16 rfl rfl hw7
  intro pR16 xR16 yR16
  have invR17 : lineR X s 17 = ⟨yR14, xR16, xR15, yR16, yR15⟩ :=
    R22_inv invR16 rfl rfl hw6
  intro pL17 xL17 yL17
  have invL18 : lineL X s 18 = ⟨yL15, xL17, xL16, yL17, yL16⟩ :=
    R21_inv invL17 rfl rfl hw4
  intro pR17 xR17 yR17
  have invR18 : lineR X s 18 = ⟨yR15, xR17, xR16, yR17, yR16⟩ :=
    R22_inv invR17 rfl rfl hw11
  intro pL18 xL18 yL18
  have invL19 : lineL X s 19 = ⟨yL16, xL18, xL17, yL18, yL17⟩ :=
    R21_inv invL18 rfl rfl hw13
  intro pR18 xR18 yR18
  have invR19 : lineR X s 19 = ⟨yR16, xR18, xR17, yR18, yR17⟩ :=
    R22_inv invR18 rfl rfl hw3
  intro pL19 xL19 yL19
  have invL20 : lineL X s 20 = ⟨yL17, xL19, xL18, yL19, yL18⟩ :=
    R21_inv invL19 rfl rfl hw1
  intro pR19 xR19 yR19
  have invR20 : lineR X s 20 = ⟨yR17, xR19, xR18, yR19, yR18⟩ :=
    R22_inv invR19 rfl rfl hw7
  intro pL20 xL20 yL20
  have invL21 : lineL X s 21 = ⟨yL18, xL20, xL19, yL20, yL19⟩ :=
    R21_inv invL20 rfl rfl hw10
  intro pR20 xR20 yR20
  have invR21 : lineR X s 21 = ⟨yR18, xR20, xR19, yR20, yR19⟩ :=
    R22_inv invR20 rfl rfl hw0
  intro pL21 xL21 yL21
  have invL22 : lineL X s 22 = ⟨yL19, xL21, xL20, yL21, yL20⟩ :=
    R21_inv invL21 rfl rfl hw6
  intro pR21 xR21 yR21
  have invR22 : lineR X s 22 = ⟨yR19, xR21, xR20, yR21, yR20⟩ :=
    R22_inv invR21 rfl rfl hw13
  intro pL22 xL22 yL22
  have invL23 : lineL X s 23 = ⟨yL20, xL22, xL21, yL22, yL21⟩ :=
    R21_inv invL22 rfl rfl hw15
  intro pR22 xR22 yR22
  have invR23 : lineR X s 23 = ⟨yR20, xR22, xR21, yR22, yR21⟩ :=
    R22_inv invR22 rfl rfl hw5
  intro pL23 xL23 yL23
  have invL24 : lineL X s 24 = ⟨yL21, xL23, xL22, yL23, yL22⟩ :=
    R21_inv invL23 rfl rfl hw3
  intro pR23 xR23 yR23
  have invR24 : lineR X s 24 = ⟨yR21, xR23, xR22, yR23, yR22⟩ :=
    R22_inv invR23 rfl rfl hw10
  intro pL24 xL24 yL24
  have invL25 : lineL X s 25 = ⟨yL22, xL24, xL23, yL24, yL23⟩ :=
    R21_inv invL24 rfl rfl hw12
  intro pR24 xR24 yR24
  have invR25 : lineR X s 25 = ⟨yR22, xR24, xR23, yR24, yR23⟩ :=
    R22_inv invR24 rfl rfl hw14
  intro pL25 xL25 yL25
  have invL26 : lineL X s 26 = ⟨yL23, xL25, xL24, yL25, yL24⟩ :=
    R21_inv invL25 rfl rfl hw0
  intro pR25 xR25 yR25
  have invR26 : lineR X s 26 = ⟨yR23, xR25, xR24, yR25, yR24⟩ :=
    R22_inv invR25 rfl rfl hw15
  intro pL26 xL26 yL26
  have invL27 : lineL X s 27 = ⟨yL24, xL26, xL25, yL26, yL25⟩ :=
    R21_inv invL26 rfl rfl hw9
  intro pR26 xR26 yR26
  have invR27 : lineR X s 27 = ⟨yR24, xR26, xR25, yR26, yR25⟩ :=
    R22_inv invR26 rfl rfl hw8
  intro pL27 xL27 yL27
  have invL28 : lineL X s 28 = ⟨yL25, xL27, xL26, yL27, yL26⟩ :=
    R21_inv invL27 rfl rfl hw5
  intro pR27 xR27 yR27
  have invR28 : lineR X s 28 = ⟨yR25, xR27, xR26, yR27, yR26⟩ :=
    R22_inv invR27 rfl rfl hw12
  intro pL28 xL28 yL28
  have invL29 : lineL X s 29 = ⟨yL26, xL28, xL27, yL28, yL27⟩ :=
    R21_inv invL28 rfl rfl hw2
  intro pR28 xR28 yR28
  have invR29 : lineR X s 29 = ⟨yR26, xR28, xR27, yR28, yR27⟩ :=
    R22_inv invR28 rfl rfl hw4
  intro pL29 xL29 yL29
  have invL30 : lineL X s 30 = ⟨yL27, xL29, xL28, yL29, yL28⟩ :=
    R21_inv invL29 rfl rfl hw14
  intro pR29 xR29 yR29
  have invR30 : lineR X s 30 = ⟨yR27, xR29, xR28, yR29, yR28⟩ :=
    R22_inv invR29 rfl rfl hw9
  intro pL30 xL30 yL30
  have invL31 : lineL X s 31 = ⟨yL28, xL30, xL29, yL30, yL29⟩ :=
    R21_inv invL30 rfl rfl hw11
  intro pR30 xR30 yR30
  have invR31 : lineR X s 31 = ⟨yR28, xR30, xR29, yR30, yR29⟩ :=
    R22_inv invR30 rfl rfl hw1
  intro pL31 xL31 yL31
  have invL32 : lineL X s 32 = ⟨yL29, xL31, xL30, yL31, yL30⟩ :=
    R21_inv invL31 rfl rfl hw8
  intro pR31 xR31 yR31
  have invR32 : lineR X s 32 = ⟨yR29, xR31, xR30, yR31, yR30⟩ :=
    R22_inv invR31 rfl rfl hw2
  intro pL32 xL32 yL32
  have invL33 : lineL X s 33 = ⟨yL30, xL32, xL31, yL32, yL31⟩ :=
    R31_inv invL32 rfl rfl hw3
  intro pR32 xR32 yR32
  have invR33 : lineR X s 33 = ⟨yR30, xR32, xR31, yR32, yR31⟩ :=
    R32_inv invR32 rfl rfl hw15
  intro pL33 xL33 yL33
  have invL34 : lineL X s 34 = ⟨yL31, xL33, xL32, yL33, yL32⟩ :=
    R31_inv invL33 rfl rfl hw10
  intro pR33 xR33 yR33
  have invR34 : lineR X s 34 = ⟨yR31, xR33, xR32, yR33, yR32⟩ :=
    R32_inv invR33 rfl rfl hw5
  intro pL34 xL34 yL34
  have invL35 : lineL X s 35 = ⟨yL32, xL34, xL33, yL34, yL33⟩ :=
    R31_inv invL34 rfl rfl hw14
  intro pR34 xR34 yR34
  have invR35 : lineR X s 35 = ⟨yR32, xR34, xR33, yR34, yR33⟩ :=
    R32_inv invR34 rfl rfl hw1
  intro pL35 xL35 yL35
  have invL36 : lineL X s 36 = ⟨yL33, xL35, xL34, yL35, yL34⟩ :=
    R31_inv invL35 rfl rfl hw4
  intro pR35 xR35 yR35
  have invR36 : lineR X s 36 = ⟨yR33, xR35, xR34, yR35, yR34⟩ :=
    R32_inv invR35 rfl rfl hw3
  intro pL36 xL36 yL36
  have invL37 : lineL X s 37 = ⟨yL34, xL36, xL35, yL36, yL35⟩ :=
    R31_inv invL36 rfl rfl hw9
  intro pR36 xR36 yR36
  have invR37 : lineR X s 37 = ⟨yR34, xR36, xR35, yR36, yR35⟩ :=
    R32_inv invR36 rfl rfl hw7
  intro pL37 xL37 yL37
  have invL38 : lineL X s 38 = ⟨yL35, xL37, xL36, yL37, yL36⟩ :=
    R31_inv invL37 rfl rfl hw15
  intro pR37 xR37 yR37
  have invR38 : lineR X s 38 = ⟨yR35, xR37, xR36, yR37, yR36⟩ :=
    R32_inv invR37 rfl rfl hw14
  intro pL38 xL38 yL38
  have invL39 : lineL X s 39 = ⟨yL36, xL38, xL37, yL38, yL37⟩ :=
    R31_inv invL38 rfl rfl hw8
  intro pR38 xR38 yR38
  have invR39 : lineR X s 39 = ⟨yR36, xR38, xR37, yR38, yR37⟩ :=
    R32_inv invR38 rfl rfl hw6
  intro pL39 xL39 yL39
  have invL40 : lineL X s 40 = ⟨yL37, xL39, xL38, yL39, yL38⟩ :=
    R31_inv invL39 rfl rfl hw1
  intro pR39 xR39 yR39
  have invR40 : lineR X s 40 = ⟨yR37, xR39, xR38, yR39, yR38⟩ :=
    R32_inv invR39 rfl rfl hw9
  intro pL40 xL40 yL40
  have invL41 : lineL X s 41 = ⟨yL38, xL40, xL39, yL40, yL39⟩ :=
    R31_inv invL40 rfl rfl hw2
  intro pR40 xR40 yR40
  have invR41 : lineR X s 41 = ⟨yR38, xR40, xR39, yR40, yR39⟩ :=
    R32_inv invR40 rfl rfl hw11
  intro pL41 xL41 yL41
  have invL42 : lineL X s 42 = ⟨yL39, xL41, xL40, yL41, yL40⟩ :=
    R31_inv invL41 rfl rfl hw7
  intro pR41 xR41 yR41
  have invR42 : lineR X s 42 = ⟨yR39, xR41, xR40, yR41, yR40⟩ :=
    R32_inv invR41 rfl rfl hw8
  intro pL42 xL42 yL42
  have invL43 : lineL X s 43 = ⟨yL40, xL42, xL41, yL42, yL41⟩ :=
    R31_inv invL42 rfl rfl hw0
  intro pR42 xR42 yR42
  have invR43 : lineR X s 43 = ⟨yR40, xR42, xR41, yR42, yR41⟩ :=
    R32_inv invR42 rfl rfl hw12
  intro pL43 xL43 yL43
  have invL44 : lineL X s 44 = ⟨yL41, xL43, xL42, yL43, yL42⟩ :=
    R31_inv invL43 rfl rfl hw6
  intro pR43 xR43 yR43
  have invR44 : lineR X s 44 = ⟨yR41, xR43, xR42, yR43, yR42⟩ :=
    R32_inv invR43 rfl rfl hw2
  intro pL44 xL44 yL44
  have invL45 : lineL X s 45 = ⟨yL42, xL44, xL43, yL44, yL43⟩ :=
    R31_inv invL44 rfl rfl hw13
  intro pR44 xR44 yR44
  have invR45 : lineR X s 45 = ⟨yR42, xR44, xR43, yR44, yR43⟩ :=
    R32_inv invR44 rfl rfl hw10
  intro pL45 xL45 yL45
  have invL46 : lineL X s 46 = ⟨yL43, xL45, xL44, yL45, yL44⟩ :=
    R31_inv invL45 rfl rfl hw11
  intro pR45 xR45 yR45
  have invR46 : lineR X s 46 = ⟨yR43, xR45, xR44, yR45, yR44⟩ :=
    R32_inv invR45 rfl rfl hw0
  intro pL46 xL46 yL46
  have invL47 : lineL X s 47 = ⟨yL44, xL46, xL45, yL46, yL45⟩ :=
    R31_inv invL46 rfl rfl hw5
  intro pR46 xR46 yR46
  have invR47 : lineR X s 47 = ⟨yR44, xR46, xR45, yR46, yR45⟩ :=
    R32_inv invR46 rfl rfl hw4
  intro pL47 xL47 yL47
  have invL48 : lineL X s 48 = ⟨yL45, xL47, xL46, yL47, yL46⟩ :=
    R31_inv invL47 rfl rfl hw12
  intro pR47 xR47 yR47
  have invR48 : lineR X s 48 = ⟨yR45, xR47, xR46, yR47, yR46⟩ :=
    R32_inv invR47 rfl rfl hw13
  intro pL48 xL48 yL48
  have invL49 : lineL X s 49 = ⟨yL46, xL48, xL47, yL48, yL47⟩ :=
    R41_inv invL48 rfl rfl hw1
  intro pR48 xR48 yR48
  have invR49 : lineR X s 49 = ⟨yR46, xR48, xR47, yR48, yR47⟩ :=
    R42_inv invR48 rfl rfl hw8
  intro pL49 xL49 yL49
  have invL50 : lineL X s 50 = ⟨yL47, xL49, xL48, yL49, yL48⟩ :=
    R41_inv invL49 rfl rfl hw9
  intro pR49 xR49 yR49
  have invR50 : lineR X s 50 = ⟨yR47, xR49, xR48, yR49, yR48⟩ :=
    R42_inv invR49 rfl rfl hw6
  intro pL50 xL50 yL50
  have invL51 : lineL X s 51 = ⟨yL48, xL50, xL49, yL50, yL49⟩ :=
    R41_inv invL50 rfl rfl hw11
  intro pR50 xR50 yR50
  have invR51 : lineR X s 51 = ⟨yR48, xR50, xR49, yR50, yR49⟩ :=
    R42_inv invR50 rfl rfl hw4
  intro pL51 xL51 yL51
  have invL52 : lineL X s 52 = ⟨yL49, xL51, xL50, yL51, yL50⟩ :=
    R41_inv invL51 rfl rfl hw10
  intro pR51 xR51 yR51
  have invR52 : lineR X s 52 = ⟨yR49, xR51, xR50, yR51, yR50⟩ :=
    R42_inv invR51 rfl rfl hw1
  intro pL52 xL52 yL52
  have invL53 : lineL X s 53 = ⟨yL50, xL52, xL51, yL52, yL51⟩ :=
    R41_inv invL52 rfl rfl hw0
  intro pR52 xR52 yR52
  have invR53 : lineR X s 53 = ⟨yR50, xR52, xR51, yR52, yR51⟩ :=
    R42_inv invR52 rfl rfl hw3
  intro pL53 xL53 yL53
  have invL54 : lineL X s 54 = ⟨yL51, xL53, xL52, yL53, yL52⟩ :=
    R41_inv invL53 rfl rfl hw8
  intro pR53 xR53 yR53
  have invR54 : lineR X s 54 = ⟨yR51, xR53, xR52, yR53, yR52⟩ :=
    R42_inv invR53 rfl rfl hw11
  intro pL54 xL54 yL54
  have invL55 : lineL X s 55 = ⟨yL52, xL54, xL53, yL54, yL53⟩ :=
    R41_inv invL54 rfl rfl hw12
  intro pR54 xR54 yR54
  have invR55 : lineR X s 55 = ⟨yR52, xR54, xR53, yR54, yR53⟩ :=
    R42_inv invR54 rfl rfl hw15
  intro pL55 xL55 yL55
  have invL56 : lineL X s 56 = ⟨yL53, xL55, xL54, yL55, yL54⟩ :=
    R41_inv invL55 rfl rfl hw4
  intro pR55 xR55 yR55
  have invR56 : lineR X s 56 = ⟨yR53, xR55, xR54, yR55, yR54⟩ :=
    R42_inv invR55 rfl rfl hw0
  intro pL56 xL56 yL56
  have invL57 : lineL X s 57 = ⟨yL54, xL56, xL55, yL56, yL55⟩ :=
    R41_inv invL56 rfl rfl hw13
  intro pR56 xR56 yR56
  have invR57 : lineR X s 57 = ⟨yR54, xR56, xR55, yR56, yR55⟩ :=
    R42_inv invR56 rfl rfl hw5
  intro pL57 xL57 yL57
  have invL58 : lineL X s 58 = ⟨yL55, xL57, xL56, yL57, yL56⟩ :=
    R41_inv invL57 rfl rfl hw3
  intro pR57 xR57 yR57
  have invR58 : lineR X s 58 = ⟨yR55, xR57, xR56, yR57, yR56⟩ :=
    R42_inv invR57 rfl rfl hw12
  intro pL58 xL58 yL58
  have invL59 : lineL X s 59 = ⟨yL56, xL58, xL57, yL58, yL57⟩ :=
    R41_inv invL58 rfl rfl hw7
  intro pR58 xR58 yR58
  have invR59 : lineR X s 59 = ⟨yR56, xR58, xR57, yR58, yR57⟩ :=
    R42_inv invR58 rfl rfl hw2
  intro pL59 xL59 yL59
  have invL60 : lineL X s 60 = ⟨yL57, xL59, xL58, yL59, yL58⟩ :=
    R41_inv invL59 rfl rfl hw15
  intro pR59 xR59 yR59
  have invR60 : lineR X s 60 = ⟨yR57, xR59, xR58, yR59, yR58⟩ :=
    R42_inv invR59 rfl rfl hw13
  intro pL60 xL60 yL60
  have invL61 : lineL X s 61 = ⟨yL58, xL60, xL59, yL60, yL59⟩ :=
    R41_inv invL60 rfl rfl hw14
  intro pR60 xR60 yR60
  have invR61 : lineR X s 61 = ⟨yR58, xR60, xR59, yR60, yR59⟩ :=
    R42_inv invR60 rfl rfl hw9
  intro pL61 xL61 yL61
  have invL62 : lineL X s 62 = ⟨yL59, xL61, xL60, yL61, yL60⟩ :=
    R41_inv invL61 rfl rfl hw5
  intro pR61 xR61 yR61
  have invR62 : lineR X s 62 = ⟨yR59, xR61, xR60, yR61, yR60⟩ :=
    R42_inv invR61 rfl rfl hw7
  intro pL62 xL62 yL62
  have invL63 : lineL X s 63 = ⟨yL60, xL62, xL61, yL62, yL61⟩ :=
    R41_inv invL62 rfl rfl hw6
  intro pR62 xR62 yR62
  have invR63 : lineR X s 63 = ⟨yR60, xR62, xR61, yR62, yR61⟩ :=
    R42_inv invR62 rfl rfl hw10
  intro pL63 xL63 yL63
  have invL64 : lineL X s 64 = ⟨yL61, xL63, xL62, yL63, yL62⟩ :=
    R41_inv invL63 rfl rfl hw2
  intro pR63 xR63 yR63
  have invR64 : lineR X s 64 = ⟨yR61, xR63, xR62, yR63, yR62⟩ :=
    R42_inv invR63 rfl rfl hw14
  intro pL64 xL64 yL64
  have invL65 : lineL X s 65 = ⟨yL62, xL64, xL63, yL64, yL63⟩ :=
    R51_inv invL64 rfl rfl hw4
  intro pR64 xR64 yR64
  have invR65 : lineR X s 65 = ⟨yR62, xR64, xR63, yR64, yR63⟩ :=
    R52_inv invR64 rfl rfl hw12
  intro pL65 xL65 yL65
  have invL66 : lineL X s 66 = ⟨yL63, xL65, xL64, yL65, yL64⟩ :=
    R51_inv invL65 rfl rfl hw0
  intro pR65 xR65 yR65
  have invR66 : lineR X s 66 = ⟨yR63, xR65, xR64, yR65, yR64⟩ :=
    R52_inv invR65 rfl rfl hw15
  intro pL66 xL66 yL66
  have invL67 : lineL X s 67 = ⟨yL64, xL66, xL65, yL66, yL65⟩ :=
    R51_inv invL66 rfl rfl hw5
  intro pR66 xR66 yR66
  have invR67 : lineR X s 67 = ⟨yR64, xR66, xR65, yR66, yR65⟩ :=
    R52_inv invR66 rfl rfl hw10
  intro pL67 xL67 yL67
  have invL68 : lineL X s 68 = ⟨yL65, xL67, xL66, yL67, yL66⟩ :=
    R51_inv invL67 rfl rfl hw9
  intro pR67 xR67 yR67
  have invR68 : lineR X s 68 = ⟨yR65, xR67, xR66, yR67, yR66⟩ :=
    R52_inv invR67 rfl rfl hw4
  intro pL68 xL68 yL68
  have invL69 : lineL X s 69 = ⟨yL66, xL68, xL67, yL68, yL67⟩ :=
    R51_inv invL68 rfl rfl hw7
  intro pR68 xR68 yR68
  have invR69 : lineR X s 69 = ⟨yR66, xR68, xR67, yR68, yR67⟩ :=
    R52_inv invR68 rfl rfl hw1
  intro pL69 xL69 yL69
  have invL70 : lineL X s 70 = ⟨yL67, xL69, xL68, yL69, yL68⟩ :=
    R51_inv invL69 rfl rfl hw12
  intro pR69 xR69 yR69
  have invR70 : lineR X s 70 = ⟨yR67, xR69, xR68, yR69, yR68⟩ :=
    R52_inv invR69 rfl rfl hw5
  intro pL70 xL70 yL70
  have invL71 : lineL X s 71 = ⟨yL68, xL70, xL69, yL70, yL69⟩ :=
    R51_inv invL70 rfl rfl hw2
  intro pR70 xR70 yR70
  have invR71 : lineR X s 71 = ⟨yR68, xR70, xR69, yR70, yR69⟩ :=
    R52_inv invR70 rfl rfl hw8
  intro pL71 xL71 yL71
  have invL72 : lineL X s 72 = ⟨yL69, xL71, xL70, yL71, yL70⟩ :=
    R51_inv invL71 rfl rfl hw10
  intro pR71 xR71 yR71
  have invR72 : lineR X s 72 = ⟨yR69, xR71, xR70, yR71, yR70⟩ :=
    R52_inv invR71 rfl rfl hw7
  intro pL72 xL72 yL72
  have invL73 : lineL X s 73 = ⟨yL70, xL72, xL71, yL72, yL71⟩ :=
    R51_inv invL72 rfl rfl hw14
  intro pR72 xR72 yR72
  have invR73 : lineR X s 73 = ⟨yR70, xR72, xR71, yR72, yR71⟩ :=
    R52_inv invR72 rfl rfl hw6
  intro pL73 xL73 yL73
  have invL74 : lineL X s 74 = ⟨yL71, xL73, xL72, yL73, yL72⟩ :=
    R51_inv invL73 rfl rfl hw1
  intro pR73 xR73 yR73
  have invR74 : lineR X s 74 = ⟨yR71, xR73, xR72, yR73, yR72⟩ :=
    R52_inv invR73 rfl rfl hw2
  intro pL74 xL74 yL74
  have invL75 : lineL X s 75 = ⟨yL72, xL74, xL73, yL74, yL73⟩ :=
    R51_inv invL74 rfl rfl hw3
  intro pR74 xR74 yR74
  have invR75 : lineR X s 75 = ⟨yR72, xR74, xR73, yR74, yR73⟩ :=
    R52_inv invR74 rfl rfl hw13
  intro pL75 xL75 yL75
  have invL76 : lineL X s 76 = ⟨yL73, xL75, xL74, yL75, yL74⟩ :=
    R51_inv invL75 rfl rfl hw8
  intro pR75 xR75 yR75
  have invR76 : lineR X s 76 = ⟨yR73, xR75, xR74, yR75, yR74⟩ :=
    R52_inv invR75 rfl rfl hw14
  intro pL76 xL76 yL76
  have invL77 : lineL X s 77 = ⟨yL74, xL76, xL75, yL76, yL75⟩ :=
    R51_inv invL76 rfl rfl hw11
  intro pR76 xR76 yR76
  have invR77 : lineR X s 77 = ⟨yR74, xR76, xR75, yR76, yR75⟩ :=
    R52_inv invR76 rfl rfl hw0
  intro pL77 xL77 yL77
  have invL78 : lineL X s 78 = ⟨yL75, xL77, xL76, yL77, yL76⟩ :=
    R51_inv invL77 rfl rfl hw6
  intro pR77 xR77 yR77
  have invR78 : lineR X s 78 = ⟨yR75, xR77, xR76, yR77, yR76⟩ :=
    R52_inv invR77 rfl rfl hw3
  intro pL78 xL78 yL78
  have invL79 : lineL X s 79 = ⟨yL76, xL78, xL77, yL78, yL77⟩ :=
    R51_inv invL78 rfl rfl hw15
  intro pR78 xR78 yR78
  have invR79 : lineR X s 79 = ⟨yR76, xR78, xR77, yR78, yR77⟩ :=
    R52_inv invR78 rfl rfl hw9
  intro pL79 xL79 yL79
  have invL80 : lineL X s 80 = ⟨yL77, xL79, xL78, yL79, yL78⟩ :=
    R51_inv invL79 rfl rfl hw13
  intro pR79 xR79 yR79
  have invR80 : lineR X s 80 = ⟨yR77, xR79, xR78, yR79, yR78⟩ :=
    R52_inv invR79 rfl rfl hw11
  intro t
  exact (merge_eq s invL80 invR80).symm

/-- The unrolled transformation of the source is the reference compression function. -/
theorem Transform_eq_compress (s : State) (chunk : List Nat) :
    Transform s chunk = compress s chunk := by
  unfold compress
  apply Transform_eq_lines
  intro i hi
  simp [List.getD_eq_getElem?_getD, List.getElem?_map, List.getElem?_range hi, word_eq_ReadLE32]

end RIPEMD160Spec


theorem byteAt_take (l : List Nat) (n i : Nat) (h : i < n) : byteAt (l.take n) i = byteAt l i := by
  unfold byteAt
  rw [List.getD_eq_getElem?_getD, List.getD_eq_getElem?_getD, List.getElem?_take_of_lt h]

namespace MD

variable {σ : Type}

theorem absorb_append_of_le {C : σ → List Nat → σ} (hC : Local C) (n : Nat) (H : σ)
    (l v : List Nat) (hl : 64 * n ≤ l.length) : absorb C n H (l ++ v) = absorb C n H l := by
  induction n generalizing H l with
  | zero => rfl
  | succ n ih =>
    have h64 : 64 ≤ l.length := by omega
    simp only [absorb]
    rw [hC H (l ++ v), hC H l, List.take_append_of_le_length h64, List.drop_append_of_le_length h64]
    exact ih _ _ (by simp; omega)

theorem absorb_add (C : σ → List Nat → σ) (m n : Nat) (H : σ) (l : List Nat) :
    absorb C (m + n) H l = absorb C n (absorb C m H l) (l.drop (64 * m)) := by
  induction m generalizing H l with
  | zero => simp [absorb]
  | succ m ih =>
    rw [Nat.add_right_comm]
    simp only [absorb]
    rw [ih, List.drop_drop]
    congr 2
    omega

/-- Absorbing `l ++ v` is absorbing the full blocks of `l`, then what is left of `l`
followed by `v`. -/
theorem absorb_split {C : σ → List Nat → σ} (hC : Local C) (H : σ) (l v : List Nat) :
    absorb C ((l ++ v).length / 64) H (l ++ v) =
      absorb C ((l.drop (64 * (l.length / 64)) ++ v).length / 64)
        (absorb C (l.length / 64) H l) (l.drop (64 * (l.length / 64)) ++ v) := by
  have hn : (l ++ v).length / 64 =
      l.length / 64 + (l.drop (64 * (l.length / 64)) ++ v).length / 64 := by
    simp only [List.length_append, List.length_drop]
    omega
  rw [hn, absorb_add, absorb_append_of_le hC _ _ _ _ (by omega),
    List.drop_append_of_le_length (by omega)]

theorem zeroPad_eq (fuel : Nat) (l : List Nat) (h : (120 - l.length % 64) % 64 ≤ fuel) :
    zeroPad fuel l = l ++ List.replicate ((120 - l.length % 64) % 64) 0 := by
  induction fuel generalizing l with
  | zero =>
    have : (120 - l.length % 64) % 64 = 0 := by omega
    simp [zeroPad, this]
  | succ fuel ih =>
    unfold zeroPad
    split_ifs with h56
    · have : (120 - l.length % 64) % 64 = 0 := by omega
      simp [this]
    · have hk : (120 - l.length % 64) % 64 = (120 - (l ++ [0]).length % 64) % 64 + 1 := by
        simp only [List.length_append, List.length_singleton]; omega
      rw [ih (l ++ [0]) (by omega), hk, List.replicate_succ, List.append_assoc]
      rfl

end MD

theorem memcpy_fill (buf data : List Nat) (b : Nat) (hbuf : buf.length = 64) (hb : b < 64)
    (hge : b + data.length ≥ 64) :
    memcpy buf b (data.take (64 - b)) = (buf.take b ++ data).take 64 := by
  have hl : (buf.take b).length = b := by rw [List.length_take]; omega
  have ht : (data.take (64 - b)).length = 64 - b := by rw [List.length_take]; omega
  unfold memcpy
  rw [ht, List.drop_eq_nil_of_le (show buf.length ≤ b + (64 - b) by omega), List.append_nil,
    List.take_append_eq_append_take, hl,
    List.take_of_length_le (show (buf.take b).length ≤ 64 by omega)]

theorem drop_fill (buf data : List Nat) (b : Nat) (hbuf : buf.length = 64) (hb : b < 64) :
    data.drop (64 - b) = (buf.take b ++ data).drop 64 := by
  have hl : (buf.take b).length = b := by rw [List.length_take]; omega
  rw [List.drop_append_eq_append_drop, hl,
    List.drop_eq_nil_of_le (show (buf.take b).length ≤ 64 by omega), List.nil_append]

theorem memcpy_length (buf src : List Nat) (off : Nat) (h : off + src.length ≤ buf.length) :
    (memcpy buf off src).length = buf.length := by
  simp only [memcpy, List.length_append, List.length_take, List.length_drop]
  omega

theorem memcpy_take (buf src : List Nat) (off : Nat) (h : off + src.length ≤ buf.length) :
    (memcpy buf off src).take (off + src.length) = buf.take off ++ src := by
  have h1 : (buf.take off ++ src).length = off + src.length := by
    simp only [List.length_append, List.length_take]; omega
  unfold memcpy
  rw [List.take_append_of_le_length (by omega), ← h1, List.take_length]

/-- The three steps of `Write`, on lists: `total` is the buffered bytes followed by the
data, `k` full blocks are consumed and the rest is copied to the start of the buffer
or appended to the buffered bytes. -/
theorem drop_blocks_length (total : List Nat) :
    (total.drop (64 * (total.length / 64))).length = total.length % 64 := by
  rw [List.length_drop]; omega

namespace SHA256Spec

open sha256 (State)

theorem word_take_sha256 (l : List Nat) (t : Nat) (h : t < 16) : word (l.take 64) t = word l t := by
  unfold word
  rw [byteAt_take _ _ _ (by omega), byteAt_take _ _ _ (by omega), byteAt_take _ _ _ (by omega),
    byteAt_take _ _ _ (by omega)]

theorem schedule_take (l : List Nat) : schedule (l.take 64) = schedule l := by
  have hmap : (List.range 16).map (word (l.take 64)) = (List.range 16).map (word l) :=
    List.map_congr_left fun t ht => word_take_sha256 l t (List.mem_range.mp ht)
  unfold schedule
  rw [hmap]

theorem compress_local_sha256 : MD.Local compress := by
  intro H l
  unfold compress
  rw [schedule_take]

theorem Transform_eq_absorb (s : State) (l : List Nat) (n : Nat) :
    sha256.Transform s l n = MD.absorb compress n s l := by
  induction n generalizing s l with
  | zero => rfl
  | succ n ih => simp only [sha256.Transform, MD.absorb, ih, TransformBlock_eq_compress]

end SHA256Spec

namespace MD

variable {σ : Type}

/-- A first block taken from the buffer, then `k` blocks taken from the data. -/
theorem absorb_buffer_then_data {C : σ → List Nat → σ} (hC : Local C) (H : σ) (total : List Nat)
    (k : Nat) (hk : total.length / 64 = 1 + k) :
    absorb C k (absorb C 1 H (total.take 64)) (total.drop 64) =
      absorb C (total.length / 64) H total := by
  rw [hk, absorb_add C 1 k H total]
  simp only [absorb, Nat.mul_one]
  rw [← hC H total]

end MD

namespace SHA256

open SHA256Spec (compress compress_local_sha256 Transform_eq_absorb)

theorem phase2_eq (h1 : SHA256) (data1 : List Nat) (hb : h1.bytes < 0x10000000000000000) :
    (if data1.length ≥ 64 then
        ((⟨sha256.Transform h1.s data1 (data1.length / 64), h1.buf,
            (h1.bytes + 64 * (data1.length / 64)) % 0x10000000000000000⟩ : SHA256),
          data1.drop (64 * (data1.length / 64)))
      else (h1, data1)) =
      (⟨MD.absorb compress (data1.length / 64) h1.s data1, h1.buf,
          (h1.bytes + 64 * (data1.length / 64)) % 0x10000000000000000⟩,
        data1.drop (64 * (data1.length / 64))) := by
  split_ifs with hge
  · rw [Transform_eq_absorb]
  · have hk : data1.length / 64 = 0 := by omega
    rw [hk]
    simp only [MD.absorb, Nat.mul_zero, Nat.add_zero, List.drop_zero, Nat.mod_eq_of_lt hb]

/-- The second and third step of `Write`: full blocks are processed from the data and
the rest is copied into the buffer at `off`. -/
theorem Write_tail_sha256 (h1 : SHA256) (data1 : List Nat) (off : Nat) (hbuf : h1.buf.length = 64)
    (hb : h1.bytes < 0x10000000000000000) (hoff : off + data1.length % 64 ≤ 64) (r : SHA256)
    (hr : r =
      if ((if data1.length ≥ 64 then
            ((⟨sha256.Transform h1.s data1 (data1.length / 64), h1.buf,
                (h1.bytes + 64 * (data1.length / 64)) % 0x10000000000000000⟩ : SHA256),
              data1.drop (64 * (data1.length / 64)))
          else (h1, data1)).2).length > 0 then
        ⟨(if data1.length ≥ 64 then
            ((⟨sha256.Transform h1.s data1 (data1.length / 64), h1.buf,
                (h1.bytes + 64 * (data1.length / 64)) % 0x10000000000000000⟩ : SHA256),
              data1.drop (64 * (data1.length / 64)))
          else (h1, data1)).1.s,
          memcpy (if data1.length ≥ 64 then
            ((⟨sha256.Transform h1.s data1 (data1.length / 64), h1.buf,
                (h1.bytes + 64 * (data1.length / 64)) % 0x10000000000000000⟩ : SHA256),
              data1.drop (64 * (data1.length / 64)))
          else (h1, data1)).1.buf off (if data1.length ≥ 64 then
            ((⟨sha256.Transform h1.s data1 (data1.length / 64), h1.buf,
                (h1.bytes + 64 * (data1.length / 64)) % 0x10000000000000000⟩ : SHA256),
              data1.drop (64 * (data1.length / 64)))
          else (h1, data1)).2,
          ((if data1.length ≥ 64 then
            ((⟨sha256.Transform h1.s data1 (data1.length / 64), h1.buf,
                (h1.bytes + 64 * (data1.length / 64)) % 0x10000000000000000⟩ : SHA256),
              data1.drop (64 * (data1.length / 64)))
          else (h1, data1)).1.bytes + ((if data1.length ≥ 64 then
            ((⟨sha256.Transform h1.s data1 (data1.length / 64), h1.buf,
                (h1.bytes + 64 * (data1.length / 64)) % 0x10000000000000000⟩ : SHA256),
              data1.drop (64 * (data1.length / 64)))
          else (h1, data1)).2).length) % 0x10000000000000000⟩
      else (if data1.length ≥ 64 then
            ((⟨sha256.Transform h1.s data1 (data1.length / 64), h1.buf,
                (h1.bytes + 64 * (data1.length / 64)) % 0x10000000000000000⟩ : SHA256),
              data1.drop (64 * (data1.length / 64)))
          else (h1, data1)).1) :
    r.s = MD.absorb compress (data1.length / 64) h1.s data1 ∧
      r.bytes = (h1.bytes + data1.length) % 0x10000000000000000 ∧
      r.buf.take (off + data1.length % 64) =
        h1.buf.take off ++ data1.drop (64 * (data1.length / 64)) ∧
      r.buf.length = 64 := by
  rw [phase2_eq h1 data1 hb] at hr
  have hrem : (data1.drop (64 * (data1.length / 64))).length = data1.length % 64 :=
    drop_blocks_length data1
  simp only at hr
  split_ifs at hr with hpos
  · subst hr
    refine ⟨rfl, ?_, ?_, ?_⟩
    · show ((h1.bytes + 64 * (data1.length / 64)) % 0x10000000000000000 + _) % _ = _
      rw [hrem]; omega
    · show (memcpy h1.buf off _).take _ = _
      rw [← hrem]
      exact memcpy_take _ _ _ (by rw [hrem, hbuf]; exact hoff)
    · show (memcpy h1.buf off _).length = 64
      rw [memcpy_length _ _ _ (by rw [hrem, hbuf]; exact hoff), hbuf]
  · subst hr
    have h0 : data1.length % 64 = 0 := by omega
    have hnil : data1.drop (64 * (data1.length / 64)) = [] :=
      List.eq_nil_of_length_eq_zero (by omega)
    refine ⟨rfl, ?_, ?_, hbuf⟩
    · show (h1.bytes + 64 * (data1.length / 64)) % 0x10000000000000000 = _
      congr 1; omega
    · show h1.buf.take _ = _
      rw [h0, hnil, List.append_nil, Nat.add_zero]

theorem Write_spec_sha256 (h : SHA256) (data : List Nat) (hwf : h.WF) :
    (h.Write data).s =
        MD.absorb compress ((h.pending ++ data).length / 64) h.s (h.pending ++ data) ∧
      (h.Write data).bytes = (h.bytes + data.length) % 0x10000000000000000 ∧
      (h.Write data).pending =
        (h.pending ++ data).drop (64 * ((h.pending ++ data).length / 64)) ∧
      (h.Write data).WF := by
  obtain ⟨hbuf, hbytes⟩ := hwf
  obtain ⟨s, buf, bytes⟩ := h
  simp only at hbuf hbytes
  obtain ⟨r, hr⟩ : ∃ r, r = Write ⟨s, buf, bytes⟩ data := ⟨_, rfl⟩
  rw [← hr]
  unfold Write at hr
  lift_lets at hr
  extract_lets b buf1 st1 h1 data1 bufsize1 blocks st2 h2 data2 at hr
  simp only [pending, WF]
  have hb64 : b < 64 := Nat.mod_lt _ (by decide)
  have hbdef : bytes % 64 = b := rfl
  have hplen : (buf.take b).length = b := by rw [List.length_take]; omega
  rw [hbdef]
  generalize htot : buf.take b ++ data = total
  have hlen : total.length = b + data.length := by
    rw [← htot, List.length_append, hplen]
  by_cases hA : b ≠ 0 ∧ b + data.length ≥ 64
  · obtain ⟨hne, hge⟩ := hA
    have hst1 : st1 = (⟨MD.absorb compress 1 s (total.take 64), total.take 64,
        (bytes + (64 - b)) % 0x10000000000000000⟩, total.drop 64, 0) := by
      show (if b ≠ 0 ∧ b + data.length ≥ 64 then _ else _) = _
      rw [if_pos ⟨hne, hge⟩, ← htot]
      show ((⟨sha256.Transform s (memcpy buf b (data.take (64 - b))) 1,
        memcpy buf b (data.take (64 - b)), _⟩ : SHA256), data.drop (64 - b), 0) = _
      rw [memcpy_fill buf data b hbuf hb64 hge, drop_fill buf data b hbuf hb64,
        Transform_eq_absorb]
    have hh1 : h1 = ⟨MD.absorb compress 1 s (total.take 64), total.take 64,
        (bytes + (64 - b)) % 0x10000000000000000⟩ := by
      show st1.1 = _; rw [hst1]
    have hd1 : data1 = total.drop 64 := by show st1.2.1 = _; rw [hst1]
    have ho1 : bufsize1 = 0 := by show st1.2.2 = _; rw [hst1]
    have hd1len : data1.length = b + data.length - 64 := by
      rw [hd1, List.length_drop, hlen]
    have hbuf1 : h1.buf.length = 64 := by
      rw [hh1]; show (total.take 64).length = 64
      rw [List.length_take, hlen]; omega
    have hb1 : h1.bytes < 0x10000000000000000 := by
      rw [hh1]; exact Nat.mod_lt _ (by decide)
    obtain ⟨rs, rb, rp, rl⟩ := Write_tail_sha256 h1 data1 bufsize1 hbuf1 hb1 (by rw [ho1]; omega) r hr
    refine ⟨?_, ?_, ?_, rl, ?_⟩
    · rw [rs, hh1, hd1]
      exact MD.absorb_buffer_then_data compress_local_sha256 s total _ (by rw [List.length_drop]; omega)
    · rw [rb, hh1]
      show ((bytes + (64 - b)) % 0x10000000000000000 + data1.length) % _ = _
      omega
    · have hrb : r.bytes % 64 = bufsize1 + data1.length % 64 := by
        rw [rb, hh1, ho1]
        show ((bytes + (64 - b)) % 0x10000000000000000 + data1.length) % _ % 64 = _
        omega
      rw [hrb, rp, ho1, hd1, List.take_zero, List.nil_append, List.drop_drop]
      congr 1
      rw [List.length_drop]; omega
    · rw [rb]; exact Nat.mod_lt _ (by decide)
  · have hst1 : st1 = (⟨s, buf, bytes⟩, data, b) := by
      show (if b ≠ 0 ∧ b + data.length ≥ 64 then _ else _) = _
      rw [if_neg hA]
    have hh1 : h1 = ⟨s, buf, bytes⟩ := by show st1.1 = _; rw [hst1]
    have hd1 : data1 = data := by show st1.2.1 = _; rw [hst1]
    have ho1 : bufsize1 = b := by show st1.2.2 = _; rw [hst1]
    have hbuf1 : h1.buf.length = 64 := by rw [hh1]; exact hbuf
    have hb1 : h1.bytes < 0x10000000000000000 := by rw [hh1]; exact hbytes
    obtain ⟨rs, rb, rp, rl⟩ :=
      Write_tail_sha256 h1 data1 bufsize1 hbuf1 hb1 (by rw [ho1, hd1]; omega) r hr
    rw [hh1, hd1] at rs rb
    rw [hh1, hd1, ho1] at rp
    simp only at rs rb rp
    by_cases hb0 : b = 0
    · have htd : total = data := by rw [← htot, hb0, List.take_zero, List.nil_append]
      refine ⟨?_, rb, ?_, rl, ?_⟩
      · rw [rs, htd]
      · have hrb : r.bytes % 64 = b + data.length % 64 := by rw [rb]; omega
        rw [hrb, rp, htd, hb0, List.take_zero, List.nil_append]
      · rw [rb]; exact Nat.mod_lt _ (by decide)
    · have hlt : b + data.length < 64 := by omega
      have hk : data.length / 64 = 0 := by omega
      have hk' : total.length / 64 = 0 := by omega
      refine ⟨?_, rb, ?_, rl, ?_⟩
      · rw [rs, hk, hk']; rfl
      · have hrb : r.bytes % 64 = b + data.length % 64 := by rw [rb]; omega
        rw [hrb, rp, hk, hk', Nat.mul_zero, List.drop_zero, List.drop_zero, htot]
      · rw [rb]; exact Nat.mod_lt _ (by decide)

end SHA256

theorem drop_blocks_append (l v : List Nat) :
    (l.drop (64 * (l.length / 64)) ++ v).drop
        (64 * ((l.drop (64 * (l.length / 64)) ++ v).length / 64)) =
      (l ++ v).drop (64 * ((l ++ v).length / 64)) := by
  have h1 : 64 * (l.length / 64) ≤ l.length := by omega
  have hn : (l ++ v).length / 64 =
      l.length / 64 + (l.drop (64 * (l.length / 64)) ++ v).length / 64 := by
    simp only [List.length_append, List.length_drop]
    omega
  rw [hn, Nat.mul_add, ← List.drop_drop, List.drop_append_of_le_length h1]

theorem WriteBE64_eq_bigEndian (x : Nat) : WriteBE64 x = SHA256Spec.bigEndian 8 x := by
  simp only [WriteBE64, SHA256Spec.bigEndian, List.nil_append, List.cons_append,
    Nat.div_div_eq_div_mul]
  norm_num

theorem WriteBE32_eq_bigEndian (x : Nat) : WriteBE32 x = SHA256Spec.bigEndian 4 x := by
  simp only [WriteBE32, SHA256Spec.bigEndian, List.nil_append, List.cons_append,
    Nat.div_div_eq_div_mul]
  norm_num

namespace SHA256

open SHA256Spec (compress compress_local_sha256)

theorem init_WF_sha256 : init.WF := ⟨by decide, by decide⟩

/-- Two objects with the same state words, counter and buffered bytes stay so after
writing the same data. -/
theorem Write_congr_sha256 (a b : SHA256) (d : List Nat) (ha : a.WF) (hb : b.WF) (hs : a.s = b.s)
    (hbytes : a.bytes = b.bytes) (hp : a.pending = b.pending) :
    (a.Write d).s = (b.Write d).s ∧ (a.Write d).bytes = (b.Write d).bytes ∧
      (a.Write d).pending = (b.Write d).pending := by
  obtain ⟨as, ab, ap, _⟩ := Write_spec_sha256 a d ha
  obtain ⟨bs, bb, bp, _⟩ := Write_spec_sha256 b d hb
  rw [as, ab, ap, bs, bb, bp, hs, hbytes, hp]
  exact ⟨rfl, rfl, rfl⟩

/-- Writing `u` and then `v` is writing `u ++ v`, as far as the state words, the counter
and the buffered bytes are concerned. -/
theorem Write_append_sha256 (st : SHA256) (u v : List Nat) (hwf : st.WF) :
    ((st.Write u).Write v).s = (st.Write (u ++ v)).s ∧
      ((st.Write u).Write v).bytes = (st.Write (u ++ v)).bytes ∧
      ((st.Write u).Write v).pending = (st.Write (u ++ v)).pending := by
  obtain ⟨s1, b1, p1, w1⟩ := Write_spec_sha256 st u hwf
  obtain ⟨s2, b2, p2, _⟩ := Write_spec_sha256 (st.Write u) v w1
  obtain ⟨s3, b3, p3, _⟩ := Write_spec_sha256 st (u ++ v) hwf
  refine ⟨?_, ?_, ?_⟩
  · rw [s2, s3, p1, s1, ← List.append_assoc]
    exact (MD.absorb_split compress_local_sha256 st.s (st.pending ++ u) v).symm
  · rw [b2, b3, b1, List.length_append]; omega
  · rw [p2, p3, p1, ← List.append_assoc]
    exact drop_blocks_append (st.pending ++ u) v

/-- The digest written by `Finalize` depends only on the state words, the counter and the
buffered bytes. -/
theorem Finalize_congr_sha256 (a b : SHA256) (ha : a.WF) (hb : b.WF) (hs : a.s = b.s)
    (hbytes : a.bytes = b.bytes) (hp : a.pending = b.pending) :
    a.Finalize.2 = b.Finalize.2 := by
  unfold Finalize
  simp only
  rw [hbytes]
  obtain ⟨s1, b1, p1⟩ := Write_congr_sha256 a b (pad.take (1 + ((119 - (b.bytes % 64)) % 64))) ha hb hs
    hbytes hp
  obtain ⟨s2, _, _⟩ := Write_congr_sha256 _ _ (WriteBE64 ((b.bytes <<< 3) % 0x10000000000000000))
    (Write_spec_sha256 a _ ha).2.2.2 (Write_spec_sha256 b _ hb).2.2.2 s1 b1 p1
  rw [s2]

theorem pad_take_sha256 (j : Nat) (hj : j ≤ 63) : pad.take (1 + j) = 0x80 :: List.replicate j 0 := by
  unfold pad
  rw [Nat.add_comm, List.take_succ_cons, List.take_replicate, Nat.min_eq_left hj]

/-- The state words of a fresh object after `Write(m)` and the two writes of `Finalize`
are the reference state after the padded message. -/
theorem Finalize_init_sha256 (m : List Nat) (hm : m.length < 2^61) :
    (init.Write m).Finalize.2 = SHA256Spec.hash m := by
  obtain ⟨_, b1, _, w1⟩ := Write_spec_sha256 init m init_WF_sha256
  have hb1 : (init.Write m).bytes = m.length := by
    rw [b1]; show (0 + m.length) % _ = _
    omega
  have hshift : ((init.Write m).bytes <<< 3) % 0x10000000000000000 = 8 * m.length := by
    rw [hb1, Nat.shiftLeft_eq]; omega
  have hpadded : SHA256Spec.padded m =
      m ++ (pad.take (1 + ((119 - ((init.Write m).bytes % 64)) % 64)) ++
        WriteBE64 (((init.Write m).bytes <<< 3) % 0x10000000000000000)) := by
    unfold SHA256Spec.padded
    rw [hshift, hb1, pad_take_sha256 _ (by omega), MD.zeroPad_eq _ _ (by omega), WriteBE64_eq_bigEndian]
    simp only [List.length_append, List.length_singleton, List.append_assoc, List.singleton_append,
      List.cons_append]
    have hk : (120 - (m.length + 1) % 64) % 64 = (119 - m.length % 64) % 64 := by omega
    rw [hk, List.nil_append]
  obtain ⟨s2, _, _⟩ := Write_append_sha256 (init.Write m)
    (pad.take (1 + ((119 - ((init.Write m).bytes % 64)) % 64)))
    (WriteBE64 (((init.Write m).bytes <<< 3) % 0x10000000000000000)) w1
  obtain ⟨s3, _, _⟩ := Write_append_sha256 init m
    (pad.take (1 + ((119 - ((init.Write m).bytes % 64)) % 64)) ++
      WriteBE64 (((init.Write m).bytes <<< 3) % 0x10000000000000000)) init_WF_sha256
  obtain ⟨s4, _, _, _⟩ := Write_spec_sha256 init (SHA256Spec.padded m) init_WF_sha256
  have hfin : (((init.Write m).Write
      (pad.take (1 + ((119 - ((init.Write m).bytes % 64)) % 64)))).Write
      (WriteBE64 (((init.Write m).bytes <<< 3) % 0x10000000000000000))).s =
      MD.absorb compress ((SHA256Spec.padded m).length / 64) sha256.Initialize
        (SHA256Spec.padded m) := by
    rw [s2, s3, ← hpadded, s4]
    rfl
  unfold Finalize SHA256Spec.hash
  simp only [hfin, WriteBE32_eq_bigEndian]

end SHA256


theorem WriteLE64_eq_littleEndian (x : Nat) : WriteLE64 x = RIPEMD160Spec.littleEndian 8 x := by
  simp only [WriteLE64, RIPEMD160Spec.littleEndian, Nat.div_div_eq_div_mul]
  norm_num

theorem WriteLE32_eq_littleEndian (x : Nat) : WriteLE32 x = RIPEMD160Spec.littleEndian 4 x := by
  simp only [WriteLE32, RIPEMD160Spec.littleEndian, Nat.div_div_eq_div_mul]
  norm_num

namespace RIPEMD160Spec

open ripemd160 (State)

theorem word_take_ripemd160 (l : List Nat) (t : Nat) (h : t < 16) : word (l.take 64) t = word l t := by
  unfold word
  rw [byteAt_take _ _ _ (by omega), byteAt_take _ _ _ (by omega), byteAt_take _ _ _ (by omega),
    byteAt_take _ _ _ (by omega)]

theorem compress_local_ripemd160 : MD.Local compress := by
  intro H l
  have hmap : (List.range 16).map (word (l.take 64)) = (List.range 16).map (word l) :=
    List.map_congr_left fun t ht => word_take_ripemd160 l t (List.mem_range.mp ht)
  unfold compress
  rw [hmap]

end RIPEMD160Spec

namespace RIPEMD160

open RIPEMD160Spec (compress compress_local_ripemd160 Transform_eq_compress)

/-- The `while` loop of `Write` processes all full chunks of the data. -/
theorem WriteChunks_eq (fuel : Nat) (s : ripemd160.State) (bytes : Nat) (data : List Nat)
    (hfuel : data.length / 64 ≤ fuel) (hb : bytes < 0x10000000000000000) :
    WriteChunks fuel s bytes data =
      (MD.absorb compress (data.length / 64) s data,
        (bytes + 64 * (data.length / 64)) % 0x10000000000000000,
        data.drop (64 * (data.length / 64))) := by
  induction fuel generalizing s bytes data with
  | zero =>
    have hk : data.length / 64 = 0 := by omega
    rw [hk]
    simp only [WriteChunks, MD.absorb, Nat.mul_zero, Nat.add_zero, List.drop_zero,
      Nat.mod_eq_of_lt hb]
  | succ fuel ih =>
    unfold WriteChunks
    split_ifs with hge
    · have hk : data.length / 64 = (data.drop 64).length / 64 + 1 := by
        rw [List.length_drop]; omega
      rw [ih _ _ _ (by rw [List.length_drop]; omega) (Nat.mod_lt _ (by decide)), hk]
      simp only [MD.absorb, Transform_eq_compress, List.drop_drop, Prod.mk.injEq, true_and]
      constructor
      · omega
      · congr 1; omega
    · have hk : data.length / 64 = 0 := by omega
      rw [hk]
      simp only [MD.absorb, Nat.mul_zero, Nat.add_zero, List.drop_zero, Nat.mod_eq_of_lt hb]

/-- The second and third step of `Write`: full chunks are processed from the data and
the rest is copied into the buffer at `off`. -/
theorem Write_tail_ripemd160 (h1 : RIPEMD160) (data1 : List Nat) (off : Nat) (hbuf : h1.buf.length = 64)
    (hb : h1.bytes < 0x10000000000000000) (hoff : off + data1.length % 64 ≤ 64) (r : RIPEMD160)
    (hr : r =
      (let st2 := WriteChunks data1.length h1.s h1.bytes data1
       let h2 : RIPEMD160 := ⟨st2.1, h1.buf, st2.2.1⟩
       let data2 := st2.2.2
       if data2.length > 0 then
         ⟨h2.s, memcpy h2.buf off data2, (h2.bytes + data2.length) % 0x10000000000000000⟩
       else h2)) :
    r.s = MD.absorb compress (data1.length / 64) h1.s data1 ∧
      r.bytes = (h1.bytes + data1.length) % 0x10000000000000000 ∧
      r.buf.take (off + data1.length % 64) =
        h1.buf.take off ++ data1.drop (64 * (data1.length / 64)) ∧
      r.buf.length = 64 := by
  rw [WriteChunks_eq _ _ _ _ (Nat.div_le_self _ _) hb] at hr
  have hrem : (data1.drop (64 * (data1.length / 64))).length = data1.length % 64 :=
    drop_blocks_length data1
  simp only at hr
  split_ifs at hr with hpos
  · subst hr
    refine ⟨rfl, ?_, ?_, ?_⟩
    · show ((h1.bytes + 64 * (data1.length / 64)) % 0x10000000000000000 + _) % _ = _
      rw [hrem]; omega
    · show (memcpy h1.buf off _).take _ = _
      rw [← hrem]
      exact memcpy_take _ _ _ (by rw [hrem, hbuf]; exact hoff)
    · show (memcpy h1.buf off _).length = 64
      rw [memcpy_length _ _ _ (by rw [hrem, hbuf]; exact hoff), hbuf]
  · subst hr
    have h0 : data1.length % 64 = 0 := by omega
    have hnil : data1.drop (64 * (data1.length / 64)) = [] :=
      List.eq_nil_of_length_eq_zero (by omega)
    refine ⟨rfl, ?_, ?_, hbuf⟩
    · show (h1.bytes + 64 * (data1.length / 64)) % 0x10000000000000000 = _
      congr 1; omega
    · show h1.buf.take _ = _
      rw [h0, hnil, List.append_nil, Nat.add_zero]

theorem Write_spec_ripemd160 (h : RIPEMD160) (data : List Nat) (hwf : h.WF) :
    (h.Write data).s =
        MD.absorb compress ((h.pending ++ data).length / 64) h.s (h.pending ++ data) ∧
      (h.Write data).bytes = (h.bytes + data.length) % 0x10000000000000000 ∧
      (h.Write data).pending =
        (h.pending ++ data).drop (64 * ((h.pending ++ data).length / 64)) ∧
      (h.Write data).WF := by
  obtain ⟨hbuf, hbytes⟩ := hwf
  obtain ⟨s, buf, bytes⟩ := h
  simp only at hbuf hbytes
  obtain ⟨r, hr⟩ : ∃ r, r = Write ⟨s, buf, bytes⟩ data := ⟨_, rfl⟩
  rw [← hr]
  unfold Write at hr
  lift_lets at hr
  extract_lets b buf1 st1 h1 data1 bufsize1 st2 h2 data2 at hr
  simp only [pending, WF]
  have hb64 : b < 64 := Nat.mod_lt _ (by decide)
  have hbdef : bytes % 64 = b := rfl
  have hplen : (buf.take b).length = b := by rw [List.length_take]; omega
  rw [hbdef]
  generalize htot : buf.take b ++ data = total
  have hlen : total.length = b + data.length := by
    rw [← htot, List.length_append, hplen]
  by_cases hA : b ≠ 0 ∧ b + data.length ≥ 64
  · obtain ⟨hne, hge⟩ := hA
    have hst1 : st1 = (⟨MD.absorb compress 1 s (total.take 64), total.take 64,
        (bytes + (64 - b)) % 0x10000000000000000⟩, total.drop 64, 0) := by
      show (if b ≠ 0 ∧ b + data.length ≥ 64 then _ else _) = _
      rw [if_pos ⟨hne, hge⟩, ← htot]
      show ((⟨ripemd160.Transform s (memcpy buf b (data.take (64 - b))),
        memcpy buf b (data.take (64 - b)), _⟩ : RIPEMD160), data.drop (64 - b), 0) = _
      rw [memcpy_fill buf data b hbuf hb64 hge, drop_fill buf data b hbuf hb64,
        Transform_eq_compress]
      rfl
    have hh1 : h1 = ⟨MD.absorb compress 1 s (total.take 64), total.take 64,
        (bytes + (64 - b)) % 0x10000000000000000⟩ := by
      show st1.1 = _; rw [hst1]
    have hd1 : data1 = total.drop 64 := by show st1.2.1 = _; rw [hst1]
    have ho1 : bufsize1 = 0 := by show st1.2.2 = _; rw [hst1]
    have hd1len : data1.length = b + data.length - 64 := by
      rw [hd1, List.length_drop, hlen]
    have hbuf1 : h1.buf.length = 64 := by
      rw [hh1]; show (total.take 64).length = 64
      rw [List.length_take, hlen]; omega
    have hb1 : h1.bytes < 0x10000000000000000 := by
      rw [hh1]; exact Nat.mod_lt _ (by decide)
    obtain ⟨rs, rb, rp, rl⟩ := Write_tail_ripemd160 h1 data1 bufsize1 hbuf1 hb1 (by rw [ho1]; omega) r hr
    refine ⟨?_, ?_, ?_, rl, ?_⟩
    · rw [rs, hh1, hd1]
      exact MD.absorb_buffer_then_data compress_local_ripemd160 s total _ (by rw [List.length_drop]; omega)
    · rw [rb, hh1]
      show ((bytes + (64 - b)) % 0x10000000000000000 + data1.length) % _ = _
      omega
    · have hrb : r.bytes % 64 = bufsize1 + data1.length % 64 := by
        rw [rb, hh1, ho1]
        show ((bytes + (64 - b)) % 0x10000000000000000 + data1.length) % _ % 64 = _
        omega
      rw [hrb, rp, ho1, hd1, List.take_zero, List.nil_append, List.drop_drop]
      congr 1
      rw [List.length_drop]; omega
    · rw [rb]; exact Nat.mod_lt _ (by decide)
  · have hst1 : st1 = (⟨s, buf, bytes⟩, data, b) := by
      show (if b ≠ 0 ∧ b + data.length ≥ 64 then _ else _) = _
      rw [if_neg hA]
    have hh1 : h1 = ⟨s, buf, bytes⟩ := by show st1.1 = _; rw [hst1]
    have hd1 : data1 = data := by show st1.2.1 = _; rw [hst1]
    have ho1 : bufsize1 = b := by show st1.2.2 = _; rw [hst1]
    have hbuf1 : h1.buf.length = 64 := by rw [hh1]; exact hbuf
    have hb1 : h1.bytes < 0x10000000000000000 := by rw [hh1]; exact hbytes
    obtain ⟨rs, rb, rp, rl⟩ :=
      Write_tail_ripemd160 h1 data1 bufsize1 hbuf1 hb1 (by rw [ho1, hd1]; omega) r hr
    rw [hh1, hd1] at rs rb
    rw [hh1, hd1, ho1] at rp
    simp only at rs rb rp
    by_cases hb0 : b = 0
    · have htd : total = data := by rw [← htot, hb0, List.take_zero, List.nil_append]
      refine ⟨?_, rb, ?_, rl, ?_⟩
      · rw [rs, htd]
      · have hrb : r.bytes % 64 = b + data.length % 64 := by rw [rb]; omega
        rw [hrb, rp, htd, hb0, List.take_zero, List.nil_append]
      · rw [rb]; exact Nat.mod_lt _ (by decide)
    · have hlt : b + data.length < 64 := by omega
      have hk : data.length / 64 = 0 := by omega
      have hk' : total.length / 64 = 0 := by omega
      refine ⟨?_, rb, ?_, rl, ?_⟩
      · rw [rs, hk, hk']; rfl
      · have hrb : r.bytes % 64 = b + data.length % 64 := by rw [rb]; omega
        rw [hrb, rp, hk, hk', Nat.mul_zero, List.drop_zero, List.drop_zero, htot]
      · rw [rb]; exact Nat.mod_lt _ (by decide)

theorem init_WF_ripemd160 : init.WF := ⟨by decide, by decide⟩

/-- Two objects with the same state words, counter and buffered bytes stay so after
writing the same data. -/
theorem Write_congr_ripemd160 (a b : RIPEMD160) (d : List Nat) (ha : a.WF) (hb : b.WF) (hs : a.s = b.s)
    (hbytes : a.bytes = b.bytes) (hp : a.pending = b.pending) :
    (a.Write d).s = (b.Write d).s ∧ (a.Write d).bytes = (b.Write d).bytes ∧
      (a.Write d).pending = (b.Write d).pending := by
  obtain ⟨as, ab, ap, _⟩ := Write_spec_ripemd160 a d ha
  obtain ⟨bs, bb, bp, _⟩ := Write_spec_ripemd160 b d hb
  rw [as, ab, ap, bs, bb, bp, hs, hbytes, hp]
  exact ⟨rfl, rfl, rfl⟩

/-- Writing `u` and then `v` is writing `u ++ v`, as far as the state words, the counter
and the buffered bytes are concerned. -/
theorem Write_append_ripemd160 (st : RIPEMD160) (u v : List Nat) (hwf : st.WF) :
    ((st.Write u).Write v).s = (st.Write (u ++ v)).s ∧
      ((st.Write u).Write v).bytes = (st.Write (u ++ v)).bytes ∧
      ((st.Write u).Write v).pending = (st.Write (u ++ v)).pending := by
  obtain ⟨s1, b1, p1, w1⟩ := Write_spec_ripemd160 st u hwf
  obtain ⟨s2, b2, p2, _⟩ := Write_spec_ripemd160 (st.Write u) v w1
  obtain ⟨s3, b3, p3, _⟩ := Write_spec_ripemd160 st (u ++ v) hwf
  refine ⟨?_, ?_, ?_⟩
  · rw [s2, s3, p1, s1, ← List.append_assoc]
    exact (MD.absorb_split compress_local_ripemd160 st.s (st.pending ++ u) v).symm
  · rw [b2, b3, b1, List.length_append]; omega
  · rw [p2, p3, p1, ← List.append_assoc]
    exact drop_blocks_append (st.pending ++ u) v

/-- The digest written by `Finalize` depends only on the state words, the counter and the
buffered bytes. -/
theorem Finalize_congr_ripemd160 (a b : RIPEMD160) (ha : a.WF) (hb : b.WF) (hs : a.s = b.s)
    (hbytes : a.bytes = b.bytes) (hp : a.pending = b.pending) :
    a.Finalize.2 = b.Finalize.2 := by
  unfold Finalize
  simp only
  rw [hbytes]
  obtain ⟨s1, b1, p1⟩ := Write_congr_ripemd160 a b (pad.take (1 + ((119 - (b.bytes % 64)) % 64))) ha hb hs
    hbytes hp
  obtain ⟨s2, _, _⟩ := Write_congr_ripemd160 _ _ (WriteLE64 ((b.bytes <<< 3) % 0x10000000000000000))
    (Write_spec_ripemd160 a _ ha).2.2.2 (Write_spec_ripemd160 b _ hb).2.2.2 s1 b1 p1
  rw [s2]

theorem pad_take_ripemd160 (j : Nat) (hj : j ≤ 63) : pad.take (1 + j) = 0x80 :: List.replicate j 0 := by
  unfold pad
  rw [Nat.add_comm, List.take_succ_cons, List.take_replicate, Nat.min_eq_left hj]

/-- The digest of a fresh object after `Write(m)` and `Finalize` is the reference digest. -/
theorem Finalize_init_ripemd160 (m : List Nat) (hm : m.length < 2^61) :
    (init.Write m).Finalize.2 = RIPEMD160Spec.hash m := by
  obtain ⟨_, b1, _, w1⟩ := Write_spec_ripemd160 init m init_WF_ripemd160
  have hb1 : (init.Write m).bytes = m.length := by
    rw [b1]; show (0 + m.length) % _ = _
    omega
  have hshift : ((init.Write m).bytes <<< 3) % 0x10000000000000000 = 8 * m.length := by
    rw [hb1, Nat.shiftLeft_eq]; omega
  have hpadded : RIPEMD160Spec.padded m =
      m ++ (pad.take (1 + ((119 - ((init.Write m).bytes % 64)) % 64)) ++
        WriteLE64 (((init.Write m).bytes <<< 3) % 0x10000000000000000)) := by
    unfold RIPEMD160Spec.padded
    rw [hshift, hb1, pad_take_ripemd160 _ (by omega), MD.zeroPad_eq _ _ (by omega),
      WriteLE64_eq_littleEndian]
    simp only [List.length_append, List.length_singleton, List.append_assoc, List.singleton_append,
      List.cons_append]
    have hk : (120 - (m.length + 1) % 64) % 64 = (119 - m.length % 64) % 64 := by omega
    rw [hk, List.nil_append]
  obtain ⟨s2, _, _⟩ := Write_append_ripemd160 (init.Write m)
    (pad.take (1 + ((119 - ((init.Write m).bytes % 64)) % 64)))
    (WriteLE64 (((init.Write m).bytes <<< 3) % 0x10000000000000000)) w1
  obtain ⟨s3, _, _⟩ := Write_append_ripemd160 init m
    (pad.take (1 + ((119 - ((init.Write m).bytes % 64)) % 64)) ++
      WriteLE64 (((init.Write m).bytes <<< 3) % 0x10000000000000000)) init_WF_ripemd160
  obtain ⟨s4, _, _, _⟩ := Write_spec_ripemd160 init (RIPEMD160Spec.padded m) init_WF_ripemd160
  have hfin : (((init.Write m).Write
      (pad.take (1 + ((119 - ((init.Write m).bytes % 64)) % 64)))).Write
      (WriteLE64 (((init.Write m).bytes <<< 3) % 0x10000000000000000))).s =
      MD.absorb compress ((RIPEMD160Spec.padded m).length / 64) ripemd160.Initialize
        (RIPEMD160Spec.padded m) := by
    rw [s2, s3, ← hpadded, s4]
    rfl
  unfold Finalize RIPEMD160Spec.hash
  simp only [hfin, WriteLE32_eq_littleEndian]

end RIPEMD160

/-! ## Field arithmetic in `ZMod p` -/

theorem powmodAux_cast (m : Nat) (fuel acc b e : Nat) (he : e < 2 ^ fuel) :
    ((powmodAux fuel acc b e m : Nat) : ZMod m) = (acc : ZMod m) * (b : ZMod m) ^ e := by
  induction fuel generalizing acc b e with
  | zero =>
    have h0 : e = 0 := by simpa using he
    simp [powmodAux, h0]
  | succ fuel ih =>
    unfold powmodAux
    split_ifs with h0 hodd
    · simp [h0]
    · rw [ih _ _ _ (by rw [pow_succ] at he; omega)]
      simp only [ZMod.natCast_mod, Nat.cast_mul]
      have he2 : e = 2 * (e / 2) + 1 := by omega
      conv_rhs => rw [he2]
      rw [pow_succ, pow_mul]
      ring
    · rw [ih _ _ _ (by rw [pow_succ] at he; omega)]
      simp only [ZMod.natCast_mod, Nat.cast_mul]
      have he2 : e = 2 * (e / 2) := by omega
      conv_rhs => rw [he2]
      rw [pow_mul]
      ring

theorem powmod_cast (b e m : Nat) : ((powmod b e m : Nat) : ZMod m) = (b : ZMod m) ^ e := by
  unfold powmod
  rw [powmodAux_cast m e _ _ e (Nat.lt_two_pow e)]
  simp [ZMod.natCast_mod]

section
variable (F : secp256k1_params)

theorem fe_add_cast (r a : Nat) :
    ((secp256k1_fe_add F r a : Nat) : ZMod F.p) = (r : ZMod F.p) + a := by
  simp [secp256k1_fe_add, ZMod.natCast_mod]

theorem fe_negate_cast (hp : 0 < F.p) (a m : Nat) :
    ((secp256k1_fe_negate F a m : Nat) : ZMod F.p) = -(a : ZMod F.p) := by
  unfold secp256k1_fe_negate
  have hle : a % F.p ≤ F.p := (Nat.mod_lt _ hp).le
  rw [ZMod.natCast_mod, Nat.cast_sub hle, ZMod.natCast_self, ZMod.natCast_mod, zero_sub]

theorem fe_mul_cast (a b : Nat) :
    ((secp256k1_fe_mul F a b : Nat) : ZMod F.p) = (a : ZMod F.p) * b := by
  simp [secp256k1_fe_mul, ZMod.natCast_mod]

theorem fe_sqr_cast (a : Nat) :
    ((secp256k1_fe_sqr F a : Nat) : ZMod F.p) = (a : ZMod F.p) * a := by
  simp [secp256k1_fe_sqr, ZMod.natCast_mod]

theorem fe_mul_int_cast (r k : Nat) :
    ((secp256k1_fe_mul_int F r k : Nat) : ZMod F.p) = (r : ZMod F.p) * k := by
  simp [secp256k1_fe_mul_int, ZMod.natCast_mod]

theorem fe_normalize_cast (r : Nat) :
    ((secp256k1_fe_normalize F r : Nat) : ZMod F.p) = (r : ZMod F.p) := by
  simp [secp256k1_fe_normalize, ZMod.natCast_mod]

theorem fe_normalize_weak_cast (r : Nat) :
    ((secp256k1_fe_normalize_weak F r : Nat) : ZMod F.p) = (r : ZMod F.p) := by
  simp [secp256k1_fe_normalize_weak, ZMod.natCast_mod]

/-- For a prime modulus `secp256k1_fe_inv` is the field inverse of a non-zero element. -/
theorem fe_inv_cast (hp : Nat.Prime F.p) (a : Nat) (ha : (a : ZMod F.p) ≠ 0) :
    ((secp256k1_fe_inv F a : Nat) : ZMod F.p) = (a : ZMod F.p)⁻¹ := by
  haveI : Fact (Nat.Prime F.p) := ⟨hp⟩
  unfold secp256k1_fe_inv
  have hmod : a % F.p ≠ 0 := by
    intro h
    exact ha ((ZMod.natCast_zmod_eq_zero_iff_dvd a F.p).mpr (Nat.dvd_of_mod_eq_zero h))
  rw [if_neg hmod, powmod_cast]
  have h1 : (a : ZMod F.p) ^ (F.p - 1) = 1 := ZMod.pow_card_sub_one_eq_one ha
  have h2 : (a : ZMod F.p) ^ (F.p - 2) * a = 1 := by
    rw [← pow_succ, ← h1]
    congr 1
    have := hp.two_le
    omega
  exact eq_inv_of_mul_eq_one_left h2

end

/-! ## The group operations in `ZMod p` -/

section
variable (F : secp256k1_params)

/-- The coordinates computed by `secp256k1_ge_add`, for a prime modulus and operands with
different x-coordinates. -/
theorem ge_add_cast (hp : Nat.Prime F.p) (a b : secp256k1_ge)
    (hx : (a.x : ZMod F.p) ≠ (b.x : ZMod F.p)) :
    ((secp256k1_ge_add F a b).x : ZMod F.p) =
        (((a.y : ZMod F.p) - b.y) * ((a.x : ZMod F.p) - b.x)⁻¹) ^ 2 - ((a.x : ZMod F.p) + b.x) ∧
      ((secp256k1_ge_add F a b).y : ZMod F.p) =
        (((a.y : ZMod F.p) - b.y) * ((a.x : ZMod F.p) - b.x)⁻¹) *
          ((a.x : ZMod F.p) - ((secp256k1_ge_add F a b).x : ZMod F.p)) - a.y := by
  have hpos : 0 < F.p := hp.pos
  have hd : ((secp256k1_fe_add F (secp256k1_fe_negate F b.x 1) a.x : Nat) : ZMod F.p) ≠ 0 := by
    rw [fe_add_cast, fe_negate_cast F hpos]
    intro h
    exact hx (by linear_combination h)
  have hinv := fe_inv_cast F hp _ hd
  rw [fe_add_cast, fe_negate_cast F hpos] at hinv
  constructor
  · simp only [secp256k1_ge_add, fe_normalize_cast, fe_add_cast, fe_negate_cast F hpos,
      fe_normalize_weak_cast, fe_sqr_cast, fe_mul_cast, hinv]
    ring_nf
  · simp only [secp256k1_ge_add, fe_normalize_cast, fe_add_cast, fe_negate_cast F hpos,
      fe_normalize_weak_cast, fe_sqr_cast, fe_mul_cast, hinv]
    ring_nf

/-- The coordinates computed by `secp256k1_ge_dbl`, for a prime modulus and an operand with
`2 * y ≠ 0`. -/
theorem ge_dbl_cast (hp : Nat.Prime F.p) (a : secp256k1_ge)
    (hy : (2 : ZMod F.p) * (a.y : ZMod F.p) ≠ 0) :
    ((secp256k1_ge_dbl F a).x : ZMod F.p) =
        (3 * (a.x : ZMod F.p) ^ 2 * (2 * (a.y : ZMod F.p))⁻¹) ^ 2 - 2 * (a.x : ZMod F.p) ∧
      ((secp256k1_ge_dbl F a).y : ZMod F.p) =
        (3 * (a.x : ZMod F.p) ^ 2 * (2 * (a.y : ZMod F.p))⁻¹) *
          ((a.x : ZMod F.p) - ((secp256k1_ge_dbl F a).x : ZMod F.p)) - a.y := by
  have hpos : 0 < F.p := hp.pos
  have hd : ((secp256k1_fe_mul_int F a.y 2 : Nat) : ZMod F.p) ≠ 0 := by
    rw [fe_mul_int_cast]
    intro h
    exact hy (by rw [mul_comm]; exact_mod_cast h)
  have hinv := fe_inv_cast F hp _ hd
  rw [fe_mul_int_cast] at hinv
  have h2 : ((a.y : ZMod F.p) * ((2 : Nat) : ZMod F.p))⁻¹ = (2 * (a.y : ZMod F.p))⁻¹ := by
    rw [mul_comm]; norm_num
  rw [h2] at hinv
  constructor
  · simp only [secp256k1_ge_dbl, fe_normalize_cast, fe_add_cast, fe_negate_cast F hpos,
      fe_normalize_weak_cast, fe_sqr_cast, fe_mul_cast, fe_mul_int_cast, hinv]
    push_cast
    ring
  · simp only [secp256k1_ge_dbl, fe_normalize_cast, fe_add_cast, fe_negate_cast F hpos,
      fe_normalize_weak_cast, fe_sqr_cast, fe_mul_cast, fe_mul_int_cast, hinv]
    push_cast
    ring

theorem ge_add_lt (hp : 0 < F.p) (a b : secp256k1_ge) :
    (secp256k1_ge_add F a b).x < F.p ∧ (secp256k1_ge_add F a b).y < F.p :=
  ⟨Nat.mod_lt _ hp, Nat.mod_lt _ hp⟩

theorem ge_dbl_lt (hp : 0 < F.p) (a : secp256k1_ge) :
    (secp256k1_ge_dbl F a).x < F.p ∧ (secp256k1_ge_dbl F a).y < F.p :=
  ⟨Nat.mod_lt _ hp, Nat.mod_lt _ hp⟩

end

open WeierstrassCurve.Affine

section
variable (F : secp256k1_params)

theorem secp256k1_curve_equation_iff (x y : ZMod F.p) :
    (secp256k1_curve F.p).toAffine.Equation x y ↔ y ^ 2 = x ^ 3 + 7 := by
  rw [equation_iff]
  simp [secp256k1_curve]

theorem on_curve_iff_equation (a : secp256k1_ge) :
    secp256k1_on_curve F a ↔
      (secp256k1_curve F.p).toAffine.Equation (a.x : ZMod F.p) (a.y : ZMod F.p) := by
  rw [secp256k1_curve_equation_iff, secp256k1_on_curve, ← ZMod.natCast_eq_natCast_iff']
  push_cast
  constructor <;> intro h <;> linear_combination h

theorem small_ne_zero (k : Nat) (hk0 : 0 < k) (hk : k < F.p) :
    ((k : Nat) : ZMod F.p) ≠ 0 := by
  intro h
  have := Nat.le_of_dvd hk0 ((ZMod.natCast_zmod_eq_zero_iff_dvd k F.p).mp h)
  omega

/-- Over a prime field with more than 7 elements every point of the curve is nonsingular. -/
theorem nonsingular_of_equation (hp : Nat.Prime F.p) (h7 : 7 < F.p) (x y : ZMod F.p)
    (h : (secp256k1_curve F.p).toAffine.Equation x y) :
    (secp256k1_curve F.p).toAffine.Nonsingular x y := by
  haveI : Fact (Nat.Prime F.p) := ⟨hp⟩
  rw [nonsingular_iff']
  refine ⟨h, ?_⟩
  have h2 : (2 : ZMod F.p) ≠ 0 := by
    have := small_ne_zero F 2 (by norm_num) (by omega); exact_mod_cast this
  have h3 : (3 : ZMod F.p) ≠ 0 := by
    have := small_ne_zero F 3 (by norm_num) (by omega); exact_mod_cast this
  have h7' : (7 : ZMod F.p) ≠ 0 := by
    have := small_ne_zero F 7 (by norm_num) (by omega); exact_mod_cast this
  rw [secp256k1_curve_equation_iff] at h
  simp only [secp256k1_curve, zero_mul, mul_zero, add_zero, zero_sub, ne_eq, neg_eq_zero]
  by_cases hy : y = 0
  · left
    have hx : x ≠ 0 := by
      intro hx
      rw [hy, hx] at h
      apply h7'
      linear_combination -h
    exact mul_ne_zero h3 (pow_ne_zero 2 hx)
  · right
    exact mul_ne_zero h2 hy

theorem secp256k1_point_of_on_curve (hp : Nat.Prime F.p) (h7 : 7 < F.p) (a : secp256k1_ge)
    (ha : secp256k1_on_curve F a) :
    secp256k1_point F a =
      Point.some (nonsingular_of_equation F hp h7 _ _ ((on_curve_iff_equation F a).mp ha)) := by
  unfold secp256k1_point
  rw [dif_pos]

theorem secp256k1_point_ne_zero_iff (hp : Nat.Prime F.p) (h7 : 7 < F.p) (a : secp256k1_ge) :
    secp256k1_point F a ≠ 0 ↔ secp256k1_on_curve F a := by
  constructor
  · intro h
    unfold secp256k1_point at h
    split_ifs at h with hns
    · exact (on_curve_iff_equation F a).mpr hns.1
    · exact absurd rfl h
  · intro h
    rw [secp256k1_point_of_on_curve F hp h7 a h]
    exact Point.some_ne_zero _

theorem point_some_congr {W : WeierstrassCurve.Affine (ZMod F.p)} {x₁ y₁ x₂ y₂ : ZMod F.p}
    (h₁ : W.Nonsingular x₁ y₁) (h₂ : W.Nonsingular x₂ y₂) (hx : x₁ = x₂) (hy : y₁ = y₂) :
    Point.some h₁ = Point.some h₂ := by
  subst hx hy
  rfl

theorem secp256k1_point_eq_some (a : secp256k1_ge) {x y : ZMod F.p}
    (h : (secp256k1_curve F.p).toAffine.Nonsingular x y) (hx : (a.x : ZMod F.p) = x)
    (hy : (a.y : ZMod F.p) = y) : secp256k1_point F a = Point.some h := by
  subst hx hy
  unfold secp256k1_point
  rw [dif_pos h]

end

section
variable (F : secp256k1_params) [hF : Fact (Nat.Prime F.p)]

/-- `secp256k1_ge_add` is the addition of the curve group on two points that are
neither equal nor opposite. -/
theorem secp256k1_point_add (h7 : 7 < F.p) (a b : secp256k1_ge)
    (ha : secp256k1_point F a ≠ 0) (hb : secp256k1_point F b ≠ 0)
    (hne : secp256k1_point F a ≠ secp256k1_point F b)
    (hneg : secp256k1_point F a ≠ -secp256k1_point F b) :
    (a.x : ZMod F.p) ≠ (b.x : ZMod F.p) ∧
      secp256k1_point F (secp256k1_ge_add F a b) = secp256k1_point F a + secp256k1_point F b := by
  have hp : Nat.Prime F.p := hF.out
  have hca := (secp256k1_point_ne_zero_iff F hp h7 a).mp ha
  have hcb := (secp256k1_point_ne_zero_iff F hp h7 b).mp hb
  have hna := nonsingular_of_equation F hp h7 _ _ ((on_curve_iff_equation F a).mp hca)
  have hnb := nonsingular_of_equation F hp h7 _ _ ((on_curve_iff_equation F b).mp hcb)
  have hA : secp256k1_point F a = Point.some hna := secp256k1_point_eq_some F a hna rfl rfl
  have hB : secp256k1_point F b = Point.some hnb := secp256k1_point_eq_some F b hnb rfl rfl
  have hx : (a.x : ZMod F.p) ≠ (b.x : ZMod F.p) := by
    intro heq
    rcases Y_eq_of_X_eq hna.1 hnb.1 heq with hy | hy
    · exact hne (by rw [hA, hB]; exact point_some_congr F hna hnb heq hy)
    · apply hneg
      rw [hA, hB, Point.neg_some]
      exact point_some_congr F hna _ heq hy
  refine ⟨hx, ?_⟩
  obtain ⟨ex, ey⟩ := ge_add_cast F hp a b hx
  rw [hA, hB, Point.add_of_X_ne hx]
  apply secp256k1_point_eq_some
  · rw [ex, slope_of_X_ne hx]
    simp only [addX, secp256k1_curve, div_eq_mul_inv]
    ring
  · rw [ey, ex, slope_of_X_ne hx]
    simp only [addY, negY, negAddY, addX, secp256k1_curve, div_eq_mul_inv]
    ring

/-- `secp256k1_ge_dbl` is the doubling of the curve group on a point that is not of
order two. -/
theorem secp256k1_point_dbl (h7 : 7 < F.p) (a : secp256k1_ge)
    (ha : secp256k1_point F a ≠ 0)
    (h2 : secp256k1_point F a + secp256k1_point F a ≠ 0) :
    (a.y : ZMod F.p) ≠ 0 ∧
      secp256k1_point F (secp256k1_ge_dbl F a) = secp256k1_point F a + secp256k1_point F a := by
  have hp : Nat.Prime F.p := hF.out
  have hca := (secp256k1_point_ne_zero_iff F hp h7 a).mp ha
  have hna := nonsingular_of_equation F hp h7 _ _ ((on_curve_iff_equation F a).mp hca)
  have hA : secp256k1_point F a = Point.some hna := secp256k1_point_eq_some F a hna rfl rfl
  have two_ne : (2 : ZMod F.p) ≠ 0 := by
    have := small_ne_zero F 2 (by norm_num) (by omega); exact_mod_cast this
  have hy : (a.y : ZMod F.p) ≠ (secp256k1_curve F.p).toAffine.negY (a.x : ZMod F.p) a.y := by
    intro hy
    apply h2
    rw [hA]
    exact Point.add_self_of_Y_eq hy
  have hy0 : (a.y : ZMod F.p) ≠ 0 := by
    intro h0
    apply hy
    simp [negY, secp256k1_curve, h0]
  refine ⟨hy0, ?_⟩
  obtain ⟨ex, ey⟩ := ge_dbl_cast F hp a (mul_ne_zero two_ne hy0)
  rw [hA, Point.add_self_of_Y_ne hy]
  apply secp256k1_point_eq_some
  · rw [ex, slope_of_Y_ne rfl hy]
    simp only [addX, negY, secp256k1_curve, div_eq_mul_inv]
    ring_nf
  · rw [ey, ex, slope_of_Y_ne rfl hy]
    simp only [addY, negY, negAddY, addX, secp256k1_curve, div_eq_mul_inv]
    ring_nf

end

open WeierstrassCurve.Affine

section
variable {G : Type*} [AddCommGroup G] {P : G} {n : Nat}

theorem nsmul_ne_zero_of_lt (hord : addOrderOf P = n) (j : Nat) (h0 : 0 < j) (hj : j < n) :
    j • P ≠ 0 := by
  intro h
  have hdvd := addOrderOf_dvd_of_nsmul_eq_zero h
  rw [hord] at hdvd
  have := Nat.le_of_dvd h0 hdvd
  omega

theorem nsmul_ne_nsmul_of_lt (hord : addOrderOf P = n) (i j : Nat) (hij : i < j)
    (hj : j - i < n) : i • P ≠ j • P := by
  intro h
  apply nsmul_ne_zero_of_lt hord (j - i) (by omega) hj
  rw [sub_nsmul _ hij.le, h, add_neg_cancel]

theorem nsmul_ne_neg_nsmul_of_lt (hord : addOrderOf P = n) (i j : Nat) (h0 : 0 < i + j)
    (hj : i + j < n) : i • P ≠ -(j • P) := by
  intro h
  apply nsmul_ne_zero_of_lt hord (i + j) h0 hj
  rw [add_nsmul, h, neg_add_cancel]

theorem pow_two_nsmul_ne_zero (hord : addOrderOf P = n) (hn : Nat.Prime n) (hn2 : n ≠ 2)
    (i : Nat) : (2 ^ i) • P ≠ 0 := by
  intro h
  have hdvd := addOrderOf_dvd_of_nsmul_eq_zero h
  rw [hord] at hdvd
  have h2 := hn.dvd_of_dvd_pow hdvd
  exact hn2 ((Nat.prime_dvd_prime_iff_eq hn Nat.prime_two).mp h2)

end

theorem mod_ne_of_cast_ne (p a b : Nat) (h : (a : ZMod p) ≠ (b : ZMod p)) : a % p ≠ b % p :=
  fun h' => h ((ZMod.natCast_eq_natCast_iff' a b p).mpr h')

theorem mod_ne_zero_of_cast_ne_zero (p a : Nat) (h : (a : ZMod p) ≠ 0) : a % p ≠ 0 :=
  fun h' => h ((ZMod.natCast_zmod_eq_zero_iff_dvd a p).mpr (Nat.dvd_of_mod_eq_zero h'))

section
variable (F : secp256k1_params) [hF : Fact (Nat.Prime F.p)]

/-- The invariant of the loop of `secp256k1_ecmult` on a point `P` of odd prime order:
`base` holds `q • P` for a power of two `q`, `r` holds `acc • P` once a bit has been
seen, and the scalar still to be added is `q * cond`. -/
theorem secp256k1_ecmult_loop_spec (h7 : 7 < F.p) (hn : Nat.Prime F.n) (hn2 : F.n ≠ 2)
    (P : (secp256k1_curve F.p).toAffine.Point) (hord : addOrderOf P = F.n)
    (fuel : Nat) (st : ecmult_state) (q acc : Nat)
    (hc : st.cond < 2 ^ fuel)
    (hbase : secp256k1_point F st.base = q • P)
    (hq : ∃ i, q = 2 ^ i)
    (hfirst : st.first = true → acc = 0)
    (hr : st.first = false → 0 < acc ∧ secp256k1_point F st.r = acc • P)
    (hacc : acc < q)
    (hk : acc + q * st.cond < F.n)
    (hcalls : ∀ c ∈ st.calls, ecmult_call.nondegenerate F c) :
    (secp256k1_ecmult_loop F fuel st).cond = 0 ∧
      ((secp256k1_ecmult_loop F fuel st).first = true → acc + q * st.cond = 0 ∧
        (secp256k1_ecmult_loop F fuel st).r = st.r) ∧
      ((secp256k1_ecmult_loop F fuel st).first = false → 0 < acc + q * st.cond ∧
        secp256k1_point F (secp256k1_ecmult_loop F fuel st).r = (acc + q * st.cond) • P) ∧
      ∀ c ∈ (secp256k1_ecmult_loop F fuel st).calls, ecmult_call.nondegenerate F c := by
  induction fuel generalizing st q acc with
  | zero =>
    have h0 : st.cond = 0 := by simpa using hc
    simp only [secp256k1_ecmult_loop, h0, Nat.mul_zero, Nat.add_zero]
    refine ⟨trivial, fun h => ⟨hfirst h, trivial⟩, hr, hcalls⟩
  | succ fuel ih =>
    unfold secp256k1_ecmult_loop
    by_cases h0 : st.cond = 0
    · simp only [secp256k1_scalar_is_zero, h0, beq_self_eq_true, Bool.not_true,
        Bool.false_eq_true, ↓reduceIte, Nat.mul_zero, Nat.add_zero]
      exact ⟨trivial, fun h => ⟨hfirst h, trivial⟩, hr, hcalls⟩
    · have hz : (!secp256k1_scalar_is_zero st.cond) = true := by
        simp [secp256k1_scalar_is_zero, h0]
      rw [if_pos hz]
      obtain ⟨i, hi⟩ := hq
      have hq0 : 0 < q := by rw [hi]; positivity
      have hqc : q ≤ q * st.cond := Nat.le_mul_of_pos_right q (Nat.pos_of_ne_zero h0)
      have hbase0 : secp256k1_point F st.base ≠ 0 := by
        rw [hbase, hi]; exact pow_two_nsmul_ne_zero hord hn hn2 i
      have hbase2 : secp256k1_point F st.base + secp256k1_point F st.base ≠ 0 := by
        rw [hbase, hi, ← two_nsmul, ← mul_nsmul, ← pow_succ]
        exact pow_two_nsmul_ne_zero hord hn hn2 (i + 1)
      obtain ⟨hy, hdbl⟩ := secp256k1_point_dbl F h7 st.base hbase0 hbase2
      have hdblq : secp256k1_point F (secp256k1_ge_dbl F st.base) = (2 * q) • P := by
        rw [hdbl, hbase, ← two_nsmul, ← mul_nsmul, Nat.mul_comm]
      have hshift : secp256k1_scalar_shr_int st.cond 1 = st.cond / 2 := by
        simp [secp256k1_scalar_shr_int, Nat.shiftRight_eq_div_pow]
      have hc2 : st.cond / 2 < 2 ^ fuel := by rw [pow_succ] at hc; omega
      have hndbl : ecmult_call.nondegenerate F (ecmult_call.dbl st.base) :=
        mod_ne_zero_of_cast_ne_zero _ _ hy
      by_cases hodd : st.cond % 2 = 1
      · have ho : secp256k1_scalar_is_odd st.cond = true := by
          simp [secp256k1_scalar_is_odd, hodd]
        have hcond : st.cond = 2 * (st.cond / 2) + 1 := by omega
        by_cases hf : st.first = true
        · -- the first set bit: `r` takes the value of `base`
          have hacc0 := hfirst hf
          simp only [ho, hf, ↓reduceIte, hshift]
          have := ih
            { st with
              first := false
              r := st.base
              base := secp256k1_ge_dbl F st.base
              cond := st.cond / 2
              calls := st.calls ++ [ecmult_call.dbl st.base] } (2 * q) q hc2 hdblq
            ⟨i + 1, by rw [hi, pow_succ, Nat.mul_comm]⟩ (fun h => by simp at h)
            (fun _ => ⟨hq0, hbase⟩) (by omega)
            (by
              show q + 2 * q * (st.cond / 2) < F.n
              have : q + 2 * q * (st.cond / 2) = acc + q * st.cond := by
                rw [hacc0]; conv_rhs => rw [hcond]
                ring
              omega)
            (by
              intro c hcm
              rcases List.mem_append.mp hcm with h | h
              · exact hcalls c h
              · rw [List.mem_singleton.mp h]; exact hndbl)
          have hsum : q + 2 * q * (st.cond / 2) = acc + q * st.cond := by
            rw [hacc0]; conv_rhs => rw [hcond]
            ring
          obtain ⟨r1, r2, r3, r4⟩ := this
          simp only [hsum] at r2 r3
          refine ⟨r1, fun h => ?_, r3, r4⟩
          exact absurd (r2 h).1 (by omega)
        · -- a later set bit: `r` and `base` are added
          have hf' : st.first = false := by simpa using hf
          obtain ⟨hacc0, hrp⟩ := hr hf'
          have hr0 : secp256k1_point F st.r ≠ 0 := by
            rw [hrp]; exact nsmul_ne_zero_of_lt hord acc hacc0 (by omega)
          have hne : secp256k1_point F st.r ≠ secp256k1_point F st.base := by
            rw [hrp, hbase]; exact nsmul_ne_nsmul_of_lt hord acc q hacc (by omega)
          have hneg : secp256k1_point F st.r ≠ -secp256k1_point F st.base := by
            rw [hrp, hbase]; exact nsmul_ne_neg_nsmul_of_lt hord acc q (by omega) (by omega)
          obtain ⟨hx, hadd⟩ := secp256k1_point_add F h7 st.r st.base hr0 hbase0 hne hneg
          have hnadd : ecmult_call.nondegenerate F (ecmult_call.add st.r st.base) :=
            mod_ne_of_cast_ne _ _ _ hx
          simp only [ho, hf', Bool.false_eq_true, ↓reduceIte, hshift]
          have hsum : acc + q + 2 * q * (st.cond / 2) = acc + q * st.cond := by
            conv_rhs => rw [hcond]
            ring
          have := ih
            { st with
              first := false
              r := secp256k1_ge_add F st.r st.base
              base := secp256k1_ge_dbl F st.base
              cond := st.cond / 2
              calls := st.calls ++ [ecmult_call.add st.r st.base] ++
                [ecmult_call.dbl st.base] } (2 * q) (acc + q) hc2 hdblq
            ⟨i + 1, by rw [hi, pow_succ, Nat.mul_comm]⟩
            (fun h => by simp at h)
            (fun _ => ⟨by omega, by rw [hadd, hrp, hbase, add_nsmul]⟩) (by omega)
            (by show acc + q + 2 * q * (st.cond / 2) < F.n; omega)
            (by
              intro c hcm
              rcases List.mem_append.mp hcm with h | h
              · rcases List.mem_append.mp h with h | h
                · exact hcalls c h
                · rw [List.mem_singleton.mp h]; exact hnadd
              · rw [List.mem_singleton.mp h]; exact hndbl)
          obtain ⟨r1, r2, r3, r4⟩ := this
          simp only [hsum] at r2 r3
          refine ⟨r1, fun h => ?_, r3, r4⟩
          exact absurd (r2 h).1 (by omega)
      · -- a zero bit: only `base` is doubled
        have ho : secp256k1_scalar_is_odd st.cond = false := by
          simp [secp256k1_scalar_is_odd, hodd]
        have hcond : st.cond = 2 * (st.cond / 2) := by omega
        simp only [ho, Bool.false_eq_true, ↓reduceIte, hshift]
        have hsum : acc + 2 * q * (st.cond / 2) = acc + q * st.cond := by
          conv_rhs => rw [hcond]
          ring
        have := ih
          { st with
            base := secp256k1_ge_dbl F st.base
            cond := st.cond / 2
            calls := st.calls ++ [ecmult_call.dbl st.base] } (2 * q) acc hc2 hdblq
          ⟨i + 1, by rw [hi, pow_succ, Nat.mul_comm]⟩ hfirst hr (by omega)
          (by show acc + 2 * q * (st.cond / 2) < F.n; omega)
          (by
            intro c hcm
            rcases List.mem_append.mp hcm with h | h
            · exact hcalls c h
            · rw [List.mem_singleton.mp h]; exact hndbl)
        obtain ⟨r1, r2, r3, r4⟩ := this
        simp only [hsum] at r2 r3
        exact ⟨r1, r2, r3, r4⟩

end

section
variable (F : secp256k1_params) [hF : Fact (Nat.Prime F.p)]

/-- On two curve points with different x-coordinates `secp256k1_ge_add` is the addition
of the curve group, and the sum is an affine point. -/
theorem secp256k1_point_add_of_x_ne (h7 : 7 < F.p) (a b : secp256k1_ge)
    (ha : secp256k1_on_curve F a) (hb : secp256k1_on_curve F b)
    (hx : a.x % F.p ≠ b.x % F.p) :
    secp256k1_point F (secp256k1_ge_add F a b) = secp256k1_point F a + secp256k1_point F b ∧
      secp256k1_point F a + secp256k1_point F b ≠ 0 := by
  have hp : Nat.Prime F.p := hF.out
  have hna := nonsingular_of_equation F hp h7 _ _ ((on_curve_iff_equation F a).mp ha)
  have hnb := nonsingular_of_equation F hp h7 _ _ ((on_curve_iff_equation F b).mp hb)
  have hA : secp256k1_point F a = Point.some hna := secp256k1_point_eq_some F a hna rfl rfl
  have hB : secp256k1_point F b = Point.some hnb := secp256k1_point_eq_some F b hnb rfl rfl
  have hxz : (a.x : ZMod F.p) ≠ (b.x : ZMod F.p) :=
    fun h => hx ((ZMod.natCast_eq_natCast_iff' a.x b.x F.p).mp h)
  obtain ⟨ex, ey⟩ := ge_add_cast F hp a b hxz
  rw [hA, hB, Point.add_of_X_ne hxz]
  refine ⟨?_, Point.some_ne_zero _⟩
  apply secp256k1_point_eq_some
  · rw [ex, slope_of_X_ne hxz]
    simp only [addX, secp256k1_curve, div_eq_mul_inv]
    ring
  · rw [ey, ex, slope_of_X_ne hxz]
    simp only [addY, negY, negAddY, addX, secp256k1_curve, div_eq_mul_inv]
    ring

/-- On a curve point with non-zero y-coordinate `secp256k1_ge_dbl` is the doubling of the
curve group, and the double is an affine point. -/
theorem secp256k1_point_dbl_of_y_ne (h7 : 7 < F.p) (a : secp256k1_ge)
    (ha : secp256k1_on_curve F a) (hy : a.y % F.p ≠ 0) :
    secp256k1_point F (secp256k1_ge_dbl F a) = secp256k1_point F a + secp256k1_point F a ∧
      secp256k1_point F a + secp256k1_point F a ≠ 0 := by
  have hp : Nat.Prime F.p := hF.out
  have hna := nonsingular_of_equation F hp h7 _ _ ((on_curve_iff_equation F a).mp ha)
  have hA : secp256k1_point F a = Point.some hna := secp256k1_point_eq_some F a hna rfl rfl
  have two_ne : (2 : ZMod F.p) ≠ 0 := by
    have := small_ne_zero F 2 (by norm_num) (by omega); exact_mod_cast this
  have hy0 : (a.y : ZMod F.p) ≠ 0 := by
    intro h
    exact hy (Nat.mod_eq_zero_of_dvd ((ZMod.natCast_zmod_eq_zero_iff_dvd a.y F.p).mp h))
  have hyn : (a.y : ZMod F.p) ≠ (secp256k1_curve F.p).toAffine.negY (a.x : ZMod F.p) a.y := by
    intro h
    simp only [negY, secp256k1_curve, zero_mul, sub_zero] at h
    have h2 : (2 : ZMod F.p) * a.y = 0 := by linear_combination h
    exact (mul_ne_zero two_ne hy0) h2
  obtain ⟨ex, ey⟩ := ge_dbl_cast F hp a (mul_ne_zero two_ne hy0)
  rw [hA, Point.add_self_of_Y_ne hyn]
  refine ⟨?_, Point.some_ne_zero _⟩
  apply secp256k1_point_eq_some
  · rw [ex, slope_of_Y_ne rfl hyn]
    simp only [addX, negY, secp256k1_curve, div_eq_mul_inv]
    ring_nf
  · rw [ey, ex, slope_of_Y_ne rfl hyn]
    simp only [addY, negY, negAddY, addX, secp256k1_curve, div_eq_mul_inv]
    ring_nf

/-- Two curve points with the same x-coordinate and opposite y-coordinates add up to the
zero of the curve group. -/
theorem secp256k1_point_add_opposite (h7 : 7 < F.p) (a b : secp256k1_ge)
    (ha : secp256k1_on_curve F a) (hb : secp256k1_on_curve F b)
    (hx : a.x % F.p = b.x % F.p) (hy : (a.y + b.y) % F.p = 0) :
    secp256k1_point F a + secp256k1_point F b = 0 := by
  have hp : Nat.Prime F.p := hF.out
  have hna := nonsingular_of_equation F hp h7 _ _ ((on_curve_iff_equation F a).mp ha)
  have hnb := nonsingular_of_equation F hp h7 _ _ ((on_curve_iff_equation F b).mp hb)
  have hA : secp256k1_point F a = Point.some hna := secp256k1_point_eq_some F a hna rfl rfl
  have hB : secp256k1_point F b = Point.some hnb := secp256k1_point_eq_some F b hnb rfl rfl
  have hxz : (a.x : ZMod F.p) = (b.x : ZMod F.p) :=
    (ZMod.natCast_eq_natCast_iff' a.x b.x F.p).mpr hx
  have hyz : ((a.y : ZMod F.p) + b.y) = 0 := by
    have := (ZMod.natCast_zmod_eq_zero_iff_dvd (a.y + b.y) F.p).mpr (Nat.dvd_of_mod_eq_zero hy)
    exact_mod_cast this
  rw [hA, hB]
  apply Point.add_of_Y_eq hxz
  simp only [negY, secp256k1_curve, zero_mul, sub_zero]
  linear_combination hyz

/-- Curve points that hold the same element of the curve group have the same
coordinates modulo `p`. -/
theorem secp256k1_point_inj (h7 : 7 < F.p) (a b : secp256k1_ge)
    (ha : secp256k1_on_curve F a) (hb : secp256k1_on_curve F b)
    (h : secp256k1_point F a = secp256k1_point F b) :
    a.x % F.p = b.x % F.p ∧ a.y % F.p = b.y % F.p := by
  have hp : Nat.Prime F.p := hF.out
  have hna := nonsingular_of_equation F hp h7 _ _ ((on_curve_iff_equation F a).mp ha)
  have hnb := nonsingular_of_equation F hp h7 _ _ ((on_curve_iff_equation F b).mp hb)
  have hA : secp256k1_point F a = Point.some hna := secp256k1_point_eq_some F a hna rfl rfl
  have hB : secp256k1_point F b = Point.some hnb := secp256k1_point_eq_some F b hnb rfl rfl
  rw [hA, hB, Point.some.injEq] at h
  exact ⟨(ZMod.natCast_eq_natCast_iff' a.x b.x F.p).mp h.1,
    (ZMod.natCast_eq_natCast_iff' a.y b.y F.p).mp h.2⟩

end

section
variable (F : secp256k1_params)

/-- The loop of `secp256k1_ecmult` stores normalized coordinates in `r` when the point it
multiplies has normalized coordinates. -/
theorem secp256k1_ecmult_loop_lt (hp : 0 < F.p) (fuel : Nat) (st : ecmult_state)
    (hbase : st.base.x < F.p ∧ st.base.y < F.p)
    (hr : st.first = false → st.r.x < F.p ∧ st.r.y < F.p)
    (hf : (secp256k1_ecmult_loop F fuel st).first = false) :
    (secp256k1_ecmult_loop F fuel st).r.x < F.p ∧
      (secp256k1_ecmult_loop F fuel st).r.y < F.p := by
  induction fuel generalizing st with
  | zero => exact hr hf
  | succ fuel ih =>
    unfold secp256k1_ecmult_loop at hf ⊢
    by_cases hz : secp256k1_scalar_is_zero st.cond = true
    · simp only [hz, Bool.not_true, Bool.false_eq_true, ↓reduceIte] at hf ⊢
      exact hr hf
    · simp only [hz, Bool.not_false, ↓reduceIte] at hf ⊢
      apply ih _ (ge_dbl_lt F hp _) _ hf
      intro hf2
      by_cases ho : secp256k1_scalar_is_odd st.cond = true
      · by_cases h1 : st.first = true
        · simpa [ho, h1] using hbase
        · simpa [ho, h1] using ge_add_lt F hp st.r st.base
      · simp only [ho, Bool.false_eq_true, ↓reduceIte] at hf2 ⊢
        exact hr hf2

theorem advance_lt (hp : 0 < F.p) (g : secp256k1_ge) (m : Nat) (r : secp256k1_ge)
    (hr : r.x < F.p ∧ r.y < F.p) :
    (advance F g m r).x < F.p ∧ (advance F g m r).y < F.p := by
  induction m generalizing r with
  | zero => exact hr
  | succ m ih => exact ih _ (ge_add_lt F hp g r)

theorem load_g_lt (hp : 0 < F.p) (gx gy : List Nat) :
    (load_g F gx gy).x < F.p ∧ (load_g F gx gy).y < F.p :=
  ⟨Nat.mod_lt _ hp, Nat.mod_lt _ hp⟩

theorem secp256k1_ge_equal_iff (a b : secp256k1_ge) :
    secp256k1_ge_equal F a b = true ↔ a.x % F.p = b.x % F.p ∧ a.y % F.p = b.y % F.p := by
  simp [secp256k1_ge_equal, secp256k1_fe_equal]

end

section
variable (F : secp256k1_params) [hF : Fact (Nat.Prime F.p)]

/-- What a run of the loop of `secp256k1_ecmult` leaves behind, for a point of odd prime
order `n` and a scalar `0 < k < n`: the scalar is used up, `r` has been written and holds
`k • a`, and no call was degenerate. -/
theorem secp256k1_ecmult_run_spec (h7 : 7 < F.p) (hn : Nat.Prime F.n) (hn2 : F.n ≠ 2)
    (hn256 : F.n ≤ 2 ^ 256) (a : secp256k1_ge)
    (hord : addOrderOf (secp256k1_point F a) = F.n) (k : Nat) (hk0 : 0 < k) (hkn : k < F.n)
    (r0 : secp256k1_ge) :
    (secp256k1_ecmult_run F r0 a k).cond = 0 ∧
      (secp256k1_ecmult_run F r0 a k).first = false ∧
      secp256k1_point F (secp256k1_ecmult_run F r0 a k).r = k • secp256k1_point F a ∧
      ∀ c ∈ (secp256k1_ecmult_run F r0 a k).calls, ecmult_call.nondegenerate F c := by
  have h := secp256k1_ecmult_loop_spec F h7 hn hn2 (secp256k1_point F a) hord 256
    ⟨r0, a, k, true, []⟩ 1 0 (by show k < 2 ^ 256; omega) (by simp) ⟨0, rfl⟩ (fun _ => rfl)
    (fun h => by simp at h) (by norm_num) (by simpa using hkn) (by simp)
  simp only [zero_add, one_mul] at h
  obtain ⟨hc, h1, h2, h3⟩ := h
  have hf : (secp256k1_ecmult_run F r0 a k).first = false := by
    cases hb : (secp256k1_ecmult_run F r0 a k).first with
    | false => rfl
    | true =>
      have := (h1 hb).1
      omega
  exact ⟨hc, hf, (h2 hf).2, h3⟩

/-- Running `r <- secp256k1_ge_add(g, r)` from `k • g` with `2 ≤ k` reaches `(k + i) • g`
as long as `k + i ≤ n - 1`. -/
theorem advance_spec (h7 : 7 < F.p) (g : secp256k1_ge)
    (hord : addOrderOf (secp256k1_point F g) = F.n) (i : Nat) (r : secp256k1_ge) (k : Nat)
    (hk : 2 ≤ k) (hki : k + i ≤ F.n - 1)
    (hr : secp256k1_point F r = k • secp256k1_point F g) :
    secp256k1_point F (advance F g i r) = (k + i) • secp256k1_point F g := by
  induction i generalizing r k with
  | zero => simpa using hr
  | succ i ih =>
    have hg1 : secp256k1_point F g = 1 • secp256k1_point F g := (one_nsmul _).symm
    have hsum := (secp256k1_point_add F h7 g r
      (by rw [hg1]; exact nsmul_ne_zero_of_lt hord 1 (by omega) (by omega))
      (by rw [hr]; exact nsmul_ne_zero_of_lt hord k (by omega) (by omega))
      (by rw [hr]; nth_rewrite 1 [hg1]
          exact nsmul_ne_nsmul_of_lt hord 1 k (by omega) (by omega))
      (by rw [hr]; nth_rewrite 1 [hg1]
          exact nsmul_ne_neg_nsmul_of_lt hord 1 k (by omega) (by omega))).2
    have hstep : secp256k1_point F (secp256k1_ge_add F g r) =
        (k + 1) • secp256k1_point F g := by
      rw [hsum, hr, add_nsmul, one_nsmul, add_comm]
    have := ih (secp256k1_ge_add F g r) (k + 1) (by omega) (by omega) hstep
    rw [show k + (i + 1) = k + 1 + i by omega]
    exact this

end

section
variable (F : secp256k1_params)

theorem secp256k1_ecmult_eq_some (VERIFY : Bool) (r a : secp256k1_ge) (k : Nat) (hk : 0 < k) :
    secp256k1_ecmult F VERIFY r a k = some (secp256k1_ecmult_run F r a k).r := by
  have hz : secp256k1_scalar_is_zero k = false := by
    simp [secp256k1_scalar_is_zero]; omega
  simp [secp256k1_ecmult, hz]

theorem ge_eq_of_mod_eq (a b : secp256k1_ge) (ha : a.x < F.p ∧ a.y < F.p)
    (hb : b.x < F.p ∧ b.y < F.p) (h : a.x % F.p = b.x % F.p ∧ a.y % F.p = b.y % F.p) :
    a = b := by
  rw [Nat.mod_eq_of_lt ha.1, Nat.mod_eq_of_lt ha.2, Nat.mod_eq_of_lt hb.1,
    Nat.mod_eq_of_lt hb.2] at h
  cases a
  cases b
  simp only [secp256k1_ge.mk.injEq]
  exact h

end

section
variable (F : secp256k1_params) [hF : Fact (Nat.Prime F.p)]

/-- The point reached by `i` steps `r <- secp256k1_ge_add(g, r)` from the result of
`secp256k1_ecmult` on `k` is the result of `secp256k1_ecmult` on `k + i`, for a normalized
generator of odd prime order `n`, `2 ≤ k` and `k + i ≤ n - 1`. -/
theorem advance_ecmult_run (h7 : 7 < F.p) (hn : Nat.Prime F.n) (hn2 : F.n ≠ 2)
    (hn256 : F.n ≤ 2 ^ 256) (g : secp256k1_ge) (hg : g.x < F.p ∧ g.y < F.p)
    (hord : addOrderOf (secp256k1_point F g) = F.n) (k i : Nat) (hk : 2 ≤ k)
    (hki : k + i ≤ F.n - 1) (r0 r1 : secp256k1_ge) :
    advance F g i (secp256k1_ecmult_run F r0 g k).r = (secp256k1_ecmult_run F r1 g (k + i)).r ∧
      secp256k1_on_curve F (secp256k1_ecmult_run F r1 g (k + i)).r ∧
      secp256k1_point F (secp256k1_ecmult_run F r1 g (k + i)).r =
        (k + i) • secp256k1_point F g := by
  have hp : Nat.Prime F.p := hF.out
  have hn3 : 2 ≤ F.n := hn.two_le
  obtain ⟨-, hfa, hpa, -⟩ := secp256k1_ecmult_run_spec F h7 hn hn2 hn256 g hord k
    (by omega) (by omega) r0
  obtain ⟨-, hfb, hpb, -⟩ := secp256k1_ecmult_run_spec F h7 hn hn2 hn256 g hord (k + i)
    (by omega) (by omega) r1
  have hadv := advance_spec F h7 g hord i _ k hk hki hpa
  have hne : (k + i) • secp256k1_point F g ≠ 0 :=
    nsmul_ne_zero_of_lt hord (k + i) (by omega) (by omega)
  have hca : secp256k1_on_curve F (advance F g i (secp256k1_ecmult_run F r0 g k).r) :=
    (secp256k1_point_ne_zero_iff F hp h7 _).mp (by rw [hadv]; exact hne)
  have hcb : secp256k1_on_curve F (secp256k1_ecmult_run F r1 g (k + i)).r :=
    (secp256k1_point_ne_zero_iff F hp h7 _).mp (by rw [hpb]; exact hne)
  have hla := advance_lt F hp.pos g i _
    (secp256k1_ecmult_loop_lt F hp.pos 256 ⟨r0, g, k, true, []⟩ hg (fun h => by simp at h) hfa)
  have hlb := secp256k1_ecmult_loop_lt F hp.pos 256 ⟨r1, g, k + i, true, []⟩ hg
    (fun h => by simp at h) hfb
  exact ⟨ge_eq_of_mod_eq F _ _ hla hlb (secp256k1_point_inj F h7 _ _ hca hcb (hadv.trans hpb.symm)),
    hcb, hpb⟩

end

theorem curve13_prime : Nat.Prime curve13.p := curve13_fact.out

theorem curve13_n_prime : Nat.Prime curve13.n := curve13_n_fact.out

/-- On the curve over the field with 13 elements the point `(7, 5)` has order 7: its
double is `(8, 5)`, its triple `(11, 8)`, and the double of `(8, 5)` is `(11, 5)`, the
opposite of the triple. -/
theorem curve13_order : addOrderOf (secp256k1_point curve13 ⟨7, 5⟩) = curve13.n := by
  have h7 : 7 < curve13.p := by decide
  have d1 := (secp256k1_point_dbl_of_y_ne curve13 h7 ⟨7, 5⟩ (by decide) (by decide)).1
  have e2 : secp256k1_ge_dbl curve13 ⟨7, 5⟩ = ⟨8, 5⟩ := by decide
  have d2 := (secp256k1_point_dbl_of_y_ne curve13 h7 ⟨8, 5⟩ (by decide) (by decide)).1
  have e4 : secp256k1_ge_dbl curve13 ⟨8, 5⟩ = ⟨11, 5⟩ := by decide
  have a3 := (secp256k1_point_add_of_x_ne curve13 h7 ⟨8, 5⟩ ⟨7, 5⟩ (by decide) (by decide)
    (by decide)).1
  have e3 : secp256k1_ge_add curve13 ⟨8, 5⟩ ⟨7, 5⟩ = ⟨11, 8⟩ := by decide
  have z := secp256k1_point_add_opposite curve13 h7 ⟨11, 5⟩ ⟨11, 8⟩ (by decide) (by decide)
    (by decide) (by decide)
  rw [e2] at d1
  rw [e4] at d2
  rw [e3] at a3
  apply addOrderOf_eq_prime
  · rw [d2, a3, d1] at z
    rw [← z]
    show 7 • secp256k1_point curve13 ⟨7, 5⟩ = _
    abel
  · exact (secp256k1_point_ne_zero_iff curve13 curve13_prime h7 _).mpr (by decide)

theorem curve13_load_g : load_g curve13 (b32_of_small 7) (b32_of_small 5) = ⟨7, 5⟩ := by
  decide

/-- The constants of secp256k1 meet the side conditions of the theorems below that can be
checked by evaluation, and the bytes `n_gx`, `n_gy` are the coordinates of a point that
satisfies the curve equation. -/
theorem secp256k1_side_conditions :
    7 < secp256k1.p ∧ secp256k1.n ≠ 2 ∧ secp256k1.n ≤ 2 ^ 256 ∧
      load_g secp256k1 n_gx n_gy = secp256k1_G ∧ secp256k1_on_curve secp256k1 secp256k1_G := by
  decide!

/-! ## The hash pipeline: claims -/

theorem bytesBE_length (n x : Nat) : (bytesBE n x).length = n := by
  induction n generalizing x with
  | zero => rfl
  | succ n ih => simp [bytesBE, ih]

/-- The big-endian value of the `n` bytes of `x` is `x` modulo `256 ^ n`. -/
theorem bytesBE_value (n x : Nat) :
    (bytesBE n x).foldl (fun v b => v * 256 + b) 0 = x % 256 ^ n := by
  induction n generalizing x with
  | zero => simp [bytesBE, Nat.mod_one]
  | succ n ih =>
    simp only [bytesBE, List.foldl_append, List.foldl_cons, List.foldl_nil, ih]
    rw [pow_succ, Nat.mul_comm (256 ^ n) 256, Nat.mod_mul]
    omega

theorem secp256k1_fe_get_b32_length (a : Nat) : (secp256k1_fe_get_b32 a).length = 32 :=
  bytesBE_length 32 a

theorem SHA256_Finalize_length (h : SHA256) : h.Finalize.2.length = 32 := by
  simp [SHA256.Finalize, WriteBE32]

theorem secp256k1_fe_get_b32_value (a : Nat) (ha : a < 2^256) :
    (secp256k1_fe_get_b32 a).foldl (fun v b => v * 256 + b) 0 = a := by
  rw [secp256k1_fe_get_b32, bytesBE_value, Nat.mod_eq_of_lt]
  exact lt_of_lt_of_eq ha (by norm_num)

/-- C7: for a point with normalized coordinates `generate_ripemd160hash` returns
RIPEMD160(SHA256(B)), both computed by a fresh object with one `Write` and `Finalize`,
where `B` is the byte `0x04` followed by the 32-byte big-endian encodings of `x` and `y`
(65 bytes whose big-endian values are `x` and `y`); the reuse of the buffer for the
SHA-256 output does not change the result. -/
theorem generate_ripemd160hash_eq (P : secp256k1_ge) (hx : P.x < secp256k1.p)
    (hy : P.y < secp256k1.p) :
    generate_ripemd160hash P =
        (RIPEMD160.init.Write
          (SHA256.init.Write
            (0x04 :: (secp256k1_fe_get_b32 P.x ++ secp256k1_fe_get_b32 P.y))).Finalize.2).Finalize.2 ∧
      (0x04 :: (secp256k1_fe_get_b32 P.x ++ secp256k1_fe_get_b32 P.y)).length = 65 ∧
      (secp256k1_fe_get_b32 P.x).foldl (fun v b => v * 256 + b) 0 = P.x ∧
      (secp256k1_fe_get_b32 P.y).foldl (fun v b => v * 256 + b) 0 = P.y := by
  have hp : secp256k1.p < 2^256 := by decide
  refine ⟨?_, ?_, secp256k1_fe_get_b32_value _ (lt_trans hx hp),
    secp256k1_fe_get_b32_value _ (lt_trans hy hp)⟩
  · have hlx := secp256k1_fe_get_b32_length P.x
    have hly := secp256k1_fe_get_b32_length P.y
    have hB : (memcpy (memcpy (0x04 :: List.replicate 64 0) 1 (secp256k1_fe_get_b32 P.x))
        (1 + 32) (secp256k1_fe_get_b32 P.y)).take 65 =
        0x04 :: (secp256k1_fe_get_b32 P.x ++ secp256k1_fe_get_b32 P.y) := by
      have h1 : memcpy (0x04 :: List.replicate 64 0) 1 (secp256k1_fe_get_b32 P.x) =
          0x04 :: (secp256k1_fe_get_b32 P.x ++ List.replicate 32 0) := by
        simp [memcpy, hlx]
      have h2 : memcpy (0x04 :: (secp256k1_fe_get_b32 P.x ++ List.replicate 32 0)) (1 + 32)
          (secp256k1_fe_get_b32 P.y) =
          0x04 :: (secp256k1_fe_get_b32 P.x ++ secp256k1_fe_get_b32 P.y) := by
        simp [memcpy, hlx, hly, List.take_append_eq_append_take, List.drop_append_eq_append_drop]
      rw [h1, h2, List.take_of_length_le (by simp [hlx, hly])]
    have hD : ∀ (d buffer : List Nat), d.length = 32 → (memcpy buffer 0 d).take 32 = d := by
      intro d buffer hd
      simp [memcpy, List.take_append_eq_append_take, hd]
    unfold generate_ripemd160hash
    simp only [hB, hD _ _ (SHA256_Finalize_length _)]
  · simp [secp256k1_fe_get_b32_length]

theorem generate_ripemd160hash_eq_witness :
    secp256k1_G.x < secp256k1.p ∧ secp256k1_G.y < secp256k1.p ∧
      generate_ripemd160hash secp256k1_G =
        (RIPEMD160.init.Write
          (SHA256.init.Write
            (0x04 :: (secp256k1_fe_get_b32 secp256k1_G.x ++
              secp256k1_fe_get_b32 secp256k1_G.y))).Finalize.2).Finalize.2 :=
  ⟨by decide, by decide, (generate_ripemd160hash_eq secp256k1_G (by decide) (by decide)).1⟩

/-- C8: a fresh `SHA256` object after `Write(m)` and `Finalize` outputs the FIPS 180-4
digest of `m` for every message shorter than `2^61` bytes; the unrolled
`sha256::Transform` is the fold of the reference compression function over its blocks
(for one block: the compression function itself); and "abc" hashes to `ba7816bf…15ad`. -/
theorem SHA256_eq_reference (m : List Nat) (hm : m.length < 2^61) :
    (SHA256.init.Write m).Finalize.2 = SHA256Spec.hash m ∧
      (∀ (s : sha256.State) (chunk : List Nat) (blocks : Nat),
        sha256.Transform s chunk blocks = MD.absorb SHA256Spec.compress blocks s chunk) ∧
      (∀ (s : sha256.State) (chunk : List Nat),
        sha256.Transform s chunk 1 = SHA256Spec.compress s chunk) ∧
      (SHA256.init.Write [0x61, 0x62, 0x63]).Finalize.2 =
        [0xba, 0x78, 0x16, 0xbf, 0x8f, 0x01, 0xcf, 0xea, 0x41, 0x41, 0x40, 0xde, 0x5d, 0xae, 0x22,
         0x23, 0xb0, 0x03, 0x61, 0xa3, 0x96, 0x17, 0x7a, 0x9c, 0xb4, 0x10, 0xff, 0x61, 0xf2, 0x00,
         0x15, 0xad] :=
  ⟨SHA256.Finalize_init_sha256 m hm, SHA256Spec.Transform_eq_absorb,
    fun s chunk => SHA256Spec.Transform_eq_absorb s chunk 1, by decide!⟩

theorem SHA256_eq_reference_witness :
    [0x61, 0x62, 0x63].length < 2^61 ∧
      (SHA256.init.Write [0x61, 0x62, 0x63]).Finalize.2 = SHA256Spec.hash [0x61, 0x62, 0x63] :=
  ⟨by decide, (SHA256_eq_reference [0x61, 0x62, 0x63] (by decide)).1⟩

/-- C9: a fresh `RIPEMD160` object after `Write(m)` and `Finalize` outputs the
table-driven reference RIPEMD-160 digest of `m` for every message shorter than `2^61`
bytes; the unrolled `ripemd160::Transform` is the reference compression function on
every state and block; and the empty message hashes to `9c1185a5…8d31`. -/
theorem RIPEMD160_eq_reference (m : List Nat) (hm : m.length < 2^61) :
    (RIPEMD160.init.Write m).Finalize.2 = RIPEMD160Spec.hash m ∧
      (∀ (s : ripemd160.State) (chunk : List Nat),
        ripemd160.Transform s chunk = RIPEMD160Spec.compress s chunk) ∧
      (RIPEMD160.init.Write []).Finalize.2 =
        [0x9c, 0x11, 0x85, 0xa5, 0xc5, 0xe9, 0xfc, 0x54, 0x61, 0x28, 0x08, 0x97, 0x7e, 0xe8, 0xf5,
         0x48, 0xb2, 0x25, 0x8d, 0x31] :=
  ⟨RIPEMD160.Finalize_init_ripemd160 m hm, RIPEMD160Spec.Transform_eq_compress, by decide!⟩

theorem RIPEMD160_eq_reference_witness :
    ([] : List Nat).length < 2^61 ∧
      (RIPEMD160.init.Write []).Finalize.2 = RIPEMD160Spec.hash [] :=
  ⟨by decide, (RIPEMD160_eq_reference [] (by decide)).1⟩

/-- C10: for every `SHA256` state (64-byte buffer, 64-bit counter) and all byte strings
`u`, `v`, writing `u` and then `v` leaves the same state words, byte count and first
`bytes % 64` buffered bytes as writing `u ++ v`, and `Finalize` gives the same digest. -/
theorem SHA256_Write_concat (st : SHA256) (u v : List Nat) (hwf : st.WF) :
    ((st.Write u).Write v).s = (st.Write (u ++ v)).s ∧
      ((st.Write u).Write v).bytes = (st.Write (u ++ v)).bytes ∧
      ((st.Write u).Write v).buf.take (((st.Write u).Write v).bytes % 64) =
        (st.Write (u ++ v)).buf.take ((st.Write (u ++ v)).bytes % 64) ∧
      ((st.Write u).Write v).Finalize.2 = (st.Write (u ++ v)).Finalize.2 := by
  obtain ⟨hs, hb, hp⟩ := SHA256.Write_append_sha256 st u v hwf
  have w1 := (SHA256.Write_spec_sha256 _ v (SHA256.Write_spec_sha256 st u hwf).2.2.2).2.2.2
  have w2 := (SHA256.Write_spec_sha256 st (u ++ v) hwf).2.2.2
  exact ⟨hs, hb, hp, SHA256.Finalize_congr_sha256 _ _ w1 w2 hs hb hp⟩

theorem SHA256_Write_concat_witness :
    SHA256.init.WF ∧
      ((SHA256.init.Write [0x61]).Write [0x62, 0x63]).Finalize.2 =
        (SHA256.init.Write ([0x61] ++ [0x62, 0x63])).Finalize.2 :=
  ⟨SHA256.init_WF_sha256, (SHA256_Write_concat SHA256.init [0x61] [0x62, 0x63] SHA256.init_WF_sha256).2.2.2⟩

/-! ## Claims on the curve arithmetic and the search loop -/

/-- C1: for a prime field `F_p` (`p > 7`), every point `P` on the curve `y² = x³ + 7`
whose order in the curve group is the odd prime `n`, and every scalar `0 < k < n`,
`secp256k1_ecmult(r, P, k)` returns (with and without `VERIFY`, whatever `r` held before):
its loop uses up the scalar within 256 iterations and sets `r` to a curve point that holds
the group multiple `k • P`; no `secp256k1_ge_add` call of the loop gets operands with
equal x and no `secp256k1_ge_dbl` call gets `y = 0`. -/
theorem secp256k1_ecmult_eq_smul (F : secp256k1_params) [Fact (Nat.Prime F.p)]
    (h7 : 7 < F.p) (hn : Nat.Prime F.n) (hn2 : F.n ≠ 2) (hn256 : F.n ≤ 2 ^ 256)
    (P : secp256k1_ge) (hP : secp256k1_on_curve F P)
    (hord : addOrderOf (secp256k1_point F P) = F.n) (k : Nat) (hk0 : 0 < k) (hkn : k < F.n)
    (VERIFY : Bool) (r0 : secp256k1_ge) :
    ∃ r, secp256k1_ecmult F VERIFY r0 P k = some r ∧ secp256k1_on_curve F r ∧
      secp256k1_point F r = k • secp256k1_point F P ∧
      (secp256k1_ecmult_run F r0 P k).cond = 0 ∧
      ∀ c ∈ (secp256k1_ecmult_run F r0 P k).calls, ecmult_call.nondegenerate F c := by
  have hp : Nat.Prime F.p := Fact.out
  have _ := hP
  obtain ⟨hc, -, hpt, hcalls⟩ := secp256k1_ecmult_run_spec F h7 hn hn2 hn256 P hord k hk0 hkn r0
  refine ⟨_, secp256k1_ecmult_eq_some F VERIFY r0 P k hk0, ?_, hpt, hc, hcalls⟩
  apply (secp256k1_point_ne_zero_iff F hp h7 _).mp
  rw [hpt]
  exact nsmul_ne_zero_of_lt hord k hk0 hkn

theorem secp256k1_ecmult_eq_smul_witness :
    secp256k1_on_curve curve13 ⟨7, 5⟩ ∧
      addOrderOf (secp256k1_point curve13 ⟨7, 5⟩) = curve13.n ∧
      ∃ r, secp256k1_ecmult curve13 true ⟨0, 0⟩ ⟨7, 5⟩ 5 = some r ∧ secp256k1_on_curve curve13 r ∧
        secp256k1_point curve13 r = 5 • secp256k1_point curve13 ⟨7, 5⟩ ∧
        (secp256k1_ecmult_run curve13 ⟨0, 0⟩ ⟨7, 5⟩ 5).cond = 0 ∧
        ∀ c ∈ (secp256k1_ecmult_run curve13 ⟨0, 0⟩ ⟨7, 5⟩ 5).calls,
          ecmult_call.nondegenerate curve13 c :=
  ⟨by decide, curve13_order,
    secp256k1_ecmult_eq_smul curve13 (by decide) curve13_n_prime (by decide) (by decide)
      ⟨7, 5⟩ (by decide) curve13_order 5 (by decide) (by decide) true ⟨0, 0⟩⟩

/-- C2, as stated, fails: for the private key 1 and the offset 1 the single step
`secp256k1_ge_add(G, G)` divides by zero and the asserted `secp256k1_ge_equal` is false;
and for the private key `n - 1` and the offset 1 the second scalar is zero, on which a
build with `VERIFY` stops inside `secp256k1_ecmult`. -/
theorem test_self_validate_fails :
    test_self_validate secp256k1 false n_gx n_gy ⟨0, 0⟩ ⟨0, 0⟩ 1 (b32_of_small 1) = some false ∧
      test_self_validate secp256k1 true n_gx n_gy ⟨0, 0⟩ ⟨0, 0⟩ 1
        (bytesBE 32 (secp256k1.n - 1)) = none := by
  decide!

/-- C2, amended: for a prime field (`p > 7`), generator bytes that give a point of odd
prime order `n`, every private key whose value `k1` modulo `n` is at least 2 and every
offset `m` with `k1 + m ≤ n - 1`, `test_self_validate` runs through and the point reached
from `secp256k1_ecmult(k1, G)` by `m` steps `r <- secp256k1_ge_add(G, r)` is
`secp256k1_ge_equal` to `secp256k1_ecmult(k1 + m mod n, G)`. -/
theorem test_self_validate_passes (F : secp256k1_params) [Fact (Nat.Prime F.p)]
    (h7 : 7 < F.p) (hn : Nat.Prime F.n) (hn2 : F.n ≠ 2) (hn256 : F.n ≤ 2 ^ 256)
    (VERIFY : Bool) (gx gy : List Nat)
    (hord : addOrderOf (secp256k1_point F (load_g F gx gy)) = F.n)
    (r1 r2 : secp256k1_ge) (n_offset : Nat) (n_private : List Nat)
    (hk : 2 ≤ secp256k1_scalar_set_b32 F n_private)
    (hkm : secp256k1_scalar_set_b32 F n_private + n_offset ≤ F.n - 1) :
    test_self_validate F VERIFY gx gy r1 r2 n_offset n_private = some true := by
  have hp : Nat.Prime F.p := Fact.out
  have hn3 : 2 ≤ F.n := hn.two_le
  have hoff : secp256k1_scalar_set_int F n_offset = n_offset :=
    Nat.mod_eq_of_lt (by omega)
  have hk2 : secp256k1_scalar_add F (secp256k1_scalar_set_b32 F n_private) n_offset =
      secp256k1_scalar_set_b32 F n_private + n_offset := Nat.mod_eq_of_lt (by omega)
  have h := (advance_ecmult_run F h7 hn hn2 hn256 (load_g F gx gy) (load_g_lt F hp.pos gx gy)
    hord (secp256k1_scalar_set_b32 F n_private) n_offset hk hkm r1 r2).1
  unfold test_self_validate
  simp only [hoff, hk2]
  rw [secp256k1_ecmult_eq_some F VERIFY r1 _ _ (by omega),
    secp256k1_ecmult_eq_some F VERIFY r2 _ _ (by omega)]
  simp only [Option.some_bind, h]
  simp [secp256k1_ge_equal, secp256k1_fe_equal]

theorem test_self_validate_passes_witness :
    addOrderOf (secp256k1_point curve13 (load_g curve13 (b32_of_small 7) (b32_of_small 5))) =
        curve13.n ∧
      2 ≤ secp256k1_scalar_set_b32 curve13 (b32_of_small 2) ∧
      secp256k1_scalar_set_b32 curve13 (b32_of_small 2) + 3 ≤ curve13.n - 1 ∧
      test_self_validate curve13 true (b32_of_small 7) (b32_of_small 5) ⟨0, 0⟩ ⟨0, 0⟩ 3
        (b32_of_small 2) = some true :=
  ⟨by rw [curve13_load_g]; exact curve13_order, by decide, by decide,
    test_self_validate_passes curve13 (by decide) curve13_n_prime (by decide) (by decide) true
      (b32_of_small 7) (b32_of_small 5) (by rw [curve13_load_g]; exact curve13_order)
      ⟨0, 0⟩ ⟨0, 0⟩ 3 (b32_of_small 2) (by decide) (by decide)⟩

/-- C3: for a prime field (`p > 7`), generator bytes that give a point of odd prime order
`n`, every seed scalar `k` (the value of the key bytes modulo `n`) and iteration index `i`
with `2 ≤ k` and `k + i ≤ n - 1`, the point that `start_task` hashes in iteration `i` is
the point that `secp256k1_ecmult(k + i, G)` computes: a curve point that holds
`(k + i) • G`. -/
theorem start_task_point_eq_ecmult (F : secp256k1_params) [Fact (Nat.Prime F.p)]
    (h7 : 7 < F.p) (hn : Nat.Prime F.n) (hn2 : F.n ≠ 2) (hn256 : F.n ≤ 2 ^ 256)
    (VERIFY : Bool) (gx gy : List Nat)
    (hord : addOrderOf (secp256k1_point F (load_g F gx gy)) = F.n)
    (r0 r1 : secp256k1_ge) (n_private : List Nat) (i : Nat)
    (hk : 2 ≤ secp256k1_scalar_set_b32 F n_private)
    (hki : secp256k1_scalar_set_b32 F n_private + i ≤ F.n - 1) :
    ∃ r, start_task_point F VERIFY gx gy r0 n_private i = some r ∧
      secp256k1_ecmult F VERIFY r1 (load_g F gx gy)
        (secp256k1_scalar_set_b32 F n_private + i) = some r ∧
      secp256k1_on_curve F r ∧
      secp256k1_point F r =
        (secp256k1_scalar_set_b32 F n_private + i) • secp256k1_point F (load_g F gx gy) := by
  have hp : Nat.Prime F.p := Fact.out
  obtain ⟨heq, hc, hpt⟩ := advance_ecmult_run F h7 hn hn2 hn256 (load_g F gx gy)
    (load_g_lt F hp.pos gx gy) hord (secp256k1_scalar_set_b32 F n_private) i hk hki r0 r1
  refine ⟨_, ?_, secp256k1_ecmult_eq_some F VERIFY r1 _ _ (by omega), hc, hpt⟩
  unfold start_task_point
  simp only []
  rw [secp256k1_ecmult_eq_some F VERIFY r0 _ _ (by omega), Option.map_some', heq]

theorem start_task_point_eq_ecmult_witness :
    addOrderOf (secp256k1_point curve13 (load_g curve13 (b32_of_small 7) (b32_of_small 5))) =
        curve13.n ∧
      2 ≤ secp256k1_scalar_set_b32 curve13 (b32_of_small 2) ∧
      secp256k1_scalar_set_b32 curve13 (b32_of_small 2) + 4 ≤ curve13.n - 1 ∧
      ∃ r, start_task_point curve13 false (b32_of_small 7) (b32_of_small 5) ⟨0, 0⟩
          (b32_of_small 2) 4 = some r ∧
        secp256k1_ecmult curve13 false ⟨1, 1⟩ (load_g curve13 (b32_of_small 7) (b32_of_small 5))
          (secp256k1_scalar_set_b32 curve13 (b32_of_small 2) + 4) = some r ∧
        secp256k1_on_curve curve13 r ∧
        secp256k1_point curve13 r =
          (secp256k1_scalar_set_b32 curve13 (b32_of_small 2) + 4) •
            secp256k1_point curve13 (load_g curve13 (b32_of_small 7) (b32_of_small 5)) :=
  ⟨by rw [curve13_load_g]; exact curve13_order, by decide, by decide,
    start_task_point_eq_ecmult curve13 (by decide) curve13_n_prime (by decide) (by decide) false
      (b32_of_small 7) (b32_of_small 5) (by rw [curve13_load_g]; exact curve13_order)
      ⟨0, 0⟩ ⟨1, 1⟩ (b32_of_small 2) 4 (by decide) (by decide)⟩

/-- C4: over a prime field, for all points `a`, `b` with `a.x ≠ b.x (mod p)`,
`secp256k1_ge_add(r, a, b)` sets `r.x = s² - (a.x + b.x)` and
`r.y = s * (a.x - r.x) - a.y` with `s = (a.y - b.y) * (a.x - b.x)⁻¹`, as residues
modulo `p`, and stores the normalized representatives. -/
theorem secp256k1_ge_add_formula (F : secp256k1_params) (hp : Nat.Prime F.p)
    (a b : secp256k1_ge) (hx : a.x % F.p ≠ b.x % F.p) :
    ((secp256k1_ge_add F a b).x : ZMod F.p) =
        (((a.y : ZMod F.p) - b.y) * ((a.x : ZMod F.p) - b.x)⁻¹) ^ 2 - ((a.x : ZMod F.p) + b.x) ∧
      ((secp256k1_ge_add F a b).y : ZMod F.p) =
        (((a.y : ZMod F.p) - b.y) * ((a.x : ZMod F.p) - b.x)⁻¹) *
          ((a.x : ZMod F.p) - ((secp256k1_ge_add F a b).x : ZMod F.p)) - a.y ∧
      (secp256k1_ge_add F a b).x < F.p ∧ (secp256k1_ge_add F a b).y < F.p := by
  have hxz : (a.x : ZMod F.p) ≠ (b.x : ZMod F.p) :=
    fun h => hx ((ZMod.natCast_eq_natCast_iff' a.x b.x F.p).mp h)
  obtain ⟨ex, ey⟩ := ge_add_cast F hp a b hxz
  exact ⟨ex, ey, ge_add_lt F hp.pos a b⟩

theorem secp256k1_ge_add_formula_witness :
    Nat.Prime curve13.p ∧
      (8 : Nat) % curve13.p ≠ 11 % curve13.p ∧
      ((secp256k1_ge_add curve13 ⟨8, 5⟩ ⟨11, 8⟩).x : ZMod curve13.p) =
        ((((5 : Nat) : ZMod curve13.p) - (8 : Nat)) *
          (((8 : Nat) : ZMod curve13.p) - (11 : Nat))⁻¹) ^ 2 -
            (((8 : Nat) : ZMod curve13.p) + (11 : Nat)) ∧
      ((secp256k1_ge_add curve13 ⟨8, 5⟩ ⟨11, 8⟩).y : ZMod curve13.p) =
        ((((5 : Nat) : ZMod curve13.p) - (8 : Nat)) *
          (((8 : Nat) : ZMod curve13.p) - (11 : Nat))⁻¹) *
            (((8 : Nat) : ZMod curve13.p) -
              ((secp256k1_ge_add curve13 ⟨8, 5⟩ ⟨11, 8⟩).x : ZMod curve13.p)) - (5 : Nat) ∧
      (secp256k1_ge_add curve13 ⟨8, 5⟩ ⟨11, 8⟩).x < curve13.p ∧
      (secp256k1_ge_add curve13 ⟨8, 5⟩ ⟨11, 8⟩).y < curve13.p :=
  ⟨curve13_prime, by decide,
    secp256k1_ge_add_formula curve13 curve13_prime ⟨8, 5⟩ ⟨11, 8⟩ (by decide)⟩

/-- C5: over a prime field with `p ≠ 2`, for every point `a` with `a.y ≠ 0 (mod p)`,
`secp256k1_ge_dbl(r, a)` sets `r.x = s² - 2 * a.x` and `r.y = s * (a.x - r.x) - a.y` with
`s = 3 * a.x² * (2 * a.y)⁻¹`, as residues modulo `p`, and stores the normalized
representatives. -/
theorem secp256k1_ge_dbl_formula (F : secp256k1_params) (hp : Nat.Prime F.p) (hp2 : F.p ≠ 2)
    (a : secp256k1_ge) (hy : a.y % F.p ≠ 0) :
    ((secp256k1_ge_dbl F a).x : ZMod F.p) =
        (3 * (a.x : ZMod F.p) ^ 2 * (2 * (a.y : ZMod F.p))⁻¹) ^ 2 - 2 * (a.x : ZMod F.p) ∧
      ((secp256k1_ge_dbl F a).y : ZMod F.p) =
        (3 * (a.x : ZMod F.p) ^ 2 * (2 * (a.y : ZMod F.p))⁻¹) *
          ((a.x : ZMod F.p) - ((secp256k1_ge_dbl F a).x : ZMod F.p)) - a.y ∧
      (secp256k1_ge_dbl F a).x < F.p ∧ (secp256k1_ge_dbl F a).y < F.p := by
  haveI : Fact (Nat.Prime F.p) := ⟨hp⟩
  have two_ne : (2 : ZMod F.p) ≠ 0 := by
    have h2 : 2 < F.p := lt_of_le_of_ne hp.two_le (Ne.symm hp2)
    have := small_ne_zero F 2 (by norm_num) h2
    exact_mod_cast this
  have hy0 : (a.y : ZMod F.p) ≠ 0 := by
    intro h
    exact hy (Nat.mod_eq_zero_of_dvd ((ZMod.natCast_zmod_eq_zero_iff_dvd a.y F.p).mp h))
  obtain ⟨ex, ey⟩ := ge_dbl_cast F hp a (mul_ne_zero two_ne hy0)
  exact ⟨ex, ey, ge_dbl_lt F hp.pos a⟩

theorem secp256k1_ge_dbl_formula_witness :
    Nat.Prime curve13.p ∧ curve13.p ≠ 2 ∧ (5 : Nat) % curve13.p ≠ 0 ∧
      ((secp256k1_ge_dbl curve13 ⟨7, 5⟩).x : ZMod curve13.p) =
        (3 * ((7 : Nat) : ZMod curve13.p) ^ 2 * (2 * ((5 : Nat) : ZMod curve13.p))⁻¹) ^ 2 -
          2 * ((7 : Nat) : ZMod curve13.p) ∧
      ((secp256k1_ge_dbl curve13 ⟨7, 5⟩).y : ZMod curve13.p) =
        (3 * ((7 : Nat) : ZMod curve13.p) ^ 2 * (2 * ((5 : Nat) : ZMod curve13.p))⁻¹) *
          (((7 : Nat) : ZMod curve13.p) -
            ((secp256k1_ge_dbl curve13 ⟨7, 5⟩).x : ZMod curve13.p)) - (5 : Nat) ∧
      (secp256k1_ge_dbl curve13 ⟨7, 5⟩).x < curve13.p ∧
      (secp256k1_ge_dbl curve13 ⟨7, 5⟩).y < curve13.p :=
  ⟨curve13_prime, by decide, by decide,
    secp256k1_ge_dbl_formula curve13 curve13_prime (by decide) ⟨7, 5⟩ (by decide)⟩

/-- C6: over a prime field (`p > 7`) the curve equation is preserved: if `a` satisfies
`a.y² = a.x³ + 7 (mod p)` and `a.y ≠ 0` then the result of `secp256k1_ge_dbl(a)`
satisfies it, and if `a` and `b` satisfy it and `a.x ≠ b.x` then the result of
`secp256k1_ge_add(a, b)` satisfies it. -/
theorem secp256k1_on_curve_preserved (F : secp256k1_params) (hp : Nat.Prime F.p)
    (h7 : 7 < F.p) :
    (∀ a : secp256k1_ge, secp256k1_on_curve F a → a.y % F.p ≠ 0 →
        secp256k1_on_curve F (secp256k1_ge_dbl F a)) ∧
      (∀ a b : secp256k1_ge, secp256k1_on_curve F a → secp256k1_on_curve F b →
        a.x % F.p ≠ b.x % F.p → secp256k1_on_curve F (secp256k1_ge_add F a b)) := by
  haveI : Fact (Nat.Prime F.p) := ⟨hp⟩
  constructor
  · intro a ha hy
    obtain ⟨h1, h2⟩ := secp256k1_point_dbl_of_y_ne F h7 a ha hy
    exact (secp256k1_point_ne_zero_iff F hp h7 _).mp (by rw [h1]; exact h2)
  · intro a b ha hb hx
    obtain ⟨h1, h2⟩ := secp256k1_point_add_of_x_ne F h7 a b ha hb hx
    exact (secp256k1_point_ne_zero_iff F hp h7 _).mp (by rw [h1]; exact h2)

theorem secp256k1_on_curve_preserved_witness :
    Nat.Prime curve13.p ∧ 7 < curve13.p ∧ secp256k1_on_curve curve13 ⟨7, 5⟩ ∧
      secp256k1_on_curve curve13 (secp256k1_ge_dbl curve13 ⟨7, 5⟩) ∧
      secp256k1_on_curve curve13 (secp256k1_ge_add curve13 ⟨7, 5⟩ ⟨11, 8⟩) :=
  ⟨curve13_prime, by decide, by decide,
    (secp256k1_on_curve_preserved curve13 curve13_prime (by decide)).1 ⟨7, 5⟩ (by decide)
      (by decide),
    (secp256k1_on_curve_preserved curve13 curve13_prime (by decide)).2 ⟨7, 5⟩ ⟨11, 8⟩ (by decide)
      (by decide) (by decide)⟩

theorem WriteBE64_eq_bytesBE (x : Nat) : WriteBE64 x = bytesBE 8 x := by
  simp only [WriteBE64, bytesBE, List.nil_append, List.cons_append, Nat.div_div_eq_div_mul]
  norm_num

section
variable {G : Type*} [AddCommGroup G] {P : G} {n : Nat}

theorem nsmul_ne_zero_of_not_dvd (hord : addOrderOf P = n) (j : Nat) (hj : ¬ n ∣ j) :
    j • P ≠ 0 := by
  intro h
  have hdvd := addOrderOf_dvd_of_nsmul_eq_zero h
  rw [hord] at hdvd
  exact hj hdvd

theorem mod_nsmul_of_order (hord : addOrderOf P = n) (j : Nat) : (j % n) • P = j • P := by
  rw [← hord]
  exact mod_addOrderOf_nsmul P j

end

section
variable (F : secp256k1_params)

/-- The loop of `secp256k1_ecmult` stores normalized coordinates in `r`, whatever the
representatives of the point it multiplies, unless the scalar is 1 (when `r` is a copy
of that point). -/
theorem secp256k1_ecmult_loop_lt_of_ne_one (hp : 0 < F.p) (fuel : Nat) (st : ecmult_state)
    (hc : st.cond < 2 ^ fuel)
    (hbase : (st.base.x < F.p ∧ st.base.y < F.p) ∨ (st.first = true ∧ st.cond ≠ 1))
    (hr : st.first = false → (st.r.x < F.p ∧ st.r.y < F.p) ∨ st.cond ≠ 0)
    (hf : (secp256k1_ecmult_loop F fuel st).first = false) :
    (secp256k1_ecmult_loop F fuel st).r.x < F.p ∧
      (secp256k1_ecmult_loop F fuel st).r.y < F.p := by
  induction fuel generalizing st with
  | zero =>
    have h0 : st.cond = 0 := by simpa using hc
    rcases hr hf with h | h
    · exact h
    · exact absurd h0 h
  | succ fuel ih =>
    unfold secp256k1_ecmult_loop at hf ⊢
    by_cases hz : st.cond = 0
    · have hz2 : secp256k1_scalar_is_zero st.cond = true := by simp [secp256k1_scalar_is_zero, hz]
      simp only [hz2, Bool.not_true, Bool.false_eq_true, ↓reduceIte] at hf ⊢
      rcases hr hf with h | h
      · exact h
      · exact absurd hz h
    · have hz2 : secp256k1_scalar_is_zero st.cond = false := by
        simp [secp256k1_scalar_is_zero, hz]
      simp only [hz2, Bool.not_false, ↓reduceIte] at hf ⊢
      have hshift : secp256k1_scalar_shr_int st.cond 1 = st.cond / 2 := by
        simp [secp256k1_scalar_shr_int, Nat.shiftRight_eq_div_pow]
      have hlt : st.cond / 2 < 2 ^ fuel := by
        rw [pow_succ] at hc
        omega
      by_cases ho : secp256k1_scalar_is_odd st.cond = true
      · have hodd : st.cond % 2 = 1 := by simpa [secp256k1_scalar_is_odd] using ho
        by_cases h1 : st.first = true
        · simp only [ho, h1, ↓reduceIte, hshift] at hf ⊢
          apply ih _ hlt (Or.inl (ge_dbl_lt F hp _)) _ hf
          intro _
          rcases hbase with hb | hb
          · exact Or.inl hb
          · right
            show st.cond / 2 ≠ 0
            have := hb.2
            omega
        · simp only [ho, h1, ↓reduceIte, hshift, Bool.false_eq_true] at hf ⊢
          apply ih _ hlt (Or.inl (ge_dbl_lt F hp _)) _ hf
          intro _
          exact Or.inl (ge_add_lt F hp st.r st.base)
      · have heven : st.cond % 2 ≠ 1 := by simpa [secp256k1_scalar_is_odd] using ho
        simp only [ho, ↓reduceIte, hshift, Bool.false_eq_true] at hf ⊢
        apply ih _ hlt (Or.inl (ge_dbl_lt F hp _)) _ hf
        intro hf2
        rcases hr hf2 with h | _
        · exact Or.inl h
        · right
          show st.cond / 2 ≠ 0
          omega

end

section
variable (F : secp256k1_params)

/-- On operands with the same x-coordinate `secp256k1_fe_inv` is called on zero, and the
slope of `secp256k1_ge_add` is built from the value `inv0` it returns there. -/
theorem ge_add_cast_of_x_eq (hp : 0 < F.p) (a b : secp256k1_ge)
    (hx : a.x % F.p = b.x % F.p) :
    ((secp256k1_ge_add F a b).x : ZMod F.p) =
        (((a.y : ZMod F.p) - b.y) * (F.inv0 : ZMod F.p)) ^ 2 - ((a.x : ZMod F.p) + b.x) ∧
      ((secp256k1_ge_add F a b).y : ZMod F.p) =
        (((a.y : ZMod F.p) - b.y) * (F.inv0 : ZMod F.p)) *
          ((a.x : ZMod F.p) - ((secp256k1_ge_add F a b).x : ZMod F.p)) - a.y := by
  have hxz : (a.x : ZMod F.p) = (b.x : ZMod F.p) :=
    (ZMod.natCast_eq_natCast_iff' a.x b.x F.p).mpr hx
  have hd : secp256k1_fe_add F (secp256k1_fe_negate F b.x 1) a.x % F.p = 0 := by
    apply Nat.mod_eq_zero_of_dvd
    apply (ZMod.natCast_zmod_eq_zero_iff_dvd _ F.p).mp
    rw [fe_add_cast, fe_negate_cast F hp, hxz]
    ring
  have hinv : ((secp256k1_fe_inv F (secp256k1_fe_add F (secp256k1_fe_negate F b.x 1) a.x) : Nat) :
      ZMod F.p) = (F.inv0 : ZMod F.p) := by
    unfold secp256k1_fe_inv
    rw [if_pos hd, ZMod.natCast_mod]
  constructor
  · simp only [secp256k1_ge_add, fe_normalize_cast, fe_add_cast, fe_negate_cast F hp,
      fe_normalize_weak_cast, fe_sqr_cast, fe_mul_cast, hinv]
    ring_nf
  · simp only [secp256k1_ge_add, fe_normalize_cast, fe_add_cast, fe_negate_cast F hp,
      fe_normalize_weak_cast, fe_sqr_cast, fe_mul_cast, hinv]
    ring_nf

theorem secp256k1_ecmult_one (VERIFY : Bool) (r a : secp256k1_ge) :
    secp256k1_ecmult F VERIFY r a 1 = some a := by
  rw [secp256k1_ecmult_eq_some F VERIFY r a 1 (by norm_num)]
  unfold secp256k1_ecmult_run
  show some (secp256k1_ecmult_loop F (254 + 1 + 1) _).r = _
  simp [secp256k1_ecmult_loop, secp256k1_scalar_is_zero, secp256k1_scalar_is_odd,
    secp256k1_scalar_shr_int]

theorem secp256k1_ecmult_run_zero (r a : secp256k1_ge) :
    secp256k1_ecmult_run F r a 0 = ⟨r, a, 0, true, []⟩ := by
  unfold secp256k1_ecmult_run
  show secp256k1_ecmult_loop F (255 + 1) _ = _
  simp [secp256k1_ecmult_loop, secp256k1_scalar_is_zero]

end

section
variable (F : secp256k1_params) [hF : Fact (Nat.Prime F.p)]

/-- The result of `secp256k1_ecmult` on a scalar `2 ≤ k < n` and a point of odd prime order
`n` has normalized coordinates, is on the curve and holds `k • a`. -/
theorem secp256k1_ecmult_run_normalized (h7 : 7 < F.p) (hn : Nat.Prime F.n) (hn2 : F.n ≠ 2)
    (hn256 : F.n ≤ 2 ^ 256) (a : secp256k1_ge)
    (hord : addOrderOf (secp256k1_point F a) = F.n) (k : Nat) (hk : 2 ≤ k) (hkn : k < F.n)
    (r0 : secp256k1_ge) :
    ((secp256k1_ecmult_run F r0 a k).r.x < F.p ∧ (secp256k1_ecmult_run F r0 a k).r.y < F.p) ∧
      secp256k1_on_curve F (secp256k1_ecmult_run F r0 a k).r ∧
      secp256k1_point F (secp256k1_ecmult_run F r0 a k).r = k • secp256k1_point F a := by
  have hp : Nat.Prime F.p := hF.out
  obtain ⟨-, hf, hpt, -⟩ := secp256k1_ecmult_run_spec F h7 hn hn2 hn256 a hord k
    (by omega) hkn r0
  refine ⟨?_, ?_, hpt⟩
  · exact secp256k1_ecmult_loop_lt_of_ne_one F hp.pos 256 ⟨r0, a, k, true, []⟩
      (by show k < 2 ^ 256; omega) (Or.inr ⟨rfl, by show k ≠ 1; omega⟩)
      (fun h => by simp at h) hf
  · apply (secp256k1_point_ne_zero_iff F hp h7 _).mp
    rw [hpt]
    exact nsmul_ne_zero_of_lt hord k (by omega) hkn

end

/-! ## Claims on incremental hashing, padding, the homomorphism and the known vectors -/

/-- C11: for every `RIPEMD160` state (64-byte buffer, 64-bit counter) and all byte strings
`u`, `v`, writing `u` and then `v` leaves the same 5 state words, byte count and first
`bytes % 64` buffered bytes as writing `u ++ v`, and `Finalize` gives the same digest. -/
theorem RIPEMD160_Write_concat (st : RIPEMD160) (u v : List Nat) (hwf : st.WF) :
    ((st.Write u).Write v).s = (st.Write (u ++ v)).s ∧
      ((st.Write u).Write v).bytes = (st.Write (u ++ v)).bytes ∧
      ((st.Write u).Write v).buf.take (((st.Write u).Write v).bytes % 64) =
        (st.Write (u ++ v)).buf.take ((st.Write (u ++ v)).bytes % 64) ∧
      ((st.Write u).Write v).Finalize.2 = (st.Write (u ++ v)).Finalize.2 := by
  obtain ⟨hs, hb, hp⟩ := RIPEMD160.Write_append_ripemd160 st u v hwf
  have w1 := (RIPEMD160.Write_spec_ripemd160 _ v
    (RIPEMD160.Write_spec_ripemd160 st u hwf).2.2.2).2.2.2
  have w2 := (RIPEMD160.Write_spec_ripemd160 st (u ++ v) hwf).2.2.2
  exact ⟨hs, hb, hp, RIPEMD160.Finalize_congr_ripemd160 _ _ w1 w2 hs hb hp⟩

theorem RIPEMD160_Write_concat_witness :
    RIPEMD160.init.WF ∧
      ((RIPEMD160.init.Write [0x61, 0x62]).Write [0x63]).s =
        (RIPEMD160.init.Write ([0x61, 0x62] ++ [0x63])).s ∧
      ((RIPEMD160.init.Write [0x61, 0x62]).Write [0x63]).bytes =
        (RIPEMD160.init.Write ([0x61, 0x62] ++ [0x63])).bytes ∧
      ((RIPEMD160.init.Write [0x61, 0x62]).Write [0x63]).buf.take
          (((RIPEMD160.init.Write [0x61, 0x62]).Write [0x63]).bytes % 64) =
        (RIPEMD160.init.Write ([0x61, 0x62] ++ [0x63])).buf.take
          ((RIPEMD160.init.Write ([0x61, 0x62] ++ [0x63])).bytes % 64) ∧
      ((RIPEMD160.init.Write [0x61, 0x62]).Write [0x63]).Finalize.2 =
        (RIPEMD160.init.Write ([0x61, 0x62] ++ [0x63])).Finalize.2 :=
  ⟨RIPEMD160.init_WF_ripemd160,
    RIPEMD160_Write_concat RIPEMD160.init [0x61, 0x62] [0x63] RIPEMD160.init_WF_ripemd160⟩

/-- C12: for every `SHA256` object (64-byte buffer, byte count `b` on 64 bits) the pad
that `Finalize` writes has length `L = 1 + ((119 - b % 64) % 64)` with `1 ≤ L ≤ 64` and
`(b + L) % 64 = 56`; it is the byte `0x80` followed by `L - 1` zero bytes; it is followed
by the 8 bytes whose big-endian value is `8 * b mod 2^64`, taken from `b` before the pad
is written; the byte count after both writes is `b + L + 8` (on 64 bits), a multiple of
64, so no byte is left in the buffer; and the digest is read from the state words then. -/
theorem SHA256_Finalize_padding (h : SHA256) (hwf : h.WF) :
    (1 ≤ 1 + ((119 - h.bytes % 64) % 64) ∧ 1 + ((119 - h.bytes % 64) % 64) ≤ 64 ∧
        (h.bytes + (1 + ((119 - h.bytes % 64) % 64))) % 64 = 56) ∧
      SHA256.pad.take (1 + ((119 - h.bytes % 64) % 64)) =
        0x80 :: List.replicate ((119 - h.bytes % 64) % 64) 0 ∧
      h.Finalize.1 = (h.Write (0x80 :: List.replicate ((119 - h.bytes % 64) % 64) 0)).Write
        (bytesBE 8 (8 * h.bytes % 0x10000000000000000)) ∧
      ((bytesBE 8 (8 * h.bytes % 0x10000000000000000)).length = 8 ∧
        (bytesBE 8 (8 * h.bytes % 0x10000000000000000)).foldl (fun v x => v * 256 + x) 0 =
          8 * h.bytes % 0x10000000000000000) ∧
      (h.Finalize.1.bytes =
          (h.bytes + (1 + ((119 - h.bytes % 64) % 64)) + 8) % 0x10000000000000000 ∧
        (h.bytes + (1 + ((119 - h.bytes % 64) % 64)) + 8) % 64 = 0 ∧
        h.Finalize.1.bytes % 64 = 0 ∧ h.Finalize.1.pending = []) ∧
      h.Finalize.2 =
        WriteBE32 h.Finalize.1.s.s0 ++ WriteBE32 h.Finalize.1.s.s1 ++
        WriteBE32 h.Finalize.1.s.s2 ++ WriteBE32 h.Finalize.1.s.s3 ++
        WriteBE32 h.Finalize.1.s.s4 ++ WriteBE32 h.Finalize.1.s.s5 ++
        WriteBE32 h.Finalize.1.s.s6 ++ WriteBE32 h.Finalize.1.s.s7 := by
  have hpad := SHA256.pad_take_sha256 ((119 - h.bytes % 64) % 64) (by omega)
  have hshift : (h.bytes <<< 3) % 0x10000000000000000 = 8 * h.bytes % 0x10000000000000000 := by
    rw [Nat.shiftLeft_eq]
    omega
  have hfin : h.Finalize.1 =
      (h.Write (0x80 :: List.replicate ((119 - h.bytes % 64) % 64) 0)).Write
        (bytesBE 8 (8 * h.bytes % 0x10000000000000000)) := by
    unfold SHA256.Finalize
    simp only [hpad, hshift, WriteBE64_eq_bytesBE]
  obtain ⟨-, b1, -, w1⟩ := SHA256.Write_spec_sha256 h
    (0x80 :: List.replicate ((119 - h.bytes % 64) % 64) 0) hwf
  obtain ⟨-, b2, -, -⟩ := SHA256.Write_spec_sha256 _
    (bytesBE 8 (8 * h.bytes % 0x10000000000000000)) w1
  have hbytes : h.Finalize.1.bytes =
      (h.bytes + (1 + ((119 - h.bytes % 64) % 64)) + 8) % 0x10000000000000000 := by
    rw [hfin, b2, b1, bytesBE_length, List.length_cons, List.length_replicate]
    omega
  have hval := bytesBE_value 8 (8 * h.bytes % 0x10000000000000000)
  have hlt : 8 * h.bytes % 0x10000000000000000 < 256 ^ 8 := by
    norm_num
    omega
  rw [Nat.mod_eq_of_lt hlt] at hval
  have hmod : h.Finalize.1.bytes % 64 = 0 := by
    rw [hbytes]
    omega
  refine ⟨⟨by omega, by omega, by omega⟩, hpad, hfin, ⟨bytesBE_length _ _, hval⟩,
    ⟨hbytes, by omega, hmod, ?_⟩, ?_⟩
  · unfold SHA256.pending
    rw [hmod, List.take_zero]
  · simp only [SHA256.Finalize]

theorem SHA256_Finalize_padding_witness :
    SHA256.init.WF ∧
      SHA256.init.Finalize.1 =
        (SHA256.init.Write (0x80 :: List.replicate ((119 - SHA256.init.bytes % 64) % 64) 0)).Write
          (bytesBE 8 (8 * SHA256.init.bytes % 0x10000000000000000)) ∧
      SHA256.init.Finalize.1.pending = [] :=
  ⟨SHA256.init_WF_sha256, (SHA256_Finalize_padding SHA256.init SHA256.init_WF_sha256).2.2.1,
    (SHA256_Finalize_padding SHA256.init SHA256.init_WF_sha256).2.2.2.2.1.2.2.2⟩

/-- C13, as stated, fails: for `k1 = k2 = 1` the result of `secp256k1_ecmult` on
`k1 + k2 = 2` is not `secp256k1_ge_add` of the two results, which are both `G`. -/
theorem secp256k1_ecmult_add_fails :
    secp256k1_ecmult secp256k1 false ⟨0, 0⟩ secp256k1_G 1 = some secp256k1_G ∧
      secp256k1_ecmult secp256k1 false ⟨0, 0⟩ secp256k1_G (secp256k1_scalar_add secp256k1 1 1) ≠
        some (secp256k1_ge_add secp256k1 secp256k1_G secp256k1_G) := by
  decide!

/-- C13, amended: for a prime field (`p > 7`), generator bytes that give a point `G` of odd
prime order `n`, and non-zero scalars `k1`, `k2` below `n` with `k1 ≠ k2` and
`k1 + k2 ≠ n`, `secp256k1_ecmult(k1 + k2 mod n, G)` is
`secp256k1_ge_add(secp256k1_ecmult(k1, G), secp256k1_ecmult(k2, G))`. -/
theorem secp256k1_ecmult_add (F : secp256k1_params) [Fact (Nat.Prime F.p)]
    (h7 : 7 < F.p) (hn : Nat.Prime F.n) (hn2 : F.n ≠ 2) (hn256 : F.n ≤ 2 ^ 256)
    (VERIFY : Bool) (gx gy : List Nat)
    (hord : addOrderOf (secp256k1_point F (load_g F gx gy)) = F.n)
    (r0 r1 r2 : secp256k1_ge) (k1 k2 : Nat) (h1 : 0 < k1) (h1n : k1 < F.n) (h2 : 0 < k2)
    (h2n : k2 < F.n) (hne : k1 ≠ k2) (hsum : k1 + k2 ≠ F.n) :
    ∃ a b, secp256k1_ecmult F VERIFY r1 (load_g F gx gy) k1 = some a ∧
      secp256k1_ecmult F VERIFY r2 (load_g F gx gy) k2 = some b ∧
      secp256k1_ecmult F VERIFY r0 (load_g F gx gy) (secp256k1_scalar_add F k1 k2) =
        some (secp256k1_ge_add F a b) := by
  have hp : Nat.Prime F.p := Fact.out
  have hg := load_g_lt F hp.pos gx gy
  have hndvd : ¬ F.n ∣ k1 + k2 := by
    rintro ⟨c, hc⟩
    have hc1 : c = 1 := by
      have hclt : c < 2 := by
        by_contra hge
        have : F.n * 2 ≤ F.n * c := Nat.mul_le_mul_left _ (by omega)
        omega
      have hcpos : c ≠ 0 := by
        rintro rfl
        omega
      omega
    rw [hc1, Nat.mul_one] at hc
    exact hsum hc
  have hK0 : 0 < (k1 + k2) % F.n := Nat.pos_of_ne_zero fun h => hndvd (Nat.dvd_of_mod_eq_zero h)
  have hKn : (k1 + k2) % F.n < F.n := Nat.mod_lt _ hn.pos
  obtain ⟨-, hfa, hpa, -⟩ := secp256k1_ecmult_run_spec F h7 hn hn2 hn256 _ hord k1 h1 h1n r1
  obtain ⟨-, hfb, hpb, -⟩ := secp256k1_ecmult_run_spec F h7 hn hn2 hn256 _ hord k2 h2 h2n r2
  obtain ⟨-, hfc, hpc, -⟩ := secp256k1_ecmult_run_spec F h7 hn hn2 hn256 _ hord
    ((k1 + k2) % F.n) hK0 hKn r0
  have hnea : k1 • secp256k1_point F (load_g F gx gy) ≠ 0 := nsmul_ne_zero_of_lt hord k1 h1 h1n
  have hneb : k2 • secp256k1_point F (load_g F gx gy) ≠ 0 := nsmul_ne_zero_of_lt hord k2 h2 h2n
  have hdiff : k1 • secp256k1_point F (load_g F gx gy) ≠
      k2 • secp256k1_point F (load_g F gx gy) := by
    rcases Nat.lt_or_gt_of_ne hne with hlt | hgt
    · exact nsmul_ne_nsmul_of_lt hord k1 k2 hlt (by omega)
    · exact (nsmul_ne_nsmul_of_lt hord k2 k1 hgt (by omega)).symm
  have hopp : k1 • secp256k1_point F (load_g F gx gy) ≠
      -(k2 • secp256k1_point F (load_g F gx gy)) := by
    intro h
    apply nsmul_ne_zero_of_not_dvd hord (k1 + k2) hndvd
    rw [add_nsmul, h, neg_add_cancel]
  have hsumpt := (secp256k1_point_add F h7 _ _ (by rw [hpa]; exact hnea)
    (by rw [hpb]; exact hneb) (by rw [hpa, hpb]; exact hdiff)
    (by rw [hpa, hpb]; exact hopp)).2
  rw [hpa, hpb, ← add_nsmul, ← mod_nsmul_of_order hord (k1 + k2)] at hsumpt
  have hKne : ((k1 + k2) % F.n) • secp256k1_point F (load_g F gx gy) ≠ 0 :=
    nsmul_ne_zero_of_lt hord _ hK0 hKn
  have hcs := (secp256k1_point_ne_zero_iff F hp h7 _).mp (by rw [hsumpt]; exact hKne)
  have hcc := (secp256k1_point_ne_zero_iff F hp h7 _).mp (by rw [hpc]; exact hKne)
  have hlc := secp256k1_ecmult_loop_lt F hp.pos 256 ⟨r0, load_g F gx gy, (k1 + k2) % F.n, true, []⟩
    hg (fun h => by simp at h) hfc
  have heq := ge_eq_of_mod_eq F _ _ hlc (ge_add_lt F hp.pos _ _)
    (secp256k1_point_inj F h7 _ _ hcc hcs (hpc.trans hsumpt.symm))
  refine ⟨_, _, secp256k1_ecmult_eq_some F VERIFY r1 _ k1 h1,
    secp256k1_ecmult_eq_some F VERIFY r2 _ k2 h2, ?_⟩
  rw [show secp256k1_scalar_add F k1 k2 = (k1 + k2) % F.n from rfl,
    secp256k1_ecmult_eq_some F VERIFY r0 _ _ hK0]
  exact congrArg some heq

theorem secp256k1_ecmult_add_witness :
    addOrderOf (secp256k1_point curve13 (load_g curve13 (b32_of_small 7) (b32_of_small 5))) =
        curve13.n ∧
      ∃ a b, secp256k1_ecmult curve13 true ⟨1, 1⟩
          (load_g curve13 (b32_of_small 7) (b32_of_small 5)) 5 = some a ∧
        secp256k1_ecmult curve13 true ⟨2, 2⟩
          (load_g curve13 (b32_of_small 7) (b32_of_small 5)) 4 = some b ∧
        secp256k1_ecmult curve13 true ⟨0, 0⟩
            (load_g curve13 (b32_of_small 7) (b32_of_small 5))
            (secp256k1_scalar_add curve13 5 4) =
          some (secp256k1_ge_add curve13 a b) :=
  ⟨by rw [curve13_load_g]; exact curve13_order,
    secp256k1_ecmult_add curve13 (by decide) curve13_n_prime (by decide) (by decide) true
      (b32_of_small 7) (b32_of_small 5) (by rw [curve13_load_g]; exact curve13_order)
      ⟨0, 0⟩ ⟨1, 1⟩ ⟨2, 2⟩ 5 4 (by decide) (by decide) (by decide) (by decide) (by decide)
      (by decide)⟩

/-- C14, as stated, fails: for `k = 2` the point obtained from `G` by adding `G` once
with `secp256k1_ge_add` is not the result of `secp256k1_ecmult`. -/
theorem secp256k1_ecmult_repeated_add_fails :
    secp256k1_ecmult secp256k1 false ⟨0, 0⟩ secp256k1_G 2 ≠
      some (advance secp256k1 secp256k1_G (2 - 1) secp256k1_G) := by
  decide!

/-- C14, amended: for a prime field (`p > 7`), every point `P` on the curve of odd prime
order `n` and every scalar `2 ≤ k < n`, `secp256k1_ecmult(k, P)` is the point obtained by
starting from `secp256k1_ge_dbl(P)` and adding `P` to it `k - 2` times with
`secp256k1_ge_add`; and `secp256k1_ecmult(1, P)` is `P`. -/
theorem secp256k1_ecmult_eq_repeated_add (F : secp256k1_params) [Fact (Nat.Prime F.p)]
    (h7 : 7 < F.p) (hn : Nat.Prime F.n) (hn2 : F.n ≠ 2) (hn256 : F.n ≤ 2 ^ 256)
    (P : secp256k1_ge) (hP : secp256k1_on_curve F P)
    (hord : addOrderOf (secp256k1_point F P) = F.n) (k : Nat) (hk : 2 ≤ k) (hkn : k < F.n)
    (VERIFY : Bool) (r0 : secp256k1_ge) :
    secp256k1_ecmult F VERIFY r0 P k = some (advance F P (k - 2) (secp256k1_ge_dbl F P)) ∧
      secp256k1_ecmult F VERIFY r0 P 1 = some P := by
  have hp : Nat.Prime F.p := Fact.out
  refine ⟨?_, secp256k1_ecmult_one F VERIFY r0 P⟩
  obtain ⟨hlt, hc, hpt⟩ := secp256k1_ecmult_run_normalized F h7 hn hn2 hn256 P hord k hk hkn r0
  have hPne : secp256k1_point F P ≠ 0 := (secp256k1_point_ne_zero_iff F hp h7 P).mpr hP
  have h2ne : secp256k1_point F P + secp256k1_point F P ≠ 0 := by
    rw [← two_nsmul]
    exact nsmul_ne_zero_of_lt hord 2 (by norm_num) (by omega)
  have hdbl := (secp256k1_point_dbl F h7 P hPne h2ne).2
  rw [← two_nsmul] at hdbl
  have hadv := advance_spec F h7 P hord (k - 2) _ 2 le_rfl (by omega) hdbl
  rw [show 2 + (k - 2) = k by omega] at hadv
  have hca : secp256k1_on_curve F (advance F P (k - 2) (secp256k1_ge_dbl F P)) := by
    apply (secp256k1_point_ne_zero_iff F hp h7 _).mp
    rw [hadv]
    exact nsmul_ne_zero_of_lt hord k (by omega) hkn
  have hla := advance_lt F hp.pos P (k - 2) _ (ge_dbl_lt F hp.pos P)
  rw [secp256k1_ecmult_eq_some F VERIFY r0 P k (by omega)]
  exact congrArg some (ge_eq_of_mod_eq F _ _ hlt hla
    (secp256k1_point_inj F h7 _ _ hc hca (hpt.trans hadv.symm)))

theorem secp256k1_ecmult_eq_repeated_add_witness :
    secp256k1_on_curve curve13 ⟨7, 5⟩ ∧
      addOrderOf (secp256k1_point curve13 ⟨7, 5⟩) = curve13.n ∧
      secp256k1_ecmult curve13 false ⟨0, 0⟩ ⟨7, 5⟩ 6 =
        some (advance curve13 ⟨7, 5⟩ (6 - 2) (secp256k1_ge_dbl curve13 ⟨7, 5⟩)) ∧
      secp256k1_ecmult curve13 false ⟨0, 0⟩ ⟨7, 5⟩ 1 = some ⟨7, 5⟩ :=
  ⟨by decide, curve13_order,
    secp256k1_ecmult_eq_repeated_add curve13 (by decide) curve13_n_prime (by decide) (by decide)
      ⟨7, 5⟩ (by decide) curve13_order 6 (by decide) (by decide) false ⟨0, 0⟩⟩

/-- C15, as stated, fails: in a build without `VERIFY` the call of `secp256k1_ecmult` on
the zero scalar returns normally, with the previous content of `r`. -/
theorem secp256k1_ecmult_zero_returns :
    secp256k1_ecmult secp256k1 false ⟨1, 2⟩ secp256k1_G (secp256k1_scalar_set_int secp256k1 0) =
      some ⟨1, 2⟩ := by
  decide!

/-- C15, amended: in a build with `VERIFY` the zero scalar is rejected for every point `a`:
the assertion in `secp256k1_ecmult` fails before the loop; in a build without `VERIFY`
the call returns normally, makes no `secp256k1_ge_add` or `secp256k1_ge_dbl` call and
leaves `r` as it was. -/
theorem secp256k1_ecmult_zero (F : secp256k1_params) (r a : secp256k1_ge) :
    secp256k1_ecmult F true r a 0 = none ∧ secp256k1_ecmult F false r a 0 = some r ∧
      (secp256k1_ecmult_run F r a 0).calls = [] := by
  refine ⟨by simp [secp256k1_ecmult, secp256k1_scalar_is_zero], ?_, ?_⟩
  · simp [secp256k1_ecmult, secp256k1_ecmult_run_zero]
  · rw [secp256k1_ecmult_run_zero]

/-- C16, as stated, fails: `secp256k1_ge_add(r, G, G)` reports nothing and returns a point,
which is not on the curve. -/
theorem secp256k1_ge_add_vertical_returns :
    secp256k1_G.x % secp256k1.p = secp256k1_G.x % secp256k1.p ∧
      secp256k1_ge_add secp256k1 secp256k1_G secp256k1_G =
        ⟨0x0c8333020c4688a754bf3ad462f1e9f1fac80649a463ae4d4c1afd48d20fccff,
         0xb7c52588d95c3b9aa25b0403f1eef75702e84bb7597aabe663b82f6f04ef2777⟩ ∧
      ¬ secp256k1_on_curve secp256k1 (secp256k1_ge_add secp256k1 secp256k1_G secp256k1_G) := by
  decide!

/-- C16, amended: for all points `a`, `b` with `a.x = b.x (mod p)`, `secp256k1_ge_add(r, a, b)`
reports no error: it returns the point of the secant formulas
`r.x = s² - (a.x + b.x)`, `r.y = s * (a.x - r.x) - a.y` with the slope
`s = (a.y - b.y) * inv0`, where `inv0` is what `secp256k1_fe_inv` returns on zero. -/
theorem secp256k1_ge_add_vertical (F : secp256k1_params) (hp : 0 < F.p)
    (a b : secp256k1_ge) (hx : a.x % F.p = b.x % F.p) :
    ((secp256k1_ge_add F a b).x : ZMod F.p) =
        (((a.y : ZMod F.p) - b.y) * (F.inv0 : ZMod F.p)) ^ 2 - ((a.x : ZMod F.p) + b.x) ∧
      ((secp256k1_ge_add F a b).y : ZMod F.p) =
        (((a.y : ZMod F.p) - b.y) * (F.inv0 : ZMod F.p)) *
          ((a.x : ZMod F.p) - ((secp256k1_ge_add F a b).x : ZMod F.p)) - a.y ∧
      (secp256k1_ge_add F a b).x < F.p ∧ (secp256k1_ge_add F a b).y < F.p := by
  obtain ⟨ex, ey⟩ := ge_add_cast_of_x_eq F hp a b hx
  exact ⟨ex, ey, ge_add_lt F hp a b⟩

theorem secp256k1_ge_add_vertical_witness :
    0 < secp256k1.p ∧ secp256k1_G.x % secp256k1.p = secp256k1_G.x % secp256k1.p ∧
      (secp256k1_ge_add secp256k1 secp256k1_G secp256k1_G).x < secp256k1.p ∧
      (secp256k1_ge_add secp256k1 secp256k1_G secp256k1_G).y < secp256k1.p :=
  ⟨by decide, rfl,
    (secp256k1_ge_add_vertical secp256k1 (by decide) secp256k1_G secp256k1_G rfl).2.2⟩

/-- C17, as stated, fails: the digest of the generator is not `0150651a…c9ad`. -/
theorem generate_ripemd160hash_G_ne :
    generate_ripemd160hash secp256k1_G ≠
      [0x01, 0x50, 0x65, 0x1a, 0xd9, 0x13, 0x30, 0xad, 0x19, 0x13,
       0xcb, 0x04, 0x91, 0x28, 0x17, 0xa8, 0xd9, 0x80, 0xc9, 0xad] := by
  decide!

/-- C17, amended: `generate_ripemd160hash` applied to the generator `G`, i.e. to the
65-byte serialization `0x04 || x || y` of the generator, yields the 20-byte digest
`91b24bf9f5288532960ac687abb035127b1d28a5`. -/
theorem generate_ripemd160hash_G :
    generate_ripemd160hash secp256k1_G =
      [0x91, 0xb2, 0x4b, 0xf9, 0xf5, 0x28, 0x85, 0x32, 0x96, 0x0a,
       0xc6, 0x87, 0xab, 0xb0, 0x35, 0x12, 0x7b, 0x1d, 0x28, 0xa5] := by
  decide!

/-- C18: `generate_ripemd160hash` applied to the point `(71ee918b…7be3, 37b3650e…2688)`
yields the 20 bytes `0150651ad91330ad1913cb04912817a8d980c9ad`, and the assertions of
`test_ripemd160hash` hold. -/
theorem test_ripemd160hash_vector :
    generate_ripemd160hash
        ⟨0x71ee918bc19bb566e3a5f12c0cd0de620bec1025da6e98951355ebbde8727be3,
         0x37b3650efad4190b7328b1156304f2e9e23dbb7f2da50999dde50ea73b4c2688⟩ =
      [0x01, 0x50, 0x65, 0x1a, 0xd9, 0x13, 0x30, 0xad, 0x19, 0x13,
       0xcb, 0x04, 0x91, 0x28, 0x17, 0xa8, 0xd9, 0x80, 0xc9, 0xad] ∧
      test_ripemd160hash secp256k1 = true := by
  decide!

/-- C19: `secp256k1_ge_dbl` applied to the generator yields
`x = c6047f94…5c709ee5` and `y = 1ae168fe…50cfe52a`, and the assertions of
`test_secp256k1_ge_dlb` hold. -/
theorem test_secp256k1_ge_dlb_vector :
    secp256k1_ge_dbl secp256k1 secp256k1_G =
      ⟨0xc6047f9441ed7d6d3045406e95c07cd85c778e4b8cef3ca7abac09b95c709ee5,
       0x1ae168fea63dc339a3c58419466ceaeef7f632653266d0e1236431a950cfe52a⟩ ∧
      test_secp256k1_ge_dlb secp256k1 = true := by
  decide!

/-- C20: `secp256k1_ge_add(G, T)` with `T` the double of the generator yields
`x = f9308a01…bce036f9` and `y = 388f7b0f…84b8e672`, and the assertions of
`test_secp256k1_ge_add` hold. -/
theorem test_secp256k1_ge_add_vector :
    secp256k1_ge_add secp256k1 secp256k1_G
        ⟨0xc6047f9441ed7d6d3045406e95c07cd85c778e4b8cef3ca7abac09b95c709ee5,
         0x1ae168fea63dc339a3c58419466ceaeef7f632653266d0e1236431a950cfe52a⟩ =
      ⟨0xf9308a019258c31049344f85f89d5229b531c845836f99b08601f113bce036f9,
       0x388f7b0f632de8140fe337e62a37f3566500a99934c2231b6cb9fd7584b8e672⟩ ∧
      test_secp256k1_ge_add secp256k1 = true := by
  decide!

/-! ## The search loop and the target table -/

theorem RIPEMD160_Finalize_length (h : RIPEMD160) : h.Finalize.2.length = 20 := by
  simp [RIPEMD160.Finalize, WriteLE32]

theorem generate_ripemd160hash_length (a : secp256k1_ge) :
    (generate_ripemd160hash a).length = 20 := by
  unfold generate_ripemd160hash
  exact RIPEMD160_Finalize_length _

theorem to_vector_generate_ripemd160hash (a : secp256k1_ge) :
    to_vector (generate_ripemd160hash a) 20 = generate_ripemd160hash a := by
  unfold to_vector
  exact List.take_of_length_le (by rw [generate_ripemd160hash_length])

theorem advance_succ (F : secp256k1_params) (g : secp256k1_ge) (j : Nat) (r : secp256k1_ge) :
    advance F g (j + 1) r = secp256k1_ge_add F g (advance F g j r) := by
  induction j generalizing r with
  | zero => rfl
  | succ j ih =>
    show advance F g (j + 1) (secp256k1_ge_add F g r) = _
    rw [ih]
    rfl

section
variable (F : secp256k1_params) (g : secp256k1_ge) (table : List (List Nat))

/-- One iteration of the search loop. -/
theorem start_task_loop_succ (n i adds : Nat) (r : secp256k1_ge) :
    start_task_loop F g table (n + 1) i adds r =
      if generate_ripemd160hash r ∈ table then
        search_outcome.Found i (generate_ripemd160hash r) adds
      else start_task_loop F g table n (i + 1) (adds + 1) (secp256k1_ge_add F g r) := by
  rw [start_task_loop]
  simp only [to_vector_generate_ripemd160hash]

/-- Without a hit the search loop runs all its iterations and returns. -/
theorem start_task_loop_returned (n i adds : Nat) (r : secp256k1_ge)
    (hmiss : ∀ j < n, generate_ripemd160hash (advance F g j r) ∉ table) :
    start_task_loop F g table n i adds r =
      search_outcome.Returned (i + n) (adds + n) (advance F g n r) := by
  induction n generalizing i adds r with
  | zero => rfl
  | succ n ih =>
    have h0 : generate_ripemd160hash r ∉ table := hmiss 0 (Nat.succ_pos n)
    rw [start_task_loop_succ, if_neg h0,
      ih (i + 1) (adds + 1) _ (fun j hj => hmiss (j + 1) (Nat.succ_lt_succ hj))]
    show search_outcome.Returned _ _ (advance F g (n + 1) r) = _
    congr 1 <;> omega

/-- The search loop ends at the first iteration whose digest is in the table. -/
theorem start_task_loop_found (n i adds : Nat) (r : secp256k1_ge) (d : Nat) (hd : d < n)
    (hmiss : ∀ j < d, generate_ripemd160hash (advance F g j r) ∉ table)
    (hhit : generate_ripemd160hash (advance F g d r) ∈ table) :
    start_task_loop F g table n i adds r =
      search_outcome.Found (i + d) (generate_ripemd160hash (advance F g d r)) (adds + d) := by
  induction n generalizing i adds r d with
  | zero => omega
  | succ n ih =>
    rw [start_task_loop_succ]
    cases d with
    | zero =>
      have h0 : generate_ripemd160hash r ∈ table := hhit
      rw [if_pos h0]
      rfl
    | succ d =>
      have h0 : generate_ripemd160hash r ∉ table := hmiss 0 (Nat.succ_pos d)
      rw [if_neg h0,
        ih (i + 1) (adds + 1) _ d (by omega) (fun j hj => hmiss (j + 1) (Nat.succ_lt_succ hj))
          hhit]
      show search_outcome.Found _ (generate_ripemd160hash (advance F g (d + 1) r)) _ = _
      congr 1 <;> omega

/-- First-hit characterisation of the search loop started in iteration 0. -/
theorem start_task_loop_found_iff (n : Nat) (r : secp256k1_ge) (i : Nat) (h : List Nat)
    (a : Nat) :
    start_task_loop F g table n 0 0 r = search_outcome.Found i h a ↔
      i < n ∧ generate_ripemd160hash (advance F g i r) ∈ table ∧
        (∀ j < i, generate_ripemd160hash (advance F g j r) ∉ table) ∧
        h = generate_ripemd160hash (advance F g i r) ∧ a = i := by
  constructor
  · intro hrun
    by_cases hex : ∃ d, d < n ∧ generate_ripemd160hash (advance F g d r) ∈ table
    · classical
      have hspec := Nat.find_spec hex
      have hmin : ∀ j < Nat.find hex, generate_ripemd160hash (advance F g j r) ∉ table := by
        intro j hj hmem
        exact Nat.find_min hex hj ⟨lt_trans hj hspec.1, hmem⟩
      have := start_task_loop_found F g table n 0 0 r (Nat.find hex) hspec.1 hmin hspec.2
      rw [this] at hrun
      simp only [Nat.zero_add, search_outcome.Found.injEq] at hrun
      obtain ⟨h1, h2, h3⟩ := hrun
      subst h1
      exact ⟨hspec.1, hspec.2, hmin, h2.symm, h3.symm⟩
    · have hmiss : ∀ j < n, generate_ripemd160hash (advance F g j r) ∉ table :=
        fun j hj hmem => hex ⟨j, hj, hmem⟩
      rw [start_task_loop_returned F g table n 0 0 r hmiss] at hrun
      exact search_outcome.noConfusion hrun
  · rintro ⟨hi, hhit, hmiss, hh, ha⟩
    have := start_task_loop_found F g table n 0 0 r i hi hmiss hhit
    rw [Nat.zero_add] at this
    rw [this, hh, ha]

end

/-! ### `hex_to_bytes` -/

theorem hex_digit_value_hex_char (d : Nat) (hd : d < 16) :
    hex_digit_value (hex_char d) = some d := by
  unfold hex_char hex_digit_value
  by_cases h : d < 10
  · rw [if_pos h, if_pos (by omega)]
    congr 1
    omega
  · rw [if_neg h, if_neg (by omega), if_pos (by omega)]
    congr 1
    omega

theorem strtol16_of_digits (a b x y : Nat) (ha : hex_digit_value a = some x)
    (hb : hex_digit_value b = some y) : strtol16 [a, b] = 16 * x + y := by
  simp [strtol16, ha, hb]

theorem hex_to_bytes_length (s : List Nat) : (hex_to_bytes s).length = (s.length + 1) / 2 := by
  induction s using hex_to_bytes.induct with
  | case1 => rfl
  | case2 a => simp [hex_to_bytes]
  | case3 a b rest ih =>
    rw [hex_to_bytes, List.length_cons, ih, List.length_cons, List.length_cons]
    omega

/-- Every byte of `hex_to_bytes` is what `strtol` reads from its pair of characters. -/
theorem hex_to_bytes_getD (s : List Nat) (i : Nat) (hi : 2 * i + 1 < s.length) :
    (hex_to_bytes s).getD i 0 = strtol16 [s.getD (2 * i) 0, s.getD (2 * i + 1) 0] := by
  induction s using hex_to_bytes.induct generalizing i with
  | case1 => simp at hi
  | case2 a => simp at hi
  | case3 a b rest ih =>
    rw [hex_to_bytes]
    cases i with
    | zero => rfl
    | succ i =>
      rw [List.getD_cons_succ, ih i (by simp only [List.length_cons] at hi; omega)]
      rw [show 2 * (i + 1) = 2 * i + 1 + 1 by omega, List.getD_cons_succ, List.getD_cons_succ,
        List.getD_cons_succ, List.getD_cons_succ]

theorem hex_to_bytes_hex_text (b : List Nat) (hb : ∀ x ∈ b, x < 256) :
    hex_to_bytes (hex_text b) = b := by
  induction b with
  | nil => rfl
  | cons x b ih =>
    have hx : x < 256 := hb x (List.mem_cons_self x b)
    show hex_to_bytes (hex_char (x / 16 % 16) :: hex_char (x % 16) :: hex_text b) = _
    rw [hex_to_bytes, ih (fun y hy => hb y (List.mem_cons_of_mem x hy)),
      strtol16_of_digits _ _ _ _ (hex_digit_value_hex_char _ (Nat.mod_lt _ (by norm_num)))
        (hex_digit_value_hex_char _ (Nat.mod_lt _ (by norm_num)))]
    congr 1
    omega

theorem build_search_table_loop_cons (table : List (List Nat)) (line : List Nat)
    (rest : List (List Nat)) (hlen : line.length = 40) :
    build_search_table_loop table (line :: rest) =
      build_result.table (table_insert table (hex_to_bytes line)) := by
  have h20 : (hex_to_bytes line).length = 20 := by rw [hex_to_bytes_length, hlen]
  simp [build_search_table_loop, hlen, h20]

/-! ### `strtol` on a pair of characters, case by case -/

theorem hex_digit_value_lt (c x : Nat) (h : hex_digit_value c = some x) : x < 16 := by
  unfold hex_digit_value at h
  split_ifs at h <;> simp only [Option.some.injEq, reduceCtorEq] at h <;> omega

theorem strtol16_digit_other (a b x : Nat) (ha : hex_digit_value a = some x)
    (hb : hex_digit_value b = none) : strtol16 [a, b] = x := by
  simp [strtol16, ha, hb]

theorem strtol16_space_digit (a b y : Nat) (ha : hex_digit_value a = none)
    (hb : hex_digit_value b = some y) (hs : isspace a = true ∨ a = 43) :
    strtol16 [a, b] = y := by
  rcases hs with hs | hs
  · simp [strtol16, ha, hb, hs]
  · subst hs
    simp [strtol16, ha, hb]

theorem strtol16_minus_digit (b y : Nat) (hb : hex_digit_value b = some y) :
    strtol16 [45, b] = (256 - y) % 256 := by
  have ha : hex_digit_value 45 = none := by decide
  have hs : isspace 45 = false := by decide
  simp [strtol16, ha, hb, hs]

theorem strtol16_other (a b : Nat) (ha : hex_digit_value a = none)
    (hs : isspace a = false) (h43 : a ≠ 43) (h45 : a ≠ 45) : strtol16 [a, b] = 0 := by
  cases hb : hex_digit_value b with
  | none => simp [strtol16, ha, hb]
  | some y => simp [strtol16, ha, hb, hs, h43, h45]

theorem strtol16_none_none (a b : Nat) (ha : hex_digit_value a = none)
    (hb : hex_digit_value b = none) : strtol16 [a, b] = 0 := by
  simp [strtol16, ha, hb]

theorem strtol16_lt (a b : Nat) : strtol16 [a, b] < 256 := by
  cases ha : hex_digit_value a with
  | none =>
    cases hb : hex_digit_value b with
    | none => simp [strtol16, ha, hb]
    | some y =>
      have hy := hex_digit_value_lt b y hb
      simp only [strtol16, ha, hb]
      split_ifs <;> omega
  | some x =>
    have hx := hex_digit_value_lt a x ha
    cases hb : hex_digit_value b with
    | none => simp only [strtol16, ha, hb]; omega
    | some y =>
      have hy := hex_digit_value_lt b y hb
      simp only [strtol16, ha, hb]
      omega

/-! ### `Reset` -/

theorem SHA256_Reset_fresh (h : SHA256) (m : List Nat) (hbuf : h.buf.length = 64) :
    (h.Reset.Write m).Finalize.2 = (SHA256.init.Write m).Finalize.2 := by
  have wr : h.Reset.WF := ⟨hbuf, by show 0 < _; norm_num⟩
  have wi := SHA256.init_WF_sha256
  obtain ⟨hs, hb, hp⟩ := SHA256.Write_congr_sha256 h.Reset SHA256.init m wr wi rfl rfl rfl
  exact SHA256.Finalize_congr_sha256 _ _ (SHA256.Write_spec_sha256 _ m wr).2.2.2
    (SHA256.Write_spec_sha256 _ m wi).2.2.2 hs hb hp

theorem RIPEMD160_Reset_fresh (h : RIPEMD160) (m : List Nat) (hbuf : h.buf.length = 64) :
    (h.Reset.Write m).Finalize.2 = (RIPEMD160.init.Write m).Finalize.2 := by
  have wr : h.Reset.WF := ⟨hbuf, by show 0 < _; norm_num⟩
  have wi := RIPEMD160.init_WF_ripemd160
  obtain ⟨hs, hb, hp⟩ := RIPEMD160.Write_congr_ripemd160 h.Reset RIPEMD160.init m wr wi rfl rfl
    rfl
  exact RIPEMD160.Finalize_congr_ripemd160 _ _ (RIPEMD160.Write_spec_ripemd160 _ m wr).2.2.2
    (RIPEMD160.Write_spec_ripemd160 _ m wi).2.2.2 hs hb hp

/-! ### The field inverse -/

theorem fe_mul_inv_eq_one (F : secp256k1_params) (hp : Nat.Prime F.p) (a : Nat)
    (ha : a % F.p ≠ 0) :
    secp256k1_fe_normalize F (secp256k1_fe_mul F a (secp256k1_fe_inv F a)) = 1 := by
  haveI : Fact (Nat.Prime F.p) := ⟨hp⟩
  have ha0 : (a : ZMod F.p) ≠ 0 := by
    intro h
    exact ha (Nat.mod_eq_zero_of_dvd ((ZMod.natCast_zmod_eq_zero_iff_dvd a F.p).mp h))
  have hcast : ((secp256k1_fe_normalize F (secp256k1_fe_mul F a (secp256k1_fe_inv F a)) : Nat) :
      ZMod F.p) = ((1 : Nat) : ZMod F.p) := by
    rw [fe_normalize_cast, fe_mul_cast, fe_inv_cast F hp a ha0, mul_inv_cancel₀ ha0,
      Nat.cast_one]
  have hmod := (ZMod.natCast_eq_natCast_iff' _ _ _).mp hcast
  have hlt : secp256k1_fe_normalize F (secp256k1_fe_mul F a (secp256k1_fe_inv F a)) < F.p :=
    Nat.mod_lt _ hp.pos
  rw [Nat.mod_eq_of_lt hlt, Nat.mod_eq_of_lt hp.one_lt] at hmod
  exact hmod

/-! ### The first iteration of `secp256k1_ecmult` on an odd scalar -/

/-- On an odd scalar the first iteration copies the point into `r`, so the result does not
depend on what `r` held before the call. -/
theorem ecmult_run_first_odd (F : secp256k1_params) (r0 a : secp256k1_ge) (k fuel : Nat)
    (hk : k % 2 = 1) :
    (secp256k1_ecmult_loop F (fuel + 1) ⟨r0, a, k, true, []⟩).r =
      (secp256k1_ecmult_loop F fuel
        ⟨a, secp256k1_ge_dbl F a, k / 2, false, [ecmult_call.dbl a]⟩).r := by
  have hz : secp256k1_scalar_is_zero k = false := by
    simp [secp256k1_scalar_is_zero]; omega
  have ho : secp256k1_scalar_is_odd k = true := by
    simp [secp256k1_scalar_is_odd, hk]
  have hshift : secp256k1_scalar_shr_int k 1 = k / 2 := by
    simp [secp256k1_scalar_shr_int, Nat.shiftRight_eq_div_pow]
  rw [secp256k1_ecmult_loop]
  simp only [hz, ho, hshift, Bool.not_false, ↓reduceIte, List.nil_append]

/-! ## Claims on the known scalar vector, the search loop, the target table, `Reset` and
the field inverse -/

/-- C21: `secp256k1_ecmult(k, G)` with `k = f8ef380d…984c11f3` and `G` the generator
yields `x = 71ee918b…e8727be3` and `y = 37b3650e…3b4c2688`, with and without `VERIFY` and
whatever `r` held before the call, and the assertions of `test_secp256k1_ecmult` hold. -/
theorem test_secp256k1_ecmult_vector (VERIFY : Bool) (r0 : secp256k1_ge) :
    secp256k1_ecmult secp256k1 VERIFY r0 secp256k1_G
        0xf8ef380d6c05116dbed78bfdd6e6625e57426af9a082b81c2fa27b06984c11f3 =
      some ⟨0x71ee918bc19bb566e3a5f12c0cd0de620bec1025da6e98951355ebbde8727be3,
            0x37b3650efad4190b7328b1156304f2e9e23dbb7f2da50999dde50ea73b4c2688⟩ ∧
      test_secp256k1_ecmult secp256k1 VERIFY r0 = some true := by
  have hrun : secp256k1_ecmult secp256k1 VERIFY r0 secp256k1_G
        0xf8ef380d6c05116dbed78bfdd6e6625e57426af9a082b81c2fa27b06984c11f3 =
      some ⟨0x71ee918bc19bb566e3a5f12c0cd0de620bec1025da6e98951355ebbde8727be3,
            0x37b3650efad4190b7328b1156304f2e9e23dbb7f2da50999dde50ea73b4c2688⟩ := by
    rw [secp256k1_ecmult_eq_some secp256k1 VERIFY r0 _ _ (by norm_num)]
    unfold secp256k1_ecmult_run
    rw [show (256 : Nat) = 255 + 1 from rfl,
      ecmult_run_first_odd secp256k1 r0 _ _ 255 (by decide)]
    exact congrArg some (by decide!)
  refine ⟨hrun, ?_⟩
  have hg : (⟨secp256k1_fe_set_b32 secp256k1 n_gx, secp256k1_fe_set_b32 secp256k1 n_gy⟩ :
      secp256k1_ge) = secp256k1_G := by decide!
  have hk : secp256k1_scalar_set_b32 secp256k1
      [0xf8, 0xef, 0x38, 0x0d, 0x6c, 0x05, 0x11, 0x6d, 0xbe, 0xd7, 0x8b, 0xfd, 0xd6, 0xe6, 0x62, 0x5e,
       0x57, 0x42, 0x6a, 0xf9, 0xa0, 0x82, 0xb8, 0x1c, 0x2f, 0xa2, 0x7b, 0x06, 0x98, 0x4c, 0x11, 0xf3] =
      0xf8ef380d6c05116dbed78bfdd6e6625e57426af9a082b81c2fa27b06984c11f3 := by decide!
  unfold test_secp256k1_ecmult
  simp only []
  unfold n_gx n_gy at hg
  rw [hg, hk, hrun, Option.map_some']
  exact congrArg some (by decide!)

/-- C22, as stated, fails: the digest of `G` is not `0150651a…c9ad`, so with the table
holding exactly that digest the loop started at `G` does not end in `Found` in its first
iteration. -/
theorem start_task_loop_G_misses :
    generate_ripemd160hash secp256k1_G ∉
        [[0x01, 0x50, 0x65, 0x1a, 0xd9, 0x13, 0x30, 0xad, 0x19, 0x13,
          0xcb, 0x04, 0x91, 0x28, 0x17, 0xa8, 0xd9, 0x80, 0xc9, 0xad]] ∧
      start_task_loop secp256k1 secp256k1_G
          [[0x01, 0x50, 0x65, 0x1a, 0xd9, 0x13, 0x30, 0xad, 0x19, 0x13,
            0xcb, 0x04, 0x91, 0x28, 0x17, 0xa8, 0xd9, 0x80, 0xc9, 0xad]]
          0xFFFFFFFF 0 0 secp256k1_G ≠
        search_outcome.Found 0
          [0x01, 0x50, 0x65, 0x1a, 0xd9, 0x13, 0x30, 0xad, 0x19, 0x13,
           0xcb, 0x04, 0x91, 0x28, 0x17, 0xa8, 0xd9, 0x80, 0xc9, 0xad] 0 := by
  have hmiss : generate_ripemd160hash secp256k1_G ∉
      [[0x01, 0x50, 0x65, 0x1a, 0xd9, 0x13, 0x30, 0xad, 0x19, 0x13,
        0xcb, 0x04, 0x91, 0x28, 0x17, 0xa8, 0xd9, 0x80, 0xc9, 0xad]] := by
    decide!
  refine ⟨hmiss, fun h => ?_⟩
  exact hmiss ((start_task_loop_found_iff _ _ _ _ _ _ _ _).mp h).2.1

/-- C22, amended: with a target table containing exactly the digest
`91b24bf9f5288532960ac687abb035127b1d28a5` and the search loop of `start_task` started at
the running point `R0 = G`, the membership check hits in the first iteration, after 0
calls to `secp256k1_ge_add`; with the table containing exactly `0150651a…c9ad` the same
holds for the start point `(71ee918b…7be3, 37b3650e…2688)`. -/
theorem start_task_loop_hits_at_once :
    start_task_loop secp256k1 secp256k1_G
        [[0x91, 0xb2, 0x4b, 0xf9, 0xf5, 0x28, 0x85, 0x32, 0x96, 0x0a,
          0xc6, 0x87, 0xab, 0xb0, 0x35, 0x12, 0x7b, 0x1d, 0x28, 0xa5]]
        0xFFFFFFFF 0 0 secp256k1_G =
      search_outcome.Found 0
        [0x91, 0xb2, 0x4b, 0xf9, 0xf5, 0x28, 0x85, 0x32, 0x96, 0x0a,
         0xc6, 0x87, 0xab, 0xb0, 0x35, 0x12, 0x7b, 0x1d, 0x28, 0xa5] 0 ∧
      start_task_loop secp256k1 secp256k1_G
          [[0x01, 0x50, 0x65, 0x1a, 0xd9, 0x13, 0x30, 0xad, 0x19, 0x13,
            0xcb, 0x04, 0x91, 0x28, 0x17, 0xa8, 0xd9, 0x80, 0xc9, 0xad]]
          0xFFFFFFFF 0 0
          ⟨0x71ee918bc19bb566e3a5f12c0cd0de620bec1025da6e98951355ebbde8727be3,
           0x37b3650efad4190b7328b1156304f2e9e23dbb7f2da50999dde50ea73b4c2688⟩ =
        search_outcome.Found 0
          [0x01, 0x50, 0x65, 0x1a, 0xd9, 0x13, 0x30, 0xad, 0x19, 0x13,
           0xcb, 0x04, 0x91, 0x28, 0x17, 0xa8, 0xd9, 0x80, 0xc9, 0xad] 0 := by
  have hG : generate_ripemd160hash secp256k1_G =
      [0x91, 0xb2, 0x4b, 0xf9, 0xf5, 0x28, 0x85, 0x32, 0x96, 0x0a,
       0xc6, 0x87, 0xab, 0xb0, 0x35, 0x12, 0x7b, 0x1d, 0x28, 0xa5] := by
    decide!
  have hT : generate_ripemd160hash
      ⟨0x71ee918bc19bb566e3a5f12c0cd0de620bec1025da6e98951355ebbde8727be3,
       0x37b3650efad4190b7328b1156304f2e9e23dbb7f2da50999dde50ea73b4c2688⟩ =
      [0x01, 0x50, 0x65, 0x1a, 0xd9, 0x13, 0x30, 0xad, 0x19, 0x13,
       0xcb, 0x04, 0x91, 0x28, 0x17, 0xa8, 0xd9, 0x80, 0xc9, 0xad] := by
    decide!
  constructor
  · refine (start_task_loop_found_iff _ _ _ _ _ _ _ _).mpr
      ⟨by norm_num, ?_, fun j hj => absurd hj (Nat.not_lt_zero j), hG.symm, rfl⟩
    show generate_ripemd160hash secp256k1_G ∈ _
    rw [hG]
    exact List.mem_singleton_self _
  · refine (start_task_loop_found_iff _ _ _ _ _ _ _ _).mpr
      ⟨by norm_num, ?_, fun j hj => absurd hj (Nat.not_lt_zero j), hT.symm, rfl⟩
    simp only [advance]
    rw [hT]
    exact List.mem_singleton_self _

/-- C23: for every table and every start point `R0`, with `R_{j+1} =
secp256k1_ge_add(G, R_j)`, the search loop of `start_task` ends in `Found` at iteration
`i` with the reported digest `h` after `a` additions exactly when `i < 0xFFFFFFFF`,
`generate_ripemd160hash(R_i)` is in the table, `generate_ripemd160hash(R_j)` is not in the
table for every `j < i`, `h = generate_ripemd160hash(R_i)` and `a = i`. -/
theorem start_task_loop_first_hit (F : secp256k1_params) (g : secp256k1_ge)
    (table : List (List Nat)) (R0 : secp256k1_ge) (i : Nat) (h : List Nat) (a : Nat) :
    (advance F g 0 R0 = R0 ∧
        ∀ j, advance F g (j + 1) R0 = secp256k1_ge_add F g (advance F g j R0)) ∧
      (start_task_loop F g table 0xFFFFFFFF 0 0 R0 = search_outcome.Found i h a ↔
        i < 0xFFFFFFFF ∧ generate_ripemd160hash (advance F g i R0) ∈ table ∧
          (∀ j < i, generate_ripemd160hash (advance F g j R0) ∉ table) ∧
          h = generate_ripemd160hash (advance F g i R0) ∧ a = i) :=
  ⟨⟨rfl, fun j => advance_succ F g j R0⟩, start_task_loop_found_iff F g table _ R0 i h a⟩

/-- C24, as stated, fails: with the empty table, where no digest is ever found, the loop
started at `G` ends after `0xFFFFFFFF` iterations and `start_task` returns. -/
theorem start_task_loop_empty_returns :
    start_task_loop secp256k1 secp256k1_G [] 0xFFFFFFFF 0 0 secp256k1_G =
      search_outcome.Returned 0xFFFFFFFF 0xFFFFFFFF
        (advance secp256k1 secp256k1_G 0xFFFFFFFF secp256k1_G) := by
  have := start_task_loop_returned secp256k1 secp256k1_G [] 0xFFFFFFFF 0 0 secp256k1_G
    (fun _ _ => List.not_mem_nil _)
  rw [Nat.zero_add] at this
  exact this

/-- C24, amended: the search loop of `start_task` is bounded: when no digest
`generate_ripemd160hash(R_i)` with `i < 0xFFFFFFFF` is in the table, the loop ends after
exactly `0xFFFFFFFF` iterations and as many additions, and `start_task` returns. -/
theorem start_task_loop_bounded (F : secp256k1_params) (g : secp256k1_ge)
    (table : List (List Nat)) (R0 : secp256k1_ge)
    (hmiss : ∀ j < 0xFFFFFFFF, generate_ripemd160hash (advance F g j R0) ∉ table) :
    start_task_loop F g table 0xFFFFFFFF 0 0 R0 =
      search_outcome.Returned 0xFFFFFFFF 0xFFFFFFFF (advance F g 0xFFFFFFFF R0) := by
  have := start_task_loop_returned F g table 0xFFFFFFFF 0 0 R0 hmiss
  rw [Nat.zero_add] at this
  exact this

theorem start_task_loop_bounded_witness :
    (∀ j < 0xFFFFFFFF,
        generate_ripemd160hash (advance curve13 ⟨7, 5⟩ j ⟨8, 5⟩) ∉ ([] : List (List Nat))) ∧
      start_task_loop curve13 ⟨7, 5⟩ [] 0xFFFFFFFF 0 0 ⟨8, 5⟩ =
        search_outcome.Returned 0xFFFFFFFF 0xFFFFFFFF (advance curve13 ⟨7, 5⟩ 0xFFFFFFFF ⟨8, 5⟩) :=
  ⟨fun _ _ => List.not_mem_nil _,
    start_task_loop_bounded curve13 ⟨7, 5⟩ [] ⟨8, 5⟩ (fun _ _ => List.not_mem_nil _)⟩

/-- C25, at the failing input: for a file whose first line is a digest of 40 characters
and whose second line has 3 characters, `build_search_table` returns a table with the
first digest; the second line is never read. -/
theorem build_search_table_wrong_length_accepted :
    build_search_table
        (some [chars "4616b2c00cfc401861b98e86ccce47a683ed63da", chars "abc"]) =
      build_result.table
        [[0x46, 0x16, 0xb2, 0xc0, 0x0c, 0xfc, 0x40, 0x18, 0x61, 0xb9,
          0x8e, 0x86, 0xcc, 0xce, 0x47, 0xa6, 0x83, 0xed, 0x63, 0xda]] := by
  decide

/-- C26, as stated, fails: the 40-character line `zz16b2c0…63da` is not rejected; its two
characters `zz` are decoded as the byte 0 and the entry is inserted. -/
theorem build_search_table_non_hex_accepted :
    (chars "zz16b2c00cfc401861b98e86ccce47a683ed63da").length = 40 ∧
      hex_digit_value (chars "z").head! = none ∧
      build_search_table (some [chars "zz16b2c00cfc401861b98e86ccce47a683ed63da"]) =
        build_result.table
          [[0x00, 0x16, 0xb2, 0xc0, 0x0c, 0xfc, 0x40, 0x18, 0x61, 0xb9,
            0x8e, 0x86, 0xcc, 0xce, 0x47, 0xa6, 0x83, 0xed, 0x63, 0xda]] := by
  decide

/-- C26, amended: every 40-character line is accepted, whatever its characters:
`hex_to_bytes` gives 20 bytes, each below 256, byte `i` being what `strtol` reads in base
16 from the characters `a`, `b` at `2i` and `2i + 1`, as a byte: `16 * x + y` for two
digits of values `x`, `y`; `x` for a digit followed by a character that is no digit; `y`
for a white-space character or `+` followed by a digit; `(256 - y) mod 256` for `-`
followed by a digit; and `0` otherwise (no digit at all, or a first character that is
neither a digit, white space nor a sign); the size check passes and the loop of
`build_search_table` inserts the entry. -/
theorem hex_to_bytes_any_line (line : List Nat) (hlen : line.length = 40) :
    (hex_to_bytes line).length = 20 ∧
      (∀ i < 20, (hex_to_bytes line).getD i 0 =
        strtol16 [line.getD (2 * i) 0, line.getD (2 * i + 1) 0]) ∧
      (∀ i < 20, (hex_to_bytes line).getD i 0 < 256) ∧
      (∀ i < 20, ∀ x y, hex_digit_value (line.getD (2 * i) 0) = some x →
        hex_digit_value (line.getD (2 * i + 1) 0) = some y →
        (hex_to_bytes line).getD i 0 = 16 * x + y) ∧
      (∀ i < 20, ∀ x, hex_digit_value (line.getD (2 * i) 0) = some x →
        hex_digit_value (line.getD (2 * i + 1) 0) = none →
        (hex_to_bytes line).getD i 0 = x) ∧
      (∀ i < 20, ∀ y, hex_digit_value (line.getD (2 * i) 0) = none →
        hex_digit_value (line.getD (2 * i + 1) 0) = some y →
        (isspace (line.getD (2 * i) 0) = true ∨ line.getD (2 * i) 0 = 43) →
        (hex_to_bytes line).getD i 0 = y) ∧
      (∀ i < 20, ∀ y, line.getD (2 * i) 0 = 45 →
        hex_digit_value (line.getD (2 * i + 1) 0) = some y →
        (hex_to_bytes line).getD i 0 = (256 - y) % 256) ∧
      (∀ i < 20, hex_digit_value (line.getD (2 * i) 0) = none →
        isspace (line.getD (2 * i) 0) = false → line.getD (2 * i) 0 ≠ 43 →
        line.getD (2 * i) 0 ≠ 45 → (hex_to_bytes line).getD i 0 = 0) ∧
      (∀ i < 20, hex_digit_value (line.getD (2 * i) 0) = none →
        hex_digit_value (line.getD (2 * i + 1) 0) = none →
        (hex_to_bytes line).getD i 0 = 0) ∧
      ∀ (table : List (List Nat)) (rest : List (List Nat)),
        build_search_table_loop table (line :: rest) =
          build_result.table (table_insert table (hex_to_bytes line)) := by
  have hb : ∀ i < 20, (hex_to_bytes line).getD i 0 =
      strtol16 [line.getD (2 * i) 0, line.getD (2 * i + 1) 0] :=
    fun i hi => hex_to_bytes_getD line i (by omega)
  refine ⟨by rw [hex_to_bytes_length, hlen], hb, fun i hi => ?_, fun i hi x y hx hy => ?_,
    fun i hi x hx hy => ?_, fun i hi y hx hy hs => ?_, fun i hi y hx hy => ?_,
    fun i hi hx hs h43 h45 => ?_, fun i hi hx hy => ?_, fun table rest => ?_⟩
  · rw [hb i hi]
    exact strtol16_lt _ _
  · rw [hb i hi]
    exact strtol16_of_digits _ _ x y hx hy
  · rw [hb i hi]
    exact strtol16_digit_other _ _ x hx hy
  · rw [hb i hi]
    exact strtol16_space_digit _ _ y hx hy hs
  · rw [hb i hi, hx]
    exact strtol16_minus_digit _ y hy
  · rw [hb i hi]
    exact strtol16_other _ _ hx hs h43 h45
  · rw [hb i hi]
    exact strtol16_none_none _ _ hx hy
  · exact build_search_table_loop_cons table line rest hlen

theorem hex_to_bytes_any_line_witness :
    (chars "zz 5+f-14gfc401861b98e86ccce47a683ed63da").length = 40 ∧
      (hex_to_bytes (chars "zz 5+f-14gfc401861b98e86ccce47a683ed63da")).length = 20 ∧
      (hex_to_bytes (chars "zz 5+f-14gfc401861b98e86ccce47a683ed63da")).getD 0 0 = 0 ∧
      (hex_to_bytes (chars "zz 5+f-14gfc401861b98e86ccce47a683ed63da")).getD 1 0 = 5 ∧
      (hex_to_bytes (chars "zz 5+f-14gfc401861b98e86ccce47a683ed63da")).getD 2 0 = 15 ∧
      (hex_to_bytes (chars "zz 5+f-14gfc401861b98e86ccce47a683ed63da")).getD 3 0 =
        (256 - 1) % 256 ∧
      (hex_to_bytes (chars "zz 5+f-14gfc401861b98e86ccce47a683ed63da")).getD 4 0 = 4 ∧
      (hex_to_bytes (chars "zz 5+f-14gfc401861b98e86ccce47a683ed63da")).getD 5 0 =
        16 * 15 + 12 ∧
      build_search_table (some [chars "zz 5+f-14gfc401861b98e86ccce47a683ed63da"]) =
        build_result.table
          [[0x00, 0x05, 0x0f, 0xff, 0x04, 0xfc, 0x40, 0x18, 0x61, 0xb9,
            0x8e, 0x86, 0xcc, 0xce, 0x47, 0xa6, 0x83, 0xed, 0x63, 0xda]] :=
  ⟨by decide,
    (hex_to_bytes_any_line (chars "zz 5+f-14gfc401861b98e86ccce47a683ed63da") (by decide)).1,
    (hex_to_bytes_any_line (chars "zz 5+f-14gfc401861b98e86ccce47a683ed63da")
      (by decide)).2.2.2.2.2.2.2.2.1 0 (by decide) (by decide) (by decide),
    (hex_to_bytes_any_line (chars "zz 5+f-14gfc401861b98e86ccce47a683ed63da")
      (by decide)).2.2.2.2.2.1 1 (by decide) 5 (by decide) (by decide) (by decide),
    (hex_to_bytes_any_line (chars "zz 5+f-14gfc401861b98e86ccce47a683ed63da")
      (by decide)).2.2.2.2.2.1 2 (by decide) 15 (by decide) (by decide) (by decide),
    (hex_to_bytes_any_line (chars "zz 5+f-14gfc401861b98e86ccce47a683ed63da")
      (by decide)).2.2.2.2.2.2.1 3 (by decide) 1 (by decide) (by decide),
    (hex_to_bytes_any_line (chars "zz 5+f-14gfc401861b98e86ccce47a683ed63da")
      (by decide)).2.2.2.2.1 4 (by decide) 4 (by decide) (by decide),
    (hex_to_bytes_any_line (chars "zz 5+f-14gfc401861b98e86ccce47a683ed63da")
      (by decide)).2.2.2.1 5 (by decide) 15 12 (by decide) (by decide),
    by decide⟩

/-- C27: for every string `s` of `2n` hexadecimal digits (upper or lower case),
`hex_to_bytes(s)` has exactly `n` bytes and byte `i` is
`16 * val(s[2i]) + val(s[2i+1])`; and decoding the lowercase two-digits-per-byte text
that `print_hex` writes for any byte sequence returns that sequence. -/
theorem hex_to_bytes_valid (s : List Nat) (n : Nat) (hlen : s.length = 2 * n)
    (hhex : ∀ c ∈ s, (hex_digit_value c).isSome = true) :
    (hex_to_bytes s).length = n ∧
      (∀ i < n, (hex_to_bytes s).getD i 0 =
        16 * (hex_digit_value (s.getD (2 * i) 0)).getD 0 +
          (hex_digit_value (s.getD (2 * i + 1) 0)).getD 0) ∧
      ∀ b : List Nat, (∀ x ∈ b, x < 256) →
        hex_to_bytes (hex_text b) = b ∧ print_hex b = hex_text b ++ [10] := by
  refine ⟨by rw [hex_to_bytes_length, hlen]; omega, fun i hi => ?_,
    fun b hb => ⟨hex_to_bytes_hex_text b hb, rfl⟩⟩
  rw [hex_to_bytes_getD s i (by omega)]
  have h1 : s.getD (2 * i) 0 ∈ s := by
    rw [List.getD_eq_getElem _ _ (by omega)]
    exact List.getElem_mem _
  have h2 : s.getD (2 * i + 1) 0 ∈ s := by
    rw [List.getD_eq_getElem _ _ (by omega)]
    exact List.getElem_mem _
  obtain ⟨x, hx⟩ := Option.isSome_iff_exists.mp (hhex _ h1)
  obtain ⟨y, hy⟩ := Option.isSome_iff_exists.mp (hhex _ h2)
  rw [strtol16_of_digits _ _ x y hx hy, hx, hy]
  rfl

theorem hex_to_bytes_valid_witness :
    (chars "4616b2c00cfc401861b98E86CCCE47A683ED63DA").length = 2 * 20 ∧
      (∀ c ∈ chars "4616b2c00cfc401861b98E86CCCE47A683ED63DA",
        (hex_digit_value c).isSome = true) ∧
      (hex_to_bytes (chars "4616b2c00cfc401861b98E86CCCE47A683ED63DA")).length = 20 ∧
      hex_to_bytes (chars "4616b2c00cfc401861b98E86CCCE47A683ED63DA") =
        [0x46, 0x16, 0xb2, 0xc0, 0x0c, 0xfc, 0x40, 0x18, 0x61, 0xb9,
         0x8e, 0x86, 0xcc, 0xce, 0x47, 0xa6, 0x83, 0xed, 0x63, 0xda] :=
  ⟨by decide, by decide,
    (hex_to_bytes_valid (chars "4616b2c00cfc401861b98E86CCCE47A683ED63DA") 20 (by decide)
      (by decide)).1, by decide⟩

/-- C28: for every target file with at least one line whose first line has 40 characters,
`build_search_table` returns a table with exactly one element, `hex_to_bytes` of the
first line, of 20 bytes, whatever the lines after the first are. -/
theorem build_search_table_single_entry (line : List Nat) (rest : List (List Nat))
    (hlen : line.length = 40) :
    build_search_table (some (line :: rest)) = build_result.table [hex_to_bytes line] ∧
      (hex_to_bytes line).length = 20 := by
  refine ⟨?_, by rw [hex_to_bytes_length, hlen]⟩
  show build_search_table_loop [] (line :: rest) = _
  rw [build_search_table_loop_cons [] line rest hlen]
  rfl

theorem build_search_table_single_entry_witness :
    (chars "4616b2c00cfc401861b98e86ccce47a683ed63da").length = 40 ∧
      build_search_table (some (chars "4616b2c00cfc401861b98e86ccce47a683ed63da" ::
          [chars "0150651ad91330ad1913cb04912817a8d980c9ad", chars "not a digest"])) =
        build_result.table [hex_to_bytes (chars "4616b2c00cfc401861b98e86ccce47a683ed63da")] ∧
      (hex_to_bytes (chars "4616b2c00cfc401861b98e86ccce47a683ed63da")).length = 20 :=
  ⟨by decide,
    build_search_table_single_entry (chars "4616b2c00cfc401861b98e86ccce47a683ed63da")
      [chars "0150651ad91330ad1913cb04912817a8d980c9ad", chars "not a digest"] (by decide)⟩

/-- C29: for every `SHA256` and every `RIPEMD160` object (64-byte buffer, any state words,
counter and buffer content) and every byte string `m`, `Reset` followed by `Write(m)` and
`Finalize` yields the digest of a newly constructed object after `Write(m)` and
`Finalize`, although `Reset` leaves the buffer as it is. -/
theorem Reset_behaves_as_fresh (h : SHA256) (r : RIPEMD160) (m : List Nat)
    (hh : h.buf.length = 64) (hr : r.buf.length = 64) :
    ((h.Reset.Write m).Finalize.2 = (SHA256.init.Write m).Finalize.2 ∧ h.Reset.buf = h.buf) ∧
      ((r.Reset.Write m).Finalize.2 = (RIPEMD160.init.Write m).Finalize.2 ∧
        r.Reset.buf = r.buf) :=
  ⟨⟨SHA256_Reset_fresh h m hh, rfl⟩, ⟨RIPEMD160_Reset_fresh r m hr, rfl⟩⟩

theorem Reset_behaves_as_fresh_witness :
    (SHA256.init.Write [0x61, 0x62]).Finalize.1.buf.length = 64 ∧
      (RIPEMD160.init.Write [0x61, 0x62]).Finalize.1.buf.length = 64 ∧
      (((SHA256.init.Write [0x61, 0x62]).Finalize.1.Reset.Write [0x63]).Finalize.2 =
          (SHA256.init.Write [0x63]).Finalize.2 ∧
        (SHA256.init.Write [0x61, 0x62]).Finalize.1.Reset.buf =
          (SHA256.init.Write [0x61, 0x62]).Finalize.1.buf) ∧
      (((RIPEMD160.init.Write [0x61, 0x62]).Finalize.1.Reset.Write [0x63]).Finalize.2 =
          (RIPEMD160.init.Write [0x63]).Finalize.2 ∧
        (RIPEMD160.init.Write [0x61, 0x62]).Finalize.1.Reset.buf =
          (RIPEMD160.init.Write [0x61, 0x62]).Finalize.1.buf) :=
  ⟨by decide!, by decide!,
    Reset_behaves_as_fresh (SHA256.init.Write [0x61, 0x62]).Finalize.1
      (RIPEMD160.init.Write [0x61, 0x62]).Finalize.1 [0x63] (by decide!) (by decide!)⟩

/-- C30: over a prime field, for every field element `a ≠ 0 (mod p)` the product of `a`
and `secp256k1_fe_inv(a)` normalizes to 1. -/
theorem secp256k1_fe_mul_inv (F : secp256k1_params) (hp : Nat.Prime F.p) (a : Nat)
    (ha : a % F.p ≠ 0) :
    secp256k1_fe_normalize F (secp256k1_fe_mul F a (secp256k1_fe_inv F a)) = 1 :=
  fe_mul_inv_eq_one F hp a ha

theorem secp256k1_fe_mul_inv_witness :
    Nat.Prime curve13.p ∧ 10 % curve13.p ≠ 0 ∧
      secp256k1_fe_normalize curve13 (secp256k1_fe_mul curve13 10 (secp256k1_fe_inv curve13 10)) =
        1 :=
  ⟨curve13_prime, by decide, secp256k1_fe_mul_inv curve13 curve13_prime 10 (by decide)⟩

/-! ## Counting the calls of `secp256k1_ecmult` -/

section
variable (F : secp256k1_params)

theorem secp256k1_ecmult_loop_done (fuel : Nat) (st : ecmult_state) (h0 : st.cond = 0) :
    secp256k1_ecmult_loop F fuel st = st := by
  cases fuel with
  | zero => rfl
  | succ e =>
    rw [secp256k1_ecmult_loop]
    simp [secp256k1_scalar_is_zero, h0]

/-- What the loop of `secp256k1_ecmult` does on a state that starts an iteration of bit
length `L`: after `L` iterations the scalar is used up, more fuel changes nothing, one
`secp256k1_ge_dbl` call is made per iteration and one `secp256k1_ge_add` call per set bit
after the first. -/
theorem secp256k1_ecmult_loop_count (L : Nat) (st : ecmult_state) (extra : Nat)
    (hL : st.cond < 2 ^ L) (hL' : L ≠ 0 → 2 ^ (L - 1) ≤ st.cond) :
    secp256k1_ecmult_loop F (L + extra) st = secp256k1_ecmult_loop F L st ∧
      (secp256k1_ecmult_loop F L st).cond = 0 ∧
      ((secp256k1_ecmult_loop F L st).calls.countP ecmult_call.is_dbl =
        st.calls.countP ecmult_call.is_dbl + L) ∧
      ((secp256k1_ecmult_loop F L st).calls.countP ecmult_call.is_add +
          (if st.first = true ∧ st.cond ≠ 0 then 1 else 0) =
        st.calls.countP ecmult_call.is_add + popcountAux L st.cond) ∧
      ((secp256k1_ecmult_loop F L st).first = (st.first && decide (st.cond = 0))) := by
  induction L generalizing st with
  | zero =>
    have h0 : st.cond = 0 := by simpa using hL
    rw [secp256k1_ecmult_loop_done F _ st h0, secp256k1_ecmult_loop_done F _ st h0]
    refine ⟨rfl, h0, rfl, ?_, ?_⟩
    · simp [popcountAux, h0]
    · simp [h0]
  | succ L ih =>
    have hpos : st.cond ≠ 0 := by
      have := hL' (Nat.succ_ne_zero L)
      have h2 : 0 < 2 ^ (L + 1 - 1) := Nat.pow_pos (by norm_num)
      omega
    have hz : secp256k1_scalar_is_zero st.cond = false := by
      simp [secp256k1_scalar_is_zero, hpos]
    have hshift : secp256k1_scalar_shr_int st.cond 1 = st.cond / 2 := by
      simp [secp256k1_scalar_shr_int, Nat.shiftRight_eq_div_pow]
    have hlt : st.cond / 2 < 2 ^ L := by
      rw [pow_succ] at hL
      omega
    have hge : L ≠ 0 → 2 ^ (L - 1) ≤ st.cond / 2 := by
      intro hne
      have := hL' (Nat.succ_ne_zero L)
      obtain ⟨j, rfl⟩ : ∃ j, L = j + 1 := ⟨L - 1, by omega⟩
      simp only [Nat.add_sub_cancel] at this ⊢
      rw [pow_succ] at this
      omega
    rw [show L + 1 + extra = (L + extra) + 1 by omega]
    by_cases ho : secp256k1_scalar_is_odd st.cond = true
    · have hodd : st.cond % 2 = 1 := by simpa [secp256k1_scalar_is_odd] using ho
      by_cases h1 : st.first = true
      · have hstep : ∀ fuel, secp256k1_ecmult_loop F (fuel + 1) st =
            secp256k1_ecmult_loop F fuel
              { r := st.base, base := secp256k1_ge_dbl F st.base, cond := st.cond / 2,
                first := false, calls := st.calls ++ [ecmult_call.dbl st.base] } := by
          intro fuel
          rw [secp256k1_ecmult_loop]
          simp only [hz, ho, h1, Bool.not_false, ↓reduceIte, hshift]
        obtain ⟨e1, e2, e3, e4, e5⟩ := ih
          { r := st.base, base := secp256k1_ge_dbl F st.base, cond := st.cond / 2,
            first := false, calls := st.calls ++ [ecmult_call.dbl st.base] } hlt hge
        rw [hstep, hstep]
        refine ⟨e1, e2, ?_, ?_, ?_⟩
        · rw [e3]
          simp [List.countP_append, ecmult_call.is_dbl]
          omega
        · simp only [Bool.false_eq_true, false_and, ↓reduceIte, Nat.add_zero] at e4
          rw [e4]
          simp [List.countP_append, ecmult_call.is_add, popcountAux, hodd, hpos, h1]
          omega
        · rw [e5]
          simp [hpos]
      · have h1f : st.first = false := by simpa using h1
        have hstep : ∀ fuel, secp256k1_ecmult_loop F (fuel + 1) st =
            secp256k1_ecmult_loop F fuel
              { r := secp256k1_ge_add F st.r st.base, base := secp256k1_ge_dbl F st.base,
                cond := st.cond / 2, first := false,
                calls := st.calls ++ [ecmult_call.add st.r st.base] ++
                  [ecmult_call.dbl st.base] } := by
          intro fuel
          rw [secp256k1_ecmult_loop]
          simp only [hz, ho, h1f, Bool.not_false, Bool.false_eq_true, ↓reduceIte, hshift]
        obtain ⟨e1, e2, e3, e4, e5⟩ := ih
          { r := secp256k1_ge_add F st.r st.base, base := secp256k1_ge_dbl F st.base,
            cond := st.cond / 2, first := false,
            calls := st.calls ++ [ecmult_call.add st.r st.base] ++
              [ecmult_call.dbl st.base] } hlt hge
        rw [hstep, hstep]
        refine ⟨e1, e2, ?_, ?_, ?_⟩
        · rw [e3]
          simp [List.countP_append, ecmult_call.is_dbl, ecmult_call.is_add]
          omega
        · simp only [Bool.false_eq_true, false_and, ↓reduceIte, Nat.add_zero] at e4
          rw [e4]
          simp [List.countP_append, ecmult_call.is_add, ecmult_call.is_dbl, popcountAux, hodd,
            h1f]
          omega
        · rw [e5]
          simp [h1f]
    · have heven : st.cond % 2 = 0 := by
        have : st.cond % 2 ≠ 1 := by simpa [secp256k1_scalar_is_odd] using ho
        omega
      have hhalf : st.cond / 2 ≠ 0 := by omega
      have hstep : ∀ fuel, secp256k1_ecmult_loop F (fuel + 1) st =
          secp256k1_ecmult_loop F fuel
            { r := st.r, base := secp256k1_ge_dbl F st.base, cond := st.cond / 2,
              first := st.first, calls := st.calls ++ [ecmult_call.dbl st.base] } := by
        intro fuel
        rw [secp256k1_ecmult_loop]
        simp only [hz, ho, Bool.not_false, Bool.false_eq_true, ↓reduceIte, hshift]
      obtain ⟨e1, e2, e3, e4, e5⟩ := ih
        { r := st.r, base := secp256k1_ge_dbl F st.base, cond := st.cond / 2,
          first := st.first, calls := st.calls ++ [ecmult_call.dbl st.base] } hlt hge
      rw [hstep, hstep]
      refine ⟨e1, e2, ?_, ?_, ?_⟩
      · rw [e3]
        simp [List.countP_append, ecmult_call.is_dbl]
        omega
      · simp only [hhalf, ne_eq, not_false_eq_true, and_true] at e4
        simp only [hpos, ne_eq, not_false_eq_true, and_true]
        rw [e4]
        simp [List.countP_append, ecmult_call.is_add, popcountAux, heven]
      · rw [e5]
        simp [hpos, hhalf]

end

section
variable (F : secp256k1_params)

/-- An iteration of the loop of `secp256k1_ecmult` halves the scalar. -/
theorem secp256k1_ecmult_loop_step (st : ecmult_state) (hpos : st.cond ≠ 0) :
    ∃ st' : ecmult_state, (∀ fuel, secp256k1_ecmult_loop F (fuel + 1) st =
        secp256k1_ecmult_loop F fuel st') ∧ st'.cond = st.cond / 2 := by
  have hz : secp256k1_scalar_is_zero st.cond = false := by
    simp [secp256k1_scalar_is_zero, hpos]
  have hshift : secp256k1_scalar_shr_int st.cond 1 = st.cond / 2 := by
    simp [secp256k1_scalar_shr_int, Nat.shiftRight_eq_div_pow]
  by_cases ho : secp256k1_scalar_is_odd st.cond = true
  · by_cases h1 : st.first = true
    · refine ⟨(⟨st.base, secp256k1_ge_dbl F st.base, st.cond / 2, false,
        st.calls ++ [ecmult_call.dbl st.base]⟩ : ecmult_state), ?_, rfl⟩
      intro fuel
      rw [secp256k1_ecmult_loop]
      simp only [hz, ho, h1, Bool.not_false, ↓reduceIte, hshift]
    · have h1f : st.first = false := by simpa using h1
      refine ⟨(⟨secp256k1_ge_add F st.r st.base, secp256k1_ge_dbl F st.base, st.cond / 2,
        false, st.calls ++ [ecmult_call.add st.r st.base] ++ [ecmult_call.dbl st.base]⟩ :
        ecmult_state), ?_, rfl⟩
      intro fuel
      rw [secp256k1_ecmult_loop]
      simp only [hz, ho, h1f, Bool.not_false, Bool.false_eq_true, ↓reduceIte, hshift]
  · refine ⟨(⟨st.r, secp256k1_ge_dbl F st.base, st.cond / 2, st.first,
      st.calls ++ [ecmult_call.dbl st.base]⟩ : ecmult_state), ?_, rfl⟩
    intro fuel
    rw [secp256k1_ecmult_loop]
    simp only [hz, ho, Bool.not_false, Bool.false_eq_true, ↓reduceIte, hshift]

/-- After `n` iterations the scalar still to be processed is `k / 2 ^ n`. -/
theorem secp256k1_ecmult_loop_cond (n : Nat) (st : ecmult_state) :
    (secp256k1_ecmult_loop F n st).cond = st.cond / 2 ^ n := by
  induction n generalizing st with
  | zero => simp [secp256k1_ecmult_loop]
  | succ n ih =>
    by_cases h0 : st.cond = 0
    · rw [secp256k1_ecmult_loop_done F _ st h0, h0, Nat.zero_div]
    · obtain ⟨st', hstep, hc⟩ := secp256k1_ecmult_loop_step F st h0
      rw [hstep, ih, hc, Nat.div_div_eq_div_mul, pow_succ, Nat.mul_comm]

end

theorem popcountAux_zero (n : Nat) : popcountAux n 0 = 0 := by
  induction n with
  | zero => rfl
  | succ n ih => simp [popcountAux, ih]

theorem popcountAux_extra (L e k : Nat) (hk : k < 2 ^ L) :
    popcountAux (L + e) k = popcountAux L k := by
  induction L generalizing k with
  | zero =>
    have h0 : k = 0 := by simpa using hk
    rw [h0, popcountAux_zero, popcountAux_zero]
  | succ L ih =>
    rw [show L + 1 + e = (L + e) + 1 by omega, popcountAux, popcountAux,
      ih (k / 2) (by rw [pow_succ] at hk; omega)]

theorem popcountAux_pos (L k : Nat) (hk : 0 < k) (hlt : k < 2 ^ L) : 0 < popcountAux L k := by
  induction L generalizing k with
  | zero => simp at hlt; omega
  | succ L ih =>
    rw [popcountAux]
    by_cases h : k % 2 = 1
    · omega
    · have := ih (k / 2) (by omega) (by rw [pow_succ] at hlt; omega)
      omega

/-! ## The effect of `secp256k1_ecmult` on the caller's memory -/

section
variable (F : secp256k1_params)

/-- The loop on the memory writes the object at `pr` as the loop on values writes `r`, and
leaves every other object alone. -/
theorem secp256k1_ecmult_loop_mem_eq (pr : Nat) (fuel : Nat) (st : ecmult_frame)
    (calls : List ecmult_call) (x : Nat) :
    (secp256k1_ecmult_loop_mem F pr fuel st).ge x =
      if x = pr then
        (secp256k1_ecmult_loop F fuel ⟨st.ge pr, st.base, st.cond, st.first, calls⟩).r
      else st.ge x := by
  induction fuel generalizing st calls with
  | zero =>
    simp only [secp256k1_ecmult_loop_mem, secp256k1_ecmult_loop]
    split_ifs with h
    · rw [h]
    · rfl
  | succ fuel ih =>
    by_cases hz : secp256k1_scalar_is_zero st.cond = true
    · rw [secp256k1_ecmult_loop_mem, secp256k1_ecmult_loop]
      simp only [hz, Bool.not_true, Bool.false_eq_true, ↓reduceIte]
      split_ifs with h
      · rw [h]
      · rfl
    · have hz' : secp256k1_scalar_is_zero st.cond = false := by simpa using hz
      by_cases ho : secp256k1_scalar_is_odd st.cond = true
      · by_cases h1 : st.first = true
        · have hm : secp256k1_ecmult_loop_mem F pr (fuel + 1) st =
              secp256k1_ecmult_loop_mem F pr fuel
                { ge := fun x => if x = pr then st.base else st.ge x,
                  base := secp256k1_ge_dbl F st.base,
                  cond := secp256k1_scalar_shr_int st.cond 1, first := false } := by
            rw [secp256k1_ecmult_loop_mem]
            simp only [hz', ho, h1, Bool.not_false, ↓reduceIte]
          have hp : secp256k1_ecmult_loop F (fuel + 1)
                ⟨st.ge pr, st.base, st.cond, st.first, calls⟩ =
              secp256k1_ecmult_loop F fuel
                { r := st.base, base := secp256k1_ge_dbl F st.base,
                  cond := secp256k1_scalar_shr_int st.cond 1, first := false,
                  calls := calls ++ [ecmult_call.dbl st.base] } := by
            rw [secp256k1_ecmult_loop]
            simp only [hz', ho, h1, Bool.not_false, ↓reduceIte]
          rw [hm, hp, ih _ (calls ++ [ecmult_call.dbl st.base])]
          simp only [↓reduceIte]
          split_ifs with h
          · rfl
          · rfl
        · have h1f : st.first = false := by simpa using h1
          have hm : secp256k1_ecmult_loop_mem F pr (fuel + 1) st =
              secp256k1_ecmult_loop_mem F pr fuel
                { ge := fun x => if x = pr then secp256k1_ge_add F (st.ge pr) st.base
                    else st.ge x,
                  base := secp256k1_ge_dbl F st.base,
                  cond := secp256k1_scalar_shr_int st.cond 1, first := st.first } := by
            rw [secp256k1_ecmult_loop_mem]
            simp only [hz', ho, h1f, Bool.not_false, Bool.false_eq_true, ↓reduceIte]
          have hp : secp256k1_ecmult_loop F (fuel + 1)
                ⟨st.ge pr, st.base, st.cond, st.first, calls⟩ =
              secp256k1_ecmult_loop F fuel
                { r := secp256k1_ge_add F (st.ge pr) st.base,
                  base := secp256k1_ge_dbl F st.base,
                  cond := secp256k1_scalar_shr_int st.cond 1, first := st.first,
                  calls := calls ++ [ecmult_call.add (st.ge pr) st.base] ++
                    [ecmult_call.dbl st.base] } := by
            rw [secp256k1_ecmult_loop]
            simp only [hz', ho, h1f, Bool.not_false, Bool.false_eq_true, ↓reduceIte]
          rw [hm, hp, ih _ (calls ++ [ecmult_call.add (st.ge pr) st.base] ++
            [ecmult_call.dbl st.base])]
          simp only [↓reduceIte]
          split_ifs with h
          · rfl
          · rfl
      · have hm : secp256k1_ecmult_loop_mem F pr (fuel + 1) st =
            secp256k1_ecmult_loop_mem F pr fuel
              { ge := st.ge, base := secp256k1_ge_dbl F st.base,
                cond := secp256k1_scalar_shr_int st.cond 1, first := st.first } := by
          rw [secp256k1_ecmult_loop_mem]
          simp only [hz', ho, Bool.not_false, Bool.false_eq_true, ↓reduceIte]
        have hp : secp256k1_ecmult_loop F (fuel + 1)
              ⟨st.ge pr, st.base, st.cond, st.first, calls⟩ =
            secp256k1_ecmult_loop F fuel
              { r := st.ge pr, base := secp256k1_ge_dbl F st.base,
                cond := secp256k1_scalar_shr_int st.cond 1, first := st.first,
                calls := calls ++ [ecmult_call.dbl st.base] } := by
          rw [secp256k1_ecmult_loop]
          simp only [hz', ho, Bool.not_false, Bool.false_eq_true, ↓reduceIte]
        rw [hm, hp, ih _ (calls ++ [ecmult_call.dbl st.base])]

/-- The memory after `secp256k1_ecmult`, in terms of the value it computes. -/
theorem secp256k1_ecmult_mem_eq (VERIFY : Bool) (m : ecmult_memory) (pr pa pk : Nat) :
    secp256k1_ecmult_mem F VERIFY m pr pa pk =
      (secp256k1_ecmult F VERIFY (m.ge pr) (m.ge pa) (m.scalar pk)).map fun r =>
        ⟨fun x => if x = pr then r else m.ge x, m.scalar⟩ := by
  unfold secp256k1_ecmult_mem secp256k1_ecmult secp256k1_ecmult_run
  simp only []
  split_ifs with h
  · rfl
  · rw [Option.map_some']
    congr 2
    funext x
    exact secp256k1_ecmult_loop_mem_eq F pr 256 ⟨m.ge, m.ge pa, m.scalar pk, true⟩ [] x

end

/-! ## Commutativity of `secp256k1_ge_add` and the sum of a point with itself -/

section
variable (F : secp256k1_params)

theorem ge_eq_of_cast_eq (a b : secp256k1_ge) (ha : a.x < F.p ∧ a.y < F.p)
    (hb : b.x < F.p ∧ b.y < F.p) (hx : (a.x : ZMod F.p) = (b.x : ZMod F.p))
    (hy : (a.y : ZMod F.p) = (b.y : ZMod F.p)) : a = b :=
  ge_eq_of_mod_eq F a b ha hb
    ⟨(ZMod.natCast_eq_natCast_iff' _ _ _).mp hx, (ZMod.natCast_eq_natCast_iff' _ _ _).mp hy⟩

theorem secp256k1_ge_add_comm_of_x_ne (hp : Nat.Prime F.p) (a b : secp256k1_ge)
    (hx : a.x % F.p ≠ b.x % F.p) : secp256k1_ge_add F a b = secp256k1_ge_add F b a := by
  haveI : Fact (Nat.Prime F.p) := ⟨hp⟩
  have hxz : (a.x : ZMod F.p) ≠ (b.x : ZMod F.p) :=
    fun h => hx ((ZMod.natCast_eq_natCast_iff' a.x b.x F.p).mp h)
  have hd : (a.x : ZMod F.p) - b.x ≠ 0 := sub_ne_zero.mpr hxz
  have hd' : (b.x : ZMod F.p) - a.x ≠ 0 := sub_ne_zero.mpr (Ne.symm hxz)
  obtain ⟨ex, ey⟩ := ge_add_cast F hp a b hxz
  obtain ⟨fx, fy⟩ := ge_add_cast F hp b a (Ne.symm hxz)
  have hs : ((b.y : ZMod F.p) - a.y) * ((b.x : ZMod F.p) - a.x)⁻¹ =
      ((a.y : ZMod F.p) - b.y) * ((a.x : ZMod F.p) - b.x)⁻¹ := by
    field_simp
    ring
  have hmul : ((a.y : ZMod F.p) - b.y) * ((a.x : ZMod F.p) - b.x)⁻¹ * ((a.x : ZMod F.p) - b.x) =
      (a.y : ZMod F.p) - b.y := by
    field_simp
  have hxeq : ((secp256k1_ge_add F a b).x : ZMod F.p) = ((secp256k1_ge_add F b a).x : ZMod F.p) := by
    rw [ex, fx, hs]
    ring
  apply ge_eq_of_cast_eq F _ _ (ge_add_lt F hp.pos a b) (ge_add_lt F hp.pos b a) hxeq
  rw [ey, fy, hs, ← hxeq]
  linear_combination hmul

/-- `secp256k1_ge_add(r, a, a)`: the slope is zero times the value of `secp256k1_fe_inv`
on zero, and `r = (-2 * a.x, -a.y)`. -/
theorem secp256k1_ge_add_self_eq (hp : 0 < F.p) (a : secp256k1_ge) :
    secp256k1_ge_add F a a = ⟨(F.p - 2 * a.x % F.p) % F.p, (F.p - a.y % F.p) % F.p⟩ := by
  obtain ⟨ex, ey⟩ := ge_add_cast_of_x_eq F hp a a rfl
  have hneg : ∀ v : Nat, (((F.p - v % F.p) % F.p : Nat) : ZMod F.p) = -(v : ZMod F.p) := by
    intro v
    exact fe_negate_cast F hp v 1
  apply ge_eq_of_cast_eq F _ _ (ge_add_lt F hp a a) ⟨Nat.mod_lt _ hp, Nat.mod_lt _ hp⟩
  · show _ = (((F.p - 2 * a.x % F.p) % F.p : Nat) : ZMod F.p)
    rw [ex, hneg]
    push_cast
    ring
  · show _ = (((F.p - a.y % F.p) % F.p : Nat) : ZMod F.p)
    rw [ey, hneg]
    ring

/-- `secp256k1_ge_dbl` does not use the value of `secp256k1_fe_inv` on zero when
`2 * a.y ≠ 0 (mod p)`. -/
theorem secp256k1_ge_dbl_inv0 (p n z z' : Nat) (a : secp256k1_ge) (hy : a.y * 2 % p % p ≠ 0) :
    secp256k1_ge_dbl ⟨p, n, z⟩ a = secp256k1_ge_dbl ⟨p, n, z'⟩ a := by
  simp only [secp256k1_ge_dbl, secp256k1_fe_inv, secp256k1_fe_mul_int, secp256k1_fe_sqr,
    secp256k1_fe_mul, secp256k1_fe_normalize_weak, secp256k1_fe_negate, secp256k1_fe_add,
    secp256k1_fe_normalize, if_neg hy]

end

/-! ## The byte counter after `Finalize` -/

theorem SHA256_Finalize_bytes (m : List Nat) (hm : m.length < 2 ^ 63) :
    (SHA256.init.Write m).Finalize.1.bytes = 64 * ((m.length + 9 + 63) / 64) := by
  obtain ⟨-, b1, -, w1⟩ := SHA256.Write_spec_sha256 SHA256.init m SHA256.init_WF_sha256
  have hb1 : (SHA256.init.Write m).bytes = m.length := by
    rw [b1]
    show (0 + m.length) % _ = _
    omega
  have hpad := SHA256.pad_take_sha256 ((119 - (SHA256.init.Write m).bytes % 64) % 64) (by omega)
  obtain ⟨-, b2, -, w2⟩ := SHA256.Write_spec_sha256 (SHA256.init.Write m)
    (SHA256.pad.take (1 + ((119 - (SHA256.init.Write m).bytes % 64) % 64))) w1
  obtain ⟨-, b3, -, -⟩ := SHA256.Write_spec_sha256 _
    (WriteBE64 (((SHA256.init.Write m).bytes <<< 3) % 0x10000000000000000)) w2
  have hfin : (SHA256.init.Write m).Finalize.1 =
      ((SHA256.init.Write m).Write
        (SHA256.pad.take (1 + ((119 - (SHA256.init.Write m).bytes % 64) % 64)))).Write
        (WriteBE64 (((SHA256.init.Write m).bytes <<< 3) % 0x10000000000000000)) := by
    simp only [SHA256.Finalize]
  rw [hfin, b3, b2, hpad, hb1]
  simp only [List.length_cons, List.length_replicate, WriteBE64, List.length_nil]
  omega

theorem RIPEMD160_Finalize_bytes (m : List Nat) (hm : m.length < 2 ^ 63) :
    (RIPEMD160.init.Write m).Finalize.1.bytes = 64 * ((m.length + 9 + 63) / 64) := by
  obtain ⟨-, b1, -, w1⟩ :=
    RIPEMD160.Write_spec_ripemd160 RIPEMD160.init m RIPEMD160.init_WF_ripemd160
  have hb1 : (RIPEMD160.init.Write m).bytes = m.length := by
    rw [b1]
    show (0 + m.length) % _ = _
    omega
  have hpad := RIPEMD160.pad_take_ripemd160
    ((119 - (RIPEMD160.init.Write m).bytes % 64) % 64) (by omega)
  obtain ⟨-, b2, -, w2⟩ := RIPEMD160.Write_spec_ripemd160 (RIPEMD160.init.Write m)
    (RIPEMD160.pad.take (1 + ((119 - (RIPEMD160.init.Write m).bytes % 64) % 64))) w1
  obtain ⟨-, b3, -, -⟩ := RIPEMD160.Write_spec_ripemd160 _
    (WriteLE64 (((RIPEMD160.init.Write m).bytes <<< 3) % 0x10000000000000000)) w2
  have hfin : (RIPEMD160.init.Write m).Finalize.1 =
      ((RIPEMD160.init.Write m).Write
        (RIPEMD160.pad.take (1 + ((119 - (RIPEMD160.init.Write m).bytes % 64) % 64)))).Write
        (WriteLE64 (((RIPEMD160.init.Write m).bytes <<< 3) % 0x10000000000000000)) := by
    simp only [RIPEMD160.Finalize]
  rw [hfin, b3, b2, hpad, hb1]
  simp only [List.length_cons, List.length_replicate, WriteLE64, List.length_nil]
  omega

/-! ## The seed of `start_task` -/

theorem start_task_seed_eq (s : Nat) :
    start_task_seed s = (s / 256 % 65536) * (s / 256 % 65536) := by
  unfold start_task_seed
  simp only [Nat.shiftLeft_eq, Nat.shiftRight_eq_div_pow]
  have hv : s * 2 ^ 8 % 0x100000000 / 2 ^ 16 = s / 256 % 65536 := by omega
  rw [hv]
  apply Nat.mod_eq_of_lt
  have h1 : s / 256 % 65536 ≤ 65535 := by omega
  calc s / 256 % 65536 * (s / 256 % 65536) ≤ 65535 * 65535 := Nat.mul_le_mul h1 h1
    _ < 0x100000000 := by norm_num

theorem start_task_seed_image :
    Finset.image start_task_seed (Finset.range (2 ^ 32)) ⊆
      Finset.image (fun v => v * v) (Finset.range 65536) := by
  intro t ht
  obtain ⟨s, hs, rfl⟩ := Finset.mem_image.mp ht
  rw [start_task_seed_eq s]
  exact Finset.mem_image.mpr ⟨s / 256 % 65536, Finset.mem_range.mpr (Nat.mod_lt _ (by norm_num)),
    rfl⟩

/-! ## The boolean functions of SHA-256 -/

theorem testBit_not32 (x i : Nat) (hx : x < 2 ^ 32) :
    (SHA256Spec.not32 x).testBit i = (decide (i < 32) && !x.testBit i) := by
  unfold SHA256Spec.not32
  rw [show 0xFFFFFFFF - x = 2 ^ 32 - (x + 1) by omega]
  exact Nat.testBit_two_pow_sub_succ hx i

theorem testBit_of_ge_32 (z i : Nat) (hz : z < 2 ^ 32) (hi : ¬ i < 32) : z.testBit i = false :=
  Nat.testBit_lt_two_pow (lt_of_lt_of_le hz (Nat.pow_le_pow_right (by norm_num) (by omega)))

theorem Ch_eq_ChText (x y z : Nat) (hx : x < 2 ^ 32) (hz : z < 2 ^ 32) :
    sha256.Ch x y z = SHA256Spec.ChText x y z := by
  apply Nat.eq_of_testBit_eq
  intro i
  simp only [sha256.Ch, SHA256Spec.ChText, Nat.testBit_xor, Nat.testBit_and,
    testBit_not32 x i hx]
  by_cases hi : i < 32
  · simp only [hi, decide_True, Bool.true_and]
    cases x.testBit i <;> cases y.testBit i <;> cases z.testBit i <;> rfl
  · rw [testBit_of_ge_32 z i hz hi, testBit_of_ge_32 x i hx hi]
    simp

theorem Maj_eq_MajText (x y z : Nat) : sha256.Maj x y z = SHA256Spec.MajText x y z := by
  apply Nat.eq_of_testBit_eq
  intro i
  simp only [sha256.Maj, SHA256Spec.MajText, Nat.testBit_xor, Nat.testBit_and, Nat.testBit_or]
  cases x.testBit i <;> cases y.testBit i <;> cases z.testBit i <;> rfl

namespace sha256

set_option maxRecDepth 100000 in
/-- Statements about `TransformD64_1` can be proved on its body with the local bindings exposed. -/
theorem TransformD64_1_elim (inp : List Nat) (R : State)
    (h :
      let a := 0x6a09e667
      let b := 0xbb67ae85
      let c := 0x3c6ef372
      let d := 0xa54ff53a
      let e := 0x510e527f
      let f := 0x9b05688c
      let g := 0x1f83d9ab
      let h := 0x5be0cd19
      let w0 := ReadBE32 inp 0
      let p := Round a b c d e f g h ((0x428a2f98 + w0) % 0x100000000)
      let d := p.1
      let h := p.2
      let w1 := ReadBE32 inp 4
      let p := Round h a b c d e f g ((0x71374491 + w1) % 0x100000000)
      let c := p.1
      let g := p.2
      let w2 := ReadBE32 inp 8
      let p := Round g h a b c d e f ((0xb5c0fbcf + w2) % 0x100000000)
      let b := p.1
      let f := p.2
      let w3 := ReadBE32 inp 12
      let p := Round f g h a b c d e ((0xe9b5dba5 + w3) % 0x100000000)
      let a := p.1
      let e := p.2
      let w4 := ReadBE32 inp 16
      let p := Round e f g h a b c d ((0x3956c25b + w4) % 0x100000000)
      let h := p.1
      let d := p.2
      let w5 := ReadBE32 inp 20
      let p := Round d e f g h a b c ((0x59f111f1 + w5) % 0x100000000)
      let g := p.1
      let c := p.2
      let w6 := ReadBE32 inp 24
      let p := Round c d e f g h a b ((0x923f82a4 + w6) % 0x100000000)
      let f := p.1
      let b := p.2
      let w7 := ReadBE32 inp 28
      let p := Round b c d e f g h a ((0xab1c5ed5 + w7) % 0x100000000)
      let e := p.1
      let a := p.2
      let w8 := ReadBE32 inp 32
      let p := Round a b c d e f g h ((0xd807aa98 + w8) % 0x100000000)
      let d := p.1
      let h := p.2
      let w9 := ReadBE32 inp 36
      let p := Round h a b c d e f g ((0x12835b01 + w9) % 0x100000000)
      let c := p.1
      let g := p.2
      let w10 := ReadBE32 inp 40
      let p := Round g h a b c d e f ((0x243185be + w10) % 0x100000000)
      let b := p.1
      let f := p.2
      let w11 := ReadBE32 inp 44
      let p := Round f g h a b c d e ((0x550c7dc3 + w11) % 0x100000000)
      let a := p.1
      let e := p.2
      let w12 := ReadBE32 inp 48
      let p := Round e f g h a b c d ((0x72be5d74 + w12) % 0x100000000)
      let h := p.1
      let d := p.2
      let w13 := ReadBE32 inp 52
      let p := Round d e f g h a b c ((0x80deb1fe + w13) % 0x100000000)
      let g := p.1
      let c := p.2
      let w14 := ReadBE32 inp 56
      let p := Round c d e f g h a b ((0x9bdc06a7 + w14) % 0x100000000)
      let f := p.1
      let b := p.2
      let w15 := ReadBE32 inp 60
      let p := Round b c d e f g h a ((0xc19bf174 + w15) % 0x100000000)
      let e := p.1
      let a := p.2
      let w0 := (w0 + (sigma1 w14 + w9 + sigma0 w1)) % 0x100000000
      let p := Round a b c d e f g h ((0xe49b69c1 + w0) % 0x100000000)
      let d := p.1
      let h := p.2
      let w1 := (w1 + (sigma1 w15 + w10 + sigma0 w2)) % 0x100000000
      let p := Round h a b c d e f g ((0xefbe4786 + w1) % 0x100000000)
      let c := p.1
      let g := p.2
      let w2 := (w2 + (sigma1 w0 + w11 + sigma0 w3)) % 0x100000000
      let p := Round g h a b c d e f ((0x0fc19dc6 + w2) % 0x100000000)
      let b := p.1
      let f := p.2
      let w3 := (w3 + (sigma1 w1 + w12 + sigma0 w4)) % 0x100000000
      let p := Round f g h a b c d e ((0x240ca1cc + w3) % 0x100000000)
      let a := p.1
      let e := p.2
      let w4 := (w4 + (sigma1 w2 + w13 + sigma0 w5)) % 0x100000000
      let p := Round e f g h a b c d ((0x2de92c6f + w4) % 0x100000000)
      let h := p.1
      let d := p.2
      let w5 := (w5 + (sigma1 w3 + w14 + sigma0 w6)) % 0x100000000
      let p := Round d e f g h a b c ((0x4a7484aa + w5) % 0x100000000)
      let g := p.1
      let c := p.2
      let w6 := (w6 + (sigma1 w4 + w15 + sigma0 w7)) % 0x100000000
      let p := Round c d e f g h a b ((0x5cb0a9dc + w6) % 0x100000000)
      let f := p.1
      let b := p.2
      let w7 := (w7 + (sigma1 w5 + w0 + sigma0 w8)) % 0x100000000
      let p := Round b c d e f g h a ((0x76f988da + w7) % 0x100000000)
      let e := p.1
      let a := p.2
      let w8 := (w8 + (sigma1 w6 + w1 + sigma0 w9)) % 0x100000000
      let p := Round a b c d e f g h ((0x983e5152 + w8) % 0x100000000)
      let d := p.1
      let h := p.2
      let w9 := (w9 + (sigma1 w7 + w2 + sigma0 w10)) % 0x100000000
      let p := Round h a b c d e f g ((0xa831c66d + w9) % 0x100000000)
      let c := p.1
      let g := p.2
      let w10 := (w10 + (sigma1 w8 + w3 + sigma0 w11)) % 0x100000000
      let p := Round g h a b c d e f ((0xb00327c8 + w10) % 0x100000000)
      let b := p.1
      let f := p.2
      let w11 := (w11 + (sigma1 w9 + w4 + sigma0 w12)) % 0x100000000
      let p := Round f g h a b c d e ((0xbf597fc7 + w11) % 0x100000000)
      let a := p.1
      let e := p.2
      let w12 := (w12 + (sigma1 w10 + w5 + sigma0 w13)) % 0x100000000
      let p := Round e f g h a b c d ((0xc6e00bf3 + w12) % 0x100000000)
      let h := p.1
      let d := p.2
      let w13 := (w13 + (sigma1 w11 + w6 + sigma0 w14)) % 0x100000000
      let p := Round d e f g h a b c ((0xd5a79147 + w13) % 0x100000000)
      let g := p.1
      let c := p.2
      let w14 := (w14 + (sigma1 w12 + w7 + sigma0 w15)) % 0x100000000
      let p := Round c d e f g h a b ((0x06ca6351 + w14) % 0x100000000)
      let f := p.1
      let b := p.2
      let w15 := (w15 + (sigma1 w13 + w8 + sigma0 w0)) % 0x100000000
      let p := Round b c d e f g h a ((0x14292967 + w15) % 0x100000000)
      let e := p.1
      let a := p.2
      let w0 := (w0 + (sigma1 w14 + w9 + sigma0 w1)) % 0x100000000
      let p := Round a b c d e f g h ((0x27b70a85 + w0) % 0x100000000)
      let d := p.1
      let h := p.2
      let w1 := (w1 + (sigma1 w15 + w10 + sigma0 w2)) % 0x100000000
      let p := Round h a b c d e f g ((0x2e1b2138 + w1) % 0x100000000)
      let c := p.1
      let g := p.2
      let w2 := (w2 + (sigma1 w0 + w11 + sigma0 w3)) % 0x100000000
      let p := Round g h a b c d e f ((0x4d2c6dfc + w2) % 0x100000000)
      let b := p.1
      let f := p.2
      let w3 := (w3 + (sigma1 w1 + w12 + sigma0 w4)) % 0x100000000
      let p := Round f g h a b c d e ((0x53380d13 + w3) % 0x100000000)
      let a := p.1
      let e := p.2
      let w4 := (w4 + (sigma1 w2 + w13 + sigma0 w5)) % 0x100000000
      let p := Round e f g h a b c d ((0x650a7354 + w4) % 0x100000000)
      let h := p.1
      let d := p.2
      let w5 := (w5 + (sigma1 w3 + w14 + sigma0 w6)) % 0x100000000
      let p := Round d e f g h a b c ((0x766a0abb + w5) % 0x100000000)
      let g := p.1
      let c := p.2
      let w6 := (w6 + (sigma1 w4 + w15 + sigma0 w7)) % 0x100000000
      let p := Round c d e f g h a b ((0x81c2c92e + w6) % 0x100000000)
      let f := p.1
      let b := p.2
      let w7 := (w7 + (sigma1 w5 + w0 + sigma0 w8)) % 0x100000000
      let p := Round b c d e f g h a ((0x92722c85 + w7) % 0x100000000)
      let e := p.1
      let a := p.2
      let w8 := (w8 + (sigma1 w6 + w1 + sigma0 w9)) % 0x100000000
      let p := Round a b c d e f g h ((0xa2bfe8a1 + w8) % 0x100000000)
      let d := p.1
      let h := p.2
      let w9 := (w9 + (sigma1 w7 + w2 + sigma0 w10)) % 0x100000000
      let p := Round h a b c d e f g ((0xa81a664b + w9) % 0x100000000)
      let c := p.1
      let g := p.2
      let w10 := (w10 + (sigma1 w8 + w3 + sigma0 w11)) % 0x100000000
      let p := Round g h a b c d e f ((0xc24b8b70 + w10) % 0x100000000)
      let b := p.1
      let f := p.2
      let w11 := (w11 + (sigma1 w9 + w4 + sigma0 w12)) % 0x100000000
      let p := Round f g h a b c d e ((0xc76c51a3 + w11) % 0x100000000)
      let a := p.1
      let e := p.2
      let w12 := (w12 + (sigma1 w10 + w5 + sigma0 w13)) % 0x100000000
      let p := Round e f g h a b c d ((0xd192e819 + w12) % 0x100000000)
      let h := p.1
      let d := p.2
      let w13 := (w13 + (sigma1 w11 + w6 + sigma0 w14)) % 0x100000000
      let p := Round d e f g h a b c ((0xd6990624 + w13) % 0x100000000)
      let g := p.1
      let c := p.2
      let w14 := (w14 + (sigma1 w12 + w7 + sigma0 w15)) % 0x100000000
      let p := Round c d e f g h a b ((0xf40e3585 + w14) % 0x100000000)
      let f := p.1
      let b := p.2
      let w15 := (w15 + (sigma1 w13 + w8 + sigma0 w0)) % 0x100000000
      let p := Round b c d e f g h a ((0x106aa070 + w15) % 0x100000000)
      let e := p.1
      let a := p.2
      let w0 := (w0 + (sigma1 w14 + w9 + sigma0 w1)) % 0x100000000
      let p := Round a b c d e f g h ((0x19a4c116 + w0) % 0x100000000)
      let d := p.1
      let h := p.2
      let w1 := (w1 + (sigma1 w15 + w10 + sigma0 w2)) % 0x100000000
      let p := Round h a b c d e f g ((0x1e376c08 + w1) % 0x100000000)
      let c := p.1
      let g := p.2
      let w2 := (w2 + (sigma1 w0 + w11 + sigma0 w3)) % 0x100000000
      let p := Round g h a b c d e f ((0x2748774c + w2) % 0x100000000)
      let b := p.1
      let f := p.2
      let w3 := (w3 + (sigma1 w1 + w12 + sigma0 w4)) % 0x100000000
      let p := Round f g h a b c d e ((0x34b0bcb5 + w3) % 0x100000000)
      let a := p.1
      let e := p.2
      let w4 := (w4 + (sigma1 w2 + w13 + sigma0 w5)) % 0x100000000
      let p := Round e f g h a b c d ((0x391c0cb3 + w4) % 0x100000000)
      let h := p.1
      let d := p.2
      let w5 := (w5 + (sigma1 w3 + w14 + sigma0 w6)) % 0x100000000
      let p := Round d e f g h a b c ((0x4ed8aa4a + w5) % 0x100000000)
      let g := p.1
      let c := p.2
      let w6 := (w6 + (sigma1 w4 + w15 + sigma0 w7)) % 0x100000000
      let p := Round c d e f g h a b ((0x5b9cca4f + w6) % 0x100000000)
      let f := p.1
      let b := p.2
      let w7 := (w7 + (sigma1 w5 + w0 + sigma0 w8)) % 0x100000000
      let p := Round b c d e f g h a ((0x682e6ff3 + w7) % 0x100000000)
      let e := p.1
      let a := p.2
      let w8 := (w8 + (sigma1 w6 + w1 + sigma0 w9)) % 0x100000000
      let p := Round a b c d e f g h ((0x748f82ee + w8) % 0x100000000)
      let d := p.1
      let h := p.2
      let w9 := (w9 + (sigma1 w7 + w2 + sigma0 w10)) % 0x100000000
      let p := Round h a b c d e f g ((0x78a5636f + w9) % 0x100000000)
      let c := p.1
      let g := p.2
      let w10 := (w10 + (sigma1 w8 + w3 + sigma0 w11)) % 0x100000000
      let p := Round g h a b c d e f ((0x84c87814 + w10) % 0x100000000)
      let b := p.1
      let f := p.2
      let w11 := (w11 + (sigma1 w9 + w4 + sigma0 w12)) % 0x100000000
      let p := Round f g h a b c d e ((0x8cc70208 + w11) % 0x100000000)
      let a := p.1
      let e := p.2
      let w12 := (w12 + (sigma1 w10 + w5 + sigma0 w13)) % 0x100000000
      let p := Round e f g h a b c d ((0x90befffa + w12) % 0x100000000)
      let h := p.1
      let d := p.2
      let w13 := (w13 + (sigma1 w11 + w6 + sigma0 w14)) % 0x100000000
      let p := Round d e f g h a b c ((0xa4506ceb + w13) % 0x100000000)
      let g := p.1
      let c := p.2
      let p := Round c d e f g h a b ((0xbef9a3f7 + (w14 + sigma1 w12 + w7 + sigma0 w15)) % 0x100000000)
      let f := p.1
      let b := p.2
      let p := Round b c d e f g h a ((0xc67178f2 + (w15 + sigma1 w13 + w8 + sigma0 w0)) % 0x100000000)
      let e := p.1
      let a := p.2
      let a := (a + 0x6a09e667) % 0x100000000
      let b := (b + 0xbb67ae85) % 0x100000000
      let c := (c + 0x3c6ef372) % 0x100000000
      let d := (d + 0xa54ff53a) % 0x100000000
      let e := (e + 0x510e527f) % 0x100000000
      let f := (f + 0x9b05688c) % 0x100000000
      let g := (g + 0x1f83d9ab) % 0x100000000
      let h := (h + 0x5be0cd19) % 0x100000000
      (State.mk a b c d e f g h) = R) :
    TransformD64_1 inp = R := h

set_option maxRecDepth 100000 in
/-- Statements about `TransformD64_2` can be proved on its body with the local bindings exposed. -/
theorem TransformD64_2_elim (t : State) (R : State)
    (h :
      let a := t.s0
      let b := t.s1
      let c := t.s2
      let d := t.s3
      let e := t.s4
      let f := t.s5
      let g := t.s6
      let h := t.s7
      let p := Round a b c d e f g h 0xc28a2f98
      let d := p.1
      let h := p.2
      let p := Round h a b c d e f g 0x71374491
      let c := p.1
      let g := p.2
      let p := Round g h a b c d e f 0xb5c0fbcf
      let b := p.1
      let f := p.2
      let p := Round f g h a b c d e 0xe9b5dba5
      let a := p.1
      let e := p.2
      let p := Round e f g h a b c d 0x3956c25b
      let h := p.1
      let d := p.2
      let p := Round d e f g h a b c 0x59f111f1
      let g := p.1
      let c := p.2
      let p := Round c d e f g h a b 0x923f82a4
      let f := p.1
      let b := p.2
      let p := Round b c d e f g h a 0xab1c5ed5
      let e := p.1
      let a := p.2
      let p := Round a b c d e f g h 0xd807aa98
      let d := p.1
      let h := p.2
      let p := Round h a b c d e f g 0x12835b01
      let c := p.1
      let g := p.2
      let p := Round g h a b c d e f 0x243185be
      let b := p.1
      let f := p.2
      let p := Round f g h a b c d e 0x550c7dc3
      let a := p.1
      let e := p.2
      let p := Round e f g h a b c d 0x72be5d74
      let h := p.1
      let d := p.2
      let p := Round d e f g h a b c 0x80deb1fe
      let g := p.1
      let c := p.2
      let p := Round c d e f g h a b 0x9bdc06a7
      let f := p.1
      let b := p.2
      let p := Round b c d e f g h a 0xc19bf374
      let e := p.1
      let a := p.2
      let p := Round a b c d e f g h 0x649b69c1
      let d := p.1
      let h := p.2
      let p := Round h a b c d e f g 0xf0fe4786
      let c := p.1
      let g := p.2
      let p := Round g h a b c d e f 0x0fe1edc6
      let b := p.1
      let f := p.2
      let p := Round f g h a b c d e 0x240cf254
      let a := p.1
      let e := p.2
      let p := Round e f g h a b c d 0x4fe9346f
      let h := p.1
      let d := p.2
      let p := Round d e f g h a b c 0x6cc984be
      let g := p.1
      let c := p.2
      let p := Round c d e f g h a b 0x61b9411e
      let f := p.1
      let b := p.2
      let p := Round b c d e f g h a 0x16f988fa
      let e := p.1
      let a := p.2
      let p := Round a b c d e f g h 0xf2c65152
      let d := p.1
      let h := p.2
      let p := Round h a b c d e f g 0xa88e5a6d
      let c := p.1
      let g := p.2
      let p := Round g h a b c d e f 0xb019fc65
      let b := p.1
      let f := p.2
      let p := Round f g h a b c d e 0xb9d99ec7
      let a := p.1
      let e := p.2
      let p := Round e f g h a b c d 0x9a1231c3
      let h := p.1
      let d := p.2
      let p := Round d e f g h a b c 0xe70eeaa0
      let g := p.1
      let c := p.2
      let p := Round c d e f g h a b 0xfdb1232b
      let f := p.1
      let b := p.2
      let p := Round b c d e f g h a 0xc7353eb0
      let e := p.1
      let a := p.2
      let p := Round a b c d e f g h 0x3069bad5
      let d := p.1
      let h := p.2
      let p := Round h a b c d e f g 0xcb976d5f
      let c := p.1
      let g := p.2
      let p := Round g h a b c d e f 0x5a0f118f
      let b := p.1
      let f := p.2
      let p := Round f g h a b c d e 0xdc1eeefd
      let a := p.1
      let e := p.2
      let p := Round e f g h a b c d 0x0a35b689
      let h := p.1
      let d := p.2
      let p := Round d e f g h a b c 0xde0b7a04
      let g := p.1
      let c := p.2
      let p := Round c d e f g h a b 0x58f4ca9d
      let f := p.1
      let b := p.2
      let p := Round b c d e f g h a 0xe15d5b16
      let e := p.1
      let a := p.2
      let p := Round a b c d e f g h 0x007f3e86
      let d := p.1
      let h := p.2
      let p := Round h a b c d e f g 0x37088980
      let c := p.1
      let g := p.2
      let p := Round g h a b c d e f 0xa507ea32
      let b := p.1
      let f := p.2
      let p := Round f g h a b c d e 0x6fab9537
      let a := p.1
      let e := p.2
      let p := Round e f g h a b c d 0x17406110
      let h := p.1
      let d := p.2
      let p := Round d e f g h a b c 0x0d8cd6f1
      let g := p.1
      let c := p.2
      let p := Round c d e f g h a b 0xcdaa3b6d
      let f := p.1
      let b := p.2
      let p := Round b c d e f g h a 0xc0bbbe37
      let e := p.1
      let a := p.2
      let p := Round a b c d e f g h 0x83613bda
      let d := p.1
      let h := p.2
      let p := Round h a b c d e f g 0xdb48a363
      let c := p.1
      let g := p.2
      let p := Round g h a b c d e f 0x0b02e931
      let b := p.1
      let f := p.2
      let p := Round f g h a b c d e 0x6fd15ca7
      let a := p.1
      let e := p.2
      let p := Round e f g h a b c d 0x521afaca
      let h := p.1
      let d := p.2
      let p := Round d e f g h a b c 0x31338431
      let g := p.1
      let c := p.2
      let p := Round c d e f g h a b 0x6ed41a95
      let f := p.1
      let b := p.2
      let p := Round b c d e f g h a 0x6d437890
      let e := p.1
      let a := p.2
      let p := Round a b c d e f g h 0xc39c91f2
      let d := p.1
      let h := p.2
      let p := Round h a b c d e f g 0x9eccabbd
      let c := p.1
      let g := p.2
      let p := Round g h a b c d e f 0xb5c9a0e6
      let b := p.1
      let f := p.2
      let p := Round f g h a b c d e 0x532fb63c
      let a := p.1
      let e := p.2
      let p := Round e f g h a b c d 0xd2c741c6
      let h := p.1
      let d := p.2
      let p := Round d e f g h a b c 0x07237ea3
      let g := p.1
      let c := p.2
      let p := Round c d e f g h a b 0xa4954b68
      let f := p.1
      let b := p.2
      let p := Round b c d e f g h a 0x4c191d76
      let e := p.1
      let a := p.2
      let w0 := (t.s0 + a) % 0x100000000
      let w1 := (t.s1 + b) % 0x100000000
      let w2 := (t.s2 + c) % 0x100000000
      let w3 := (t.s3 + d) % 0x100000000
      let w4 := (t.s4 + e) % 0x100000000
      let w5 := (t.s5 + f) % 0x100000000
      let w6 := (t.s6 + g) % 0x100000000
      let w7 := (t.s7 + h) % 0x100000000
      (State.mk w0 w1 w2 w3 w4 w5 w6 w7) = R) :
    TransformD64_2 t = R := h

set_option maxRecDepth 100000 in
/-- Statements about `TransformD64_3` can be proved on its body with the local bindings exposed. -/
theorem TransformD64_3_elim (w : State) (R : List Nat)
    (h :
      let w0 := w.s0
      let w1 := w.s1
      let w2 := w.s2
      let w3 := w.s3
      let w4 := w.s4
      let w5 := w.s5
      let w6 := w.s6
      let w7 := w.s7
      let a := 0x6a09e667
      let b := 0xbb67ae85
      let c := 0x3c6ef372
      let d := 0xa54ff53a
      let e := 0x510e527f
      let f := 0x9b05688c
      let g := 0x1f83d9ab
      let h := 0x5be0cd19
      let p := Round a b c d e f g h ((0x428a2f98 + w0) % 0x100000000)
      let d := p.1
      let h := p.2
      let p := Round h a b c d e f g ((0x71374491 + w1) % 0x100000000)
      let c := p.1
      let g := p.2
      let p := Round g h a b c d e f ((0xb5c0fbcf + w2) % 0x100000000)
      let b := p.1
      let f := p.2
      let p := Round f g h a b c d e ((0xe9b5dba5 + w3) % 0x100000000)
      let a := p.1
      let e := p.2
      let p := Round e f g h a b c d ((0x3956c25b + w4) % 0x100000000)
      let h := p.1
      let d := p.2
      let p := Round d e f g h a b c ((0x59f111f1 + w5) % 0x100000000)
      let g := p.1
      let c := p.2
      let p := Round c d e f g h a b ((0x923f82a4 + w6) % 0x100000000)
      let f := p.1
      let b := p.2
      let p := Round b c d e f g h a ((0xab1c5ed5 + w7) % 0x100000000)
      let e := p.1
      let a := p.2
      let p := Round a b c d e f g h 0x5807aa98
      let d := p.1
      let h := p.2
      let p := Round h a b c d e f g 0x12835b01
      let c := p.1
      let g := p.2
      let p := Round g h a b c d e f 0x243185be
      let b := p.1
      let f := p.2
      let p := Round f g h a b c d e 0x550c7dc3
      let a := p.1
      let e := p.2
      let p := Round e f g h a b c d 0x72be5d74
      let h := p.1
      let d := p.2
      let p := Round d e f g h a b c 0x80deb1fe
      let g := p.1
      let c := p.2
      let p := Round c d e f g h a b 0x9bdc06a7
      let f := p.1
      let b := p.2
      let p := Round b c d e f g h a 0xc19bf274
      let e := p.1
      let a := p.2
      let w0 := (w0 + (sigma0 w1)) % 0x100000000
      let p := Round a b c d e f g h ((0xe49b69c1 + w0) % 0x100000000)
      let d := p.1
      let h := p.2
      let w1 := (w1 + (0xa00000 + sigma0 w2)) % 0x100000000
      let p := Round h a b c d e f g ((0xefbe4786 + w1) % 0x100000000)
      let c := p.1
      let g := p.2
      let w2 := (w2 + (sigma1 w0 + sigma0 w3)) % 0x100000000
      let p := Round g h a b c d e f ((0x0fc19dc6 + w2) % 0x100000000)
      let b := p.1
      let f := p.2
      let w3 := (w3 + (sigma1 w1 + sigma0 w4)) % 0x100000000
      let p := Round f g h a b c d e ((0x240ca1cc + w3) % 0x100000000)
      let a := p.1
      let e := p.2
      let w4 := (w4 + (sigma1 w2 + sigma0 w5)) % 0x100000000
      let p := Round e f g h a b c d ((0x2de92c6f + w4) % 0x100000000)
      let h := p.1
      let d := p.2
      let w5 := (w5 + (sigma1 w3 + sigma0 w6)) % 0x100000000
      let p := Round d e f g h a b c ((0x4a7484aa + w5) % 0x100000000)
      let g := p.1
      let c := p.2
      let w6 := (w6 + (sigma1 w4 + 0x100 + sigma0 w7)) % 0x100000000
      let p := Round c d e f g h a b ((0x5cb0a9dc + w6) % 0x100000000)
      let f := p.1
      let b := p.2
      let w7 := (w7 + (sigma1 w5 + w0 + 0x11002000)) % 0x100000000
      let p := Round b c d e f g h a ((0x76f988da + w7) % 0x100000000)
      let e := p.1
      let a := p.2
      let w8 := (0x80000000 + sigma1 w6 + w1) % 0x100000000
      let p := Round a b c d e f g h ((0x983e5152 + w8) % 0x100000000)
      let d := p.1
      let h := p.2
      let w9 := (sigma1 w7 + w2) % 0x100000000
      let p := Round h a b c d e f g ((0xa831c66d + w9) % 0x100000000)
      let c := p.1
      let g := p.2
      let w10 := (sigma1 w8 + w3) % 0x100000000
      let p := Round g h a b c d e f ((0xb00327c8 + w10) % 0x100000000)
      let b := p.1
      let f := p.2
      let w11 := (sigma1 w9 + w4) % 0x100000000
      let p := Round f g h a b c d e ((0xbf597fc7 + w11) % 0x100000000)
      let a := p.1
      let e := p.2
      let w12 := (sigma1 w10 + w5) % 0x100000000
      let p := Round e f g h a b c d ((0xc6e00bf3 + w12) % 0x100000000)
      let h := p.1
      let d := p.2
      let w13 := (sigma1 w11 + w6) % 0x100000000
      let p := Round d e f g h a b c ((0xd5a79147 + w13) % 0x100000000)
      let g := p.1
      let c := p.2
      let w14 := (sigma1 w12 + w7 + 0x400022) % 0x100000000
      let p := Round c d e f g h a b ((0x06ca6351 + w14) % 0x100000000)
      let f := p.1
      let b := p.2
      let w15 := (0x100 + sigma1 w13 + w8 + sigma0 w0) % 0x100000000
      let p := Round b c d e f g h a ((0x14292967 + w15) % 0x100000000)
      let e := p.1
      let a := p.2
      let w0 := (w0 + (sigma1 w14 + w9 + sigma0 w1)) % 0x100000000
      let p := Round a b c d e f g h ((0x27b70a85 + w0) % 0x100000000)
      let d := p.1
      let h := p.2
      let w1 := (w1 + (sigma1 w15 + w10 + sigma0 w2)) % 0x100000000
      let p := Round h a b c d e f g ((0x2e1b2138 + w1) % 0x100000000)
      let c := p.1
      let g := p.2
      let w2 := (w2 + (sigma1 w0 + w11 + sigma0 w3)) % 0x100000000
      let p := Round g h a b c d e f ((0x4d2c6dfc + w2) % 0x100000000)
      let b := p.1
      let f := p.2
      let w3 := (w3 + (sigma1 w1 + w12 + sigma0 w4)) % 0x100000000
      let p := Round f g h a b c d e ((0x53380d13 + w3) % 0x100000000)
      let a := p.1
      let e := p.2
      let w4 := (w4 + (sigma1 w2 + w13 + sigma0 w5)) % 0x100000000
      let p := Round e f g h a b c d ((0x650a7354 + w4) % 0x100000000)
      let h := p.1
      let d := p.2
      let w5 := (w5 + (sigma1 w3 + w14 + sigma0 w6)) % 0x100000000
      let p := Round d e f g h a b c ((0x766a0abb + w5) % 0x100000000)
      let g := p.1
      let c := p.2
      let w6 := (w6 + (sigma1 w4 + w15 + sigma0 w7)) % 0x100000000
      let p := Round c d e f g h a b ((0x81c2c92e + w6) % 0x100000000)
      let f := p.1
      let b := p.2
      let w7 := (w7 + (sigma1 w5 + w0 + sigma0 w8)) % 0x100000000
      let p := Round b c d e f g h a ((0x92722c85 + w7) % 0x100000000)
      let e := p.1
      let a := p.2
      let w8 := (w8 + (sigma1 w6 + w1 + sigma0 w9)) % 0x100000000
      let p := Round a b c d e f g h ((0xa2bfe8a1 + w8) % 0x100000000)
      let d := p.1
      let h := p.2
      let w9 := (w9 + (sigma1 w7 + w2 + sigma0 w10)) % 0x100000000
      let p := Round h a b c d e f g ((0xa81a664b + w9) % 0x100000000)
      let c := p.1
      let g := p.2
      let w10 := (w10 + (sigma1 w8 + w3 + sigma0 w11)) % 0x100000000
      let p := Round g h a b c d e f ((0xc24b8b70 + w10) % 0x100000000)
      let b := p.1
      let f := p.2
      let w11 := (w11 + (sigma1 w9 + w4 + sigma0 w12)) % 0x100000000
      let p := Round f g h a b c d e ((0xc76c51a3 + w11) % 0x100000000)
      let a := p.1
      let e := p.2
      let w12 := (w12 + (sigma1 w10 + w5 + sigma0 w13)) % 0x100000000
      let p := Round e f g h a b c d ((0xd192e819 + w12) % 0x100000000)
      let h := p.1
      let d := p.2
      let w13 := (w13 + (sigma1 w11 + w6 + sigma0 w14)) % 0x100000000
      let p := Round d e f g h a b c ((0xd6990624 + w13) % 0x100000000)
      let g := p.1
      let c := p.2
      let w14 := (w14 + (sigma1 w12 + w7 + sigma0 w15)) % 0x100000000
      let p := Round c d e f g h a b ((0xf40e3585 + w14) % 0x100000000)
      let f := p.1
      let b := p.2
      let w15 := (w15 + (sigma1 w13 + w8 + sigma0 w0)) % 0x100000000
      let p := Round b c d e f g h a ((0x106aa070 + w15) % 0x100000000)
      let e := p.1
      let a := p.2
      let w0 := (w0 + (sigma1 w14 + w9 + sigma0 w1)) % 0x100000000
      let p := Round a b c d e f g h ((0x19a4c116 + w0) % 0x100000000)
      let d := p.1
      let h := p.2
      let w1 := (w1 + (sigma1 w15 + w10 + sigma0 w2)) % 0x100000000
      let p := Round h a b c d e f g ((0x1e376c08 + w1) % 0x100000000)
      let c := p.1
      let g := p.2
      let w2 := (w2 + (sigma1 w0 + w11 + sigma0 w3)) % 0x100000000
      let p := Round g h a b c d e f ((0x2748774c + w2) % 0x100000000)
      let b := p.1
      let f := p.2
      let w3 := (w3 + (sigma1 w1 + w12 + sigma0 w4)) % 0x100000000
      let p := Round f g h a b c d e ((0x34b0bcb5 + w3) % 0x100000000)
      let a := p.1
      let e := p.2
      let w4 := (w4 + (sigma1 w2 + w13 + sigma0 w5)) % 0x100000000
      let p := Round e f g h a b c d ((0x391c0cb3 + w4) % 0x100000000)
      let h := p.1
      let d := p.2
      let w5 := (w5 + (sigma1 w3 + w14 + sigma0 w6)) % 0x100000000
      let p := Round d e f g h a b c ((0x4ed8aa4a + w5) % 0x100000000)
      let g := p.1
      let c := p.2
      let w6 := (w6 + (sigma1 w4 + w15 + sigma0 w7)) % 0x100000000
      let p := Round c d e f g h a b ((0x5b9cca4f + w6) % 0x100000000)
      let f := p.1
      let b := p.2
      let w7 := (w7 + (sigma1 w5 + w0 + sigma0 w8)) % 0x100000000
      let p := Round b c d e f g h a ((0x682e6ff3 + w7) % 0x100000000)
      let e := p.1
      let a := p.2
      let w8 := (w8 + (sigma1 w6 + w1 + sigma0 w9)) % 0x100000000
      let p := Round a b c d e f g h ((0x748f82ee + w8) % 0x100000000)
      let d := p.1
      let h := p.2
      let w9 := (w9 + (sigma1 w7 + w2 + sigma0 w10)) % 0x100000000
      let p := Round h a b c d e f g ((0x78a5636f + w9) % 0x100000000)
      let c := p.1
      let g := p.2
      let w10 := (w10 + (sigma1 w8 + w3 + sigma0 w11)) % 0x100000000
      let p := Round g h a b c d e f ((0x84c87814 + w10) % 0x100000000)
      let b := p.1
      let f := p.2
      let w11 := (w11 + (sigma1 w9 + w4 + sigma0 w12)) % 0x100000000
      let p := Round f g h a b c d e ((0x8cc70208 + w11) % 0x100000000)
      let a := p.1
      let e := p.2
      let w12 := (w12 + (sigma1 w10 + w5 + sigma0 w13)) % 0x100000000
      let p := Round e f g h a b c d ((0x90befffa + w12) % 0x100000000)
      let h := p.1
      let d := p.2
      let w13 := (w13 + (sigma1 w11 + w6 + sigma0 w14)) % 0x100000000
      let p := Round d e f g h a b c ((0xa4506ceb + w13) % 0x100000000)
      let g := p.1
      let c := p.2
      let p := Round c d e f g h a b ((0xbef9a3f7 + (w14 + sigma1 w12 + w7 + sigma0 w15)) % 0x100000000)
      let f := p.1
      let b := p.2
      let p := Round b c d e f g h a ((0xc67178f2 + (w15 + sigma1 w13 + w8 + sigma0 w0)) % 0x100000000)
      let e := p.1
      let a := p.2
      (WriteBE32 ((a + 0x6a09e667) % 0x100000000) ++ WriteBE32 ((b + 0xbb67ae85) % 0x100000000) ++ WriteBE32 ((c + 0x3c6ef372) % 0x100000000) ++ WriteBE32 ((d + 0xa54ff53a) % 0x100000000) ++ WriteBE32 ((e + 0x510e527f) % 0x100000000) ++ WriteBE32 ((f + 0x9b05688c) % 0x100000000) ++ WriteBE32 ((g + 0x1f83d9ab) % 0x100000000) ++ WriteBE32 ((h + 0x5be0cd19) % 0x100000000)) = R) :
    TransformD64_3 w = R := h

end sha256

namespace SHA256Spec

open sha256 (State Sigma0 Sigma1 sigma0 sigma1 Ch Maj Round)

theorem sigma1_0 : sigma1 0 = 0 := by decide

theorem sigma0_0 : sigma0 0 = 0 := by decide

theorem sigma1_0x100 : sigma1 0x100 = 0xa00000 := by decide

theorem sigma0_0x80000000 : sigma0 0x80000000 = 0x11002000 := by decide

theorem sigma0_0x100 : sigma0 0x100 = 0x400022 := by decide

/-- A source line whose round key is one precomputed constant. -/
theorem key_const {W : List Nat} {t c w : Nat} (hW : W.getD t 0 = w)
    (h : c = (K.getD t 0 + w) % 0x100000000) :
    c = (K.getD t 0 + W.getD t 0) % 0x100000000 := by
  rw [hW]; exact h

/-- A specialised message expansion line: the words of the schedule that are known
constants have been folded into the expression. -/
theorem sched_special {W : List Nat}
    (hrec : ∀ t, 16 ≤ t → t < 64 → W.getD t 0 =
      (sigma1 (W.getD (t - 2) 0) + W.getD (t - 7) 0 + sigma0 (W.getD (t - 15) 0) +
        W.getD (t - 16) 0) % 0x100000000)
    (t : Nat) (h16 : 16 ≤ t) (h64 : t < 64) {a16 a2 a7 a15 lhs : Nat}
    (e16 : W.getD (t - 16) 0 = a16) (e2 : W.getD (t - 2) 0 = a2)
    (e7 : W.getD (t - 7) 0 = a7) (e15 : W.getD (t - 15) 0 = a15)
    (h : lhs % 0x100000000 = (sigma1 a2 + a7 + sigma0 a15 + a16) % 0x100000000) :
    lhs % 0x100000000 = W.getD t 0 := by
  rw [hrec t h16 h64, e16, e2, e7, e15]
  exact h

/-- The last two lines of a transform add the schedule word without storing it. -/
theorem key_special {W : List Nat}
    (hrec : ∀ t, 16 ≤ t → t < 64 → W.getD t 0 =
      (sigma1 (W.getD (t - 2) 0) + W.getD (t - 7) 0 + sigma0 (W.getD (t - 15) 0) +
        W.getD (t - 16) 0) % 0x100000000)
    (t : Nat) {kc : Nat} (hK : K.getD t 0 = kc) (h16 : 16 ≤ t) (h64 : t < 64)
    {a16 a2 a7 a15 lhs : Nat}
    (e16 : W.getD (t - 16) 0 = a16) (e2 : W.getD (t - 2) 0 = a2)
    (e7 : W.getD (t - 7) 0 = a7) (e15 : W.getD (t - 15) 0 = a15)
    (h : lhs % 0x100000000 = (sigma1 a2 + a7 + sigma0 a15 + a16) % 0x100000000) :
    (kc + lhs) % 0x100000000 = (K.getD t 0 + W.getD t 0) % 0x100000000 := by
  rw [hK, hrec t h16 h64, e16, e2, e7, e15]
  omega

theorem finish_eq_comm (s : State) {v : State} {a b c d e f g h : Nat}
    (inv : v = ⟨a, b, c, d, e, f, g, h⟩) :
    (⟨(a + s.s0) % 0x100000000, (b + s.s1) % 0x100000000, (c + s.s2) % 0x100000000,
      (d + s.s3) % 0x100000000, (e + s.s4) % 0x100000000, (f + s.s5) % 0x100000000,
      (g + s.s6) % 0x100000000, (h + s.s7) % 0x100000000⟩ : State) = finish s v := by
  subst inv
  simp only [finish, Nat.add_comm]

theorem output_eq {v : State} {a b c d e f g h : Nat}
    (inv : v = ⟨a, b, c, d, e, f, g, h⟩) :
    WriteBE32 ((a + sha256.Initialize.s0) % 0x100000000) ++
    WriteBE32 ((b + sha256.Initialize.s1) % 0x100000000) ++
    WriteBE32 ((c + sha256.Initialize.s2) % 0x100000000) ++
    WriteBE32 ((d + sha256.Initialize.s3) % 0x100000000) ++
    WriteBE32 ((e + sha256.Initialize.s4) % 0x100000000) ++
    WriteBE32 ((f + sha256.Initialize.s5) % 0x100000000) ++
    WriteBE32 ((g + sha256.Initialize.s6) % 0x100000000) ++
    WriteBE32 ((h + sha256.Initialize.s7) % 0x100000000) =
      stateBytes (finish sha256.Initialize v) := by
  subst inv
  simp only [stateBytes, finish, WriteBE32_eq_bigEndian, Nat.add_comm]

set_option maxRecDepth 100000 in
/-- The first transform of `TransformD64` runs the 64 reference rounds from the initial
state on any word list that satisfies the schedule equations of the input. -/
theorem TransformD64_1_eq_rounds (inp : List Nat) (W : List Nat)
    (hW0 : ∀ t, t < 16 → ReadBE32 inp (4 * t) = W.getD t 0)
    (hrec : ∀ t, 16 ≤ t → t < 64 → W.getD t 0 =
      (sigma1 (W.getD (t - 2) 0) + W.getD (t - 7) 0 + sigma0 (W.getD (t - 15) 0) +
        W.getD (t - 16) 0) % 0x100000000) :
    sha256.TransformD64_1 inp = finish sha256.Initialize (rounds W sha256.Initialize 64) := by
  refine sha256.TransformD64_1_elim inp _ ?_
  intro a0 b0 c0 d0 e0 f0 g0 h0
  have inv0 : rounds W sha256.Initialize 0 = ⟨a0, b0, c0, d0, e0, f0, g0, h0⟩ := rfl
  intro v0 p0 x0 y0
  have hv0 : v0 = W.getD 0 0 := (hW0 0 (by decide))
  have inv1 : rounds W sha256.Initialize 1 = ⟨y0, a0, b0, c0, x0, e0, f0, g0⟩ :=
    round_inv inv0 (key_eq rfl hv0)
  intro v1 p1 x1 y1
  have hv1 : v1 = W.getD 1 0 := (hW0 1 (by decide))
  have inv2 : rounds W sha256.Initialize 2 = ⟨y1, y0, a0, b0, x1, x0, e0, f0⟩ :=
    round_inv inv1 (key_eq rfl hv1)
  intro v2 p2 x2 y2
  have hv2 : v2 = W.getD 2 0 := (hW0 2 (by decide))
  have inv3 : rounds W sha256.Initialize 3 = ⟨y2, y1, y0, a0, x2, x1, x0, e0⟩ :=
    round_inv inv2 (key_eq rfl hv2)
  intro v3 p3 x3 y3
  have hv3 : v3 = W.getD 3 0 := (hW0 3 (by decide))
  have inv4 : rounds W sha256.Initialize 4 = ⟨y3, y2, y1, y0, x3, x2, x1, x0⟩ :=
    round_inv inv3 (key_eq rfl hv3)
  intro v4 p4 x4 y4
  have hv4 : v4 = W.getD 4 0 := (hW0 4 (by decide))
  have inv5 : rounds W sha256.Initialize 5 = ⟨y4, y3, y2, y1, x4, x3, x2, x1⟩ :=
    round_inv inv4 (key_eq rfl hv4)
  intro v5 p5 x5 y5
  have hv5 : v5 = W.getD 5 0 := (hW0 5 (by decide))
  have inv6 : rounds W sha256.Initialize 6 = ⟨y5, y4, y3, y2, x5, x4, x3, x2⟩ :=
    round_inv inv5 (key_eq rfl hv5)
  intro v6 p6 x6 y6
  have hv6 : v6 = W.getD 6 0 := (hW0 6 (by decide))
  have inv7 : rounds W sha256.Initialize 7 = ⟨y6, y5, y4, y3, x6, x5, x4, x3⟩ :=
    round_inv inv6 (key_eq rfl hv6)
  intro v7 p7 x7 y7
  have hv7 : v7 = W.getD 7 0 := (hW0 7 (by decide))
  have inv8 : rounds W sha256.Initialize 8 = ⟨y7, y6, y5, y4, x7, x6, x5, x4⟩ :=
    round_inv inv7 (key_eq rfl hv7)
  intro v8 p8 x8 y8
  have hv8 : v8 = W.getD 8 0 := (hW0 8 (by decide))
  have inv9 : rounds W sha256.Initialize 9 = ⟨y8, y7, y6, y5, x8, x7, x6, x5⟩ :=
    round_inv inv8 (key_eq rfl hv8)
  intro v9 p9 x9 y9
  have hv9 : v9 = W.getD 9 0 := (hW0 9 (by decide))
  have inv10 : rounds W sha256.Initialize 10 = ⟨y9, y8, y7, y6, x9, x8, x7, x6⟩ :=
    round_inv inv9 (key_eq rfl hv9)
  intro v10 p10 x10 y10
  have hv10 : v10 = W.getD 10 0 := (hW0 10 (by decide))
  have inv11 : rounds W sha256.Initialize 11 = ⟨y10, y9, y8, y7, x10, x9, x8, x7⟩ :=
    round_inv inv10 (key_eq rfl hv10)
  intro v11 p11 x11 y11
  have hv11 : v11 = W.getD 11 0 := (hW0 11 (by decide))
  have inv12 : rounds W sha256.Initialize 12 = ⟨y11, y10, y9, y8, x11, x10, x9, x8⟩ :=
    round_inv inv11 (key_eq rfl hv11)
  intro v12 p12 x12 y12
  have hv12 : v12 = W.getD 12 0 := (hW0 12 (by decide))
  have inv13 : rounds W sha256.Initialize 13 = ⟨y12, y11, y10, y9, x12, x11, x10, x9⟩ :=
    round_inv inv12 (key_eq rfl hv12)
  intro v13 p13 x13 y13
  have hv13 : v13 = W.getD 13 0 := (hW0 13 (by decide))
  have inv14 : rounds W sha256.Initialize 14 = ⟨y13, y12, y11, y10, x13, x12, x11, x10⟩ :=
    round_inv inv13 (key_eq rfl hv13)
  intro v14 p14 x14 y14
  have hv14 : v14 = W.getD 14 0 := (hW0 14 (by decide))
  have inv15 : rounds W sha256.Initialize 15 = ⟨y14, y13, y12, y11, x14, x13, x12, x11⟩ :=
    round_inv inv14 (key_eq rfl hv14)
  intro v15 p15 x15 y15
  have hv15 : v15 = W.getD 15 0 := (hW0 15 (by decide))
  have inv16 : rounds W sha256.Initialize 16 = ⟨y15, y14, y13, y12, x15, x14, x13, x12⟩ :=
    round_inv inv15 (key_eq rfl hv15)
  intro v16 p16 x16 y16
  have hv16 : v16 = W.getD 16 0 :=
    sched_inv hrec 16 (by decide) (by decide) hv0 hv14 hv9 hv1
  have inv17 : rounds W sha256.Initialize 17 = ⟨y16, y15, y14, y13, x16, x15, x14, x13⟩ :=
    round_inv inv16 (key_eq rfl hv16)
  intro v17 p17 x17 y17
  have hv17 : v17 = W.getD 17 0 :=
    sched_inv hrec 17 (by decide) (by decide) hv1 hv15 hv10 hv2
  have inv18 : rounds W sha256.Initialize 18 = ⟨y17, y16, y15, y14, x17, x16, x15, x14⟩ :=
    round_inv inv17 (key_eq rfl hv17)
  intro v18 p18 x18 y18
  have hv18 : v18 = W.getD 18 0 :=
    sched_inv hrec 18 (by decide) (by decide) hv2 hv16 hv11 hv3
  have inv19 : rounds W sha256.Initialize 19 = ⟨y18, y17, y16, y15, x18, x17, x16, x15⟩ :=
    round_inv inv18 (key_eq rfl hv18)
  intro v19 p19 x19 y19
  have hv19 : v19 = W.getD 19 0 :=
    sched_inv hrec 19 (by decide) (by decide) hv3 hv17 hv12 hv4
  have inv20 : rounds W sha256.Initialize 20 = ⟨y19, y18, y17, y16, x19, x18, x17, x16⟩ :=
    round_inv inv19 (key_eq rfl hv19)
  intro v20 p20 x20 y20
  have hv20 : v20 = W.getD 20 0 :=
    sched_inv hrec 20 (by decide) (by decide) hv4 hv18 hv13 hv5
  have inv21 : rounds W sha256.Initialize 21 = ⟨y20, y19, y18, y17, x20, x19, x18, x17⟩ :=
    round_inv inv20 (key_eq rfl hv20)
  intro v21 p21 x21 y21
  have hv21 : v21 = W.getD 21 0 :=
    sched_inv hrec 21 (by decide) (by decide) hv5 hv19 hv14 hv6
  have inv22 : rounds W sha256.Initialize 22 = ⟨y21, y20, y19, y18, x21, x20, x19, x18⟩ :=
    round_inv inv21 (key_eq rfl hv21)
  intro v22 p22 x22 y22
  have hv22 : v22 = W.getD 22 0 :=
    sched_inv hrec 22 (by decide) (by decide) hv6 hv20 hv15 hv7
  have inv23 : rounds W sha256.Initialize 23 = ⟨y22, y21, y20, y19, x22, x21, x20, x19⟩ :=
    round_inv inv22 (key_eq rfl hv22)
  intro v23 p23 x23 y23
  have hv23 : v23 = W.getD 23 0 :=
    sched_inv hrec 23 (by decide) (by decide) hv7 hv21 hv16 hv8
  have inv24 : rounds W sha256.Initialize 24 = ⟨y23, y22, y21, y20, x23, x22, x21, x20⟩ :=
    round_inv inv23 (key_eq rfl hv23)
  intro v24 p24 x24 y24
  have hv24 : v24 = W.getD 24 0 :=
    sched_inv hrec 24 (by decide) (by decide) hv8 hv22 hv17 hv9
  have inv25 : rounds W sha256.Initialize 25 = ⟨y24, y23, y22, y21, x24, x23, x22, x21⟩ :=
    round_inv inv24 (key_eq rfl hv24)
  intro v25 p25 x25 y25
  have hv25 : v25 = W.getD 25 0 :=
    sched_inv hrec 25 (by decide) (by decide) hv9 hv23 hv18 hv10
  have inv26 : rounds W sha256.Initialize 26 = ⟨y25, y24, y23, y22, x25, x24, x23, x22⟩ :=
    round_inv inv25 (key_eq rfl hv25)
  intro v26 p26 x26 y26
  have hv26 : v26 = W.getD 26 0 :=
    sched_inv hrec 26 (by decide) (by decide) hv10 hv24 hv19 hv11
  have inv27 : rounds W sha256.Initialize 27 = ⟨y26, y25, y24, y23, x26, x25, x24, x23⟩ :=
    round_inv inv26 (key_eq rfl hv26)
  intro v27 p27 x27 y27
  have hv27 : v27 = W.getD 27 0 :=
    sched_inv hrec 27 (by decide) (by decide) hv11 hv25 hv20 hv12
  have inv28 : rounds W sha256.Initialize 28 = ⟨y27, y26, y25, y24, x27, x26, x25, x24⟩ :=
    round_inv inv27 (key_eq rfl hv27)
  intro v28 p28 x28 y28
  have hv28 : v28 = W.getD 28 0 :=
    sched_inv hrec 28 (by decide) (by decide) hv12 hv26 hv21 hv13
  have inv29 : rounds W sha256.Initialize 29 = ⟨y28, y27, y26, y25, x28, x27, x26, x25⟩ :=
    round_inv inv28 (key_eq rfl hv28)
  intro v29 p29 x29 y29
  have hv29 : v29 = W.getD 29 0 :=
    sched_inv hrec 29 (by decide) (by decide) hv13 hv27 hv22 hv14
  have inv30 : rounds W sha256.Initialize 30 = ⟨y29, y28, y27, y26, x29, x28, x27, x26⟩ :=
    round_inv inv29 (key_eq rfl hv29)
  intro v30 p30 x30 y30
  have hv30 : v30 = W.getD 30 0 :=
    sched_inv hrec 30 (by decide) (by decide) hv14 hv28 hv23 hv15
  have inv31 : rounds W sha256.Initialize 31 = ⟨y30, y29, y28, y27, x30, x29, x28, x27⟩ :=
    round_inv inv30 (key_eq rfl hv30)
  intro v31 p31 x31 y31
  have hv31 : v31 = W.getD 31 0 :=
    sched_inv hrec 31 (by decide) (by decide) hv15 hv29 hv24 hv16
  have inv32 : rounds W sha256.Initialize 32 = ⟨y31, y30, y29, y28, x31, x30, x29, x28⟩ :=
    round_inv inv31 (key_eq rfl hv31)
  intro v32 p32 x32 y32
  have hv32 : v32 = W.getD 32 0 :=
    sched_inv hrec 32 (by decide) (by decide) hv16 hv30 hv25 hv17
  have inv33 : rounds W sha256.Initialize 33 = ⟨y32, y31, y30, y29, x32, x31, x30, x29⟩ :=
    round_inv inv32 (key_eq rfl hv32)
  intro v33 p33 x33 y33
  have hv33 : v33 = W.getD 33 0 :=
    sched_inv hrec 33 (by decide) (by decide) hv17 hv31 hv26 hv18
  have inv34 : rounds W sha256.Initialize 34 = ⟨y33, y32, y31, y30, x33, x32, x31, x30⟩ :=
    round_inv inv33 (key_eq rfl hv33)
  intro v34 p34 x34 y34
  have hv34 : v34 = W.getD 34 0 :=
    sched_inv hrec 34 (by decide) (by decide) hv18 hv32 hv27 hv19
  have inv35 : rounds W sha256.Initialize 35 = ⟨y34, y33, y32, y31, x34, x33, x32, x31⟩ :=
    round_inv inv34 (key_eq rfl hv34)
  intro v35 p35 x35 y35
  have hv35 : v35 = W.getD 35 0 :=
    sched_inv hrec 35 (by decide) (by decide) hv19 hv33 hv28 hv20
  have inv36 : rounds W sha256.Initialize 36 = ⟨y35, y34, y33, y32, x35, x34, x33, x32⟩ :=
    round_inv inv35 (key_eq rfl hv35)
  intro v36 p36 x36 y36
  have hv36 : v36 = W.getD 36 0 :=
    sched_inv hrec 36 (by decide) (by decide) hv20 hv34 hv29 hv21
  have inv37 : rounds W sha256.Initialize 37 = ⟨y36, y35, y34, y33, x36, x35, x34, x33⟩ :=
    round_inv inv36 (key_eq rfl hv36)
  intro v37 p37 x37 y37
  have hv37 : v37 = W.getD 37 0 :=
    sched_inv hrec 37 (by decide) (by decide) hv21 hv35 hv30 hv22
  have inv38 : rounds W sha256.Initialize 38 = ⟨y37, y36, y35, y34, x37, x36, x35, x34⟩ :=
    round_inv inv37 (key_eq rfl hv37)
  intro v38 p38 x38 y38
  have hv38 : v38 = W.getD 38 0 :=
    sched_inv hrec 38 (by decide) (by decide) hv22 hv36 hv31 hv23
  have inv39 : rounds W sha256.Initialize 39 = ⟨y38, y37, y36, y35, x38, x37, x36, x35⟩ :=
    round_inv inv38 (key_eq rfl hv38)
  intro v39 p39 x39 y39
  have hv39 : v39 = W.getD 39 0 :=
    sched_inv hrec 39 (by decide) (by decide) hv23 hv37 hv32 hv24
  have inv40 : rounds W sha256.Initialize 40 = ⟨y39, y38, y37, y36, x39, x38, x37, x36⟩ :=
    round_inv inv39 (key_eq rfl hv39)
  intro v40 p40 x40 y40
  have hv40 : v40 = W.getD 40 0 :=
    sched_inv hrec 40 (by decide) (by decide) hv24 hv38 hv33 hv25
  have inv41 : rounds W sha256.Initialize 41 = ⟨y40, y39, y38, y37, x40, x39, x38, x37⟩ :=
    round_inv inv40 (key_eq rfl hv40)
  intro v41 p41 x41 y41
  have hv41 : v41 = W.getD 41 0 :=
    sched_inv hrec 41 (by decide) (by decide) hv25 hv39 hv34 hv26
  have inv42 : rounds W sha256.Initialize 42 = ⟨y41, y40, y39, y38, x41, x40, x39, x38⟩ :=
    round_inv inv41 (key_eq rfl hv41)
  intro v42 p42 x42 y42
  have hv42 : v42 = W.getD 42 0 :=
    sched_inv hrec 42 (by decide) (by decide) hv26 hv40 hv35 hv27
  have inv43 : rounds W sha256.Initialize 43 = ⟨y42, y41, y40, y39, x42, x41, x40, x39⟩ :=
    round_inv inv42 (key_eq rfl hv42)
  intro v43 p43 x43 y43
  have hv43 : v43 = W.getD 43 0 :=
    sched_inv hrec 43 (by decide) (by decide) hv27 hv41 hv36 hv28
  have inv44 : rounds W sha256.Initialize 44 = ⟨y43, y42, y41, y40, x43, x42, x41, x40⟩ :=
    round_inv inv43 (key_eq rfl hv43)
  intro v44 p44 x44 y44
  have hv44 : v44 = W.getD 44 0 :=
    sched_inv hrec 44 (by decide) (by decide) hv28 hv42 hv37 hv29
  have inv45 : rounds W sha256.Initialize 45 = ⟨y44, y43, y42, y41, x44, x43, x42, x41⟩ :=
    round_inv inv44 (key_eq rfl hv44)
  intro v45 p45 x45 y45
  have hv45 : v45 = W.getD 45 0 :=
    sched_inv hrec 45 (by decide) (by decide) hv29 hv43 hv38 hv30
  have inv46 : rounds W sha256.Initialize 46 = ⟨y45, y44, y43, y42, x45, x44, x43, x42⟩ :=
    round_inv inv45 (key_eq rfl hv45)
  intro v46 p46 x46 y46
  have hv46 : v46 = W.getD 46 0 :=
    sched_inv hrec 46 (by decide) (by decide) hv30 hv44 hv39 hv31
  have inv47 : rounds W sha256.Initialize 47 = ⟨y46, y45, y44, y43, x46, x45, x44, x43⟩ :=
    round_inv inv46 (key_eq rfl hv46)
  intro v47 p47 x47 y47
  have hv47 : v47 = W.getD 47 0 :=
    sched_inv hrec 47 (by decide) (by decide) hv31 hv45 hv40 hv32
  have inv48 : rounds W sha256.Initialize 48 = ⟨y47, y46, y45, y44, x47, x46, x45, x44⟩ :=
    round_inv inv47 (key_eq rfl hv47)
  intro v48 p48 x48 y48
  have hv48 : v48 = W.getD 48 0 :=
    sched_inv hrec 48 (by decide) (by decide) hv32 hv46 hv41 hv33
  have inv49 : rounds W sha256.Initialize 49 = ⟨y48, y47, y46, y45, x48, x47, x46, x45⟩ :=
    round_inv inv48 (key_eq rfl hv48)
  intro v49 p49 x49 y49
  have hv49 : v49 = W.getD 49 0 :=
    sched_inv hrec 49 (by decide) (by decide) hv33 hv47 hv42 hv34
  have inv50 : rounds W sha256.Initialize 50 = ⟨y49, y48, y47, y46, x49, x48, x47, x46⟩ :=
    round_inv inv49 (key_eq rfl hv49)
  intro v50 p50 x50 y50
  have hv50 : v50 = W.getD 50 0 :=
    sched_inv hrec 50 (by decide) (by decide) hv34 hv48 hv43 hv35
  have inv51 : rounds W sha256.Initialize 51 = ⟨y50, y49, y48, y47, x50, x49, x48, x47⟩ :=
    round_inv inv50 (key_eq rfl hv50)
  intro v51 p51 x51 y51
  have hv51 : v51 = W.getD 51 0 :=
    sched_inv hrec 51 (by decide) (by decide) hv35 hv49 hv44 hv36
  have inv52 : rounds W sha256.Initialize 52 = ⟨y51, y50, y49, y48, x51, x50, x49, x48⟩ :=
    round_inv inv51 (key_eq rfl hv51)
  intro v52 p52 x52 y52
  have hv52 : v52 = W.getD 52 0 :=
    sched_inv hrec 52 (by decide) (by decide) hv36 hv50 hv45 hv37
  have inv53 : rounds W sha256.Initialize 53 = ⟨y52, y51, y50, y49, x52, x51, x50, x49⟩ :=
    round_inv inv52 (key_eq rfl hv52)
  intro v53 p53 x53 y53
  have hv53 : v53 = W.getD 53 0 :=
    sched_inv hrec 53 (by decide) (by decide) hv37 hv51 hv46 hv38
  have inv54 : rounds W sha256.Initialize 54 = ⟨y53, y52, y51, y50, x53, x52, x51, x50⟩ :=
    round_inv inv53 (key_eq rfl hv53)
  intro v54 p54 x54 y54
  have hv54 : v54 = W.getD 54 0 :=
    sched_inv hrec 54 (by decide) (by decide) hv38 hv52 hv47 hv39
  have inv55 : rounds W sha256.Initialize 55 = ⟨y54, y53, y52, y51, x54, x53, x52, x51⟩ :=
    round_inv inv54 (key_eq rfl hv54)
  intro v55 p55 x55 y55
  have hv55 : v55 = W.getD 55 0 :=
    sched_inv hrec 55 (by decide) (by decide) hv39 hv53 hv48 hv40
  have inv56 : rounds W sha256.Initialize 56 = ⟨y55, y54, y53, y52, x55, x54, x53, x52⟩ :=
    round_inv inv55 (key_eq rfl hv55)
  intro v56 p56 x56 y56
  have hv56 : v56 = W.getD 56 0 :=
    sched_inv hrec 56 (by decide) (by decide) hv40 hv54 hv49 hv41
  have inv57 : rounds W sha256.Initialize 57 = ⟨y56, y55, y54, y53, x56, x55, x54, x53⟩ :=
    round_inv inv56 (key_eq rfl hv56)
  intro v57 p57 x57 y57
  have hv57 : v57 = W.getD 57 0 :=
    sched_inv hrec 57 (by decide) (by decide) hv41 hv55 hv50 hv42
  have inv58 : rounds W sha256.Initialize 58 = ⟨y57, y56, y55, y54, x57, x56, x55, x54⟩ :=
    round_inv inv57 (key_eq rfl hv57)
  intro v58 p58 x58 y58
  have hv58 : v58 = W.getD 58 0 :=
    sched_inv hrec 58 (by decide) (by decide) hv42 hv56 hv51 hv43
  have inv59 : rounds W sha256.Initialize 59 = ⟨y58, y57, y56, y55, x58, x57, x56, x55⟩ :=
    round_inv inv58 (key_eq rfl hv58)
  intro v59 p59 x59 y59
  have hv59 : v59 = W.getD 59 0 :=
    sched_inv hrec 59 (by decide) (by decide) hv43 hv57 hv52 hv44
  have inv60 : rounds W sha256.Initialize 60 = ⟨y59, y58, y57, y56, x59, x58, x57, x56⟩ :=
    round_inv inv59 (key_eq rfl hv59)
  intro v60 p60 x60 y60
  have hv60 : v60 = W.getD 60 0 :=
    sched_inv hrec 60 (by decide) (by decide) hv44 hv58 hv53 hv45
  have inv61 : rounds W sha256.Initialize 61 = ⟨y60, y59, y58, y57, x60, x59, x58, x57⟩ :=
    round_inv inv60 (key_eq rfl hv60)
  intro v61 p61 x61 y61
  have hv61 : v61 = W.getD 61 0 :=
    sched_inv hrec 61 (by decide) (by decide) hv45 hv59 hv54 hv46
  have inv62 : rounds W sha256.Initialize 62 = ⟨y61, y60, y59, y58, x61, x60, x59, x58⟩ :=
    round_inv inv61 (key_eq rfl hv61)
  intro p62 x62 y62
  have inv63 : rounds W sha256.Initialize 63 = ⟨y62, y61, y60, y59, x62, x61, x60, x59⟩ :=
    round_inv inv62 (sched_last hrec 62 rfl (by decide) (by decide) hv46 hv60 hv55 hv47)
  intro p63 x63 y63
  have inv64 : rounds W sha256.Initialize 64 = ⟨y63, y62, y61, y60, x63, x62, x61, x60⟩ :=
    round_inv inv63 (sched_last hrec 63 rfl (by decide) (by decide) hv47 hv61 hv56 hv48)
  intro a1 b1 c1 d1 e1 f1 g1 h1
  exact finish_eq_comm sha256.Initialize inv64

set_option maxHeartbeats 2000000 in
set_option maxRecDepth 100000 in
/-- The second transform of `TransformD64` runs the 64 reference rounds on the schedule
of the padding block of a 64-byte message: its constants are the round constants plus
those schedule words. -/
theorem TransformD64_2_eq_rounds (t : State) :
    sha256.TransformD64_2 t = finish t (rounds (schedule padBlock64) t 64) := by
  refine sha256.TransformD64_2_elim t _ ?_
  intro a0 b0 c0 d0 e0 f0 g0 h0
  have inv0 : rounds (schedule padBlock64) t 0 = ⟨a0, b0, c0, d0, e0, f0, g0, h0⟩ := rfl
  intro p0 x0 y0
  have inv1 : rounds (schedule padBlock64) t 1 = ⟨y0, a0, b0, c0, x0, e0, f0, g0⟩ :=
    round_inv inv0 (by decide!)
  intro p1 x1 y1
  have inv2 : rounds (schedule padBlock64) t 2 = ⟨y1, y0, a0, b0, x1, x0, e0, f0⟩ :=
    round_inv inv1 (by decide!)
  intro p2 x2 y2
  have inv3 : rounds (schedule padBlock64) t 3 = ⟨y2, y1, y0, a0, x2, x1, x0, e0⟩ :=
    round_inv inv2 (by decide!)
  intro p3 x3 y3
  have inv4 : rounds (schedule padBlock64) t 4 = ⟨y3, y2, y1, y0, x3, x2, x1, x0⟩ :=
    round_inv inv3 (by decide!)
  intro p4 x4 y4
  have inv5 : rounds (schedule padBlock64) t 5 = ⟨y4, y3, y2, y1, x4, x3, x2, x1⟩ :=
    round_inv inv4 (by decide!)
  intro p5 x5 y5
  have inv6 : rounds (schedule padBlock64) t 6 = ⟨y5, y4, y3, y2, x5, x4, x3, x2⟩ :=
    round_inv inv5 (by decide!)
  intro p6 x6 y6
  have inv7 : rounds (schedule padBlock64) t 7 = ⟨y6, y5, y4, y3, x6, x5, x4, x3⟩ :=
    round_inv inv6 (by decide!)
  intro p7 x7 y7
  have inv8 : rounds (schedule padBlock64) t 8 = ⟨y7, y6, y5, y4, x7, x6, x5, x4⟩ :=
    round_inv inv7 (by decide!)
  intro p8 x8 y8
  have inv9 : rounds (schedule padBlock64) t 9 = ⟨y8, y7, y6, y5, x8, x7, x6, x5⟩ :=
    round_inv inv8 (by decide!)
  intro p9 x9 y9
  have inv10 : rounds (schedule padBlock64) t 10 = ⟨y9, y8, y7, y6, x9, x8, x7, x6⟩ :=
    round_inv inv9 (by decide!)
  intro p10 x10 y10
  have inv11 : rounds (schedule padBlock64) t 11 = ⟨y10, y9, y8, y7, x10, x9, x8, x7⟩ :=
    round_inv inv10 (by decide!)
  intro p11 x11 y11
  have inv12 : rounds (schedule padBlock64) t 12 = ⟨y11, y10, y9, y8, x11, x10, x9, x8⟩ :=
    round_inv inv11 (by decide!)
  intro p12 x12 y12
  have inv13 : rounds (schedule padBlock64) t 13 = ⟨y12, y11, y10, y9, x12, x11, x10, x9⟩ :=
    round_inv inv12 (by decide!)
  intro p13 x13 y13
  have inv14 : rounds (schedule padBlock64) t 14 = ⟨y13, y12, y11, y10, x13, x12, x11, x10⟩ :=
    round_inv inv13 (by decide!)
  intro p14 x14 y14
  have inv15 : rounds (schedule padBlock64) t 15 = ⟨y14, y13, y12, y11, x14, x13, x12, x11⟩ :=
    round_inv inv14 (by decide!)
  intro p15 x15 y15
  have inv16 : rounds (schedule padBlock64) t 16 = ⟨y15, y14, y13, y12, x15, x14, x13, x12⟩ :=
    round_inv inv15 (by decide!)
  intro p16 x16 y16
  have inv17 : rounds (schedule padBlock64) t 17 = ⟨y16, y15, y14, y13, x16, x15, x14, x13⟩ :=
    round_inv inv16 (by decide!)
  intro p17 x17 y17
  have inv18 : rounds (schedule padBlock64) t 18 = ⟨y17, y16, y15, y14, x17, x16, x15, x14⟩ :=
    round_inv inv17 (by decide!)
  intro p18 x18 y18
  have inv19 : rounds (schedule padBlock64) t 19 = ⟨y18, y17, y16, y15, x18, x17, x16, x15⟩ :=
    round_inv inv18 (by decide!)
  intro p19 x19 y19
  have inv20 : rounds (schedule padBlock64) t 20 = ⟨y19, y18, y17, y16, x19, x18, x17, x16⟩ :=
    round_inv inv19 (by decide!)
  intro p20 x20 y20
  have inv21 : rounds (schedule padBlock64) t 21 = ⟨y20, y19, y18, y17, x20, x19, x18, x17⟩ :=
    round_inv inv20 (by decide!)
  intro p21 x21 y21
  have inv22 : rounds (schedule padBlock64) t 22 = ⟨y21, y20, y19, y18, x21, x20, x19, x18⟩ :=
    round_inv inv21 (by decide!)
  intro p22 x22 y22
  have inv23 : rounds (schedule padBlock64) t 23 = ⟨y22, y21, y20, y19, x22, x21, x20, x19⟩ :=
    round_inv inv22 (by decide!)
  intro p23 x23 y23
  have inv24 : rounds (schedule padBlock64) t 24 = ⟨y23, y22, y21, y20, x23, x22, x21, x20⟩ :=
    round_inv inv23 (by decide!)
  intro p24 x24 y24
  have inv25 : rounds (schedule padBlock64) t 25 = ⟨y24, y23, y22, y21, x24, x23, x22, x21⟩ :=
    round_inv inv24 (by decide!)
  intro p25 x25 y25
  have inv26 : rounds (schedule padBlock64) t 26 = ⟨y25, y24, y23, y22, x25, x24, x23, x22⟩ :=
    round_inv inv25 (by decide!)
  intro p26 x26 y26
  have inv27 : rounds (schedule padBlock64) t 27 = ⟨y26, y25, y24, y23, x26, x25, x24, x23⟩ :=
    round_inv inv26 (by decide!)
  intro p27 x27 y27
  have inv28 : rounds (schedule padBlock64) t 28 = ⟨y27, y26, y25, y24, x27, x26, x25, x24⟩ :=
    round_inv inv27 (by decide!)
  intro p28 x28 y28
  have inv29 : rounds (schedule padBlock64) t 29 = ⟨y28, y27, y26, y25, x28, x27, x26, x25⟩ :=
    round_inv inv28 (by decide!)
  intro p29 x29 y29
  have inv30 : rounds (schedule padBlock64) t 30 = ⟨y29, y28, y27, y26, x29, x28, x27, x26⟩ :=
    round_inv inv29 (by decide!)
  intro p30 x30 y30
  have inv31 : rounds (schedule padBlock64) t 31 = ⟨y30, y29, y28, y27, x30, x29, x28, x27⟩ :=
    round_inv inv30 (by decide!)
  intro p31 x31 y31
  have inv32 : rounds (schedule padBlock64) t 32 = ⟨y31, y30, y29, y28, x31, x30, x29, x28⟩ :=
    round_inv inv31 (by decide!)
  intro p32 x32 y32
  have inv33 : rounds (schedule padBlock64) t 33 = ⟨y32, y31, y30, y29, x32, x31, x30, x29⟩ :=
    round_inv inv32 (by decide!)
  intro p33 x33 y33
  have inv34 : rounds (schedule padBlock64) t 34 = ⟨y33, y32, y31, y30, x33, x32, x31, x30⟩ :=
    round_inv inv33 (by decide!)
  intro p34 x34 y34
  have inv35 : rounds (schedule padBlock64) t 35 = ⟨y34, y33, y32, y31, x34, x33, x32, x31⟩ :=
    round_inv inv34 (by decide!)
  intro p35 x35 y35
  have inv36 : rounds (schedule padBlock64) t 36 = ⟨y35, y34, y33, y32, x35, x34, x33, x32⟩ :=
    round_inv inv35 (by decide!)
  intro p36 x36 y36
  have inv37 : rounds (schedule padBlock64) t 37 = ⟨y36, y35, y34, y33, x36, x35, x34, x33⟩ :=
    round_inv inv36 (by decide!)
  intro p37 x37 y37
  have inv38 : rounds (schedule padBlock64) t 38 = ⟨y37, y36, y35, y34, x37, x36, x35, x34⟩ :=
    round_inv inv37 (by decide!)
  intro p38 x38 y38
  have inv39 : rounds (schedule padBlock64) t 39 = ⟨y38, y37, y36, y35, x38, x37, x36, x35⟩ :=
    round_inv inv38 (by decide!)
  intro p39 x39 y39
  have inv40 : rounds (schedule padBlock64) t 40 = ⟨y39, y38, y37, y36, x39, x38, x37, x36⟩ :=
    round_inv inv39 (by decide!)
  intro p40 x40 y40
  have inv41 : rounds (schedule padBlock64) t 41 = ⟨y40, y39, y38, y37, x40, x39, x38, x37⟩ :=
    round_inv inv40 (by decide!)
  intro p41 x41 y41
  have inv42 : rounds (schedule padBlock64) t 42 = ⟨y41, y40, y39, y38, x41, x40, x39, x38⟩ :=
    round_inv inv41 (by decide!)
  intro p42 x42 y42
  have inv43 : rounds (schedule padBlock64) t 43 = ⟨y42, y41, y40, y39, x42, x41, x40, x39⟩ :=
    round_inv inv42 (by decide!)
  intro p43 x43 y43
  have inv44 : rounds (schedule padBlock64) t 44 = ⟨y43, y42, y41, y40, x43, x42, x41, x40⟩ :=
    round_inv inv43 (by decide!)
  intro p44 x44 y44
  have inv45 : rounds (schedule padBlock64) t 45 = ⟨y44, y43, y42, y41, x44, x43, x42, x41⟩ :=
    round_inv inv44 (by decide!)
  intro p45 x45 y45
  have inv46 : rounds (schedule padBlock64) t 46 = ⟨y45, y44, y43, y42, x45, x44, x43, x42⟩ :=
    round_inv inv45 (by decide!)
  intro p46 x46 y46
  have inv47 : rounds (schedule padBlock64) t 47 = ⟨y46, y45, y44, y43, x46, x45, x44, x43⟩ :=
    round_inv inv46 (by decide!)
  intro p47 x47 y47
  have inv48 : rounds (schedule padBlock64) t 48 = ⟨y47, y46, y45, y44, x47, x46, x45, x44⟩ :=
    round_inv inv47 (by decide!)
  intro p48 x48 y48
  have inv49 : rounds (schedule padBlock64) t 49 = ⟨y48, y47, y46, y45, x48, x47, x46, x45⟩ :=
    round_inv inv48 (by decide!)
  intro p49 x49 y49
  have inv50 : rounds (schedule padBlock64) t 50 = ⟨y49, y48, y47, y46, x49, x48, x47, x46⟩ :=
    round_inv inv49 (by decide!)
  intro p50 x50 y50
  have inv51 : rounds (schedule padBlock64) t 51 = ⟨y50, y49, y48, y47, x50, x49, x48, x47⟩ :=
    round_inv inv50 (by decide!)
  intro p51 x51 y51
  have inv52 : rounds (schedule padBlock64) t 52 = ⟨y51, y50, y49, y48, x51, x50, x49, x48⟩ :=
    round_inv inv51 (by decide!)
  intro p52 x52 y52
  have inv53 : rounds (schedule padBlock64) t 53 = ⟨y52, y51, y50, y49, x52, x51, x50, x49⟩ :=
    round_inv inv52 (by decide!)
  intro p53 x53 y53
  have inv54 : rounds (schedule padBlock64) t 54 = ⟨y53, y52, y51, y50, x53, x52, x51, x50⟩ :=
    round_inv inv53 (by decide!)
  intro p54 x54 y54
  have inv55 : rounds (schedule padBlock64) t 55 = ⟨y54, y53, y52, y51, x54, x53, x52, x51⟩ :=
    round_inv inv54 (by decide!)
  intro p55 x55 y55
  have inv56 : rounds (schedule padBlock64) t 56 = ⟨y55, y54, y53, y52, x55, x54, x53, x52⟩ :=
    round_inv inv55 (by decide!)
  intro p56 x56 y56
  have inv57 : rounds (schedule padBlock64) t 57 = ⟨y56, y55, y54, y53, x56, x55, x54, x53⟩ :=
    round_inv inv56 (by decide!)
  intro p57 x57 y57
  have inv58 : rounds (schedule padBlock64) t 58 = ⟨y57, y56, y55, y54, x57, x56, x55, x54⟩ :=
    round_inv inv57 (by decide!)
  intro p58 x58 y58
  have inv59 : rounds (schedule padBlock64) t 59 = ⟨y58, y57, y56, y55, x58, x57, x56, x55⟩ :=
    round_inv inv58 (by decide!)
  intro p59 x59 y59
  have inv60 : rounds (schedule padBlock64) t 60 = ⟨y59, y58, y57, y56, x59, x58, x57, x56⟩ :=
    round_inv inv59 (by decide!)
  intro p60 x60 y60
  have inv61 : rounds (schedule padBlock64) t 61 = ⟨y60, y59, y58, y57, x60, x59, x58, x57⟩ :=
    round_inv inv60 (by decide!)
  intro p61 x61 y61
  have inv62 : rounds (schedule padBlock64) t 62 = ⟨y61, y60, y59, y58, x61, x60, x59, x58⟩ :=
    round_inv inv61 (by decide!)
  intro p62 x62 y62
  have inv63 : rounds (schedule padBlock64) t 63 = ⟨y62, y61, y60, y59, x62, x61, x60, x59⟩ :=
    round_inv inv62 (by decide!)
  intro p63 x63 y63
  have inv64 : rounds (schedule padBlock64) t 64 = ⟨y63, y62, y61, y60, x63, x62, x61, x60⟩ :=
    round_inv inv63 (by decide!)
  intro w0 w1 w2 w3 w4 w5 w6 w7
  exact (finish_eq t inv64).symm

/-- The expansion line of round 16 of the third transform, against the schedule equation
with the padding words of a 32-byte message filled in. -/
theorem TransformD64_3_line16 {w0 w1 : Nat} :
    (w0 + (sigma0 w1)) % 0x100000000 = (sigma1 0 + 0 + sigma0 w1 + w0) % 0x100000000 := by
  simp only [sigma1_0, sigma0_0, sigma1_0x100, sigma0_0x80000000, sigma0_0x100]
  omega

/-- The expansion line of round 17 of the third transform, against the schedule equation
with the padding words of a 32-byte message filled in. -/
theorem TransformD64_3_line17 {w1 w2 : Nat} :
    (w1 + (0xa00000 + sigma0 w2)) % 0x100000000 = (sigma1 0x100 + 0 + sigma0 w2 + w1) % 0x100000000 := by
  simp only [sigma1_0, sigma0_0, sigma1_0x100, sigma0_0x80000000, sigma0_0x100]
  omega

/-- The expansion line of round 18 of the third transform, against the schedule equation
with the padding words of a 32-byte message filled in. -/
theorem TransformD64_3_line18 {w0 w2 w3 : Nat} :
    (w2 + (sigma1 w0 + sigma0 w3)) % 0x100000000 = (sigma1 w0 + 0 + sigma0 w3 + w2) % 0x100000000 := by
  omega

/-- The expansion line of round 19 of the third transform, against the schedule equation
with the padding words of a 32-byte message filled in. -/
theorem TransformD64_3_line19 {w1 w3 w4 : Nat} :
    (w3 + (sigma1 w1 + sigma0 w4)) % 0x100000000 = (sigma1 w1 + 0 + sigma0 w4 + w3) % 0x100000000 := by
  omega

/-- The expansion line of round 20 of the third transform, against the schedule equation
with the padding words of a 32-byte message filled in. -/
theorem TransformD64_3_line20 {w2 w4 w5 : Nat} :
    (w4 + (sigma1 w2 + sigma0 w5)) % 0x100000000 = (sigma1 w2 + 0 + sigma0 w5 + w4) % 0x100000000 := by
  omega

/-- The expansion line of round 21 of the third transform, against the schedule equation
with the padding words of a 32-byte message filled in. -/
theorem TransformD64_3_line21 {w3 w5 w6 : Nat} :
    (w5 + (sigma1 w3 + sigma0 w6)) % 0x100000000 = (sigma1 w3 + 0 + sigma0 w6 + w5) % 0x100000000 := by
  omega

/-- The expansion line of round 22 of the third transform, against the schedule equation
with the padding words of a 32-byte message filled in. -/
theorem TransformD64_3_line22 {w4 w6 w7 : Nat} :
    (w6 + (sigma1 w4 + 0x100 + sigma0 w7)) % 0x100000000 = (sigma1 w4 + 0x100 + sigma0 w7 + w6) % 0x100000000 := by
  omega

/-- The expansion line of round 23 of the third transform, against the schedule equation
with the padding words of a 32-byte message filled in. -/
theorem TransformD64_3_line23 {w0 w5 w7 : Nat} :
    (w7 + (sigma1 w5 + w0 + 0x11002000)) % 0x100000000 = (sigma1 w5 + w0 + sigma0 0x80000000 + w7) % 0x100000000 := by
  simp only [sigma1_0, sigma0_0, sigma1_0x100, sigma0_0x80000000, sigma0_0x100]
  omega

/-- The expansion line of round 24 of the third transform, against the schedule equation
with the padding words of a 32-byte message filled in. -/
theorem TransformD64_3_line24 {w1 w6 : Nat} :
    (0x80000000 + sigma1 w6 + w1) % 0x100000000 = (sigma1 w6 + w1 + sigma0 0 + 0x80000000) % 0x100000000 := by
  simp only [sigma1_0, sigma0_0, sigma1_0x100, sigma0_0x80000000, sigma0_0x100]
  omega

/-- The expansion line of round 25 of the third transform, against the schedule equation
with the padding words of a 32-byte message filled in. -/
theorem TransformD64_3_line25 {w2 w7 : Nat} :
    (sigma1 w7 + w2) % 0x100000000 = (sigma1 w7 + w2 + sigma0 0 + 0) % 0x100000000 := by
  simp only [sigma1_0, sigma0_0, sigma1_0x100, sigma0_0x80000000, sigma0_0x100]
  omega

/-- The expansion line of round 26 of the third transform, against the schedule equation
with the padding words of a 32-byte message filled in. -/
theorem TransformD64_3_line26 {w3 w8 : Nat} :
    (sigma1 w8 + w3) % 0x100000000 = (sigma1 w8 + w3 + sigma0 0 + 0) % 0x100000000 := by
  simp only [sigma1_0, sigma0_0, sigma1_0x100, sigma0_0x80000000, sigma0_0x100]
  omega

/-- The expansion line of round 27 of the third transform, against the schedule equation
with the padding words of a 32-byte message filled in. -/
theorem TransformD64_3_line27 {w4 w9 : Nat} :
    (sigma1 w9 + w4) % 0x100000000 = (sigma1 w9 + w4 + sigma0 0 + 0) % 0x100000000 := by
  simp only [sigma1_0, sigma0_0, sigma1_0x100, sigma0_0x80000000, sigma0_0x100]
  omega

/-- The expansion line of round 28 of the third transform, against the schedule equation
with the padding words of a 32-byte message filled in. -/
theorem TransformD64_3_line28 {w5 w10 : Nat} :
    (sigma1 w10 + w5) % 0x100000000 = (sigma1 w10 + w5 + sigma0 0 + 0) % 0x100000000 := by
  simp only [sigma1_0, sigma0_0, sigma1_0x100, sigma0_0x80000000, sigma0_0x100]
  omega

/-- The expansion line of round 29 of the third transform, against the schedule equation
with the padding words of a 32-byte message filled in. -/
theorem TransformD64_3_line29 {w6 w11 : Nat} :
    (sigma1 w11 + w6) % 0x100000000 = (sigma1 w11 + w6 + sigma0 0 + 0) % 0x100000000 := by
  simp only [sigma1_0, sigma0_0, sigma1_0x100, sigma0_0x80000000, sigma0_0x100]
  omega

/-- The expansion line of round 30 of the third transform, against the schedule equation
with the padding words of a 32-byte message filled in. -/
theorem TransformD64_3_line30 {w7 w12 : Nat} :
    (sigma1 w12 + w7 + 0x400022) % 0x100000000 = (sigma1 w12 + w7 + sigma0 0x100 + 0) % 0x100000000 := by
  simp only [sigma1_0, sigma0_0, sigma1_0x100, sigma0_0x80000000, sigma0_0x100]

/-- The expansion line of round 31 of the third transform, against the schedule equation
with the padding words of a 32-byte message filled in. -/
theorem TransformD64_3_line31 {w0 w8 w13 : Nat} :
    (0x100 + sigma1 w13 + w8 + sigma0 w0) % 0x100000000 = (sigma1 w13 + w8 + sigma0 w0 + 0x100) % 0x100000000 := by
  omega
set_option maxRecDepth 100000 in
/-- The third transform of `TransformD64` runs the 64 reference rounds from the initial
state on any word list that starts with `w0 .. w7`, continues with the padding words of a
32-byte message and satisfies the schedule equations. -/
theorem TransformD64_3_eq_rounds (w : State) (W : List Nat)
    (hw0 : w.s0 = W.getD 0 0) (hw1 : w.s1 = W.getD 1 0) (hw2 : w.s2 = W.getD 2 0)
    (hw3 : w.s3 = W.getD 3 0) (hw4 : w.s4 = W.getD 4 0) (hw5 : w.s5 = W.getD 5 0)
    (hw6 : w.s6 = W.getD 6 0) (hw7 : w.s7 = W.getD 7 0)
    (hW8 : W.getD 8 0 = 0x80000000) (hW9 : W.getD 9 0 = 0) (hW10 : W.getD 10 0 = 0)
    (hW11 : W.getD 11 0 = 0) (hW12 : W.getD 12 0 = 0) (hW13 : W.getD 13 0 = 0)
    (hW14 : W.getD 14 0 = 0) (hW15 : W.getD 15 0 = 0x100)
    (hrec : ∀ t, 16 ≤ t → t < 64 → W.getD t 0 =
      (sigma1 (W.getD (t - 2) 0) + W.getD (t - 7) 0 + sigma0 (W.getD (t - 15) 0) +
        W.getD (t - 16) 0) % 0x100000000) :
    sha256.TransformD64_3 w =
      stateBytes (finish sha256.Initialize (rounds W sha256.Initialize 64)) := by
  refine sha256.TransformD64_3_elim w _ ?_
  intro u0 u1 u2 u3 u4 u5 u6 u7
  have hv0 : u0 = W.getD 0 0 := hw0
  have hv1 : u1 = W.getD 1 0 := hw1
  have hv2 : u2 = W.getD 2 0 := hw2
  have hv3 : u3 = W.getD 3 0 := hw3
  have hv4 : u4 = W.getD 4 0 := hw4
  have hv5 : u5 = W.getD 5 0 := hw5
  have hv6 : u6 = W.getD 6 0 := hw6
  have hv7 : u7 = W.getD 7 0 := hw7
  intro a0 b0 c0 d0 e0 f0 g0 h0
  have inv0 : rounds W sha256.Initialize 0 = ⟨a0, b0, c0, d0, e0, f0, g0, h0⟩ := rfl
  intro p0 x0 y0
  have inv1 : rounds W sha256.Initialize 1 = ⟨y0, a0, b0, c0, x0, e0, f0, g0⟩ :=
    round_inv inv0 (key_eq rfl hv0)
  intro p1 x1 y1
  have inv2 : rounds W sha256.Initialize 2 = ⟨y1, y0, a0, b0, x1, x0, e0, f0⟩ :=
    round_inv inv1 (key_eq rfl hv1)
  intro p2 x2 y2
  have inv3 : rounds W sha256.Initialize 3 = ⟨y2, y1, y0, a0, x2, x1, x0, e0⟩ :=
    round_inv inv2 (key_eq rfl hv2)
  intro p3 x3 y3
  have inv4 : rounds W sha256.Initialize 4 = ⟨y3, y2, y1, y0, x3, x2, x1, x0⟩ :=
    round_inv inv3 (key_eq rfl hv3)
  intro p4 x4 y4
  have inv5 : rounds W sha256.Initialize 5 = ⟨y4, y3, y2, y1, x4, x3, x2, x1⟩ :=
    round_inv inv4 (key_eq rfl hv4)
  intro p5 x5 y5
  have inv6 : rounds W sha256.Initialize 6 = ⟨y5, y4, y3, y2, x5, x4, x3, x2⟩ :=
    round_inv inv5 (key_eq rfl hv5)
  intro p6 x6 y6
  have inv7 : rounds W sha256.Initialize 7 = ⟨y6, y5, y4, y3, x6, x5, x4, x3⟩ :=
    round_inv inv6 (key_eq rfl hv6)
  intro p7 x7 y7
  have inv8 : rounds W sha256.Initialize 8 = ⟨y7, y6, y5, y4, x7, x6, x5, x4⟩ :=
    round_inv inv7 (key_eq rfl hv7)
  intro p8 x8 y8
  have inv9 : rounds W sha256.Initialize 9 = ⟨y8, y7, y6, y5, x8, x7, x6, x5⟩ :=
    round_inv inv8 (key_const hW8 (by decide!))
  intro p9 x9 y9
  have inv10 : rounds W sha256.Initialize 10 = ⟨y9, y8, y7, y6, x9, x8, x7, x6⟩ :=
    round_inv inv9 (key_const hW9 (by decide!))
  intro p10 x10 y10
  have inv11 : rounds W sha256.Initialize 11 = ⟨y10, y9, y8, y7, x10, x9, x8, x7⟩ :=
    round_inv inv10 (key_const hW10 (by decide!))
  intro p11 x11 y11
  have inv12 : rounds W sha256.Initialize 12 = ⟨y11, y10, y9, y8, x11, x10, x9, x8⟩ :=
    round_inv inv11 (key_const hW11 (by decide!))
  intro p12 x12 y12
  have inv13 : rounds W sha256.Initialize 13 = ⟨y12, y11, y10, y9, x12, x11, x10, x9⟩ :=
    round_inv inv12 (key_const hW12 (by decide!))
  intro p13 x13 y13
  have inv14 : rounds W sha256.Initialize 14 = ⟨y13, y12, y11, y10, x13, x12, x11, x10⟩ :=
    round_inv inv13 (key_const hW13 (by decide!))
  intro p14 x14 y14
  have inv15 : rounds W sha256.Initialize 15 = ⟨y14, y13, y12, y11, x14, x13, x12, x11⟩ :=
    round_inv inv14 (key_const hW14 (by decide!))
  intro p15 x15 y15
  have inv16 : rounds W sha256.Initialize 16 = ⟨y15, y14, y13, y12, x15, x14, x13, x12⟩ :=
    round_inv inv15 (key_const hW15 (by decide!))
  intro v16 p16 x16 y16
  have hv16 : v16 = W.getD 16 0 :=
    sched_special hrec 16 (by decide) (by decide) hv0.symm hW14 hW9 hv1.symm
      TransformD64_3_line16
  have inv17 : rounds W sha256.Initialize 17 = ⟨y16, y15, y14, y13, x16, x15, x14, x13⟩ :=
    round_inv inv16 (key_eq rfl hv16)
  intro v17 p17 x17 y17
  have hv17 : v17 = W.getD 17 0 :=
    sched_special hrec 17 (by decide) (by decide) hv1.symm hW15 hW10 hv2.symm
      TransformD64_3_line17
  have inv18 : rounds W sha256.Initialize 18 = ⟨y17, y16, y15, y14, x17, x16, x15, x14⟩ :=
    round_inv inv17 (key_eq rfl hv17)
  intro v18 p18 x18 y18
  have hv18 : v18 = W.getD 18 0 :=
    sched_special hrec 18 (by decide) (by decide) hv2.symm hv16.symm hW11 hv3.symm
      TransformD64_3_line18
  have inv19 : rounds W sha256.Initialize 19 = ⟨y18, y17, y16, y15, x18, x17, x16, x15⟩ :=
    round_inv inv18 (key_eq rfl hv18)
  intro v19 p19 x19 y19
  have hv19 : v19 = W.getD 19 0 :=
    sched_special hrec 19 (by decide) (by decide) hv3.symm hv17.symm hW12 hv4.symm
      TransformD64_3_line19
  have inv20 : rounds W sha256.Initialize 20 = ⟨y19, y18, y17, y16, x19, x18, x17, x16⟩ :=
    round_inv inv19 (key_eq rfl hv19)
  intro v20 p20 x20 y20
  have hv20 : v20 = W.getD 20 0 :=
    sched_special hrec 20 (by decide) (by decide) hv4.symm hv18.symm hW13 hv5.symm
      TransformD64_3_line20
  have inv21 : rounds W sha256.Initialize 21 = ⟨y20, y19, y18, y17, x20, x19, x18, x17⟩ :=
    round_inv inv20 (key_eq rfl hv20)
  intro v21 p21 x21 y21
  have hv21 : v21 = W.getD 21 0 :=
    sched_special hrec 21 (by decide) (by decide) hv5.symm hv19.symm hW14 hv6.symm
      TransformD64_3_line21
  have inv22 : rounds W sha256.Initialize 22 = ⟨y21, y20, y19, y18, x21, x20, x19, x18⟩ :=
    round_inv inv21 (key_eq rfl hv21)
  intro v22 p22 x22 y22
  have hv22 : v22 = W.getD 22 0 :=
    sched_special hrec 22 (by decide) (by decide) hv6.symm hv20.symm hW15 hv7.symm
      TransformD64_3_line22
  have inv23 : rounds W sha256.Initialize 23 = ⟨y22, y21, y20, y19, x22, x21, x20, x19⟩ :=
    round_inv inv22 (key_eq rfl hv22)
  intro v23 p23 x23 y23
  have hv23 : v23 = W.getD 23 0 :=
    sched_special hrec 23 (by decide) (by decide) hv7.symm hv21.symm hv16.symm hW8
      TransformD64_3_line23
  have inv24 : rounds W sha256.Initialize 24 = ⟨y23, y22, y21, y20, x23, x22, x21, x20⟩ :=
    round_inv inv23 (key_eq rfl hv23)
  intro v24 p24 x24 y24
  have hv24 : v24 = W.getD 24 0 :=
    sched_special hrec 24 (by decide) (by decide) hW8 hv22.symm hv17.symm hW9
      TransformD64_3_line24
  have inv25 : rounds W sha256.Initialize 25 = ⟨y24, y23, y22, y21, x24, x23, x22, x21⟩ :=
    round_inv inv24 (key_eq rfl hv24)
  intro v25 p25 x25 y25
  have hv25 : v25 = W.getD 25 0 :=
    sched_special hrec 25 (by decide) (by decide) hW9 hv23.symm hv18.symm hW10
      TransformD64_3_line25
  have inv26 : rounds W sha256.Initialize 26 = ⟨y25, y24, y23, y22, x25, x24, x23, x22⟩ :=
    round_inv inv25 (key_eq rfl hv25)
  intro v26 p26 x26 y26
  have hv26 : v26 = W.getD 26 0 :=
    sched_special hrec 26 (by decide) (by decide) hW10 hv24.symm hv19.symm hW11
      TransformD64_3_line26
  have inv27 : rounds W sha256.Initialize 27 = ⟨y26, y25, y24, y23, x26, x25, x24, x23⟩ :=
    round_inv inv26 (key_eq rfl hv26)
  intro v27 p27 x27 y27
  have hv27 : v27 = W.getD 27 0 :=
    sched_special hrec 27 (by decide) (by decide) hW11 hv25.symm hv20.symm hW12
      TransformD64_3_line27
  have inv28 : rounds W sha256.Initialize 28 = ⟨y27, y26, y25, y24, x27, x26, x25, x24⟩ :=
    round_inv inv27 (key_eq rfl hv27)
  intro v28 p28 x28 y28
  have hv28 : v28 = W.getD 28 0 :=
    sched_special hrec 28 (by decide) (by decide) hW12 hv26.symm hv21.symm hW13
      TransformD64_3_line28
  have inv29 : rounds W sha256.Initialize 29 = ⟨y28, y27, y26, y25, x28, x27, x26, x25⟩ :=
    round_inv inv28 (key_eq rfl hv28)
  intro v29 p29 x29 y29
  have hv29 : v29 = W.getD 29 0 :=
    sched_special hrec 29 (by decide) (by decide) hW13 hv27.symm hv22.symm hW14
      TransformD64_3_line29
  have inv30 : rounds W sha256.Initialize 30 = ⟨y29, y28, y27, y26, x29, x28, x27, x26⟩ :=
    round_inv inv29 (key_eq rfl hv29)
  intro v30 p30 x30 y30
  have hv30 : v30 = W.getD 30 0 :=
    sched_special hrec 30 (by decide) (by decide) hW14 hv28.symm hv23.symm hW15
      TransformD64_3_line30
  have inv31 : rounds W sha256.Initialize 31 = ⟨y30, y29, y28, y27, x30, x29, x28, x27⟩ :=
    round_inv inv30 (key_eq rfl hv30)
  intro v31 p31 x31 y31
  have hv31 : v31 = W.getD 31 0 :=
    sched_special hrec 31 (by decide) (by decide) hW15 hv29.symm hv24.symm hv16.symm
      TransformD64_3_line31
  have inv32 : rounds W sha256.Initialize 32 = ⟨y31, y30, y29, y28, x31, x30, x29, x28⟩ :=
    round_inv inv31 (key_eq rfl hv31)
  intro v32 p32 x32 y32
  have hv32 : v32 = W.getD 32 0 :=
    sched_inv hrec 32 (by decide) (by decide) hv16 hv30 hv25 hv17
  have inv33 : rounds W sha256.Initialize 33 = ⟨y32, y31, y30, y29, x32, x31, x30, x29⟩ :=
    round_inv inv32 (key_eq rfl hv32)
  intro v33 p33 x33 y33
  have hv33 : v33 = W.getD 33 0 :=
    sched_inv hrec 33 (by decide) (by decide) hv17 hv31 hv26 hv18
  have inv34 : rounds W sha256.Initialize 34 = ⟨y33, y32, y31, y30, x33, x32, x31, x30⟩ :=
    round_inv inv33 (key_eq rfl hv33)
  intro v34 p34 x34 y34
  have hv34 : v34 = W.getD 34 0 :=
    sched_inv hrec 34 (by decide) (by decide) hv18 hv32 hv27 hv19
  have inv35 : rounds W sha256.Initialize 35 = ⟨y34, y33, y32, y31, x34, x33, x32, x31⟩ :=
    round_inv inv34 (key_eq rfl hv34)
  intro v35 p35 x35 y35
  have hv35 : v35 = W.getD 35 0 :=
    sched_inv hrec 35 (by decide) (by decide) hv19 hv33 hv28 hv20
  have inv36 : rounds W sha256.Initialize 36 = ⟨y35, y34, y33, y32, x35, x34, x33, x32⟩ :=
    round_inv inv35 (key_eq rfl hv35)
  intro v36 p36 x36 y36
  have hv36 : v36 = W.getD 36 0 :=
    sched_inv hrec 36 (by decide) (by decide) hv20 hv34 hv29 hv21
  have inv37 : rounds W sha256.Initialize 37 = ⟨y36, y35, y34, y33, x36, x35, x34, x33⟩ :=
    round_inv inv36 (key_eq rfl hv36)
  intro v37 p37 x37 y37
  have hv37 : v37 = W.getD 37 0 :=
    sched_inv hrec 37 (by decide) (by decide) hv21 hv35 hv30 hv22
  have inv38 : rounds W sha256.Initialize 38 = ⟨y37, y36, y35, y34, x37, x36, x35, x34⟩ :=
    round_inv inv37 (key_eq rfl hv37)
  intro v38 p38 x38 y38
  have hv38 : v38 = W.getD 38 0 :=
    sched_inv hrec 38 (by decide) (by decide) hv22 hv36 hv31 hv23
  have inv39 : rounds W sha256.Initialize 39 = ⟨y38, y37, y36, y35, x38, x37, x36, x35⟩ :=
    round_inv inv38 (key_eq rfl hv38)
  intro v39 p39 x39 y39
  have hv39 : v39 = W.getD 39 0 :=
    sched_inv hrec 39 (by decide) (by decide) hv23 hv37 hv32 hv24
  have inv40 : rounds W sha256.Initialize 40 = ⟨y39, y38, y37, y36, x39, x38, x37, x36⟩ :=
    round_inv inv39 (key_eq rfl hv39)
  intro v40 p40 x40 y40
  have hv40 : v40 = W.getD 40 0 :=
    sched_inv hrec 40 (by decide) (by decide) hv24 hv38 hv33 hv25
  have inv41 : rounds W sha256.Initialize 41 = ⟨y40, y39, y38, y37, x40, x39, x38, x37⟩ :=
    round_inv inv40 (key_eq rfl hv40)
  intro v41 p41 x41 y41
  have hv41 : v41 = W.getD 41 0 :=
    sched_inv hrec 41 (by decide) (by decide) hv25 hv39 hv34 hv26
  have inv42 : rounds W sha256.Initialize 42 = ⟨y41, y40, y39, y38, x41, x40, x39, x38⟩ :=
    round_inv inv41 (key_eq rfl hv41)
  intro v42 p42 x42 y42
  have hv42 : v42 = W.getD 42 0 :=
    sched_inv hrec 42 (by decide) (by decide) hv26 hv40 hv35 hv27
  have inv43 : rounds W sha256.Initialize 43 = ⟨y42, y41, y40, y39, x42, x41, x40, x39⟩ :=
    round_inv inv42 (key_eq rfl hv42)
  intro v43 p43 x43 y43
  have hv43 : v43 = W.getD 43 0 :=
    sched_inv hrec 43 (by decide) (by decide) hv27 hv41 hv36 hv28
  have inv44 : rounds W sha256.Initialize 44 = ⟨y43, y42, y41, y40, x43, x42, x41, x40⟩ :=
    round_inv inv43 (key_eq rfl hv43)
  intro v44 p44 x44 y44
  have hv44 : v44 = W.getD 44 0 :=
    sched_inv hrec 44 (by decide) (by decide) hv28 hv42 hv37 hv29
  have inv45 : rounds W sha256.Initialize 45 = ⟨y44, y43, y42, y41, x44, x43, x42, x41⟩ :=
    round_inv inv44 (key_eq rfl hv44)
  intro v45 p45 x45 y45
  have hv45 : v45 = W.getD 45 0 :=
    sched_inv hrec 45 (by decide) (by decide) hv29 hv43 hv38 hv30
  have inv46 : rounds W sha256.Initialize 46 = ⟨y45, y44, y43, y42, x45, x44, x43, x42⟩ :=
    round_inv inv45 (key_eq rfl hv45)
  intro v46 p46 x46 y46
  have hv46 : v46 = W.getD 46 0 :=
    sched_inv hrec 46 (by decide) (by decide) hv30 hv44 hv39 hv31
  have inv47 : rounds W sha256.Initialize 47 = ⟨y46, y45, y44, y43, x46, x45, x44, x43⟩ :=
    round_inv inv46 (key_eq rfl hv46)
  intro v47 p47 x47 y47
  have hv47 : v47 = W.getD 47 0 :=
    sched_inv hrec 47 (by decide) (by decide) hv31 hv45 hv40 hv32
  have inv48 : rounds W sha256.Initialize 48 = ⟨y47, y46, y45, y44, x47, x46, x45, x44⟩ :=
    round_inv inv47 (key_eq rfl hv47)
  intro v48 p48 x48 y48
  have hv48 : v48 = W.getD 48 0 :=
    sched_inv hrec 48 (by decide) (by decide) hv32 hv46 hv41 hv33
  have inv49 : rounds W sha256.Initialize 49 = ⟨y48, y47, y46, y45, x48, x47, x46, x45⟩ :=
    round_inv inv48 (key_eq rfl hv48)
  intro v49 p49 x49 y49
  have hv49 : v49 = W.getD 49 0 :=
    sched_inv hrec 49 (by decide) (by decide) hv33 hv47 hv42 hv34
  have inv50 : rounds W sha256.Initialize 50 = ⟨y49, y48, y47, y46, x49, x48, x47, x46⟩ :=
    round_inv inv49 (key_eq rfl hv49)
  intro v50 p50 x50 y50
  have hv50 : v50 = W.getD 50 0 :=
    sched_inv hrec 50 (by decide) (by decide) hv34 hv48 hv43 hv35
  have inv51 : rounds W sha256.Initialize 51 = ⟨y50, y49, y48, y47, x50, x49, x48, x47⟩ :=
    round_inv inv50 (key_eq rfl hv50)
  intro v51 p51 x51 y51
  have hv51 : v51 = W.getD 51 0 :=
    sched_inv hrec 51 (by decide) (by decide) hv35 hv49 hv44 hv36
  have inv52 : rounds W sha256.Initialize 52 = ⟨y51, y50, y49, y48, x51, x50, x49, x48⟩ :=
    round_inv inv51 (key_eq rfl hv51)
  intro v52 p52 x52 y52
  have hv52 : v52 = W.getD 52 0 :=
    sched_inv hrec 52 (by decide) (by decide) hv36 hv50 hv45 hv37
  have inv53 : rounds W sha256.Initialize 53 = ⟨y52, y51, y50, y49, x52, x51, x50, x49⟩ :=
    round_inv inv52 (key_eq rfl hv52)
  intro v53 p53 x53 y53
  have hv53 : v53 = W.getD 53 0 :=
    sched_inv hrec 53 (by decide) (by decide) hv37 hv51 hv46 hv38
  have inv54 : rounds W sha256.Initialize 54 = ⟨y53, y52, y51, y50, x53, x52, x51, x50⟩ :=
    round_inv inv53 (key_eq rfl hv53)
  intro v54 p54 x54 y54
  have hv54 : v54 = W.getD 54 0 :=
    sched_inv hrec 54 (by decide) (by decide) hv38 hv52 hv47 hv39
  have inv55 : rounds W sha256.Initialize 55 = ⟨y54, y53, y52, y51, x54, x53, x52, x51⟩ :=
    round_inv inv54 (key_eq rfl hv54)
  intro v55 p55 x55 y55
  have hv55 : v55 = W.getD 55 0 :=
    sched_inv hrec 55 (by decide) (by decide) hv39 hv53 hv48 hv40
  have inv56 : rounds W sha256.Initialize 56 = ⟨y55, y54, y53, y52, x55, x54, x53, x52⟩ :=
    round_inv inv55 (key_eq rfl hv55)
  intro v56 p56 x56 y56
  have hv56 : v56 = W.getD 56 0 :=
    sched_inv hrec 56 (by decide) (by decide) hv40 hv54 hv49 hv41
  have inv57 : rounds W sha256.Initialize 57 = ⟨y56, y55, y54, y53, x56, x55, x54, x53⟩ :=
    round_inv inv56 (key_eq rfl hv56)
  intro v57 p57 x57 y57
  have hv57 : v57 = W.getD 57 0 :=
    sched_inv hrec 57 (by decide) (by decide) hv41 hv55 hv50 hv42
  have inv58 : rounds W sha256.Initialize 58 = ⟨y57, y56, y55, y54, x57, x56, x55, x54⟩ :=
    round_inv inv57 (key_eq rfl hv57)
  intro v58 p58 x58 y58
  have hv58 : v58 = W.getD 58 0 :=
    sched_inv hrec 58 (by decide) (by decide) hv42 hv56 hv51 hv43
  have inv59 : rounds W sha256.Initialize 59 = ⟨y58, y57, y56, y55, x58, x57, x56, x55⟩ :=
    round_inv inv58 (key_eq rfl hv58)
  intro v59 p59 x59 y59
  have hv59 : v59 = W.getD 59 0 :=
    sched_inv hrec 59 (by decide) (by decide) hv43 hv57 hv52 hv44
  have inv60 : rounds W sha256.Initialize 60 = ⟨y59, y58, y57, y56, x59, x58, x57, x56⟩ :=
    round_inv inv59 (key_eq rfl hv59)
  intro v60 p60 x60 y60
  have hv60 : v60 = W.getD 60 0 :=
    sched_inv hrec 60 (by decide) (by decide) hv44 hv58 hv53 hv45
  have inv61 : rounds W sha256.Initialize 61 = ⟨y60, y59, y58, y57, x60, x59, x58, x57⟩ :=
    round_inv inv60 (key_eq rfl hv60)
  intro v61 p61 x61 y61
  have hv61 : v61 = W.getD 61 0 :=
    sched_inv hrec 61 (by decide) (by decide) hv45 hv59 hv54 hv46
  have inv62 : rounds W sha256.Initialize 62 = ⟨y61, y60, y59, y58, x61, x60, x59, x58⟩ :=
    round_inv inv61 (key_eq rfl hv61)
  intro p62 x62 y62
  have inv63 : rounds W sha256.Initialize 63 = ⟨y62, y61, y60, y59, x62, x61, x60, x59⟩ :=
    round_inv inv62 (sched_last hrec 62 rfl (by decide) (by decide) hv46 hv60 hv55 hv47)
  intro p63 x63 y63
  have inv64 : rounds W sha256.Initialize 64 = ⟨y63, y62, y61, y60, x63, x62, x61, x60⟩ :=
    round_inv inv63 (sched_last hrec 63 rfl (by decide) (by decide) hv47 hv61 hv56 hv48)
  exact output_eq inv64

end SHA256Spec

namespace SHA256Spec

open sha256 (State Sigma0 Sigma1 sigma0 sigma1 Ch Maj Round)

theorem stateBytes_length (H : State) : (stateBytes H).length = 32 := by
  simp [stateBytes, bigEndian]

theorem finish_lt (H v : State) :
    (finish H v).s0 < 0x100000000 ∧ (finish H v).s1 < 0x100000000 ∧
    (finish H v).s2 < 0x100000000 ∧ (finish H v).s3 < 0x100000000 ∧
    (finish H v).s4 < 0x100000000 ∧ (finish H v).s5 < 0x100000000 ∧
    (finish H v).s6 < 0x100000000 ∧ (finish H v).s7 < 0x100000000 := by
  simp only [finish]
  refine ⟨?_, ?_, ?_, ?_, ?_, ?_, ?_, ?_⟩ <;> exact Nat.mod_lt _ (by decide)

/-- The padded form of a 64-byte message: the message and one block of padding. -/
theorem padded_64 (inp : List Nat) (h : inp.length = 64) : padded inp = inp ++ padBlock64 := by
  unfold padded
  rw [MD.zeroPad_eq _ _ (by simp [h]), h]
  have h55 : (120 - (inp ++ [0x80]).length % 64) % 64 = 55 := by simp [h]
  rw [h55]
  have h8 : bigEndian 8 (8 * 64) = [0, 0, 0, 0, 0, 0, 0x02, 0x00] := by decide
  rw [h8]
  simp [padBlock64]

/-- The padded form of a 32-byte message: one block. -/
theorem padded_32 (d : List Nat) (h : d.length = 32) : padded d = d ++ padBlock32 := by
  unfold padded
  rw [MD.zeroPad_eq _ _ (by simp [h]), h]
  have h23 : (120 - (d ++ [0x80]).length % 64) % 64 = 23 := by simp [h]
  rw [h23]
  have h8 : bigEndian 8 (8 * 32) = [0, 0, 0, 0, 0, 0, 0x01, 0x00] := by decide
  rw [h8]
  simp [padBlock32]

theorem hash_eq_stateBytes (m : List Nat) :
    hash m = stateBytes (MD.absorb compress ((padded m).length / 64) sha256.Initialize (padded m)) :=
  rfl

/-- The hash of a 64-byte message is two compressions: the message, then the padding. -/
theorem hash_64 (inp : List Nat) (h : inp.length = 64) :
    hash inp = stateBytes (compress (compress sha256.Initialize inp) padBlock64) := by
  have hlen : (inp ++ padBlock64).length / 64 = 2 := by
    simp [padBlock64, h]
  rw [hash_eq_stateBytes, padded_64 inp h, hlen]
  simp only [MD.absorb]
  rw [compress_local_sha256 _ (inp ++ padBlock64), List.take_left' h, List.drop_left' h]

/-- The hash of a 32-byte message is one compression of the padded block. -/
theorem hash_32 (d : List Nat) (h : d.length = 32) :
    hash d = stateBytes (compress sha256.Initialize (d ++ padBlock32)) := by
  have hlen : (d ++ padBlock32).length / 64 = 1 := by
    simp [padBlock32, h]
  rw [hash_eq_stateBytes, padded_32 d h, hlen]
  simp only [MD.absorb]

theorem byteAt_append_right (l r : List Nat) (i : Nat) :
    byteAt (l ++ r) (l.length + i) = byteAt r i := by
  unfold byteAt
  simp [List.getD_eq_getElem?_getD, List.getElem?_append_right]

theorem word_append (l r : List Nat) (k : Nat) (hl : l.length = 4 * k) (j : Nat) :
    word (l ++ r) (k + j) = word r j := by
  unfold word
  have e0 : 4 * (k + j) = l.length + 4 * j := by omega
  simp only [e0, Nat.add_assoc, byteAt_append_right]

theorem word_shift (x : Nat) (rest : List Nat) (j : Nat) :
    word (bigEndian 4 x ++ rest) (1 + j) = word rest j :=
  word_append _ _ 1 (by simp [bigEndian]) j

theorem word_bigEndian (x : Nat) (rest : List Nat) :
    word (bigEndian 4 x ++ rest) 0 = x % 0x100000000 := by
  simp only [bigEndian, List.nil_append, List.cons_append, List.singleton_append, word, byteAt]
  simp only [List.getD_cons_zero, List.getD_cons_succ, Nat.mul_zero, Nat.zero_add]
  omega

/-- The sixteen words of the block made of a 32-byte digest and its padding. -/
theorem word_stateBytes (T : State) :
    word (stateBytes T ++ padBlock32) 0 = T.s0 % 0x100000000 ∧
    word (stateBytes T ++ padBlock32) 1 = T.s1 % 0x100000000 ∧
    word (stateBytes T ++ padBlock32) 2 = T.s2 % 0x100000000 ∧
    word (stateBytes T ++ padBlock32) 3 = T.s3 % 0x100000000 ∧
    word (stateBytes T ++ padBlock32) 4 = T.s4 % 0x100000000 ∧
    word (stateBytes T ++ padBlock32) 5 = T.s5 % 0x100000000 ∧
    word (stateBytes T ++ padBlock32) 6 = T.s6 % 0x100000000 ∧
    word (stateBytes T ++ padBlock32) 7 = T.s7 % 0x100000000 ∧
    word (stateBytes T ++ padBlock32) 8 = 0x80000000 ∧
    word (stateBytes T ++ padBlock32) 9 = 0 ∧
    word (stateBytes T ++ padBlock32) 10 = 0 ∧
    word (stateBytes T ++ padBlock32) 11 = 0 ∧
    word (stateBytes T ++ padBlock32) 12 = 0 ∧
    word (stateBytes T ++ padBlock32) 13 = 0 ∧
    word (stateBytes T ++ padBlock32) 14 = 0 ∧
    word (stateBytes T ++ padBlock32) 15 = 0x100 := by
  have hl : (stateBytes T).length = 4 * 8 := stateBytes_length T
  have hL : stateBytes T ++ padBlock32 =
      bigEndian 4 T.s0 ++ (bigEndian 4 T.s1 ++ (bigEndian 4 T.s2 ++ (bigEndian 4 T.s3 ++
        (bigEndian 4 T.s4 ++ (bigEndian 4 T.s5 ++ (bigEndian 4 T.s6 ++ (bigEndian 4 T.s7 ++
          padBlock32))))))) := by
    simp only [stateBytes, List.append_assoc]
  refine ⟨?_, ?_, ?_, ?_, ?_, ?_, ?_, ?_, ?_, ?_, ?_, ?_, ?_, ?_, ?_, ?_⟩
  · rw [hL]
    exact word_bigEndian _ _
  · rw [hL]
    exact (word_shift _ _ 0).trans (word_bigEndian _ _)
  · rw [hL]
    exact (word_shift _ _ 1).trans ((word_shift _ _ 0).trans (word_bigEndian _ _))
  · rw [hL]
    exact (word_shift _ _ 2).trans ((word_shift _ _ 1).trans ((word_shift _ _ 0).trans
      (word_bigEndian _ _)))
  · rw [hL]
    exact (word_shift _ _ 3).trans ((word_shift _ _ 2).trans ((word_shift _ _ 1).trans
      ((word_shift _ _ 0).trans (word_bigEndian _ _))))
  · rw [hL]
    exact (word_shift _ _ 4).trans ((word_shift _ _ 3).trans ((word_shift _ _ 2).trans
      ((word_shift _ _ 1).trans ((word_shift _ _ 0).trans (word_bigEndian _ _)))))
  · rw [hL]
    exact (word_shift _ _ 5).trans ((word_shift _ _ 4).trans ((word_shift _ _ 3).trans
      ((word_shift _ _ 2).trans ((word_shift _ _ 1).trans ((word_shift _ _ 0).trans
        (word_bigEndian _ _))))))
  · rw [hL]
    exact (word_shift _ _ 6).trans ((word_shift _ _ 5).trans ((word_shift _ _ 4).trans
      ((word_shift _ _ 3).trans ((word_shift _ _ 2).trans ((word_shift _ _ 1).trans
        ((word_shift _ _ 0).trans (word_bigEndian _ _)))))))
  · exact (word_append _ _ 8 hl 0).trans (by decide)
  · exact (word_append _ _ 8 hl 1).trans (by decide)
  · exact (word_append _ _ 8 hl 2).trans (by decide)
  · exact (word_append _ _ 8 hl 3).trans (by decide)
  · exact (word_append _ _ 8 hl 4).trans (by decide)
  · exact (word_append _ _ 8 hl 5).trans (by decide)
  · exact (word_append _ _ 8 hl 6).trans (by decide)
  · exact (word_append _ _ 8 hl 7).trans (by decide)

/-- The first transform of `TransformD64` is the compression of the input block from the
initial state. -/
theorem TransformD64_1_eq_compress (inp : List Nat) :
    sha256.TransformD64_1 inp = compress sha256.Initialize inp := by
  rw [compress_eq_finish]
  exact TransformD64_1_eq_rounds inp (schedule inp)
    (fun t ht => by rw [schedule_lt _ _ ht, word_eq_ReadBE32]) (schedule_rec inp)

/-- The second transform of `TransformD64` is the compression of the padding block of a
64-byte message. -/
theorem TransformD64_2_eq_compress (t : State) :
    sha256.TransformD64_2 t = compress t padBlock64 := by
  rw [TransformD64_2_eq_rounds]
  exact (compress_eq_finish _ _).symm

/-- The third transform of `TransformD64`, on the words left by the second one, is the
compression from the initial state of the block made of those words and the padding of a
32-byte message, written out big-endian. -/
theorem TransformD64_3_eq_compress (t : State) :
    sha256.TransformD64_3 (sha256.TransformD64_2 t) =
      stateBytes (compress sha256.Initialize
        (stateBytes (sha256.TransformD64_2 t) ++ padBlock32)) := by
  obtain ⟨b0, b1, b2, b3, b4, b5, b6, b7⟩ := finish_lt t (rounds (schedule padBlock64) t 64)
  rw [← TransformD64_2_eq_rounds] at b0 b1 b2 b3 b4 b5 b6 b7
  obtain ⟨e0, e1, e2, e3, e4, e5, e6, e7, e8, e9, e10, e11, e12, e13, e14, e15⟩ :=
    word_stateBytes (sha256.TransformD64_2 t)
  rw [Nat.mod_eq_of_lt b0] at e0
  rw [Nat.mod_eq_of_lt b1] at e1
  rw [Nat.mod_eq_of_lt b2] at e2
  rw [Nat.mod_eq_of_lt b3] at e3
  rw [Nat.mod_eq_of_lt b4] at e4
  rw [Nat.mod_eq_of_lt b5] at e5
  rw [Nat.mod_eq_of_lt b6] at e6
  rw [Nat.mod_eq_of_lt b7] at e7
  rw [compress_eq_finish]
  exact TransformD64_3_eq_rounds _ _
    (by rw [schedule_lt _ _ (by decide), e0]) (by rw [schedule_lt _ _ (by decide), e1])
    (by rw [schedule_lt _ _ (by decide), e2]) (by rw [schedule_lt _ _ (by decide), e3])
    (by rw [schedule_lt _ _ (by decide), e4]) (by rw [schedule_lt _ _ (by decide), e5])
    (by rw [schedule_lt _ _ (by decide), e6]) (by rw [schedule_lt _ _ (by decide), e7])
    (by rw [schedule_lt _ _ (by decide), e8]) (by rw [schedule_lt _ _ (by decide), e9])
    (by rw [schedule_lt _ _ (by decide), e10]) (by rw [schedule_lt _ _ (by decide), e11])
    (by rw [schedule_lt _ _ (by decide), e12]) (by rw [schedule_lt _ _ (by decide), e13])
    (by rw [schedule_lt _ _ (by decide), e14]) (by rw [schedule_lt _ _ (by decide), e15])
    (schedule_rec _)

/-- The routine `TransformD64` computes the reference hash of the reference hash of its
64-byte input. -/
theorem TransformD64_eq_hash_hash (inp : List Nat) (h : inp.length = 64) :
    sha256.TransformD64 inp = hash (hash inp) := by
  have hh : hash inp = stateBytes (sha256.TransformD64_2 (sha256.TransformD64_1 inp)) := by
    rw [hash_64 inp h, TransformD64_2_eq_compress, TransformD64_1_eq_compress]
  rw [hh, hash_32 _ (stateBytes_length _)]
  exact TransformD64_3_eq_compress _

theorem hash_length (m : List Nat) : (hash m).length = 32 := by
  rw [hash_eq_stateBytes, stateBytes_length]

end SHA256Spec

/-! ## Claims on the cost and the frame of `secp256k1_ecmult`, on `secp256k1_ge_add`, on
`Finalize`, on the seed and on the boolean functions -/

/-- C31: the loop of `secp256k1_ecmult` ends for every scalar (below `2^256`), and for
`k > 0` of bit length `L` (`2^(L-1) ≤ k < 2^L`, `L ≤ 256`) it runs exactly `L` iterations:
after `L - 1` iterations the scalar is not yet zero, after `L` it is and no further
iteration is made; `secp256k1_ge_dbl` is called exactly `L` times and `secp256k1_ge_add`
exactly `popcount(k) - 1` times, the first set bit being a plain copy (`first` is
cleared). -/
theorem secp256k1_ecmult_cost (F : secp256k1_params) (r a : secp256k1_ge) (k L : Nat)
    (hk : 0 < k) (hlo : 2 ^ (L - 1) ≤ k) (hhi : k < 2 ^ L) (hL : L ≤ 256) :
    (∀ r0 a0 k0, k0 < 2 ^ 256 → (secp256k1_ecmult_run F r0 a0 k0).cond = 0) ∧
      (secp256k1_ecmult_loop F (L - 1) ⟨r, a, k, true, []⟩).cond ≠ 0 ∧
      (secp256k1_ecmult_loop F L ⟨r, a, k, true, []⟩).cond = 0 ∧
      secp256k1_ecmult_run F r a k = secp256k1_ecmult_loop F L ⟨r, a, k, true, []⟩ ∧
      (secp256k1_ecmult_run F r a k).calls.countP ecmult_call.is_dbl = L ∧
      (secp256k1_ecmult_run F r a k).calls.countP ecmult_call.is_add = popcount k - 1 ∧
      (secp256k1_ecmult_run F r a k).first = false := by
  have hkne : k ≠ 0 := by omega
  obtain ⟨e1, e2, e3, e4, e5⟩ := secp256k1_ecmult_loop_count F L ⟨r, a, k, true, []⟩ (256 - L)
    hhi (fun _ => hlo)
  have hrun : secp256k1_ecmult_run F r a k = secp256k1_ecmult_loop F L ⟨r, a, k, true, []⟩ := by
    unfold secp256k1_ecmult_run
    rw [← e1, show L + (256 - L) = 256 by omega]
  have hpop : popcountAux L k = popcount k := by
    unfold popcount
    rw [← popcountAux_extra L (256 - L) k hhi, show L + (256 - L) = 256 by omega]
  refine ⟨fun r0 a0 k0 h0 => ?_, ?_, e2, hrun, ?_, ?_, ?_⟩
  · unfold secp256k1_ecmult_run
    rw [secp256k1_ecmult_loop_cond]
    exact Nat.div_eq_of_lt h0
  · rw [secp256k1_ecmult_loop_cond]
    have hpos : 0 < 2 ^ (L - 1) := Nat.pow_pos (by norm_num)
    exact Nat.pos_iff_ne_zero.mp (Nat.div_pos hlo hpos)
  · rw [hrun, e3]
    simp
  · rw [hrun]
    simp only [true_and, ne_eq, hkne, not_false_eq_true, ↓reduceIte, List.countP_nil,
      Nat.zero_add, hpop] at e4
    omega
  · rw [hrun, e5]
    simp [hkne]

theorem secp256k1_ecmult_cost_witness :
    (0 < 11 ∧ 2 ^ (4 - 1) ≤ 11 ∧ 11 < 2 ^ 4 ∧ 4 ≤ 256) ∧
      (secp256k1_ecmult_loop curve13 (4 - 1) ⟨⟨0, 0⟩, ⟨7, 5⟩, 11, true, []⟩).cond ≠ 0 ∧
      (secp256k1_ecmult_loop curve13 4 ⟨⟨0, 0⟩, ⟨7, 5⟩, 11, true, []⟩).cond = 0 ∧
      (secp256k1_ecmult_run curve13 ⟨0, 0⟩ ⟨7, 5⟩ 11).calls.countP ecmult_call.is_dbl = 4 ∧
      (secp256k1_ecmult_run curve13 ⟨0, 0⟩ ⟨7, 5⟩ 11).calls.countP ecmult_call.is_add =
        popcount 11 - 1 ∧
      popcount 11 = 3 :=
  ⟨by decide,
    (secp256k1_ecmult_cost curve13 ⟨0, 0⟩ ⟨7, 5⟩ 11 4 (by decide) (by decide) (by decide)
      (by decide)).2.1,
    (secp256k1_ecmult_cost curve13 ⟨0, 0⟩ ⟨7, 5⟩ 11 4 (by decide) (by decide) (by decide)
      (by decide)).2.2.1,
    (secp256k1_ecmult_cost curve13 ⟨0, 0⟩ ⟨7, 5⟩ 11 4 (by decide) (by decide) (by decide)
      (by decide)).2.2.2.2.1,
    (secp256k1_ecmult_cost curve13 ⟨0, 0⟩ ⟨7, 5⟩ 11 4 (by decide) (by decide) (by decide)
      (by decide)).2.2.2.2.2.1, by decide!⟩

/-- C32: over a prime field, for all points `a`, `b` with `a.x ≠ b.x (mod p)`,
`secp256k1_ge_add(a, b)` and `secp256k1_ge_add(b, a)` give the same point; so the order
`add(G, r)` of the search loop and the test and the order `add(r, base)` inside
`secp256k1_ecmult` agree. -/
theorem secp256k1_ge_add_comm (F : secp256k1_params) (hp : Nat.Prime F.p)
    (a b : secp256k1_ge) (hx : a.x % F.p ≠ b.x % F.p) :
    secp256k1_ge_add F a b = secp256k1_ge_add F b a :=
  secp256k1_ge_add_comm_of_x_ne F hp a b hx

theorem secp256k1_ge_add_comm_witness :
    Nat.Prime curve13.p ∧ (7 : Nat) % curve13.p ≠ 11 % curve13.p ∧
      secp256k1_ge_add curve13 ⟨7, 5⟩ ⟨11, 8⟩ = secp256k1_ge_add curve13 ⟨11, 8⟩ ⟨7, 5⟩ :=
  ⟨curve13_prime, by decide,
    secp256k1_ge_add_comm curve13 curve13_prime ⟨7, 5⟩ ⟨11, 8⟩ (by decide)⟩

/-- C33: for every point `a`, `secp256k1_ge_add(r, a, a)` returns
`r = (-2 * a.x mod p, -a.y mod p)`, whatever value `secp256k1_fe_inv` returns for 0; and
for the generator `G` and every such value, `secp256k1_ge_add(G, G)` differs from
`secp256k1_ge_dbl(G)` and is not on the curve. -/
theorem secp256k1_ge_add_self (F : secp256k1_params) (hp : 0 < F.p) (a : secp256k1_ge) :
    secp256k1_ge_add F a a = ⟨(F.p - 2 * a.x % F.p) % F.p, (F.p - a.y % F.p) % F.p⟩ ∧
      ∀ inv0 : Nat,
        secp256k1_ge_add ⟨secp256k1.p, secp256k1.n, inv0⟩ secp256k1_G secp256k1_G ≠
            secp256k1_ge_dbl ⟨secp256k1.p, secp256k1.n, inv0⟩ secp256k1_G ∧
          ¬ secp256k1_on_curve ⟨secp256k1.p, secp256k1.n, inv0⟩
            (secp256k1_ge_add ⟨secp256k1.p, secp256k1.n, inv0⟩ secp256k1_G secp256k1_G) := by
  refine ⟨secp256k1_ge_add_self_eq F hp a, fun inv0 => ?_⟩
  have hpos : 0 < secp256k1.p := by decide
  have h2y : secp256k1_G.y * 2 % secp256k1.p % secp256k1.p ≠ 0 := by decide
  rw [secp256k1_ge_add_self_eq ⟨secp256k1.p, secp256k1.n, inv0⟩ hpos secp256k1_G,
    secp256k1_ge_dbl_inv0 secp256k1.p secp256k1.n inv0 0 secp256k1_G h2y]
  dsimp only
  constructor
  · decide!
  · show ¬ secp256k1_on_curve secp256k1 _
    decide!

theorem secp256k1_ge_add_self_witness :
    0 < secp256k1.p ∧
      secp256k1_ge_add secp256k1 secp256k1_G secp256k1_G =
        ⟨(secp256k1.p - 2 * secp256k1_G.x % secp256k1.p) % secp256k1.p,
         (secp256k1.p - secp256k1_G.y % secp256k1.p) % secp256k1.p⟩ :=
  ⟨by decide, (secp256k1_ge_add_self secp256k1 (by decide) secp256k1_G).1⟩

/-- C34: `secp256k1_ecmult(r, a, k)` writes the caller's memory only at `r`: the scalars,
among them `k`, and every point other than `r`, among them `a` when it is another object,
are as before the call, and `r` holds the value computed from the previous contents of
`r`, `a` and `k`; when `k = 0`, in a build without `VERIFY`, no `secp256k1_ge_add` or
`secp256k1_ge_dbl` call is made and the memory is exactly as before. -/
theorem secp256k1_ecmult_frame (F : secp256k1_params) (VERIFY : Bool) (m : ecmult_memory)
    (pr pa pk : Nat) :
    secp256k1_ecmult_mem F VERIFY m pr pa pk =
        (secp256k1_ecmult F VERIFY (m.ge pr) (m.ge pa) (m.scalar pk)).map
          (fun r => ⟨fun x => if x = pr then r else m.ge x, m.scalar⟩) ∧
      (∀ m', secp256k1_ecmult_mem F VERIFY m pr pa pk = some m' →
        m'.scalar = m.scalar ∧ (∀ x, x ≠ pr → m'.ge x = m.ge x) ∧
          (pa ≠ pr → m'.ge pa = m.ge pa)) ∧
      (m.scalar pk = 0 →
        secp256k1_ecmult_mem F false m pr pa pk = some m ∧
          (secp256k1_ecmult_run F (m.ge pr) (m.ge pa) (m.scalar pk)).calls = []) := by
  have heq := secp256k1_ecmult_mem_eq F VERIFY m pr pa pk
  refine ⟨heq, fun m' hm' => ?_, fun hk => ?_⟩
  · rw [heq] at hm'
    obtain ⟨r, -, rfl⟩ := Option.map_eq_some'.mp hm'
    exact ⟨rfl, fun x hx => if_neg hx, fun h => if_neg h⟩
  · have h0 : secp256k1_ecmult F false (m.ge pr) (m.ge pa) 0 = some (m.ge pr) := by
      simp [secp256k1_ecmult, secp256k1_ecmult_run_zero]
    rw [secp256k1_ecmult_mem_eq, hk, h0, Option.map_some', secp256k1_ecmult_run_zero]
    refine ⟨?_, rfl⟩
    congr 1
    cases m with
    | mk ge scalar =>
      simp only [ecmult_memory.mk.injEq, and_true]
      funext x
      split_ifs with h
      · rw [h]
      · rfl

/-- C35: for a fresh `SHA256` (resp. `RIPEMD160`) object after `Write(m)` with `|m| = b`
(below `2^63`) and `Finalize`, the byte counter is `64 * ceil((b + 9) / 64)`, a positive
multiple of 64, and the digest is the encoding of the state words the object holds; the
object is therefore not a fresh one, and for the empty messages `m` and `m2` the state
words differ from the initial constants and a further `Write(m2)` and `Finalize` yields
a digest different from the hash of `m2`. -/
theorem Finalize_does_not_reset (m : List Nat) (hm : m.length < 2 ^ 63) :
    ((SHA256.init.Write m).Finalize.1.bytes = 64 * ((m.length + 9 + 63) / 64) ∧
        0 < (SHA256.init.Write m).Finalize.1.bytes ∧
        (SHA256.init.Write m).Finalize.1 ≠ SHA256.init ∧
        (SHA256.init.Write m).Finalize.2 =
          WriteBE32 (SHA256.init.Write m).Finalize.1.s.s0 ++
          WriteBE32 (SHA256.init.Write m).Finalize.1.s.s1 ++
          WriteBE32 (SHA256.init.Write m).Finalize.1.s.s2 ++
          WriteBE32 (SHA256.init.Write m).Finalize.1.s.s3 ++
          WriteBE32 (SHA256.init.Write m).Finalize.1.s.s4 ++
          WriteBE32 (SHA256.init.Write m).Finalize.1.s.s5 ++
          WriteBE32 (SHA256.init.Write m).Finalize.1.s.s6 ++
          WriteBE32 (SHA256.init.Write m).Finalize.1.s.s7) ∧
      ((RIPEMD160.init.Write m).Finalize.1.bytes = 64 * ((m.length + 9 + 63) / 64) ∧
        0 < (RIPEMD160.init.Write m).Finalize.1.bytes ∧
        (RIPEMD160.init.Write m).Finalize.1 ≠ RIPEMD160.init ∧
        (RIPEMD160.init.Write m).Finalize.2 =
          WriteLE32 (RIPEMD160.init.Write m).Finalize.1.s.s0 ++
          WriteLE32 (RIPEMD160.init.Write m).Finalize.1.s.s1 ++
          WriteLE32 (RIPEMD160.init.Write m).Finalize.1.s.s2 ++
          WriteLE32 (RIPEMD160.init.Write m).Finalize.1.s.s3 ++
          WriteLE32 (RIPEMD160.init.Write m).Finalize.1.s.s4) ∧
      ((SHA256.init.Write []).Finalize.1.s ≠ sha256.Initialize ∧
        ((SHA256.init.Write []).Finalize.1.Write []).Finalize.2 ≠
          (SHA256.init.Write []).Finalize.2) ∧
      ((RIPEMD160.init.Write []).Finalize.1.s ≠ ripemd160.Initialize ∧
        ((RIPEMD160.init.Write []).Finalize.1.Write []).Finalize.2 ≠
          (RIPEMD160.init.Write []).Finalize.2) := by
  have hs := SHA256_Finalize_bytes m hm
  have hr := RIPEMD160_Finalize_bytes m hm
  have hpos : 0 < 64 * ((m.length + 9 + 63) / 64) := by omega
  refine ⟨⟨hs, by rw [hs]; exact hpos, ?_, ?_⟩, ⟨hr, by rw [hr]; exact hpos, ?_, ?_⟩,
    by decide!, by decide!⟩
  · intro h
    have hb := congrArg SHA256.bytes h
    rw [hs] at hb
    have h0 : SHA256.init.bytes = 0 := rfl
    omega
  · simp only [SHA256.Finalize]
  · intro h
    have hb := congrArg RIPEMD160.bytes h
    rw [hr] at hb
    have h0 : RIPEMD160.init.bytes = 0 := rfl
    omega
  · simp only [RIPEMD160.Finalize]

theorem Finalize_does_not_reset_witness :
    [0x61, 0x62, 0x63].length < 2 ^ 63 ∧
      (SHA256.init.Write [0x61, 0x62, 0x63]).Finalize.1.bytes =
        64 * (([0x61, 0x62, 0x63].length + 9 + 63) / 64) ∧
      (RIPEMD160.init.Write [0x61, 0x62, 0x63]).Finalize.1.bytes =
        64 * (([0x61, 0x62, 0x63].length + 9 + 63) / 64) :=
  ⟨by decide, (Finalize_does_not_reset [0x61, 0x62, 0x63] (by decide)).1.1,
    (Finalize_does_not_reset [0x61, 0x62, 0x63] (by decide)).2.1.1⟩

/-- C36: for every value `s` drawn from the clock-seeded generator, the seed of the byte
generator is `v * v` with `v = (s >> 8) & 0xFFFF`, which is below `2^32` (the product does
not overflow); so the seed takes at most 65536 values and, whatever deterministic byte
generator is seeded with it, at most 65536 start scalars can be produced. -/
theorem start_task_seed_range (F : secp256k1_params) (generator : Nat → List Nat) (s : Nat) :
    start_task_seed s = ((s >>> 8) &&& 0xFFFF) * ((s >>> 8) &&& 0xFFFF) ∧
      ((s >>> 8) &&& 0xFFFF) * ((s >>> 8) &&& 0xFFFF) < 2 ^ 32 ∧
      (Finset.image start_task_seed (Finset.range (2 ^ 32))).card ≤ 65536 ∧
      (Finset.image (start_task_scalar F generator) (Finset.range (2 ^ 32))).card ≤ 65536 := by
  have hv : (s >>> 8) &&& 0xFFFF = s / 256 % 65536 := by
    rw [show (0xFFFF : Nat) = 2 ^ 16 - 1 from rfl, Nat.and_pow_two_sub_one_eq_mod,
      Nat.shiftRight_eq_div_pow]
  have h1 : s / 256 % 65536 ≤ 65535 := by omega
  refine ⟨by rw [hv, start_task_seed_eq], ?_, ?_, ?_⟩
  · rw [hv]
    calc s / 256 % 65536 * (s / 256 % 65536) ≤ 65535 * 65535 := Nat.mul_le_mul h1 h1
      _ < 2 ^ 32 := by norm_num
  · calc (Finset.image start_task_seed (Finset.range (2 ^ 32))).card
        ≤ (Finset.image (fun v => v * v) (Finset.range 65536)).card :=
          Finset.card_le_card start_task_seed_image
      _ ≤ (Finset.range 65536).card := Finset.card_image_le
      _ = 65536 := Finset.card_range 65536
  · have himg : Finset.image (start_task_scalar F generator) (Finset.range (2 ^ 32)) ⊆
        Finset.image (fun v => secp256k1_scalar_set_b32 F (generator (v * v)))
          (Finset.range 65536) := by
      intro t ht
      obtain ⟨s', -, rfl⟩ := Finset.mem_image.mp ht
      refine Finset.mem_image.mpr ⟨s' / 256 % 65536,
        Finset.mem_range.mpr (Nat.mod_lt _ (by norm_num)), ?_⟩
      show _ = secp256k1_scalar_set_b32 F (generator (start_task_seed s'))
      rw [start_task_seed_eq]
    calc (Finset.image (start_task_scalar F generator) (Finset.range (2 ^ 32))).card
        ≤ (Finset.image (fun v => secp256k1_scalar_set_b32 F (generator (v * v)))
            (Finset.range 65536)).card := Finset.card_le_card himg
      _ ≤ (Finset.range 65536).card := Finset.card_image_le
      _ = 65536 := Finset.card_range 65536

/-- C38: on all 32-bit words `x`, `z` and every `y`,
`sha256::Ch(x, y, z) = z ^ (x & (y ^ z))` equals the textbook `(x & y) ^ (~x & z)` and
`sha256::Maj(x, y, z) = (x & y) | (z & (x | y))` equals the textbook
`(x & y) ^ (x & z) ^ (y & z)`. -/
theorem sha256_Ch_Maj_textbook (x y z : Nat) (hx : x < 2 ^ 32) (hz : z < 2 ^ 32) :
    (sha256.Ch x y z = z ^^^ (x &&& (y ^^^ z)) ∧
        sha256.Ch x y z = SHA256Spec.ChText x y z) ∧
      (sha256.Maj x y z = (x &&& y) ||| (z &&& (x ||| y)) ∧
        sha256.Maj x y z = SHA256Spec.MajText x y z) :=
  ⟨⟨rfl, Ch_eq_ChText x y z hx hz⟩, ⟨rfl, Maj_eq_MajText x y z⟩⟩

theorem sha256_Ch_Maj_textbook_witness :
    (0x510e527f < 2 ^ 32 ∧ 0x1f83d9ab < 2 ^ 32) ∧
      sha256.Ch 0x510e527f 0x9b05688c 0x1f83d9ab =
        SHA256Spec.ChText 0x510e527f 0x9b05688c 0x1f83d9ab ∧
      sha256.Maj 0x510e527f 0x9b05688c 0x1f83d9ab =
        SHA256Spec.MajText 0x510e527f 0x9b05688c 0x1f83d9ab :=
  ⟨by decide,
    (sha256_Ch_Maj_textbook 0x510e527f 0x9b05688c 0x1f83d9ab (by decide) (by decide)).1.2,
    (sha256_Ch_Maj_textbook 0x510e527f 0x9b05688c 0x1f83d9ab (by decide) (by decide)).2.2⟩

/-- C37: for every 64-byte input `in`, `TransformD64(out, in)` writes the 32 bytes that a
fresh `SHA256` object produces for the digest a fresh `SHA256` object produces for `in`,
that is `SHA256(SHA256(in))`; its second transform is the compression of the padding block
of a 64-byte message, and its third transform is the compression, from the initial state,
of the first digest followed by the padding of a 32-byte message. -/
theorem TransformD64_double_sha256 (inp : List Nat) (h : inp.length = 64) :
    sha256.TransformD64 inp =
        (SHA256.init.Write (SHA256.init.Write inp).Finalize.2).Finalize.2 ∧
      sha256.TransformD64 inp = SHA256Spec.hash (SHA256Spec.hash inp) ∧
      (sha256.TransformD64 inp).length = 32 ∧
      (∀ t : sha256.State,
        sha256.TransformD64_2 t = SHA256Spec.compress t SHA256Spec.padBlock64) ∧
      (∀ t : sha256.State,
        sha256.TransformD64_3 (sha256.TransformD64_2 t) =
          SHA256Spec.stateBytes (SHA256Spec.compress sha256.Initialize
            (SHA256Spec.stateBytes (sha256.TransformD64_2 t) ++ SHA256Spec.padBlock32))) := by
  have hd := SHA256Spec.TransformD64_eq_hash_hash inp h
  have hl : (SHA256Spec.hash inp).length = 32 := SHA256Spec.hash_length inp
  refine ⟨?_, hd, ?_, SHA256Spec.TransformD64_2_eq_compress, SHA256Spec.TransformD64_3_eq_compress⟩
  · rw [SHA256.Finalize_init_sha256 inp (by rw [h]; decide),
      SHA256.Finalize_init_sha256 _ (by rw [hl]; decide)]
    exact hd
  · rw [hd, SHA256Spec.hash_length]

theorem TransformD64_double_sha256_witness :
    (List.range 64).length = 64 ∧
      sha256.TransformD64 (List.range 64) =
        (SHA256.init.Write (SHA256.init.Write (List.range 64)).Finalize.2).Finalize.2 ∧
      sha256.TransformD64 (List.range 64) =
        [0x01, 0xc9, 0xf4, 0x64, 0x78, 0x0a, 0x1b, 0x6a,
         0xf4, 0xeb, 0x40, 0x0f, 0xe2, 0xf2, 0x89, 0x6c,
         0xfb, 0x21, 0x69, 0xf5, 0xa6, 0x57, 0x01, 0x43,
         0x9e, 0x4c, 0x2c, 0x4e, 0x21, 0x39, 0x03, 0xef] :=
  ⟨by decide, (TransformD64_double_sha256 (List.range 64) (by decide)).1, by decide!⟩
